import Mathlib

/-!
# OpenAstroTracker calibration menu (`c76_menuCAL.hpp`)

A shallow embedding of the calibration state machine of the LCD menu:
`gotoNextMenu`, `checkProgressiveUpDown`, `gotoNextHighlightState` and
`processCalibrationKeys`, followed by theorems about them.

Conventions of the embedding
* The file-level globals of `c76_menuCAL.hpp` are the fields of `Globals`; a
  `Run` pairs them with the log of effects performed so far, and every
  function of the source is a function on runs.
* Every call into a collaborator (`mount`, `lcdMenu`, `Gyro`) that has an
  effect is recorded, in program order, as a `Cmd` in the log; every value
  read from a collaborator or from the buttons during one tick is a field of
  `Env`.  In particular `lcdButtons.currentState()` gives the same reading
  each time it is called within one tick.
* The preprocessor switches `AZIMUTH_ALTITUDE_MOTORS`, `GYRO_LEVEL` and
  `NORTHERN_HEMISPHERE` are the boolean fields of `Config`; code inside
  `#if X == 1` is guarded by the corresponding field.
* `byte` variables are natural numbers, reduced modulo 256 when an `int`
  expression is stored into them.  `int` variables are integers; the
  accumulator of `checkProgressiveUpDown`, the one `int` that is stepped
  without a bound, wraps around from `INT_MAX` to `INT_MIN` and back
  (`wrapInt`, 32-bit two's complement).
  `float` variables and expressions are rationals, with `0.94` and `0.96`
  read as `94/100` and `96/100`; storing a rational into an `int` truncates
  toward zero.
* `adjustWrap` and `clamp` are declared in another file of the sketch and are
  modelled from the specification; the constants `EAST`, `WEST` and
  `TRACKING` are parameters.
-/

namespace OpenAstroTracker

/-! ## Buttons, configuration, environment -/

/-- Button codes returned by `lcdButtons.currentState()` and
`lcdButtons.keyChanged(&key)`. -/
inductive Key where
  | btnNONE
  | btnUP
  | btnDOWN
  | btnLEFT
  | btnRIGHT
  | btnSELECT
  deriving DecidableEq, Repr

/-- Axis identifiers passed to the mount (`RA_STEPS`, `DEC_STEPS`,
`AZIMUTH_STEPS`, `ALTITUDE_STEPS`). -/
inductive Axis where
  | RA_STEPS
  | DEC_STEPS
  | AZIMUTH_STEPS
  | ALTITUDE_STEPS
  deriving DecidableEq, Repr

/-- Compile-time configuration: the preprocessor switches of
`Configuration_adv.hpp` that this file tests, and the direction constants
`EAST`, `WEST`, `TRACKING`, which are defined outside this file and are taken
as parameters. -/
structure Config where
  AZIMUTH_ALTITUDE_MOTORS : Bool
  GYRO_LEVEL : Bool
  NORTHERN_HEMISPHERE : Bool
  EAST : Int
  WEST : Int
  TRACKING : Int

/-- Everything one tick reads from the outside: the button reading, the
pending key edge (`none` when `keyChanged` returns false), the mount status
and stored values, the gyro angles and the Polaris right ascension globals. -/
structure Env where
  currentState : Key
  keyChanged : Option Key
  isSlewingRAorDEC : Bool
  isRunningALT : Bool
  getStepsPerDegreeRA : Int
  getStepsPerDegreeDEC : Int
  getBacklashCorrection : Int
  getSpeedCalibration : ℚ
  getPitchCalibrationAngle : ℚ
  getRollCalibrationAngle : ℚ
  currentRAHours : Int
  currentRAMinutes : Int
  currentRASeconds : Int
  rollAngle : ℚ
  pitchAngle : ℚ
  PolarisRAHour : Nat
  PolarisRAMinute : Nat
  PolarisRASecond : Nat

/-- Effects on the collaborators, in the order the code performs them. -/
inductive Cmd where
  | enableAzAltMotors
  | disableAzAltMotors
  | gyroStartup
  | gyroShutdown
  | setNextActive
  | updateDisplay
  | setCursor (col row : Nat)
  | printMenu (text : String)
  | delay (ms : Int)
  | setSpeedCalibration (val : ℚ) (saveToStorage : Bool)
  | setStepsPerDegree (which : Axis) (steps : Int)
  | setBacklashCorrection (steps : Int)
  | setRollCalibrationAngle (angle : ℚ)
  | setPitchCalibrationAngle (angle : ℚ)
  | moveBy (which : Axis) (arcMinutes : ℚ)
  | setSpeed (which : Axis) (speed : Int)
  | stopSlewing (direction : Int)
  | startSlewing (direction : Int)
  | runDriftAlignmentPhase (direction : Int) (durationSecs : Int)
  | setTargetRA (h m s : Nat)
  | setTargetDEC (d m s : Int)
  | startSlewingToTarget
  | setTargetToHome
  | syncPosition (raHour raMinute raSecond decDegree decMinute decSecond : Int)
  deriving DecidableEq

/-! ## State constants (lines 13-79) -/

def HIGHLIGHT_FIRST : Nat := 1
def HIGHLIGHT_POLAR : Nat := 1
def HIGHLIGHT_SPEED : Nat := 2
def HIGHLIGHT_DRIFT : Nat := 3
def HIGHLIGHT_RA_STEPS : Nat := 4
def HIGHLIGHT_DEC_STEPS : Nat := 5
def HIGHLIGHT_BACKLASH_STEPS : Nat := 6

/-- Defined (as 7) only when `AZIMUTH_ALTITUDE_MOTORS == 1`; every use is
guarded by that switch. -/
def HIGHLIGHT_AZIMUTH_ADJUSTMENT : Nat := 7

/-- Defined (as 8) only when `AZIMUTH_ALTITUDE_MOTORS == 1`; every use is
guarded by that switch. -/
def HIGHLIGHT_ALTITUDE_ADJUSTMENT : Nat := 8

/-- Value 9 with the azimuth/altitude motors, 7 without; defined only when
`GYRO_LEVEL == 1`, and every use is guarded by that switch. -/
def HIGHLIGHT_ROLL_LEVEL (cfg : Config) : Nat :=
  if cfg.AZIMUTH_ALTITUDE_MOTORS then 9 else 7

/-- Value 10 with the azimuth/altitude motors, 8 without; defined only when
`GYRO_LEVEL == 1`, and every use is guarded by that switch. -/
def HIGHLIGHT_PITCH_LEVEL (cfg : Config) : Nat :=
  if cfg.AZIMUTH_ALTITUDE_MOTORS then 10 else 8

def HIGHLIGHT_LAST (cfg : Config) : Nat :=
  if cfg.AZIMUTH_ALTITUDE_MOTORS then
    (if cfg.GYRO_LEVEL then 10 else 8)
  else
    (if cfg.GYRO_LEVEL then 8 else 6)

def POLAR_CALIBRATION_WAIT_CENTER_POLARIS : Nat := 11
def POLAR_CALIBRATION_WAIT_HOME : Nat := 12
def SPEED_CALIBRATION : Nat := 14
def DRIFT_CALIBRATION_WAIT : Nat := 15
def DRIFT_CALIBRATION_RUNNING : Nat := 16
def RA_STEP_CALIBRATION : Nat := 17
def DEC_STEP_CALIBRATION : Nat := 18
def BACKLASH_CALIBRATION : Nat := 19
def AZIMUTH_ADJUSTMENT : Nat := 20
def ALTITUDE_ADJUSTMENT : Nat := 21
def ROLL_OFFSET_CALIBRATION : Nat := 22
def PITCH_OFFSET_CALIBRATION : Nat := 23

/-! ## Globals (lines 81-112) -/

/-- The global variables the calibration menu reads and writes.
`RAStepsPerDegree`, `DECStepsPerDegree` and `azAltMotorsStarted` are declared
in other files of the sketch. -/
structure Globals where
  calState : Nat
  SpeedCalibration : ℚ
  calDelay : Int
  driftSubIndex : Nat
  driftDuration : Nat
  BacklashSteps : Int
  AzimuthMinutes : Int
  AltitudeMinutes : Int
  PitchCalibrationAngle : ℚ
  RollCalibrationAngle : ℚ
  gyroStarted : Bool
  azAltMotorsStarted : Bool
  RAStepsPerDegree : Int
  DECStepsPerDegree : Int

/-- The globals as initialised at program start (lines 82-107); the three
variables declared elsewhere are parameters. -/
def initialGlobals (raSteps decSteps : Int) (motorsStarted : Bool) : Globals where
  calState := HIGHLIGHT_FIRST
  SpeedCalibration := 0
  calDelay := 150
  driftSubIndex := 1
  driftDuration := 0
  BacklashSteps := 0
  AzimuthMinutes := 0
  AltitudeMinutes := 0
  PitchCalibrationAngle := 0
  RollCalibrationAngle := 0
  gyroStarted := false
  azAltMotorsStarted := motorsStarted
  RAStepsPerDegree := raSteps
  DECStepsPerDegree := decSteps

/-- Globals together with the log of effects performed so far. -/
structure Run where
  g : Globals
  log : List Cmd

/-- Perform one effect: append it to the log. -/
def emit (c : Cmd) (r : Run) : Run :=
  { r with log := r.log ++ [c] }

/-! ### Assignments to the globals -/

/-- Assignment `calState = v`. -/
def setCalState (v : Nat) (r : Run) : Run :=
  { r with g := { r.g with calState := v } }

/-- Assignment `SpeedCalibration = v`. -/
def setSpeedCalibration (v : ℚ) (r : Run) : Run :=
  { r with g := { r.g with SpeedCalibration := v } }

/-- Assignment `calDelay = v`. -/
def setCalDelay (v : Int) (r : Run) : Run :=
  { r with g := { r.g with calDelay := v } }

/-- Assignment `driftSubIndex = v`. -/
def setDriftSubIndex (v : Nat) (r : Run) : Run :=
  { r with g := { r.g with driftSubIndex := v } }

/-- Assignment `driftDuration = v`. -/
def setDriftDuration (v : Nat) (r : Run) : Run :=
  { r with g := { r.g with driftDuration := v } }

/-- Assignment `BacklashSteps = v`. -/
def setBacklashSteps (v : Int) (r : Run) : Run :=
  { r with g := { r.g with BacklashSteps := v } }

/-- Assignment `AzimuthMinutes = v`. -/
def setAzimuthMinutes (v : Int) (r : Run) : Run :=
  { r with g := { r.g with AzimuthMinutes := v } }

/-- Assignment `AltitudeMinutes = v`. -/
def setAltitudeMinutes (v : Int) (r : Run) : Run :=
  { r with g := { r.g with AltitudeMinutes := v } }

/-- Assignment `PitchCalibrationAngle = v`. -/
def setPitchCalibrationAngle (v : ℚ) (r : Run) : Run :=
  { r with g := { r.g with PitchCalibrationAngle := v } }

/-- Assignment `RollCalibrationAngle = v`. -/
def setRollCalibrationAngle (v : ℚ) (r : Run) : Run :=
  { r with g := { r.g with RollCalibrationAngle := v } }

/-- Assignment `gyroStarted = v`. -/
def setGyroStarted (v : Bool) (r : Run) : Run :=
  { r with g := { r.g with gyroStarted := v } }

/-- Assignment `azAltMotorsStarted = v`. -/
def setAzAltMotorsStarted (v : Bool) (r : Run) : Run :=
  { r with g := { r.g with azAltMotorsStarted := v } }

/-- Assignment `RAStepsPerDegree = v`. -/
def setRAStepsPerDegree (v : Int) (r : Run) : Run :=
  { r with g := { r.g with RAStepsPerDegree := v } }

/-- Assignment `DECStepsPerDegree = v`. -/
def setDECStepsPerDegree (v : Int) (r : Run) : Run :=
  { r with g := { r.g with DECStepsPerDegree := v } }

/-! ## Helpers that live outside this file -/

/-- An `int` expression stored into a `byte` variable. -/
def toByte (i : Int) : Nat := (i % 256).toNat

/-- A `float` expression stored into an `int` variable: truncation toward
zero. -/
def truncToInt (q : ℚ) : Int := if 0 ≤ q then ⌊q⌋ else ⌈q⌉

/-- Width in bits of the type `int`: 32 on the ESP8266 and ESP32 boards of
`Configuration_adv.hpp` (lines 202-215). -/
def INT_BITS : Nat := 32

/-- Largest value of the type `int`. -/
def INT_MAX : Int := 2 ^ (INT_BITS - 1) - 1

/-- Smallest value of the type `int`. -/
def INT_MIN : Int := -(2 ^ (INT_BITS - 1))

/-- The result of `int` arithmetic stored into an `int` variable: the value
is reduced modulo `2 ^ INT_BITS` into the range from `INT_MIN` to `INT_MAX`,
so that `INT_MAX + 1` is stored as `INT_MIN` and `INT_MIN - 1` as
`INT_MAX`. -/
def wrapInt (i : Int) : Int := (i - INT_MIN) % 2 ^ INT_BITS + INT_MIN

/-- Modelled from the spec: `adjustWrap(current, adjustBy, minVal, maxVal)` is
declared outside the given sources; it moves `current` by `adjustBy` with
wrap-around on the closed range `[minVal, maxVal]` (past the last value comes
the first, before the first comes the last). -/
def adjustWrap (current adjustBy minVal maxVal : Int) : Int :=
  let c := current + adjustBy
  if c > maxVal then c - (maxVal + 1 - minVal)
  else if c < minVal then c + (maxVal + 1 - minVal)
  else c

/-- Modelled from the spec: `clamp(current, minVal, maxVal)` is declared
outside the given sources; it limits `current` to the closed range
`[minVal, maxVal]`. -/
def clamp (current minVal maxVal : Int) : Int :=
  if current < minVal then minVal
  else if current > maxVal then maxVal
  else current

/-! ## `gotoNextMenu` (lines 117-130) -/

def gotoNextMenu (cfg : Config) (r : Run) : Run :=
  let r := emit .setNextActive r
  let r :=
    if cfg.AZIMUTH_ALTITUDE_MOTORS then
      let r := emit .disableAzAltMotors r
      setAzAltMotorsStarted false r
    else r
  let r :=
    if cfg.GYRO_LEVEL then
      let r := emit .gyroShutdown r
      setGyroStarted false r
    else r
  r

/-! ## `checkProgressiveUpDown` (lines 132-156) -/

/-- The function `checkProgressiveUpDown(int *val)`: `val` is the value behind
the pointer on entry, `button` the reading of `lcdButtons.currentState()`.
Returns the return value, the value behind the pointer on exit, and the run
with `calDelay` updated and the delay logged.  The sum `*val + 1` and the
difference `*val - 1` are stored back into the `int` behind the pointer
(`wrapInt`). -/
def checkProgressiveUpDown (button : Key) (val : Int) (r : Run) : Bool × Int × Run :=
  if button = .btnUP then
    let val := wrapInt (val + 1)
    let r := emit (.delay r.g.calDelay) r
    let r := setCalDelay (truncToInt (max (25 : ℚ) (94 / 100 * (r.g.calDelay : ℚ)))) r
    (false, val, r)
  else if button = .btnDOWN then
    let val := wrapInt (val - 1)
    let r := emit (.delay r.g.calDelay) r
    let r := setCalDelay (truncToInt (max (25 : ℚ) (94 / 100 * (r.g.calDelay : ℚ)))) r
    (false, val, r)
  else
    let r := setCalDelay 150 r
    (true, val, r)

/-! ## `gotoNextHighlightState` (lines 161-196) -/

def gotoNextHighlightState (cfg : Config) (env : Env) (dir : Int) (r : Run) : Run :=
  let r := setCalState (toByte (adjustWrap r.g.calState dir HIGHLIGHT_FIRST (HIGHLIGHT_LAST cfg))) r
  if r.g.calState = HIGHLIGHT_RA_STEPS then
    setRAStepsPerDegree env.getStepsPerDegreeRA r
  else if r.g.calState = HIGHLIGHT_DEC_STEPS then
    setDECStepsPerDegree env.getStepsPerDegreeDEC r
  else if r.g.calState = HIGHLIGHT_BACKLASH_STEPS then
    setBacklashSteps env.getBacklashCorrection r
  else if r.g.calState = HIGHLIGHT_SPEED then
    setSpeedCalibration ((env.getSpeedCalibration - 1) * 10000 + 1 / 2) r
  else if cfg.GYRO_LEVEL ∧ r.g.calState = HIGHLIGHT_PITCH_LEVEL cfg then
    setPitchCalibrationAngle env.getPitchCalibrationAngle r
  else if cfg.GYRO_LEVEL ∧ r.g.calState = HIGHLIGHT_ROLL_LEVEL cfg then
    setRollCalibrationAngle env.getRollCalibrationAngle r
  else r

/-! ## `processCalibrationKeys` (lines 198-782) -/

/-- Lines 204-219: the motors and the gyro are started on the first tick. -/
def startHardware (cfg : Config) (r : Run) : Run :=
  let r :=
    if cfg.AZIMUTH_ALTITUDE_MOTORS then
      if !r.g.azAltMotorsStarted then
        let r := emit .enableAzAltMotors r
        setAzAltMotorsStarted true r
      else r
    else r
  let r :=
    if cfg.GYRO_LEVEL then
      if !r.g.gyroStarted then
        let r := emit .gyroStartup r
        setGyroStarted true r
      else r
    else r
  r

/-- Lines 222-252, the `SPEED_CALIBRATION` branch of the state phase; returns
`checkForKeyChange` and the run. -/
def speedCalibrationPhase (currentButtonState : Key) (r : Run) : Bool × Run :=
  if currentButtonState = .btnUP then
    let r :=
      if r.g.SpeedCalibration < 32760 then
        let r := setSpeedCalibration (r.g.SpeedCalibration + 1) r
        emit (.setSpeedCalibration (1 + r.g.SpeedCalibration / 10000) false) r
      else r
    let r := emit (.delay r.g.calDelay) r
    let r := setCalDelay (truncToInt (max (5 : ℚ) (96 / 100 * (r.g.calDelay : ℚ)))) r
    (false, r)
  else if currentButtonState = .btnDOWN then
    let r :=
      if r.g.SpeedCalibration > -32760 then
        let r := setSpeedCalibration (r.g.SpeedCalibration - 1) r
        emit (.setSpeedCalibration (1 + r.g.SpeedCalibration / 10000) false) r
      else r
    let r := emit (.delay r.g.calDelay) r
    let r := setCalDelay (truncToInt (max (5 : ℚ) (96 / 100 * (r.g.calDelay : ℚ)))) r
    (false, r)
  else
    (true, setCalDelay 150 r)

/-- Lines 254-258, the `AZIMUTH_ADJUSTMENT` branch of the state phase. -/
def azimuthAdjustmentPhase (env : Env) (r : Run) : Bool × Run :=
  let p := checkProgressiveUpDown env.currentState r.g.AzimuthMinutes r
  (p.1, setAzimuthMinutes (clamp p.2.1 (-60) 60) p.2.2)

/-- Lines 259-263, the `ALTITUDE_ADJUSTMENT` branch of the state phase. -/
def altitudeAdjustmentPhase (env : Env) (r : Run) : Bool × Run :=
  let p := checkProgressiveUpDown env.currentState r.g.AltitudeMinutes r
  (p.1, setAltitudeMinutes (clamp p.2.1 (-60) 60) p.2.2)

/-- Lines 265-268, the `RA_STEP_CALIBRATION` branch of the state phase. -/
def raStepCalibrationPhase (env : Env) (r : Run) : Bool × Run :=
  let p := checkProgressiveUpDown env.currentState r.g.RAStepsPerDegree r
  (p.1, setRAStepsPerDegree p.2.1 p.2.2)

/-- Lines 269-272, the `DEC_STEP_CALIBRATION` branch of the state phase. -/
def decStepCalibrationPhase (env : Env) (r : Run) : Bool × Run :=
  let p := checkProgressiveUpDown env.currentState r.g.DECStepsPerDegree r
  (p.1, setDECStepsPerDegree p.2.1 p.2.2)

/-- Lines 273-276, the `BACKLASH_CALIBRATION` branch of the state phase. -/
def backlashCalibrationPhase (env : Env) (r : Run) : Bool × Run :=
  let p := checkProgressiveUpDown env.currentState r.g.BacklashSteps r
  (p.1, setBacklashSteps p.2.1 p.2.2)

/-- Lines 287-294, the `POLAR_CALIBRATION_WAIT_HOME` branch of the state
phase. -/
def polarWaitHomePhase (env : Env) (r : Run) : Run :=
  if !env.isSlewingRAorDEC then
    let r := emit .updateDisplay r
    setCalState HIGHLIGHT_POLAR r
  else r

/-- Lines 295-316, the `POLAR_CALIBRATION_WAIT_CENTER_POLARIS` branch of the
state phase. -/
def polarWaitCenterPolarisPhase (cfg : Config) (env : Env) (currentButtonState : Key)
    (r : Run) : Run :=
  if cfg.AZIMUTH_ALTITUDE_MOTORS then
    if currentButtonState = .btnUP then
      if !env.isRunningALT then emit (.setSpeed .ALTITUDE_STEPS 500) r else r
    else if currentButtonState = .btnDOWN then
      if !env.isRunningALT then emit (.setSpeed .ALTITUDE_STEPS (-500)) r else r
    else if currentButtonState = .btnNONE then
      if env.isRunningALT then emit (.setSpeed .ALTITUDE_STEPS 0) r else r
    else r
  else r

/-- Lines 317-343, the `DRIFT_CALIBRATION_RUNNING` branch of the state
phase. -/
def driftCalibrationRunning (cfg : Config) (r : Run) : Run :=
  let r := emit (.setCursor 0 1) r
  let r := emit (.printMenu "Pause 1.5s ...") r
  let r := emit (.stopSlewing cfg.TRACKING) r
  let r := emit (.delay 1500) r
  let r := emit (.setCursor 0 1) r
  let r := emit (.printMenu "Eastward pass...") r
  let r := emit (.runDriftAlignmentPhase cfg.EAST r.g.driftDuration) r
  let r := emit (.setCursor 0 1) r
  let r := emit (.printMenu "Pause 1.5s ...") r
  let r := emit (.delay 1500) r
  let r := emit (.setCursor 0 1) r
  let r := emit (.printMenu "Westward pass...") r
  let r := emit (.runDriftAlignmentPhase cfg.WEST r.g.driftDuration) r
  let r := emit (.setCursor 0 1) r
  let r := emit (.printMenu "Done. Pause 1.5s") r
  let r := emit (.delay 1500) r
  let r := emit (.runDriftAlignmentPhase 0 0) r
  let r := emit (.startSlewing cfg.TRACKING) r
  setCalState HIGHLIGHT_DRIFT r

/-- Lines 221-343: the part of `processCalibrationKeys` that runs on the
current state before any key edge is looked at.  Returns `checkForKeyChange`
and the run. -/
def statePhase (cfg : Config) (env : Env) (r : Run) : Bool × Run :=
  let currentButtonState := env.currentState
  if r.g.calState = SPEED_CALIBRATION then
    speedCalibrationPhase currentButtonState r
  else if cfg.AZIMUTH_ALTITUDE_MOTORS ∧ r.g.calState = AZIMUTH_ADJUSTMENT then
    azimuthAdjustmentPhase env r
  else if cfg.AZIMUTH_ALTITUDE_MOTORS ∧ r.g.calState = ALTITUDE_ADJUSTMENT then
    altitudeAdjustmentPhase env r
  else if r.g.calState = RA_STEP_CALIBRATION then
    raStepCalibrationPhase env r
  else if r.g.calState = DEC_STEP_CALIBRATION then
    decStepCalibrationPhase env r
  else if r.g.calState = BACKLASH_CALIBRATION then
    backlashCalibrationPhase env r
  else if r.g.calState = POLAR_CALIBRATION_WAIT_HOME then
    (true, polarWaitHomePhase env r)
  else if r.g.calState = POLAR_CALIBRATION_WAIT_CENTER_POLARIS then
    (true, polarWaitCenterPolarisPhase cfg env currentButtonState r)
  else if r.g.calState = DRIFT_CALIBRATION_RUNNING then
    (true, driftCalibrationRunning cfg r)
  else (true, r)

/-- The local table `int duration[] = {27, 57, 87, 147}` (line 639). -/
def duration : List Int := [27, 57, 87, 147]

/-- Lines 352-364. -/
def casePolarWaitHome (cfg : Config) (key : Key) (r : Run) : Run :=
  let r := if key = .btnSELECT then setCalState HIGHLIGHT_POLAR r else r
  let r := if key = .btnRIGHT then setCalState HIGHLIGHT_POLAR (gotoNextMenu cfg r) else r
  r

/-- Lines 366-384. -/
def caseSpeedCalibration (cfg : Config) (key : Key) (r : Run) : Run :=
  if key = .btnSELECT then
    let r := emit (.setSpeedCalibration (1 + r.g.SpeedCalibration / 10000) true) r
    let r := emit (.printMenu "Speed Stored.") r
    let r := emit (.delay 500) r
    setCalState HIGHLIGHT_SPEED r
  else if key = .btnRIGHT then
    let r := emit (.setSpeedCalibration (1 + r.g.SpeedCalibration / 10000) true) r
    let r := gotoNextMenu cfg r
    setCalState HIGHLIGHT_SPEED r
  else r

/-- Lines 386-402. -/
def caseRAStepCalibration (cfg : Config) (key : Key) (r : Run) : Run :=
  if key = .btnSELECT then
    let r := emit (.setStepsPerDegree .RA_STEPS r.g.RAStepsPerDegree) r
    let r := emit (.printMenu "RA steps stored") r
    let r := emit (.delay 500) r
    setCalState HIGHLIGHT_RA_STEPS r
  else if key = .btnRIGHT then
    let r := gotoNextMenu cfg r
    setCalState HIGHLIGHT_RA_STEPS r
  else r

/-- Lines 404-420. -/
def caseDECStepCalibration (cfg : Config) (key : Key) (r : Run) : Run :=
  if key = .btnSELECT then
    let r := emit (.setStepsPerDegree .DEC_STEPS r.g.DECStepsPerDegree) r
    let r := emit (.printMenu "DEC steps stored.") r
    let r := emit (.delay 500) r
    setCalState HIGHLIGHT_DEC_STEPS r
  else if key = .btnRIGHT then
    let r := gotoNextMenu cfg r
    setCalState HIGHLIGHT_DEC_STEPS r
  else r

/-- Lines 422-439. -/
def caseBacklashCalibration (cfg : Config) (key : Key) (r : Run) : Run :=
  if key = .btnSELECT then
    let r := emit (.setBacklashCorrection r.g.BacklashSteps) r
    let r := emit (.printMenu "Backlash stored.") r
    let r := emit (.delay 500) r
    setCalState HIGHLIGHT_BACKLASH_STEPS r
  else if key = .btnRIGHT then
    let r := gotoNextMenu cfg r
    setCalState HIGHLIGHT_BACKLASH_STEPS r
  else r

/-- Lines 442-458. -/
def caseAzimuthAdjustment (key : Key) (r : Run) : Run :=
  if key = .btnSELECT then
    if r.g.AzimuthMinutes = 0 then
      setCalState HIGHLIGHT_AZIMUTH_ADJUSTMENT r
    else
      let r := emit (.moveBy .AZIMUTH_STEPS (r.g.AzimuthMinutes : ℚ)) r
      setAzimuthMinutes 0 r
  else r

/-- Lines 460-476. -/
def caseAltitudeAdjustment (key : Key) (r : Run) : Run :=
  if key = .btnSELECT then
    if r.g.AltitudeMinutes = 0 then
      setCalState HIGHLIGHT_ALTITUDE_ADJUSTMENT r
    else
      let r := emit (.moveBy .ALTITUDE_STEPS (r.g.AltitudeMinutes : ℚ)) r
      setAltitudeMinutes 0 r
  else r

/-- Lines 480-500. -/
def caseRollOffsetCalibration (cfg : Config) (env : Env) (key : Key) (r : Run) : Run :=
  if key = .btnSELECT then
    let r := emit (.setRollCalibrationAngle env.rollAngle) r
    let r := setRollCalibrationAngle env.rollAngle r
    setCalState (HIGHLIGHT_ROLL_LEVEL cfg) r
  else if key = .btnLEFT then
    setCalState (HIGHLIGHT_ROLL_LEVEL cfg) r
  else if key = .btnRIGHT then
    let r := gotoNextMenu cfg r
    setCalState (HIGHLIGHT_ROLL_LEVEL cfg) r
  else r

/-- Lines 502-522. -/
def casePitchOffsetCalibration (cfg : Config) (env : Env) (key : Key) (r : Run) : Run :=
  if key = .btnSELECT then
    let r := emit (.setPitchCalibrationAngle env.pitchAngle) r
    let r := setPitchCalibrationAngle env.pitchAngle r
    setCalState (HIGHLIGHT_PITCH_LEVEL cfg) r
  else if key = .btnLEFT then
    setCalState (HIGHLIGHT_PITCH_LEVEL cfg) r
  else if key = .btnRIGHT then
    let r := gotoNextMenu cfg r
    setCalState (HIGHLIGHT_PITCH_LEVEL cfg) r
  else r

/-- Lines 541-565. -/
def caseHighlightPolar (cfg : Config) (env : Env) (key : Key) (r : Run) : Run :=
  if key = .btnDOWN then gotoNextHighlightState cfg env 1 r
  else if key = .btnUP then gotoNextHighlightState cfg env (-1) r
  else if key = .btnSELECT then
    let r := setCalState POLAR_CALIBRATION_WAIT_CENTER_POLARIS r
    let r := emit (.setTargetRA env.PolarisRAHour env.PolarisRAMinute env.PolarisRASecond) r
    let r := emit (.setTargetDEC (88 - (if cfg.NORTHERN_HEMISPHERE then 90 else -90)) 42 11) r
    emit .startSlewingToTarget r
  else if key = .btnRIGHT then gotoNextMenu cfg r
  else r

/-- Lines 567-591. -/
def casePolarWaitCenterPolaris (cfg : Config) (env : Env) (key : Key) (r : Run) : Run :=
  if key = .btnSELECT then
    let r := setCalState POLAR_CALIBRATION_WAIT_HOME r
    let r := emit (.printMenu "Aligned, homing") r
    let r := emit (.delay 750) r
    let r := emit (.syncPosition env.currentRAHours env.currentRAMinutes env.currentRASeconds
      (89 - (if cfg.NORTHERN_HEMISPHERE then 90 else -90)) 21 6) r
    let r := emit .setTargetToHome r
    let r := emit .startSlewingToTarget r
    let r := gotoNextMenu cfg r
    setCalState HIGHLIGHT_POLAR r
  else if key = .btnRIGHT then
    let r := gotoNextMenu cfg r
    setCalState HIGHLIGHT_POLAR r
  else r

/-- The shape shared by the highlight cases from `HIGHLIGHT_SPEED` on
(lines 593-623 and 652-765): `if DOWN ...; if UP ... else if SELECT
calState = procedure; else if RIGHT gotoNextMenu, calState = onRight`. -/
def caseHighlight (cfg : Config) (env : Env) (procedure onRight : Nat) (key : Key)
    (r : Run) : Run :=
  let r := if key = .btnDOWN then gotoNextHighlightState cfg env 1 r else r
  if key = .btnUP then gotoNextHighlightState cfg env (-1) r
  else if key = .btnSELECT then setCalState procedure r
  else if key = .btnRIGHT then
    let r := gotoNextMenu cfg r
    setCalState onRight r
  else r

/-- Lines 625-650. -/
def caseDriftCalibrationWait (key : Key) (r : Run) : Run :=
  let r :=
    if key = .btnDOWN ∨ key = .btnLEFT then
      setDriftSubIndex (toByte (adjustWrap r.g.driftSubIndex 1 0 3)) r
    else r
  let r :=
    if key = .btnUP then
      setDriftSubIndex (toByte (adjustWrap r.g.driftSubIndex (-1) 0 3)) r
    else r
  if key = .btnSELECT then
    let r := setDriftDuration (toByte (duration.getD r.g.driftSubIndex 0)) r
    setCalState DRIFT_CALIBRATION_RUNNING r
  else if key = .btnRIGHT then
    let r := setCalState HIGHLIGHT_DRIFT r
    setDriftSubIndex 1 r
  else r

/-- Lines 349-778: the `switch (calState)` executed for a key edge. -/
def keyDispatch (cfg : Config) (env : Env) (key : Key) (r : Run) : Run :=
  if r.g.calState = POLAR_CALIBRATION_WAIT_HOME then casePolarWaitHome cfg key r
  else if r.g.calState = SPEED_CALIBRATION then caseSpeedCalibration cfg key r
  else if r.g.calState = RA_STEP_CALIBRATION then caseRAStepCalibration cfg key r
  else if r.g.calState = DEC_STEP_CALIBRATION then caseDECStepCalibration cfg key r
  else if r.g.calState = BACKLASH_CALIBRATION then caseBacklashCalibration cfg key r
  else if cfg.AZIMUTH_ALTITUDE_MOTORS ∧ r.g.calState = AZIMUTH_ADJUSTMENT then
    caseAzimuthAdjustment key r
  else if cfg.AZIMUTH_ALTITUDE_MOTORS ∧ r.g.calState = ALTITUDE_ADJUSTMENT then
    caseAltitudeAdjustment key r
  else if cfg.GYRO_LEVEL ∧ r.g.calState = ROLL_OFFSET_CALIBRATION then
    caseRollOffsetCalibration cfg env key r
  else if cfg.GYRO_LEVEL ∧ r.g.calState = PITCH_OFFSET_CALIBRATION then
    casePitchOffsetCalibration cfg env key r
  else if r.g.calState = HIGHLIGHT_POLAR then caseHighlightPolar cfg env key r
  else if r.g.calState = POLAR_CALIBRATION_WAIT_CENTER_POLARIS then
    casePolarWaitCenterPolaris cfg env key r
  else if r.g.calState = HIGHLIGHT_SPEED then
    caseHighlight cfg env SPEED_CALIBRATION HIGHLIGHT_POLAR key r
  else if r.g.calState = HIGHLIGHT_DRIFT then
    caseHighlight cfg env DRIFT_CALIBRATION_WAIT HIGHLIGHT_POLAR key r
  else if r.g.calState = DRIFT_CALIBRATION_WAIT then caseDriftCalibrationWait key r
  else if r.g.calState = HIGHLIGHT_RA_STEPS then
    caseHighlight cfg env RA_STEP_CALIBRATION HIGHLIGHT_FIRST key r
  else if r.g.calState = HIGHLIGHT_DEC_STEPS then
    caseHighlight cfg env DEC_STEP_CALIBRATION HIGHLIGHT_FIRST key r
  else if r.g.calState = HIGHLIGHT_BACKLASH_STEPS then
    caseHighlight cfg env BACKLASH_CALIBRATION HIGHLIGHT_FIRST key r
  else if cfg.AZIMUTH_ALTITUDE_MOTORS ∧ r.g.calState = HIGHLIGHT_AZIMUTH_ADJUSTMENT then
    caseHighlight cfg env AZIMUTH_ADJUSTMENT HIGHLIGHT_FIRST key r
  else if cfg.AZIMUTH_ALTITUDE_MOTORS ∧ r.g.calState = HIGHLIGHT_ALTITUDE_ADJUSTMENT then
    caseHighlight cfg env ALTITUDE_ADJUSTMENT HIGHLIGHT_FIRST key r
  else if cfg.GYRO_LEVEL ∧ r.g.calState = HIGHLIGHT_ROLL_LEVEL cfg then
    caseHighlight cfg env ROLL_OFFSET_CALIBRATION HIGHLIGHT_FIRST key r
  else if cfg.GYRO_LEVEL ∧ r.g.calState = HIGHLIGHT_PITCH_LEVEL cfg then
    caseHighlight cfg env PITCH_OFFSET_CALIBRATION HIGHLIGHT_FIRST key r
  else r

/-- The function `processCalibrationKeys()`: returns `waitForRelease` and the
run.  `lcdButtons.keyChanged(&key)` is evaluated only when
`checkForKeyChange` is true. -/
def processCalibrationKeys (cfg : Config) (env : Env) (r : Run) : Bool × Run :=
  let r := startHardware cfg r
  let p := statePhase cfg env r
  let checkForKeyChange := p.1
  let r := p.2
  if checkForKeyChange then
    match env.keyChanged with
    | some key => (true, keyDispatch cfg env key r)
    | none => (false, r)
  else (false, r)

/-- Whether an effect is a call on the mount (`mount.xxx(...)`), as opposed to
the display (`lcdMenu`) and the gyro (`Gyro`). -/
def isMountCmd : Cmd → Bool
  | .setNextActive => false
  | .updateDisplay => false
  | .setCursor _ _ => false
  | .printMenu _ => false
  | .gyroStartup => false
  | .gyroShutdown => false
  | _ => true

/-- The milliseconds of a `mount.delay` call, 0 for every other effect. -/
def delayMs : Cmd → Int
  | .delay ms => ms
  | _ => 0

/-- Whether an effect sets the mount's target, synchronises its position or
starts a slew to the target. -/
def isPointingCmd : Cmd → Bool
  | .setTargetRA _ _ _ => true
  | .setTargetDEC _ _ _ => true
  | .startSlewingToTarget => true
  | .setTargetToHome => true
  | .syncPosition _ _ _ _ _ _ => true
  | _ => false

/-- One tick from globals `g`: the globals afterwards. -/
def tickGlobals (cfg : Config) (env : Env) (g : Globals) : Globals :=
  (processCalibrationKeys cfg env ⟨g, []⟩).2.g

/-- One tick from globals `g`: the effects performed, in order. -/
def tickLog (cfg : Config) (env : Env) (g : Globals) : List Cmd :=
  (processCalibrationKeys cfg env ⟨g, []⟩).2.log

/-- States reachable from program start by any sequence of ticks. -/
inductive Reachable (cfg : Config) : Globals → Prop where
  | start (raSteps decSteps : Int) (motorsStarted : Bool) :
      Reachable cfg (initialGlobals raSteps decSteps motorsStarted)
  | tick (env : Env) (g : Globals) :
      Reachable cfg g → Reachable cfg (tickGlobals cfg env g)

/-- Consecutive calls of `checkProgressiveUpDown` on one accumulator, one call
per button reading of the list; returns the accumulator and the run. -/
def progressiveTicks : List Key → Int → Run → Int × Run
  | [], v, r => (v, r)
  | b :: bs, v, r =>
    progressiveTicks bs (checkProgressiveUpDown b v r).2.1 (checkProgressiveUpDown b v r).2.2

/-- Consecutive ticks, one per environment of the list, with the log carried
along. -/
def runTicks (cfg : Config) : List Env → Run → Run
  | [], r => r
  | e :: es, r => runTicks cfg es (processCalibrationKeys cfg e r).2

/-! ## Sample inputs -/

/-- A button/mount reading with nothing pressed and a mount at rest. -/
def idleEnv : Env where
  currentState := .btnNONE
  keyChanged := none
  isSlewingRAorDEC := false
  isRunningALT := false
  getStepsPerDegreeRA := 0
  getStepsPerDegreeDEC := 0
  getBacklashCorrection := 0
  getSpeedCalibration := 1
  getPitchCalibrationAngle := 0
  getRollCalibrationAngle := 0
  currentRAHours := 0
  currentRAMinutes := 0
  currentRASeconds := 0
  rollAngle := 0
  pitchAngle := 0
  PolarisRAHour := 2
  PolarisRAMinute := 58
  PolarisRASecond := 51

/-- A configuration with the given hardware switches, in the northern
hemisphere. -/
def sampleConfig (azAlt gyro : Bool) : Config where
  AZIMUTH_ALTITUDE_MOTORS := azAlt
  GYRO_LEVEL := gyro
  NORTHERN_HEMISPHERE := true
  EAST := 2
  WEST := 8
  TRACKING := 16

/-- A tick on which key `k` is pressed: it is the button reading and the
pending key edge. -/
def keyEnv (k : Key) : Env :=
  { idleEnv with currentState := k, keyChanged := some k }

/-- A tick on which key `k` is held down with no new key edge. -/
def heldEnv (k : Key) : Env :=
  { idleEnv with currentState := k, keyChanged := none }

/-- A run that starts at program start with an empty log. -/
def startRun : Run := ⟨initialGlobals 0 0 false, []⟩

/-- The state reached from program start by DOWN, DOWN, SELECT with no optional
hardware: the duration selection of the drift alignment. -/
def driftWaitGlobals : Globals :=
  tickGlobals (sampleConfig false false) (keyEnv .btnSELECT)
    (tickGlobals (sampleConfig false false) (keyEnv .btnDOWN)
      (tickGlobals (sampleConfig false false) (keyEnv .btnDOWN) (initialGlobals 0 0 false)))

/-- The state reached from `driftWaitGlobals` by SELECT: the drift run is about
to start with the default duration. -/
def driftRunningGlobals : Globals :=
  tickGlobals (sampleConfig false false) (keyEnv .btnSELECT) driftWaitGlobals

/-! ## `makeIndicator` (lines 784-799) and the roll/pitch display (lines 901-916) -/

/-- Modelled from the spec: the `float` overload of `clamp(current, minVal,
maxVal)` is declared outside the given sources; it limits `current` to the
closed range `[minVal, maxVal]`. -/
def clampF (current minVal maxVal : ℚ) : ℚ :=
  if current < minVal then minVal
  else if current > maxVal then maxVal
  else current

/-- The Arduino macro `round(x)`, which is
`((x) >= 0 ? (long)((x) + 0.5) : (long)((x) - 0.5))`: rounding to the nearest
integer, halves away from zero. -/
def roundToLong (x : ℚ) : Int :=
  if x ≥ 0 then truncToInt (x + 1 / 2) else truncToInt (x - 1 / 2)

/-- The C library call `dtostrf(val, 3, 1, s)` for `val ≥ 0`: the characters it
stores at `s`, namely the decimal digits of the integer part, a point, one
decimal digit (`val` rounded to one decimal place) and the terminating NUL.
The result always has at least the minimum width 3, so nothing is padded. -/
def dtostrf (val : ℚ) : List Char :=
  let tenths := (roundToLong (val * 10)).toNat
  Nat.toDigits 10 (tenths / 10) ++ ['.', Nat.digitChar (tenths % 10), Char.ofNat 0]

/-- Store the characters `cs` at `buf[i]`, `buf[i + 1]`, ... -/
def writeAt : List Char → Nat → List Char → List Char
  | buf, _, [] => buf
  | buf, i, c :: cs => writeAt (buf.set i c) (i + 1) cs

/-- Lines 786-792 of `makeIndicator`: the magnitude is printed at index 8 and
both arms are filled with dashes; `angle` is the clamped angle. -/
def indicatorGauge (scratchBuffer : List Char) (angle : ℚ) : List Char :=
  let buf := writeAt scratchBuffer 8 (dtostrf |angle|)
  (List.range 5).foldl (fun b i => (b.set (3 + i) '-').set (11 + i) '-') buf

/-- Line 794 of `makeIndicator`: the marker position for the clamped angle. -/
def indicatorPos (angle : ℚ) : Int :=
  clamp (roundToLong (angle * 4)) (-5) 5

/-- The function `makeIndicator(scratchBuffer, angle)`: the buffer afterwards. -/
def makeIndicator (scratchBuffer : List Char) (angle : ℚ) : List Char :=
  let angle := clampF angle (-99 / 10) (99 / 10)
  let buf := indicatorGauge scratchBuffer angle
  let pos := indicatorPos angle
  if pos ≠ 0 then
    buf.set (pos + (if pos < 0 then 8 else 10)).toNat (if pos < 0 then '>' else '<')
  else buf

/-- The 20-byte `scratchBuffer` after `sprintf(scratchBuffer, text)`: the text,
its terminating NUL, and NUL for the bytes behind it (whose content the code
never reads). -/
def sprintfBuffer (text : String) : List Char :=
  (text.toList ++ List.replicate 20 (Char.ofNat 0)).take 20

/-- Lines 902-908 of `printCalibrationSubmenu`: the buffer printed in
`ROLL_OFFSET_CALIBRATION`. -/
def rollIndicator (env : Env) (g : Globals) : List Char :=
  makeIndicator (sprintfBuffer "R: -------------") (env.rollAngle - g.RollCalibrationAngle)

/-- Lines 909-915 of `printCalibrationSubmenu`: the buffer printed in
`PITCH_OFFSET_CALIBRATION`. -/
def pitchIndicator (env : Env) (g : Globals) : List Char :=
  makeIndicator (sprintfBuffer "P: -------------") (env.pitchAngle - g.PitchCalibrationAngle)

/-! ## Vocabulary of the claims about the state graph -/

/-- Whether `s` is one of the highlight states that exist under `cfg`. -/
def isHighlightState (cfg : Config) (s : Nat) : Prop :=
  HIGHLIGHT_FIRST ≤ s ∧ s ≤ HIGHLIGHT_LAST cfg

/-- The highlight state of the category a procedure state belongs to, `none`
for a state that is no procedure state under `cfg`. -/
def ownHighlight (cfg : Config) (s : Nat) : Option Nat :=
  if s = POLAR_CALIBRATION_WAIT_CENTER_POLARIS ∨ s = POLAR_CALIBRATION_WAIT_HOME then
    some HIGHLIGHT_POLAR
  else if s = SPEED_CALIBRATION then some HIGHLIGHT_SPEED
  else if s = DRIFT_CALIBRATION_WAIT ∨ s = DRIFT_CALIBRATION_RUNNING then some HIGHLIGHT_DRIFT
  else if s = RA_STEP_CALIBRATION then some HIGHLIGHT_RA_STEPS
  else if s = DEC_STEP_CALIBRATION then some HIGHLIGHT_DEC_STEPS
  else if s = BACKLASH_CALIBRATION then some HIGHLIGHT_BACKLASH_STEPS
  else if cfg.AZIMUTH_ALTITUDE_MOTORS ∧ s = AZIMUTH_ADJUSTMENT then
    some HIGHLIGHT_AZIMUTH_ADJUSTMENT
  else if cfg.AZIMUTH_ALTITUDE_MOTORS ∧ s = ALTITUDE_ADJUSTMENT then
    some HIGHLIGHT_ALTITUDE_ADJUSTMENT
  else if cfg.GYRO_LEVEL ∧ s = ROLL_OFFSET_CALIBRATION then some (HIGHLIGHT_ROLL_LEVEL cfg)
  else if cfg.GYRO_LEVEL ∧ s = PITCH_OFFSET_CALIBRATION then some (HIGHLIGHT_PITCH_LEVEL cfg)
  else none

/-- Whether an effect writes a calibration value to the mount's storage:
`setStepsPerDegree`, `setBacklashCorrection`, `setSpeedCalibration` with
`saveToStorage`, and the roll and pitch offsets. -/
def isPersistCmd : Cmd → Bool
  | .setStepsPerDegree _ _ => true
  | .setBacklashCorrection _ => true
  | .setSpeedCalibration _ saveToStorage => saveToStorage
  | .setRollCalibrationAngle _ => true
  | .setPitchCalibrationAngle _ => true
  | _ => false

/-- Whether an effect is a relative move of the azimuth or altitude axis. -/
def isMoveCmd : Cmd → Bool
  | .moveBy _ _ => true
  | _ => false

/-! ## More sample inputs -/

/-- The state reached from program start by SELECT, with no optional
hardware: the operator is asked to centre Polaris. -/
def polarWaitCenterGlobals : Globals :=
  tickGlobals (sampleConfig false false) (keyEnv .btnSELECT) (initialGlobals 0 0 false)

/-- Both pending adjustments are within [-60, 60] arc minutes. -/
def azAltInRange (g : Globals) : Prop :=
  -60 ≤ g.AzimuthMinutes ∧ g.AzimuthMinutes ≤ 60 ∧
  -60 ≤ g.AltitudeMinutes ∧ g.AltitudeMinutes ≤ 60

/-- Each pending adjustment is zero unless its edit state is active. -/
def azAltZeroOutside (g : Globals) : Prop :=
  (g.calState ≠ AZIMUTH_ADJUSTMENT → g.AzimuthMinutes = 0) ∧
  (g.calState ≠ ALTITUDE_ADJUSTMENT → g.AltitudeMinutes = 0)

/-- A state in `AZIMUTH_ADJUSTMENT` with a pending adjustment of 7 arc
minutes, the motors already started. -/
def azimuthPendingGlobals : Globals :=
  { initialGlobals 0 0 true with calState := AZIMUTH_ADJUSTMENT, AzimuthMinutes := 7 }

/-- A reading of a mount whose stored backlash correction is 5, with button
reading `cur` and pending key edge `kc`. -/
def backlashEnv (cur : Key) (kc : Option Key) : Env :=
  { idleEnv with currentState := cur, keyChanged := kc, getBacklashCorrection := 5 }

/-- The state reached from program start by UP with no optional hardware, on a
mount whose stored backlash correction is 5: the highlight wraps to
`HIGHLIGHT_BACKLASH_STEPS` and the working value is loaded. -/
def backlashLoadedGlobals : Globals :=
  tickGlobals (sampleConfig false false) (backlashEnv .btnUP (some .btnUP))
    (initialGlobals 0 0 false)

/-- The state reached from `backlashLoadedGlobals` by SELECT and three ticks
with DOWN held: the backlash edit with the working value lowered by 3. -/
def backlashEditGlobals : Globals :=
  tickGlobals (sampleConfig false false) (backlashEnv .btnDOWN none)
    (tickGlobals (sampleConfig false false) (backlashEnv .btnDOWN none)
      (tickGlobals (sampleConfig false false) (backlashEnv .btnDOWN none)
        (tickGlobals (sampleConfig false false) (backlashEnv .btnSELECT (some .btnSELECT))
          backlashLoadedGlobals)))

/-- A state in `ROLL_OFFSET_CALIBRATION` with a stored roll offset of 1
degree, the gyro already started. -/
def rollOffsetGlobals : Globals :=
  { initialGlobals 0 0 false with
    calState := ROLL_OFFSET_CALIBRATION, RollCalibrationAngle := 1, gyroStarted := true }

/-- A tick on which SELECT is pressed while the gyro reads a roll of 3.5
degrees. -/
def rollSelectEnv : Env :=
  { keyEnv .btnSELECT with rollAngle := 7 / 2 }

/-- Whether `s` is a state of the calibration menu under `cfg`: a highlight
state in `[HIGHLIGHT_FIRST, HIGHLIGHT_LAST]` or a procedure state of a
category that exists under `cfg`. -/
def validState (cfg : Config) (s : Nat) : Prop :=
  isHighlightState cfg s ∨ ∃ h, ownHighlight cfg s = some h

/-- Whether the `switch (calState)` of lines 349-778 has a `case` label for
`s` under `cfg`, in the order of the labels. -/
def hasCase (cfg : Config) (s : Nat) : Prop :=
  s = POLAR_CALIBRATION_WAIT_HOME ∨ s = SPEED_CALIBRATION ∨ s = RA_STEP_CALIBRATION ∨
  s = DEC_STEP_CALIBRATION ∨ s = BACKLASH_CALIBRATION ∨
  (cfg.AZIMUTH_ALTITUDE_MOTORS = true ∧ (s = AZIMUTH_ADJUSTMENT ∨ s = ALTITUDE_ADJUSTMENT)) ∨
  (cfg.GYRO_LEVEL = true ∧ (s = ROLL_OFFSET_CALIBRATION ∨ s = PITCH_OFFSET_CALIBRATION)) ∨
  s = HIGHLIGHT_POLAR ∨ s = POLAR_CALIBRATION_WAIT_CENTER_POLARIS ∨ s = HIGHLIGHT_SPEED ∨
  s = HIGHLIGHT_DRIFT ∨ s = DRIFT_CALIBRATION_WAIT ∨ s = HIGHLIGHT_RA_STEPS ∨
  s = HIGHLIGHT_DEC_STEPS ∨ s = HIGHLIGHT_BACKLASH_STEPS ∨
  (cfg.AZIMUTH_ALTITUDE_MOTORS = true ∧
    (s = HIGHLIGHT_AZIMUTH_ADJUSTMENT ∨ s = HIGHLIGHT_ALTITUDE_ADJUSTMENT)) ∨
  (cfg.GYRO_LEVEL = true ∧ (s = HIGHLIGHT_ROLL_LEVEL cfg ∨ s = HIGHLIGHT_PITCH_LEVEL cfg))

/-- Whether the `case` of state `s` in the switch of lines 349-778 tests for
`key` (has an `if (key == ...)` naming it), read off case by case in the order
of the labels; false for a value without a `case` label. -/
def keyHandled (cfg : Config) (s : Nat) (key : Key) : Prop :=
  if s = POLAR_CALIBRATION_WAIT_HOME then
    key = .btnSELECT ∨ key = .btnRIGHT
  else if s = SPEED_CALIBRATION then
    key = .btnSELECT ∨ key = .btnRIGHT
  else if s = RA_STEP_CALIBRATION then
    key = .btnSELECT ∨ key = .btnRIGHT
  else if s = DEC_STEP_CALIBRATION then
    key = .btnSELECT ∨ key = .btnRIGHT
  else if s = BACKLASH_CALIBRATION then
    key = .btnSELECT ∨ key = .btnRIGHT
  else if cfg.AZIMUTH_ALTITUDE_MOTORS ∧ s = AZIMUTH_ADJUSTMENT then
    key = .btnSELECT
  else if cfg.AZIMUTH_ALTITUDE_MOTORS ∧ s = ALTITUDE_ADJUSTMENT then
    key = .btnSELECT
  else if cfg.GYRO_LEVEL ∧ s = ROLL_OFFSET_CALIBRATION then
    key = .btnSELECT ∨ key = .btnLEFT ∨ key = .btnRIGHT
  else if cfg.GYRO_LEVEL ∧ s = PITCH_OFFSET_CALIBRATION then
    key = .btnSELECT ∨ key = .btnLEFT ∨ key = .btnRIGHT
  else if s = HIGHLIGHT_POLAR then
    key = .btnDOWN ∨ key = .btnUP ∨ key = .btnSELECT ∨ key = .btnRIGHT
  else if s = POLAR_CALIBRATION_WAIT_CENTER_POLARIS then
    key = .btnSELECT ∨ key = .btnRIGHT
  else if s = HIGHLIGHT_SPEED then
    key = .btnDOWN ∨ key = .btnUP ∨ key = .btnSELECT ∨ key = .btnRIGHT
  else if s = HIGHLIGHT_DRIFT then
    key = .btnDOWN ∨ key = .btnUP ∨ key = .btnSELECT ∨ key = .btnRIGHT
  else if s = DRIFT_CALIBRATION_WAIT then
    key = .btnDOWN ∨ key = .btnLEFT ∨ key = .btnUP ∨ key = .btnSELECT ∨ key = .btnRIGHT
  else if s = HIGHLIGHT_RA_STEPS then
    key = .btnDOWN ∨ key = .btnUP ∨ key = .btnSELECT ∨ key = .btnRIGHT
  else if s = HIGHLIGHT_DEC_STEPS then
    key = .btnDOWN ∨ key = .btnUP ∨ key = .btnSELECT ∨ key = .btnRIGHT
  else if s = HIGHLIGHT_BACKLASH_STEPS then
    key = .btnDOWN ∨ key = .btnUP ∨ key = .btnSELECT ∨ key = .btnRIGHT
  else if cfg.AZIMUTH_ALTITUDE_MOTORS ∧ s = HIGHLIGHT_AZIMUTH_ADJUSTMENT then
    key = .btnDOWN ∨ key = .btnUP ∨ key = .btnSELECT ∨ key = .btnRIGHT
  else if cfg.AZIMUTH_ALTITUDE_MOTORS ∧ s = HIGHLIGHT_ALTITUDE_ADJUSTMENT then
    key = .btnDOWN ∨ key = .btnUP ∨ key = .btnSELECT ∨ key = .btnRIGHT
  else if cfg.GYRO_LEVEL ∧ s = HIGHLIGHT_ROLL_LEVEL cfg then
    key = .btnDOWN ∨ key = .btnUP ∨ key = .btnSELECT ∨ key = .btnRIGHT
  else if cfg.GYRO_LEVEL ∧ s = HIGHLIGHT_PITCH_LEVEL cfg then
    key = .btnDOWN ∨ key = .btnUP ∨ key = .btnSELECT ∨ key = .btnRIGHT
  else False

/-- The delay is within [5, 150], and within [25, 150] outside
`SPEED_CALIBRATION`. -/
def calDelayInv (g : Globals) : Prop :=
  5 ≤ g.calDelay ∧ g.calDelay ≤ 150 ∧ (g.calState ≠ SPEED_CALIBRATION → 25 ≤ g.calDelay)

/-- States reachable from program start by ticks none of which ends in
`DRIFT_CALIBRATION_RUNNING` with a selection other than the default 1: the
runs of the program in which every drift run so far was started with the
default duration. -/
inductive ReachableDefaultRuns (cfg : Config) : Globals → Prop where
  | start (raSteps decSteps : Int) (motorsStarted : Bool) :
      ReachableDefaultRuns cfg (initialGlobals raSteps decSteps motorsStarted)
  | tick (env : Env) (g : Globals) :
      ReachableDefaultRuns cfg g →
      ((tickGlobals cfg env g).calState = DRIFT_CALIBRATION_RUNNING →
        (tickGlobals cfg env g).driftSubIndex = 1) →
      ReachableDefaultRuns cfg (tickGlobals cfg env g)

/-- The state reached from program start by DOWN, DOWN with no optional
hardware: the drift alignment is highlighted for the first time. -/
def driftHighlightGlobals : Globals :=
  tickGlobals (sampleConfig false false) (keyEnv .btnDOWN)
    (tickGlobals (sampleConfig false false) (keyEnv .btnDOWN) (initialGlobals 0 0 false))

/-- The state reached from `driftWaitGlobals` by UP (selection 0), SELECT (the
run is started) and one more tick with no key (the run is performed): the
drift alignment is highlighted again. -/
def driftReentryGlobals : Globals :=
  tickGlobals (sampleConfig false false) idleEnv
    (tickGlobals (sampleConfig false false) (keyEnv .btnSELECT)
      (tickGlobals (sampleConfig false false) (keyEnv .btnUP) driftWaitGlobals))

/-- The C string held in a buffer: the characters before the first NUL, which
is what `lcdMenu.printMenu(scratchBuffer)` prints. -/
def renderedString (buf : List Char) : List Char :=
  buf.takeWhile (fun c => c ≠ Char.ofNat 0)

/-- Whether a character is one of the two markers of the indicator. -/
def isMarker (c : Char) : Bool :=
  c = '<' || c = '>'

/-- The layout of the 20-byte buffer after `makeIndicator`, for the template
that starts with the letter `x`: characters 0..2 are the label, everything
from the terminator at index 16 on is NUL, indices 8..10 hold digit, point,
digit, the two arms 3..7 and 11..15 hold dashes or markers, there is at most
one marker, and the string printed has 16 characters. -/
def indicatorWellFormed (x : Char) (out : List Char) : Prop :=
  out.length = 20 ∧ out.take 3 = [x, ':', ' '] ∧
  out.drop 16 = List.replicate 4 (Char.ofNat 0) ∧
  (∃ d1 d2 : Nat, d1 ≤ 9 ∧ d2 ≤ 9 ∧
    (out.drop 8).take 3 = [Nat.digitChar d1, '.', Nat.digitChar d2]) ∧
  ((out.drop 3).take 5 ++ (out.drop 11).take 5).all
    (fun c => c = '-' || c = '<' || c = '>') = true ∧
  (out.filter isMarker).length ≤ 1 ∧
  (renderedString out).length = 16

/-! ## Basic lemmas -/

/-- The range of `int` in numbers. -/
theorem int_limits : INT_MIN = -2147483648 ∧ INT_MAX = 2147483647 := by
  constructor <;> norm_num [INT_MIN, INT_MAX, INT_BITS]

/-- A value of the range of `int` is stored as it is. -/
theorem wrapInt_of_range (i : Int) (h1 : INT_MIN ≤ i) (h2 : i ≤ INT_MAX) : wrapInt i = i := by
  obtain ⟨e1, e2⟩ := int_limits
  rw [e1] at h1
  rw [e2] at h2
  unfold wrapInt
  rw [e1]
  norm_num [INT_BITS]
  omega

/-- One past `INT_MAX` is stored as `INT_MIN`. -/
theorem wrapInt_max_succ : wrapInt (INT_MAX + 1) = INT_MIN := by
  norm_num [wrapInt, INT_MAX, INT_MIN, INT_BITS]

/-- One before `INT_MIN` is stored as `INT_MAX`. -/
theorem wrapInt_min_pred : wrapInt (INT_MIN - 1) = INT_MAX := by
  norm_num [wrapInt, INT_MAX, INT_MIN, INT_BITS]

/-- Every stored value lies in the range of `int`. -/
theorem wrapInt_range (i : Int) : INT_MIN ≤ wrapInt i ∧ wrapInt i ≤ INT_MAX := by
  obtain ⟨e1, e2⟩ := int_limits
  unfold wrapInt
  rw [e1, e2]
  norm_num [INT_BITS]
  omega

@[simp] theorem emit_g (c : Cmd) (r : Run) : (emit c r).g = r.g := rfl

@[simp] theorem emit_log (c : Cmd) (r : Run) : (emit c r).log = r.log ++ [c] := rfl

/-- What the assignment `calState = v` changes and what it leaves alone. -/
@[simp] theorem setCalState_proj (v : Nat) (r : Run) :
    (setCalState v r).log = r.log ∧
    (setCalState v r).g.calState = v ∧
    (setCalState v r).g.SpeedCalibration = r.g.SpeedCalibration ∧
    (setCalState v r).g.calDelay = r.g.calDelay ∧
    (setCalState v r).g.driftSubIndex = r.g.driftSubIndex ∧
    (setCalState v r).g.driftDuration = r.g.driftDuration ∧
    (setCalState v r).g.BacklashSteps = r.g.BacklashSteps ∧
    (setCalState v r).g.AzimuthMinutes = r.g.AzimuthMinutes ∧
    (setCalState v r).g.AltitudeMinutes = r.g.AltitudeMinutes ∧
    (setCalState v r).g.PitchCalibrationAngle = r.g.PitchCalibrationAngle ∧
    (setCalState v r).g.RollCalibrationAngle = r.g.RollCalibrationAngle ∧
    (setCalState v r).g.gyroStarted = r.g.gyroStarted ∧
    (setCalState v r).g.azAltMotorsStarted = r.g.azAltMotorsStarted ∧
    (setCalState v r).g.RAStepsPerDegree = r.g.RAStepsPerDegree ∧
    (setCalState v r).g.DECStepsPerDegree = r.g.DECStepsPerDegree :=
  ⟨rfl, rfl, rfl, rfl, rfl, rfl, rfl, rfl, rfl, rfl, rfl, rfl, rfl, rfl, rfl⟩

/-- What the assignment `SpeedCalibration = v` changes and what it leaves alone. -/
@[simp] theorem setSpeedCalibration_proj (v : ℚ) (r : Run) :
    (setSpeedCalibration v r).log = r.log ∧
    (setSpeedCalibration v r).g.calState = r.g.calState ∧
    (setSpeedCalibration v r).g.SpeedCalibration = v ∧
    (setSpeedCalibration v r).g.calDelay = r.g.calDelay ∧
    (setSpeedCalibration v r).g.driftSubIndex = r.g.driftSubIndex ∧
    (setSpeedCalibration v r).g.driftDuration = r.g.driftDuration ∧
    (setSpeedCalibration v r).g.BacklashSteps = r.g.BacklashSteps ∧
    (setSpeedCalibration v r).g.AzimuthMinutes = r.g.AzimuthMinutes ∧
    (setSpeedCalibration v r).g.AltitudeMinutes = r.g.AltitudeMinutes ∧
    (setSpeedCalibration v r).g.PitchCalibrationAngle = r.g.PitchCalibrationAngle ∧
    (setSpeedCalibration v r).g.RollCalibrationAngle = r.g.RollCalibrationAngle ∧
    (setSpeedCalibration v r).g.gyroStarted = r.g.gyroStarted ∧
    (setSpeedCalibration v r).g.azAltMotorsStarted = r.g.azAltMotorsStarted ∧
    (setSpeedCalibration v r).g.RAStepsPerDegree = r.g.RAStepsPerDegree ∧
    (setSpeedCalibration v r).g.DECStepsPerDegree = r.g.DECStepsPerDegree :=
  ⟨rfl, rfl, rfl, rfl, rfl, rfl, rfl, rfl, rfl, rfl, rfl, rfl, rfl, rfl, rfl⟩

/-- What the assignment `calDelay = v` changes and what it leaves alone. -/
@[simp] theorem setCalDelay_proj (v : Int) (r : Run) :
    (setCalDelay v r).log = r.log ∧
    (setCalDelay v r).g.calState = r.g.calState ∧
    (setCalDelay v r).g.SpeedCalibration = r.g.SpeedCalibration ∧
    (setCalDelay v r).g.calDelay = v ∧
    (setCalDelay v r).g.driftSubIndex = r.g.driftSubIndex ∧
    (setCalDelay v r).g.driftDuration = r.g.driftDuration ∧
    (setCalDelay v r).g.BacklashSteps = r.g.BacklashSteps ∧
    (setCalDelay v r).g.AzimuthMinutes = r.g.AzimuthMinutes ∧
    (setCalDelay v r).g.AltitudeMinutes = r.g.AltitudeMinutes ∧
    (setCalDelay v r).g.PitchCalibrationAngle = r.g.PitchCalibrationAngle ∧
    (setCalDelay v r).g.RollCalibrationAngle = r.g.RollCalibrationAngle ∧
    (setCalDelay v r).g.gyroStarted = r.g.gyroStarted ∧
    (setCalDelay v r).g.azAltMotorsStarted = r.g.azAltMotorsStarted ∧
    (setCalDelay v r).g.RAStepsPerDegree = r.g.RAStepsPerDegree ∧
    (setCalDelay v r).g.DECStepsPerDegree = r.g.DECStepsPerDegree :=
  ⟨rfl, rfl, rfl, rfl, rfl, rfl, rfl, rfl, rfl, rfl, rfl, rfl, rfl, rfl, rfl⟩

/-- What the assignment `driftSubIndex = v` changes and what it leaves alone. -/
@[simp] theorem setDriftSubIndex_proj (v : Nat) (r : Run) :
    (setDriftSubIndex v r).log = r.log ∧
    (setDriftSubIndex v r).g.calState = r.g.calState ∧
    (setDriftSubIndex v r).g.SpeedCalibration = r.g.SpeedCalibration ∧
    (setDriftSubIndex v r).g.calDelay = r.g.calDelay ∧
    (setDriftSubIndex v r).g.driftSubIndex = v ∧
    (setDriftSubIndex v r).g.driftDuration = r.g.driftDuration ∧
    (setDriftSubIndex v r).g.BacklashSteps = r.g.BacklashSteps ∧
    (setDriftSubIndex v r).g.AzimuthMinutes = r.g.AzimuthMinutes ∧
    (setDriftSubIndex v r).g.AltitudeMinutes = r.g.AltitudeMinutes ∧
    (setDriftSubIndex v r).g.PitchCalibrationAngle = r.g.PitchCalibrationAngle ∧
    (setDriftSubIndex v r).g.RollCalibrationAngle = r.g.RollCalibrationAngle ∧
    (setDriftSubIndex v r).g.gyroStarted = r.g.gyroStarted ∧
    (setDriftSubIndex v r).g.azAltMotorsStarted = r.g.azAltMotorsStarted ∧
    (setDriftSubIndex v r).g.RAStepsPerDegree = r.g.RAStepsPerDegree ∧
    (setDriftSubIndex v r).g.DECStepsPerDegree = r.g.DECStepsPerDegree :=
  ⟨rfl, rfl, rfl, rfl, rfl, rfl, rfl, rfl, rfl, rfl, rfl, rfl, rfl, rfl, rfl⟩

/-- What the assignment `driftDuration = v` changes and what it leaves alone. -/
@[simp] theorem setDriftDuration_proj (v : Nat) (r : Run) :
    (setDriftDuration v r).log = r.log ∧
    (setDriftDuration v r).g.calState = r.g.calState ∧
    (setDriftDuration v r).g.SpeedCalibration = r.g.SpeedCalibration ∧
    (setDriftDuration v r).g.calDelay = r.g.calDelay ∧
    (setDriftDuration v r).g.driftSubIndex = r.g.driftSubIndex ∧
    (setDriftDuration v r).g.driftDuration = v ∧
    (setDriftDuration v r).g.BacklashSteps = r.g.BacklashSteps ∧
    (setDriftDuration v r).g.AzimuthMinutes = r.g.AzimuthMinutes ∧
    (setDriftDuration v r).g.AltitudeMinutes = r.g.AltitudeMinutes ∧
    (setDriftDuration v r).g.PitchCalibrationAngle = r.g.PitchCalibrationAngle ∧
    (setDriftDuration v r).g.RollCalibrationAngle = r.g.RollCalibrationAngle ∧
    (setDriftDuration v r).g.gyroStarted = r.g.gyroStarted ∧
    (setDriftDuration v r).g.azAltMotorsStarted = r.g.azAltMotorsStarted ∧
    (setDriftDuration v r).g.RAStepsPerDegree = r.g.RAStepsPerDegree ∧
    (setDriftDuration v r).g.DECStepsPerDegree = r.g.DECStepsPerDegree :=
  ⟨rfl, rfl, rfl, rfl, rfl, rfl, rfl, rfl, rfl, rfl, rfl, rfl, rfl, rfl, rfl⟩

/-- What the assignment `BacklashSteps = v` changes and what it leaves alone. -/
@[simp] theorem setBacklashSteps_proj (v : Int) (r : Run) :
    (setBacklashSteps v r).log = r.log ∧
    (setBacklashSteps v r).g.calState = r.g.calState ∧
    (setBacklashSteps v r).g.SpeedCalibration = r.g.SpeedCalibration ∧
    (setBacklashSteps v r).g.calDelay = r.g.calDelay ∧
    (setBacklashSteps v r).g.driftSubIndex = r.g.driftSubIndex ∧
    (setBacklashSteps v r).g.driftDuration = r.g.driftDuration ∧
    (setBacklashSteps v r).g.BacklashSteps = v ∧
    (setBacklashSteps v r).g.AzimuthMinutes = r.g.AzimuthMinutes ∧
    (setBacklashSteps v r).g.AltitudeMinutes = r.g.AltitudeMinutes ∧
    (setBacklashSteps v r).g.PitchCalibrationAngle = r.g.PitchCalibrationAngle ∧
    (setBacklashSteps v r).g.RollCalibrationAngle = r.g.RollCalibrationAngle ∧
    (setBacklashSteps v r).g.gyroStarted = r.g.gyroStarted ∧
    (setBacklashSteps v r).g.azAltMotorsStarted = r.g.azAltMotorsStarted ∧
    (setBacklashSteps v r).g.RAStepsPerDegree = r.g.RAStepsPerDegree ∧
    (setBacklashSteps v r).g.DECStepsPerDegree = r.g.DECStepsPerDegree :=
  ⟨rfl, rfl, rfl, rfl, rfl, rfl, rfl, rfl, rfl, rfl, rfl, rfl, rfl, rfl, rfl⟩

/-- What the assignment `AzimuthMinutes = v` changes and what it leaves alone. -/
@[simp] theorem setAzimuthMinutes_proj (v : Int) (r : Run) :
    (setAzimuthMinutes v r).log = r.log ∧
    (setAzimuthMinutes v r).g.calState = r.g.calState ∧
    (setAzimuthMinutes v r).g.SpeedCalibration = r.g.SpeedCalibration ∧
    (setAzimuthMinutes v r).g.calDelay = r.g.calDelay ∧
    (setAzimuthMinutes v r).g.driftSubIndex = r.g.driftSubIndex ∧
    (setAzimuthMinutes v r).g.driftDuration = r.g.driftDuration ∧
    (setAzimuthMinutes v r).g.BacklashSteps = r.g.BacklashSteps ∧
    (setAzimuthMinutes v r).g.AzimuthMinutes = v ∧
    (setAzimuthMinutes v r).g.AltitudeMinutes = r.g.AltitudeMinutes ∧
    (setAzimuthMinutes v r).g.PitchCalibrationAngle = r.g.PitchCalibrationAngle ∧
    (setAzimuthMinutes v r).g.RollCalibrationAngle = r.g.RollCalibrationAngle ∧
    (setAzimuthMinutes v r).g.gyroStarted = r.g.gyroStarted ∧
    (setAzimuthMinutes v r).g.azAltMotorsStarted = r.g.azAltMotorsStarted ∧
    (setAzimuthMinutes v r).g.RAStepsPerDegree = r.g.RAStepsPerDegree ∧
    (setAzimuthMinutes v r).g.DECStepsPerDegree = r.g.DECStepsPerDegree :=
  ⟨rfl, rfl, rfl, rfl, rfl, rfl, rfl, rfl, rfl, rfl, rfl, rfl, rfl, rfl, rfl⟩

/-- What the assignment `AltitudeMinutes = v` changes and what it leaves alone. -/
@[simp] theorem setAltitudeMinutes_proj (v : Int) (r : Run) :
    (setAltitudeMinutes v r).log = r.log ∧
    (setAltitudeMinutes v r).g.calState = r.g.calState ∧
    (setAltitudeMinutes v r).g.SpeedCalibration = r.g.SpeedCalibration ∧
    (setAltitudeMinutes v r).g.calDelay = r.g.calDelay ∧
    (setAltitudeMinutes v r).g.driftSubIndex = r.g.driftSubIndex ∧
    (setAltitudeMinutes v r).g.driftDuration = r.g.driftDuration ∧
    (setAltitudeMinutes v r).g.BacklashSteps = r.g.BacklashSteps ∧
    (setAltitudeMinutes v r).g.AzimuthMinutes = r.g.AzimuthMinutes ∧
    (setAltitudeMinutes v r).g.AltitudeMinutes = v ∧
    (setAltitudeMinutes v r).g.PitchCalibrationAngle = r.g.PitchCalibrationAngle ∧
    (setAltitudeMinutes v r).g.RollCalibrationAngle = r.g.RollCalibrationAngle ∧
    (setAltitudeMinutes v r).g.gyroStarted = r.g.gyroStarted ∧
    (setAltitudeMinutes v r).g.azAltMotorsStarted = r.g.azAltMotorsStarted ∧
    (setAltitudeMinutes v r).g.RAStepsPerDegree = r.g.RAStepsPerDegree ∧
    (setAltitudeMinutes v r).g.DECStepsPerDegree = r.g.DECStepsPerDegree :=
  ⟨rfl, rfl, rfl, rfl, rfl, rfl, rfl, rfl, rfl, rfl, rfl, rfl, rfl, rfl, rfl⟩

/-- What the assignment `PitchCalibrationAngle = v` changes and what it leaves alone. -/
@[simp] theorem setPitchCalibrationAngle_proj (v : ℚ) (r : Run) :
    (setPitchCalibrationAngle v r).log = r.log ∧
    (setPitchCalibrationAngle v r).g.calState = r.g.calState ∧
    (setPitchCalibrationAngle v r).g.SpeedCalibration = r.g.SpeedCalibration ∧
    (setPitchCalibrationAngle v r).g.calDelay = r.g.calDelay ∧
    (setPitchCalibrationAngle v r).g.driftSubIndex = r.g.driftSubIndex ∧
    (setPitchCalibrationAngle v r).g.driftDuration = r.g.driftDuration ∧
    (setPitchCalibrationAngle v r).g.BacklashSteps = r.g.BacklashSteps ∧
    (setPitchCalibrationAngle v r).g.AzimuthMinutes = r.g.AzimuthMinutes ∧
    (setPitchCalibrationAngle v r).g.AltitudeMinutes = r.g.AltitudeMinutes ∧
    (setPitchCalibrationAngle v r).g.PitchCalibrationAngle = v ∧
    (setPitchCalibrationAngle v r).g.RollCalibrationAngle = r.g.RollCalibrationAngle ∧
    (setPitchCalibrationAngle v r).g.gyroStarted = r.g.gyroStarted ∧
    (setPitchCalibrationAngle v r).g.azAltMotorsStarted = r.g.azAltMotorsStarted ∧
    (setPitchCalibrationAngle v r).g.RAStepsPerDegree = r.g.RAStepsPerDegree ∧
    (setPitchCalibrationAngle v r).g.DECStepsPerDegree = r.g.DECStepsPerDegree :=
  ⟨rfl, rfl, rfl, rfl, rfl, rfl, rfl, rfl, rfl, rfl, rfl, rfl, rfl, rfl, rfl⟩

/-- What the assignment `RollCalibrationAngle = v` changes and what it leaves alone. -/
@[simp] theorem setRollCalibrationAngle_proj (v : ℚ) (r : Run) :
    (setRollCalibrationAngle v r).log = r.log ∧
    (setRollCalibrationAngle v r).g.calState = r.g.calState ∧
    (setRollCalibrationAngle v r).g.SpeedCalibration = r.g.SpeedCalibration ∧
    (setRollCalibrationAngle v r).g.calDelay = r.g.calDelay ∧
    (setRollCalibrationAngle v r).g.driftSubIndex = r.g.driftSubIndex ∧
    (setRollCalibrationAngle v r).g.driftDuration = r.g.driftDuration ∧
    (setRollCalibrationAngle v r).g.BacklashSteps = r.g.BacklashSteps ∧
    (setRollCalibrationAngle v r).g.AzimuthMinutes = r.g.AzimuthMinutes ∧
    (setRollCalibrationAngle v r).g.AltitudeMinutes = r.g.AltitudeMinutes ∧
    (setRollCalibrationAngle v r).g.PitchCalibrationAngle = r.g.PitchCalibrationAngle ∧
    (setRollCalibrationAngle v r).g.RollCalibrationAngle = v ∧
    (setRollCalibrationAngle v r).g.gyroStarted = r.g.gyroStarted ∧
    (setRollCalibrationAngle v r).g.azAltMotorsStarted = r.g.azAltMotorsStarted ∧
    (setRollCalibrationAngle v r).g.RAStepsPerDegree = r.g.RAStepsPerDegree ∧
    (setRollCalibrationAngle v r).g.DECStepsPerDegree = r.g.DECStepsPerDegree :=
  ⟨rfl, rfl, rfl, rfl, rfl, rfl, rfl, rfl, rfl, rfl, rfl, rfl, rfl, rfl, rfl⟩

/-- What the assignment `gyroStarted = v` changes and what it leaves alone. -/
@[simp] theorem setGyroStarted_proj (v : Bool) (r : Run) :
    (setGyroStarted v r).log = r.log ∧
    (setGyroStarted v r).g.calState = r.g.calState ∧
    (setGyroStarted v r).g.SpeedCalibration = r.g.SpeedCalibration ∧
    (setGyroStarted v r).g.calDelay = r.g.calDelay ∧
    (setGyroStarted v r).g.driftSubIndex = r.g.driftSubIndex ∧
    (setGyroStarted v r).g.driftDuration = r.g.driftDuration ∧
    (setGyroStarted v r).g.BacklashSteps = r.g.BacklashSteps ∧
    (setGyroStarted v r).g.AzimuthMinutes = r.g.AzimuthMinutes ∧
    (setGyroStarted v r).g.AltitudeMinutes = r.g.AltitudeMinutes ∧
    (setGyroStarted v r).g.PitchCalibrationAngle = r.g.PitchCalibrationAngle ∧
    (setGyroStarted v r).g.RollCalibrationAngle = r.g.RollCalibrationAngle ∧
    (setGyroStarted v r).g.gyroStarted = v ∧
    (setGyroStarted v r).g.azAltMotorsStarted = r.g.azAltMotorsStarted ∧
    (setGyroStarted v r).g.RAStepsPerDegree = r.g.RAStepsPerDegree ∧
    (setGyroStarted v r).g.DECStepsPerDegree = r.g.DECStepsPerDegree :=
  ⟨rfl, rfl, rfl, rfl, rfl, rfl, rfl, rfl, rfl, rfl, rfl, rfl, rfl, rfl, rfl⟩

/-- What the assignment `azAltMotorsStarted = v` changes and what it leaves alone. -/
@[simp] theorem setAzAltMotorsStarted_proj (v : Bool) (r : Run) :
    (setAzAltMotorsStarted v r).log = r.log ∧
    (setAzAltMotorsStarted v r).g.calState = r.g.calState ∧
    (setAzAltMotorsStarted v r).g.SpeedCalibration = r.g.SpeedCalibration ∧
    (setAzAltMotorsStarted v r).g.calDelay = r.g.calDelay ∧
    (setAzAltMotorsStarted v r).g.driftSubIndex = r.g.driftSubIndex ∧
    (setAzAltMotorsStarted v r).g.driftDuration = r.g.driftDuration ∧
    (setAzAltMotorsStarted v r).g.BacklashSteps = r.g.BacklashSteps ∧
    (setAzAltMotorsStarted v r).g.AzimuthMinutes = r.g.AzimuthMinutes ∧
    (setAzAltMotorsStarted v r).g.AltitudeMinutes = r.g.AltitudeMinutes ∧
    (setAzAltMotorsStarted v r).g.PitchCalibrationAngle = r.g.PitchCalibrationAngle ∧
    (setAzAltMotorsStarted v r).g.RollCalibrationAngle = r.g.RollCalibrationAngle ∧
    (setAzAltMotorsStarted v r).g.gyroStarted = r.g.gyroStarted ∧
    (setAzAltMotorsStarted v r).g.azAltMotorsStarted = v ∧
    (setAzAltMotorsStarted v r).g.RAStepsPerDegree = r.g.RAStepsPerDegree ∧
    (setAzAltMotorsStarted v r).g.DECStepsPerDegree = r.g.DECStepsPerDegree :=
  ⟨rfl, rfl, rfl, rfl, rfl, rfl, rfl, rfl, rfl, rfl, rfl, rfl, rfl, rfl, rfl⟩

/-- What the assignment `RAStepsPerDegree = v` changes and what it leaves alone. -/
@[simp] theorem setRAStepsPerDegree_proj (v : Int) (r : Run) :
    (setRAStepsPerDegree v r).log = r.log ∧
    (setRAStepsPerDegree v r).g.calState = r.g.calState ∧
    (setRAStepsPerDegree v r).g.SpeedCalibration = r.g.SpeedCalibration ∧
    (setRAStepsPerDegree v r).g.calDelay = r.g.calDelay ∧
    (setRAStepsPerDegree v r).g.driftSubIndex = r.g.driftSubIndex ∧
    (setRAStepsPerDegree v r).g.driftDuration = r.g.driftDuration ∧
    (setRAStepsPerDegree v r).g.BacklashSteps = r.g.BacklashSteps ∧
    (setRAStepsPerDegree v r).g.AzimuthMinutes = r.g.AzimuthMinutes ∧
    (setRAStepsPerDegree v r).g.AltitudeMinutes = r.g.AltitudeMinutes ∧
    (setRAStepsPerDegree v r).g.PitchCalibrationAngle = r.g.PitchCalibrationAngle ∧
    (setRAStepsPerDegree v r).g.RollCalibrationAngle = r.g.RollCalibrationAngle ∧
    (setRAStepsPerDegree v r).g.gyroStarted = r.g.gyroStarted ∧
    (setRAStepsPerDegree v r).g.azAltMotorsStarted = r.g.azAltMotorsStarted ∧
    (setRAStepsPerDegree v r).g.RAStepsPerDegree = v ∧
    (setRAStepsPerDegree v r).g.DECStepsPerDegree = r.g.DECStepsPerDegree :=
  ⟨rfl, rfl, rfl, rfl, rfl, rfl, rfl, rfl, rfl, rfl, rfl, rfl, rfl, rfl, rfl⟩

/-- What the assignment `DECStepsPerDegree = v` changes and what it leaves alone. -/
@[simp] theorem setDECStepsPerDegree_proj (v : Int) (r : Run) :
    (setDECStepsPerDegree v r).log = r.log ∧
    (setDECStepsPerDegree v r).g.calState = r.g.calState ∧
    (setDECStepsPerDegree v r).g.SpeedCalibration = r.g.SpeedCalibration ∧
    (setDECStepsPerDegree v r).g.calDelay = r.g.calDelay ∧
    (setDECStepsPerDegree v r).g.driftSubIndex = r.g.driftSubIndex ∧
    (setDECStepsPerDegree v r).g.driftDuration = r.g.driftDuration ∧
    (setDECStepsPerDegree v r).g.BacklashSteps = r.g.BacklashSteps ∧
    (setDECStepsPerDegree v r).g.AzimuthMinutes = r.g.AzimuthMinutes ∧
    (setDECStepsPerDegree v r).g.AltitudeMinutes = r.g.AltitudeMinutes ∧
    (setDECStepsPerDegree v r).g.PitchCalibrationAngle = r.g.PitchCalibrationAngle ∧
    (setDECStepsPerDegree v r).g.RollCalibrationAngle = r.g.RollCalibrationAngle ∧
    (setDECStepsPerDegree v r).g.gyroStarted = r.g.gyroStarted ∧
    (setDECStepsPerDegree v r).g.azAltMotorsStarted = r.g.azAltMotorsStarted ∧
    (setDECStepsPerDegree v r).g.RAStepsPerDegree = r.g.RAStepsPerDegree ∧
    (setDECStepsPerDegree v r).g.DECStepsPerDegree = v :=
  ⟨rfl, rfl, rfl, rfl, rfl, rfl, rfl, rfl, rfl, rfl, rfl, rfl, rfl, rfl, rfl⟩

theorem gotoNextHighlightState_calState (cfg : Config) (env : Env) (dir : Int) (r : Run) :
    (gotoNextHighlightState cfg env dir r).g.calState
      = toByte (adjustWrap r.g.calState dir HIGHLIGHT_FIRST (HIGHLIGHT_LAST cfg)) := by
  unfold gotoNextHighlightState
  simp only []
  split_ifs <;> simp

theorem gotoNextHighlightState_log (cfg : Config) (env : Env) (dir : Int) (r : Run) :
    (gotoNextHighlightState cfg env dir r).log = r.log := by
  unfold gotoNextHighlightState
  simp only []
  split_ifs <;> simp

theorem HIGHLIGHT_LAST_cases (cfg : Config) :
    HIGHLIGHT_LAST cfg = 6 ∨ HIGHLIGHT_LAST cfg = 8 ∨ HIGHLIGHT_LAST cfg = 10 := by
  unfold HIGHLIGHT_LAST
  split_ifs <;> simp

/-- In a highlight state the key dispatch sends DOWN to
`gotoNextHighlightState(1)` and UP to `gotoNextHighlightState(-1)`. -/
theorem keyDispatch_highlight_updown (cfg : Config) (env : Env) (r : Run)
    (h1 : HIGHLIGHT_FIRST ≤ r.g.calState) (h2 : r.g.calState ≤ HIGHLIGHT_LAST cfg) :
    keyDispatch cfg env .btnDOWN r = gotoNextHighlightState cfg env 1 r ∧
    keyDispatch cfg env .btnUP r = gotoNextHighlightState cfg env (-1) r := by
  obtain ⟨az, gy, nh, e, w, t⟩ := cfg
  generalize hcs : r.g.calState = cs at h1 h2
  have h3 : cs ≤ 10 := by
    refine le_trans h2 ?_
    unfold HIGHLIGHT_LAST
    split_ifs <;> decide
  unfold HIGHLIGHT_FIRST at h1
  cases az <;> cases gy <;>
    simp only [HIGHLIGHT_LAST, if_true, if_false, Bool.false_eq_true] at h2 <;>
    interval_cases cs <;>
    simp [keyDispatch, hcs, caseHighlight, caseHighlightPolar, HIGHLIGHT_FIRST, HIGHLIGHT_POLAR,
      HIGHLIGHT_SPEED, HIGHLIGHT_DRIFT, HIGHLIGHT_RA_STEPS, HIGHLIGHT_DEC_STEPS,
      HIGHLIGHT_BACKLASH_STEPS, HIGHLIGHT_AZIMUTH_ADJUSTMENT, HIGHLIGHT_ALTITUDE_ADJUSTMENT,
      HIGHLIGHT_ROLL_LEVEL, HIGHLIGHT_PITCH_LEVEL, POLAR_CALIBRATION_WAIT_CENTER_POLARIS,
      POLAR_CALIBRATION_WAIT_HOME, SPEED_CALIBRATION, DRIFT_CALIBRATION_WAIT,
      DRIFT_CALIBRATION_RUNNING, RA_STEP_CALIBRATION, DEC_STEP_CALIBRATION, BACKLASH_CALIBRATION,
      AZIMUTH_ADJUSTMENT, ALTITUDE_ADJUSTMENT, ROLL_OFFSET_CALIBRATION, PITCH_OFFSET_CALIBRATION]

/-- With UP or DOWN held, `checkProgressiveUpDown` replaces `calDelay` by the
truncation of `max(25, 0.94 * calDelay)`. -/
theorem checkProgressiveUpDown_held_calDelay (b : Key) (hb : b = .btnUP ∨ b = .btnDOWN)
    (v : Int) (r : Run) :
    (checkProgressiveUpDown b v r).2.2.g.calDelay
      = truncToInt (max (25 : ℚ) (94 / 100 * (r.g.calDelay : ℚ))) := by
  rcases hb with h | h <;> subst h <;> simp [checkProgressiveUpDown]

/-- Bounds on one decay step of the progressive delay. -/
theorem progressive_decay_bounds (d : Int) (h1 : 25 ≤ d) :
    25 ≤ truncToInt (max (25 : ℚ) (94 / 100 * (d : ℚ))) ∧
    truncToInt (max (25 : ℚ) (94 / 100 * (d : ℚ))) ≤ d ∧
    (25 < d → truncToInt (max (25 : ℚ) (94 / 100 * (d : ℚ))) < d) ∧
    (d = 25 → truncToInt (max (25 : ℚ) (94 / 100 * (d : ℚ))) = 25) := by
  have hd : (25 : ℚ) ≤ (d : ℚ) := by exact_mod_cast h1
  have hq : (25 : ℚ) ≤ max (25 : ℚ) (94 / 100 * (d : ℚ)) := le_max_left _ _
  have hpos : (0 : ℚ) ≤ max (25 : ℚ) (94 / 100 * (d : ℚ)) := le_trans (by norm_num) hq
  have htr : truncToInt (max (25 : ℚ) (94 / 100 * (d : ℚ)))
      = ⌊max (25 : ℚ) (94 / 100 * (d : ℚ))⌋ := by
    simp [truncToInt, hpos]
  rw [htr]
  refine ⟨?_, ?_, ?_, ?_⟩
  · exact Int.le_floor.mpr (by exact_mod_cast hq)
  · have hle : max (25 : ℚ) (94 / 100 * (d : ℚ)) ≤ (d : ℚ) :=
      max_le hd (by linarith)
    have := Int.floor_le_floor hle
    simpa using this
  · intro hlt
    have hdl : (25 : ℚ) < (d : ℚ) := by exact_mod_cast hlt
    have hlt2 : max (25 : ℚ) (94 / 100 * (d : ℚ)) < (d : ℚ) :=
      max_lt hdl (by linarith)
    exact Int.floor_lt.mpr hlt2
  · intro he
    subst he
    norm_num [Int.floor_eq_iff]

/-- After any number of consecutive held ticks the delay is at least 25 and
has dropped by at least one per tick unless it sits on the floor. -/
theorem progressiveTicks_calDelay (bs : List Key)
    (hbs : ∀ b ∈ bs, b = Key.btnUP ∨ b = Key.btnDOWN) (v : Int) (r : Run)
    (h1 : 25 ≤ r.g.calDelay) :
    25 ≤ (progressiveTicks bs v r).2.g.calDelay ∧
    ((progressiveTicks bs v r).2.g.calDelay ≤ r.g.calDelay - bs.length ∨
      (progressiveTicks bs v r).2.g.calDelay = 25) := by
  induction bs generalizing v r with
  | nil => simp [progressiveTicks, h1]
  | cons b bs ih =>
    have hb : b = Key.btnUP ∨ b = Key.btnDOWN := hbs b (List.mem_cons_self _ _)
    have hstep := checkProgressiveUpDown_held_calDelay b hb v r
    obtain ⟨k1, k2, k3, k4⟩ := progressive_decay_bounds r.g.calDelay h1
    rw [← hstep] at k1 k2 k3 k4
    have ih2 := ih (fun b2 h2 => hbs b2 (List.mem_cons_of_mem _ h2))
      (checkProgressiveUpDown b v r).2.1 (checkProgressiveUpDown b v r).2.2 k1
    simp only [progressiveTicks, List.length_cons, Nat.cast_add, Nat.cast_one]
    refine ⟨ih2.1, ?_⟩
    rcases ih2.2 with h | h
    · by_cases h25 : r.g.calDelay = 25
      · right
        have := k4 h25
        have := ih2.1
        omega
      · left
        have := k3 (by omega)
        omega
    · exact Or.inr h

/-! ## Highlight navigation and the progressive adjuster -/

/-- C1: highlight navigation wraps for every combination of the two
optional-hardware switches (`HIGHLIGHT_LAST` is 6, 8, 8 or 10).  From a
highlight state a DOWN key event is `gotoNextHighlightState(1)` and an UP key
event is `gotoNextHighlightState(-1)`; from `HIGHLIGHT_LAST` DOWN gives
`HIGHLIGHT_FIRST`, from `HIGHLIGHT_FIRST` UP gives `HIGHLIGHT_LAST`, and from
every other highlight state the result is `calState + 1` resp.
`calState - 1`. -/
theorem highlight_navigation_wraps (cfg : Config) (env : Env) (r : Run)
    (h1 : HIGHLIGHT_FIRST ≤ r.g.calState) (h2 : r.g.calState ≤ HIGHLIGHT_LAST cfg) :
    HIGHLIGHT_LAST cfg =
        (if cfg.AZIMUTH_ALTITUDE_MOTORS then (if cfg.GYRO_LEVEL then 10 else 8)
         else (if cfg.GYRO_LEVEL then 8 else 6)) ∧
    keyDispatch cfg env .btnDOWN r = gotoNextHighlightState cfg env 1 r ∧
    keyDispatch cfg env .btnUP r = gotoNextHighlightState cfg env (-1) r ∧
    (gotoNextHighlightState cfg env 1 r).g.calState =
        (if r.g.calState = HIGHLIGHT_LAST cfg then HIGHLIGHT_FIRST else r.g.calState + 1) ∧
    (gotoNextHighlightState cfg env (-1) r).g.calState =
        (if r.g.calState = HIGHLIGHT_FIRST then HIGHLIGHT_LAST cfg else r.g.calState - 1) := by
  refine ⟨rfl, (keyDispatch_highlight_updown cfg env r h1 h2).1,
    (keyDispatch_highlight_updown cfg env r h1 h2).2, ?_, ?_⟩
  · rw [gotoNextHighlightState_calState]
    rcases HIGHLIGHT_LAST_cases cfg with h | h | h <;> rw [h] at h2 ⊢ <;>
      unfold HIGHLIGHT_FIRST at h1 ⊢ <;>
      generalize r.g.calState = cs at h1 h2 <;>
      interval_cases cs <;> decide
  · rw [gotoNextHighlightState_calState]
    rcases HIGHLIGHT_LAST_cases cfg with h | h | h <;> rw [h] at h2 ⊢ <;>
      unfold HIGHLIGHT_FIRST at h1 ⊢ <;>
      generalize r.g.calState = cs at h1 h2 <;>
      interval_cases cs <;> decide

/-- C1 at a concrete input: with both optional devices present, DOWN from
state 10 gives state 1 and UP from state 10 gives state 9. -/
theorem highlight_navigation_wraps_witness :
    (gotoNextHighlightState (sampleConfig true true) idleEnv 1
        ⟨{ initialGlobals 0 0 false with calState := 10 }, []⟩).g.calState = 1 ∧
    (gotoNextHighlightState (sampleConfig true true) idleEnv (-1)
        ⟨{ initialGlobals 0 0 false with calState := 10 }, []⟩).g.calState = 9 := by
  have h := highlight_navigation_wraps (sampleConfig true true) idleEnv
    ⟨{ initialGlobals 0 0 false with calState := 10 }, []⟩ (by decide) (by decide)
  exact ⟨h.2.2.2.1, h.2.2.2.2⟩

/-- C3: progressive delay decay.  For every `calDelay` d with 25 ≤ d (so in
particular for 25 ≤ d ≤ 150, the values the delay takes) one held UP or DOWN
tick of `checkProgressiveUpDown` yields d', the integer truncation of
`max(25, 0.94 * d)`, with 25 ≤ d' ≤ d, d' < d whenever d > 25 and d' = 25 when
d = 25.  Hence from the baseline 150, after any number n of consecutive held
ticks the delay is in [25, 150], is 25 or at most 150 - n, is 25 once n ≥ 125,
a further held tick makes it strictly smaller unless it is 25, where it
stays; and any tick without UP or DOWN resets it to 150. -/
theorem progressive_delay_decay (b : Key) (hb : b = .btnUP ∨ b = .btnDOWN) (v : Int) (r : Run)
    (h1 : 25 ≤ r.g.calDelay) :
    (checkProgressiveUpDown b v r).2.2.g.calDelay
        = truncToInt (max (25 : ℚ) (94 / 100 * (r.g.calDelay : ℚ))) ∧
    25 ≤ (checkProgressiveUpDown b v r).2.2.g.calDelay ∧
    (checkProgressiveUpDown b v r).2.2.g.calDelay ≤ r.g.calDelay ∧
    (25 < r.g.calDelay → (checkProgressiveUpDown b v r).2.2.g.calDelay < r.g.calDelay) ∧
    (r.g.calDelay = 25 → (checkProgressiveUpDown b v r).2.2.g.calDelay = 25) ∧
    (∀ (bs : List Key) (v0 : Int) (r0 : Run),
      (∀ k ∈ bs, k = Key.btnUP ∨ k = Key.btnDOWN) → r0.g.calDelay = 150 →
        25 ≤ (progressiveTicks bs v0 r0).2.g.calDelay ∧
        (progressiveTicks bs v0 r0).2.g.calDelay ≤ 150 ∧
        ((progressiveTicks bs v0 r0).2.g.calDelay = 25 ∨
          (progressiveTicks bs v0 r0).2.g.calDelay ≤ 150 - bs.length) ∧
        (125 ≤ bs.length → (progressiveTicks bs v0 r0).2.g.calDelay = 25) ∧
        (∀ k : Key, k = Key.btnUP ∨ k = Key.btnDOWN →
          (25 < (progressiveTicks bs v0 r0).2.g.calDelay →
            (checkProgressiveUpDown k (progressiveTicks bs v0 r0).1
              (progressiveTicks bs v0 r0).2).2.2.g.calDelay
              < (progressiveTicks bs v0 r0).2.g.calDelay) ∧
          ((progressiveTicks bs v0 r0).2.g.calDelay = 25 →
            (checkProgressiveUpDown k (progressiveTicks bs v0 r0).1
              (progressiveTicks bs v0 r0).2).2.2.g.calDelay = 25))) ∧
    (∀ (k : Key) (v0 : Int) (r0 : Run), k ≠ Key.btnUP → k ≠ Key.btnDOWN →
      (checkProgressiveUpDown k v0 r0).2.2.g.calDelay = 150) := by
  have hstep := checkProgressiveUpDown_held_calDelay b hb v r
  obtain ⟨k1, k2, k3, k4⟩ := progressive_decay_bounds r.g.calDelay h1
  rw [← hstep] at k1 k2 k3 k4
  refine ⟨hstep, k1, k2, k3, k4, ?_, ?_⟩
  · intro bs v0 r0 hbs h150
    obtain ⟨m1, m2⟩ := progressiveTicks_calDelay bs hbs v0 r0 (by omega)
    rw [h150] at m2
    refine ⟨m1, by omega, by omega, by omega, ?_⟩
    intro k hk
    have hs := checkProgressiveUpDown_held_calDelay k hk (progressiveTicks bs v0 r0).1
      (progressiveTicks bs v0 r0).2
    obtain ⟨n1, n2, n3, n4⟩ := progressive_decay_bounds (progressiveTicks bs v0 r0).2.g.calDelay m1
    rw [← hs] at n3 n4
    exact ⟨n3, n4⟩
  · intro k v0 r0 hk1 hk2
    simp [checkProgressiveUpDown, hk1, hk2]

/-- C3 at a concrete input: from the baseline 150 one held UP tick gives 141,
and three held ticks give 124. -/
theorem progressive_delay_decay_witness :
    (checkProgressiveUpDown .btnUP 0 ⟨initialGlobals 0 0 false, []⟩).2.2.g.calDelay = 141 ∧
    (checkProgressiveUpDown .btnUP 0 ⟨initialGlobals 0 0 false, []⟩).2.2.g.calDelay < 150 ∧
    25 ≤ (progressiveTicks [.btnUP, .btnUP, .btnDOWN] 0
      ⟨initialGlobals 0 0 false, []⟩).2.g.calDelay := by
  have h := progressive_delay_decay .btnUP (Or.inl rfl) 0 ⟨initialGlobals 0 0 false, []⟩
    (by decide)
  refine ⟨?_, h.2.2.2.1 (by decide), (h.2.2.2.2.2.1 [.btnUP, .btnUP, .btnDOWN] 0
    ⟨initialGlobals 0 0 false, []⟩ (by decide) rfl).1⟩
  rw [h.1]
  norm_num [truncToInt, initialGlobals, Int.floor_eq_iff]

/-! ## Frame lemmas for `startHardware` -/

@[simp] theorem startHardware_calState (cfg : Config) (r : Run) :
    (startHardware cfg r).g.calState = r.g.calState := by
  unfold startHardware
  simp only []
  split_ifs <;> rfl

@[simp] theorem startHardware_SpeedCalibration (cfg : Config) (r : Run) :
    (startHardware cfg r).g.SpeedCalibration = r.g.SpeedCalibration := by
  unfold startHardware
  simp only []
  split_ifs <;> rfl

@[simp] theorem startHardware_calDelay (cfg : Config) (r : Run) :
    (startHardware cfg r).g.calDelay = r.g.calDelay := by
  unfold startHardware
  simp only []
  split_ifs <;> rfl

@[simp] theorem startHardware_driftSubIndex (cfg : Config) (r : Run) :
    (startHardware cfg r).g.driftSubIndex = r.g.driftSubIndex := by
  unfold startHardware
  simp only []
  split_ifs <;> rfl

@[simp] theorem startHardware_driftDuration (cfg : Config) (r : Run) :
    (startHardware cfg r).g.driftDuration = r.g.driftDuration := by
  unfold startHardware
  simp only []
  split_ifs <;> rfl

@[simp] theorem startHardware_BacklashSteps (cfg : Config) (r : Run) :
    (startHardware cfg r).g.BacklashSteps = r.g.BacklashSteps := by
  unfold startHardware
  simp only []
  split_ifs <;> rfl

@[simp] theorem startHardware_AzimuthMinutes (cfg : Config) (r : Run) :
    (startHardware cfg r).g.AzimuthMinutes = r.g.AzimuthMinutes := by
  unfold startHardware
  simp only []
  split_ifs <;> rfl

@[simp] theorem startHardware_AltitudeMinutes (cfg : Config) (r : Run) :
    (startHardware cfg r).g.AltitudeMinutes = r.g.AltitudeMinutes := by
  unfold startHardware
  simp only []
  split_ifs <;> rfl

@[simp] theorem startHardware_PitchCalibrationAngle (cfg : Config) (r : Run) :
    (startHardware cfg r).g.PitchCalibrationAngle = r.g.PitchCalibrationAngle := by
  unfold startHardware
  simp only []
  split_ifs <;> rfl

@[simp] theorem startHardware_RollCalibrationAngle (cfg : Config) (r : Run) :
    (startHardware cfg r).g.RollCalibrationAngle = r.g.RollCalibrationAngle := by
  unfold startHardware
  simp only []
  split_ifs <;> rfl

@[simp] theorem startHardware_RAStepsPerDegree (cfg : Config) (r : Run) :
    (startHardware cfg r).g.RAStepsPerDegree = r.g.RAStepsPerDegree := by
  unfold startHardware
  simp only []
  split_ifs <;> rfl

@[simp] theorem startHardware_DECStepsPerDegree (cfg : Config) (r : Run) :
    (startHardware cfg r).g.DECStepsPerDegree = r.g.DECStepsPerDegree := by
  unfold startHardware
  simp only []
  split_ifs <;> rfl

/-! ## Speed calibration -/

/-- A tick in `SPEED_CALIBRATION` with UP or DOWN held: no key edge is looked
at, the state stays, and the trim moves by one step when the guard allows. -/
theorem processCalibrationKeys_speed_held (cfg : Config) (env : Env) (r : Run)
    (hs : r.g.calState = SPEED_CALIBRATION)
    (hb : env.currentState = .btnUP ∨ env.currentState = .btnDOWN) :
    (processCalibrationKeys cfg env r).1 = false ∧
    (processCalibrationKeys cfg env r).2.g.calState = SPEED_CALIBRATION ∧
    (processCalibrationKeys cfg env r).2.g.SpeedCalibration =
      (if env.currentState = .btnUP then
        (if r.g.SpeedCalibration < 32760 then r.g.SpeedCalibration + 1 else r.g.SpeedCalibration)
       else
        (if r.g.SpeedCalibration > -32760 then r.g.SpeedCalibration - 1
         else r.g.SpeedCalibration)) := by
  rcases hb with hb | hb
  · simp only [processCalibrationKeys, statePhase, speedCalibrationPhase, startHardware_calState,
      hs, hb, if_true, startHardware_SpeedCalibration]
    split_ifs <;> simp_all
  · simp only [processCalibrationKeys, statePhase, speedCalibrationPhase, startHardware_calState,
      hs, hb, if_true, startHardware_SpeedCalibration]
    split_ifs <;> simp_all

/-- Held ticks in `SPEED_CALIBRATION` keep the state, keep the trim strictly
between -32761 and 32761, and keep an integer trim within [-32760, 32760]. -/
theorem runTicks_speed_held (cfg : Config) (envs : List Env)
    (hheld : ∀ e ∈ envs, e.currentState = Key.btnUP ∨ e.currentState = Key.btnDOWN) (r : Run)
    (hs : r.g.calState = SPEED_CALIBRATION) :
    (runTicks cfg envs r).g.calState = SPEED_CALIBRATION ∧
    (-32761 < r.g.SpeedCalibration ∧ r.g.SpeedCalibration < 32761 →
      -32761 < (runTicks cfg envs r).g.SpeedCalibration ∧
      (runTicks cfg envs r).g.SpeedCalibration < 32761) ∧
    ((∃ k : Int, r.g.SpeedCalibration = k ∧ -32760 ≤ k ∧ k ≤ 32760) →
      ∃ k : Int, (runTicks cfg envs r).g.SpeedCalibration = k ∧ -32760 ≤ k ∧ k ≤ 32760) := by
  induction envs generalizing r with
  | nil => exact ⟨hs, fun h => h, fun h => h⟩
  | cons e es ih =>
    have he := hheld e (List.mem_cons_self _ _)
    obtain ⟨_, t2, t3⟩ := processCalibrationKeys_speed_held cfg e r hs he
    obtain ⟨i1, i2, i3⟩ := ih (fun e2 h2 => hheld e2 (List.mem_cons_of_mem _ h2))
      (processCalibrationKeys cfg e r).2 t2
    simp only [runTicks]
    refine ⟨i1, fun h => i2 ?_, fun h => i3 ?_⟩
    · rw [t3]
      obtain ⟨h1, h2⟩ := h
      split_ifs <;> constructor <;> linarith
    · rw [t3]
      obtain ⟨k, hk, h1, h2⟩ := h
      rw [hk]
      split_ifs with c1 c2 c3
      · have : k < 32760 := by exact_mod_cast c2
        exact ⟨k + 1, by push_cast; ring, by omega, by omega⟩
      · exact ⟨k, rfl, h1, h2⟩
      · have : k > -32760 := by exact_mod_cast c3
        exact ⟨k - 1, by push_cast; ring, by omega, by omega⟩
      · exact ⟨k, rfl, h1, h2⟩

/-- C4 on the code: with stored multiplier 4.2759, the DOWN key event in
`HIGHLIGHT_POLAR` loads the trim as (4.2759 - 1.0) * 10000.0 + 0.5 = 32759.5
and SELECT enters `SPEED_CALIBRATION` with it; this trim lies within
[-32760, 32760].  One tick with UP held passes the guard
`SpeedCalibration < 32760` and gives 32760.5, above 32760. -/
theorem speed_trim_bound_on_code :
    (runTicks (sampleConfig false false)
      [{ keyEnv .btnDOWN with getSpeedCalibration := 42759 / 10000 }, keyEnv .btnSELECT]
      startRun).g.calState = SPEED_CALIBRATION ∧
    (runTicks (sampleConfig false false)
      [{ keyEnv .btnDOWN with getSpeedCalibration := 42759 / 10000 }, keyEnv .btnSELECT]
      startRun).g.SpeedCalibration = 65519 / 2 ∧
    (-32760 : ℚ) ≤ 65519 / 2 ∧ (65519 / 2 : ℚ) ≤ 32760 ∧
    (runTicks (sampleConfig false false)
      [{ keyEnv .btnDOWN with getSpeedCalibration := 42759 / 10000 }, keyEnv .btnSELECT,
        heldEnv .btnUP]
      startRun).g.SpeedCalibration = 65521 / 2 ∧
    ¬ ((65521 / 2 : ℚ) ≤ 32760) := by
  refine ⟨?_, ?_, by norm_num, by norm_num, ?_, by norm_num⟩
  · simp [runTicks, processCalibrationKeys, startHardware, statePhase, keyDispatch,
      caseHighlightPolar, caseHighlight, gotoNextHighlightState, adjustWrap, toByte,
      sampleConfig, keyEnv, idleEnv, startRun, initialGlobals, HIGHLIGHT_FIRST, HIGHLIGHT_POLAR,
      HIGHLIGHT_SPEED, HIGHLIGHT_DRIFT, HIGHLIGHT_RA_STEPS, HIGHLIGHT_DEC_STEPS,
      HIGHLIGHT_BACKLASH_STEPS, HIGHLIGHT_LAST, POLAR_CALIBRATION_WAIT_CENTER_POLARIS,
      POLAR_CALIBRATION_WAIT_HOME, SPEED_CALIBRATION, DRIFT_CALIBRATION_WAIT,
      DRIFT_CALIBRATION_RUNNING, RA_STEP_CALIBRATION, DEC_STEP_CALIBRATION, BACKLASH_CALIBRATION]
  · simp [runTicks, processCalibrationKeys, startHardware, statePhase, keyDispatch,
      caseHighlightPolar, caseHighlight, gotoNextHighlightState, adjustWrap, toByte,
      sampleConfig, keyEnv, idleEnv, startRun, initialGlobals, HIGHLIGHT_FIRST, HIGHLIGHT_POLAR,
      HIGHLIGHT_SPEED, HIGHLIGHT_DRIFT, HIGHLIGHT_RA_STEPS, HIGHLIGHT_DEC_STEPS,
      HIGHLIGHT_BACKLASH_STEPS, HIGHLIGHT_LAST, POLAR_CALIBRATION_WAIT_CENTER_POLARIS,
      POLAR_CALIBRATION_WAIT_HOME, SPEED_CALIBRATION, DRIFT_CALIBRATION_WAIT,
      DRIFT_CALIBRATION_RUNNING, RA_STEP_CALIBRATION, DEC_STEP_CALIBRATION, BACKLASH_CALIBRATION]
    norm_num
  · simp [runTicks, processCalibrationKeys, startHardware, statePhase, keyDispatch,
      caseHighlightPolar, caseHighlight, gotoNextHighlightState, adjustWrap, toByte,
      speedCalibrationPhase, emit, heldEnv,
      sampleConfig, keyEnv, idleEnv, startRun, initialGlobals, HIGHLIGHT_FIRST, HIGHLIGHT_POLAR,
      HIGHLIGHT_SPEED, HIGHLIGHT_DRIFT, HIGHLIGHT_RA_STEPS, HIGHLIGHT_DEC_STEPS,
      HIGHLIGHT_BACKLASH_STEPS, HIGHLIGHT_LAST, POLAR_CALIBRATION_WAIT_CENTER_POLARIS,
      POLAR_CALIBRATION_WAIT_HOME, SPEED_CALIBRATION, DRIFT_CALIBRATION_WAIT,
      DRIFT_CALIBRATION_RUNNING, RA_STEP_CALIBRATION, DEC_STEP_CALIBRATION, BACKLASH_CALIBRATION]
    norm_num

/-- The only effects of `startHardware` are the two start-up calls. -/
theorem startHardware_log_mem (cfg : Config) (r : Run) (c : Cmd)
    (h : c ∈ (startHardware cfg r).log) :
    c ∈ r.log ∨ c = .enableAzAltMotors ∨ c = .gyroStartup := by
  unfold startHardware at h
  simp only [] at h
  split_ifs at h <;>
    (try simp only [setAzAltMotorsStarted_proj, setGyroStarted_proj, emit_log, List.mem_append,
      List.mem_singleton] at h) <;> tauto

theorem gotoNextMenu_log (cfg : Config) (r : Run) :
    (gotoNextMenu cfg r).log = r.log ++ [Cmd.setNextActive]
      ++ (if cfg.AZIMUTH_ALTITUDE_MOTORS then [Cmd.disableAzAltMotors] else [])
      ++ (if cfg.GYRO_LEVEL then [Cmd.gyroShutdown] else []) := by
  unfold gotoNextMenu
  simp only []
  split_ifs <;> simp_all [emit]

theorem gotoNextMenu_calState (cfg : Config) (r : Run) :
    (gotoNextMenu cfg r).g.calState = r.g.calState := by
  unfold gotoNextMenu
  simp only []
  split_ifs <;> rfl

theorem gotoNextMenu_SpeedCalibration (cfg : Config) (r : Run) :
    (gotoNextMenu cfg r).g.SpeedCalibration = r.g.SpeedCalibration := by
  unfold gotoNextMenu
  simp only []
  split_ifs <;> rfl

/-- The log of a held tick in `SPEED_CALIBRATION`. -/
theorem processCalibrationKeys_speed_held_log (cfg : Config) (env : Env) (r : Run)
    (hs : r.g.calState = SPEED_CALIBRATION)
    (hb : env.currentState = .btnUP ∨ env.currentState = .btnDOWN) :
    (processCalibrationKeys cfg env r).2.log =
      (startHardware cfg r).log ++
      (if (processCalibrationKeys cfg env r).2.g.SpeedCalibration = r.g.SpeedCalibration then []
       else [Cmd.setSpeedCalibration
          (1 + (processCalibrationKeys cfg env r).2.g.SpeedCalibration / 10000) false]) ++
      [Cmd.delay r.g.calDelay] := by
  rw [(processCalibrationKeys_speed_held cfg env r hs hb).2.2]
  rcases hb with hb | hb
  · simp only [processCalibrationKeys, statePhase, speedCalibrationPhase, startHardware_calState,
      hs, hb, if_true, startHardware_SpeedCalibration]
    split_ifs <;> simp_all
  · simp only [processCalibrationKeys, statePhase, speedCalibrationPhase, startHardware_calState,
      hs, hb, if_true, startHardware_SpeedCalibration]
    split_ifs <;> simp_all

/-- A tick in `SPEED_CALIBRATION` without UP or DOWN held: the delay is reset
and a pending key edge goes to `case SPEED_CALIBRATION`. -/
theorem processCalibrationKeys_speed_idle (cfg : Config) (env : Env) (r : Run)
    (hs : r.g.calState = SPEED_CALIBRATION)
    (hu : env.currentState ≠ .btnUP) (hd : env.currentState ≠ .btnDOWN) :
    processCalibrationKeys cfg env r =
      match env.keyChanged with
      | some key => (true, caseSpeedCalibration cfg key (setCalDelay 150 (startHardware cfg r)))
      | none => (false, setCalDelay 150 (startHardware cfg r)) := by
  simp only [processCalibrationKeys, statePhase, speedCalibrationPhase, startHardware_calState,
    hs, hu, hd, if_true, if_false]
  cases env.keyChanged with
  | none => rfl
  | some key =>
    simp [keyDispatch, hs, SPEED_CALIBRATION, POLAR_CALIBRATION_WAIT_HOME]

/-- `startHardware` emits no `setSpeedCalibration`. -/
theorem startHardware_no_setSpeedCalibration (cfg : Config) (g : Globals) (v : ℚ) (p : Bool) :
    Cmd.setSpeedCalibration v p ∉ (startHardware cfg ⟨g, []⟩).log := by
  intro h
  rcases startHardware_log_mem cfg ⟨g, []⟩ _ h with h | h | h
  · simp at h
  · cases h
  · cases h

/-- A SELECT key event in `SPEED_CALIBRATION`. -/
theorem tick_speed_select (cfg : Config) (env : Env) (g : Globals)
    (hs : g.calState = SPEED_CALIBRATION) :
    env.currentState ≠ .btnUP → env.currentState ≠ .btnDOWN →
      env.keyChanged = some .btnSELECT →
      tickLog cfg env g = (startHardware cfg ⟨g, []⟩).log ++
        [Cmd.setSpeedCalibration (1 + g.SpeedCalibration / 10000) true,
         Cmd.printMenu "Speed Stored.", Cmd.delay 500] ∧
      (tickGlobals cfg env g).SpeedCalibration = g.SpeedCalibration ∧
      (tickGlobals cfg env g).calState = HIGHLIGHT_SPEED := by
  have hs2 : (⟨g, []⟩ : Run).g.calState = SPEED_CALIBRATION := hs
  intro hu hd hk
  simp only [tickLog, tickGlobals, processCalibrationKeys_speed_idle cfg env _ hs2 hu hd, hk]
  simp [caseSpeedCalibration, setCalState, emit]

/-- A RIGHT key event in `SPEED_CALIBRATION`. -/
theorem tick_speed_right (cfg : Config) (env : Env) (g : Globals)
    (hs : g.calState = SPEED_CALIBRATION) :
    env.currentState ≠ .btnUP → env.currentState ≠ .btnDOWN →
      env.keyChanged = some .btnRIGHT →
      tickLog cfg env g = (startHardware cfg ⟨g, []⟩).log ++
        [Cmd.setSpeedCalibration (1 + g.SpeedCalibration / 10000) true, Cmd.setNextActive]
        ++ (if cfg.AZIMUTH_ALTITUDE_MOTORS then [Cmd.disableAzAltMotors] else [])
        ++ (if cfg.GYRO_LEVEL then [Cmd.gyroShutdown] else []) ∧
      (tickGlobals cfg env g).SpeedCalibration = g.SpeedCalibration ∧
      (tickGlobals cfg env g).calState = HIGHLIGHT_SPEED := by
  have hs2 : (⟨g, []⟩ : Run).g.calState = SPEED_CALIBRATION := hs
  intro hu hd hk
  simp only [tickLog, tickGlobals, processCalibrationKeys_speed_idle cfg env _ hs2 hu hd, hk]
  simp [caseSpeedCalibration, setCalState, gotoNextMenu_log, gotoNextMenu_SpeedCalibration, emit]

theorem runTicks_append (cfg : Config) (a b : List Env) (r : Run) :
    runTicks cfg (a ++ b) r = runTicks cfg b (runTicks cfg a r) := by
  induction a generalizing r with
  | nil => rfl
  | cons e es ih => simp [runTicks, ih]

/-- Held UP ticks in `SPEED_CALIBRATION` add one to the trim per tick as long as
the guard `SpeedCalibration < 32760` passes. -/
theorem runTicks_speed_up (cfg : Config) (envs : List Env)
    (hup : ∀ e ∈ envs, e.currentState = Key.btnUP) (r : Run)
    (hs : r.g.calState = SPEED_CALIBRATION)
    (hroom : r.g.SpeedCalibration + envs.length < 32761) :
    (runTicks cfg envs r).g.calState = SPEED_CALIBRATION ∧
    (runTicks cfg envs r).g.SpeedCalibration = r.g.SpeedCalibration + envs.length := by
  induction envs generalizing r with
  | nil => simp [runTicks, hs]
  | cons e es ih =>
    have he := hup e (List.mem_cons_self _ _)
    obtain ⟨_, t2, t3⟩ := processCalibrationKeys_speed_held cfg e r hs (Or.inl he)
    simp only [List.length_cons, Nat.cast_add, Nat.cast_one] at hroom
    have hpos : (0 : ℚ) ≤ (es.length : ℚ) := Nat.cast_nonneg _
    rw [if_pos he, if_pos (by linarith)] at t3
    obtain ⟨i1, i2⟩ := ih (fun e2 h2 => hup e2 (List.mem_cons_of_mem _ h2))
      (processCalibrationKeys cfg e r).2 t2 (by rw [t3]; linarith)
    simp only [runTicks, List.length_cons, Nat.cast_add, Nat.cast_one]
    refine ⟨i1, ?_⟩
    rw [i2, t3]
    ring

/-- C6 on the code, at stored multiplier 1.0002: DOWN from `HIGHLIGHT_POLAR`
arrives at `HIGHLIGHT_SPEED` and SELECT enters `SPEED_CALIBRATION` with trim
2.5 (not 2); five held UP ticks give trim 7.5 (not 7); the SELECT key event
that follows emits `setSpeedCalibration(1.00075, true)` (not 1.0007) and
returns to `HIGHLIGHT_SPEED`. -/
theorem speed_scenario_on_code :
    (runTicks (sampleConfig false false)
      [{ keyEnv .btnDOWN with getSpeedCalibration := 10002 / 10000 }]
      startRun).g.calState = HIGHLIGHT_SPEED ∧
    (runTicks (sampleConfig false false)
      [{ keyEnv .btnDOWN with getSpeedCalibration := 10002 / 10000 }, keyEnv .btnSELECT]
      startRun).g.calState = SPEED_CALIBRATION ∧
    (runTicks (sampleConfig false false)
      [{ keyEnv .btnDOWN with getSpeedCalibration := 10002 / 10000 }, keyEnv .btnSELECT]
      startRun).g.SpeedCalibration = 5 / 2 ∧
    (runTicks (sampleConfig false false)
      ([{ keyEnv .btnDOWN with getSpeedCalibration := 10002 / 10000 }, keyEnv .btnSELECT] ++
        [heldEnv .btnUP, heldEnv .btnUP, heldEnv .btnUP, heldEnv .btnUP, heldEnv .btnUP])
      startRun).g.SpeedCalibration = 15 / 2 ∧
    tickLog (sampleConfig false false) (keyEnv .btnSELECT)
      (runTicks (sampleConfig false false)
        ([{ keyEnv .btnDOWN with getSpeedCalibration := 10002 / 10000 }, keyEnv .btnSELECT] ++
          [heldEnv .btnUP, heldEnv .btnUP, heldEnv .btnUP, heldEnv .btnUP, heldEnv .btnUP])
        startRun).g
      = [Cmd.setSpeedCalibration (100075 / 100000) true, Cmd.printMenu "Speed Stored.",
         Cmd.delay 500] ∧
    (tickGlobals (sampleConfig false false) (keyEnv .btnSELECT)
      (runTicks (sampleConfig false false)
        ([{ keyEnv .btnDOWN with getSpeedCalibration := 10002 / 10000 }, keyEnv .btnSELECT] ++
          [heldEnv .btnUP, heldEnv .btnUP, heldEnv .btnUP, heldEnv .btnUP, heldEnv .btnUP])
        startRun).g).calState = HIGHLIGHT_SPEED := by
  have h1 : (runTicks (sampleConfig false false)
      [{ keyEnv .btnDOWN with getSpeedCalibration := 10002 / 10000 }]
      startRun).g.calState = HIGHLIGHT_SPEED := by
    simp [runTicks, processCalibrationKeys, startHardware, statePhase, keyDispatch,
      caseHighlightPolar, gotoNextHighlightState, adjustWrap, toByte,
      sampleConfig, keyEnv, idleEnv, startRun, initialGlobals, HIGHLIGHT_FIRST, HIGHLIGHT_POLAR,
      HIGHLIGHT_SPEED, HIGHLIGHT_RA_STEPS, HIGHLIGHT_DEC_STEPS,
      HIGHLIGHT_BACKLASH_STEPS, HIGHLIGHT_LAST, POLAR_CALIBRATION_WAIT_CENTER_POLARIS,
      POLAR_CALIBRATION_WAIT_HOME, SPEED_CALIBRATION, DRIFT_CALIBRATION_RUNNING,
      RA_STEP_CALIBRATION, DEC_STEP_CALIBRATION, BACKLASH_CALIBRATION]
  have h2 : (runTicks (sampleConfig false false)
      [{ keyEnv .btnDOWN with getSpeedCalibration := 10002 / 10000 }, keyEnv .btnSELECT]
      startRun).g.calState = SPEED_CALIBRATION := by
    simp [runTicks, processCalibrationKeys, startHardware, statePhase, keyDispatch,
      caseHighlightPolar, caseHighlight, gotoNextHighlightState, adjustWrap, toByte,
      sampleConfig, keyEnv, idleEnv, startRun, initialGlobals, HIGHLIGHT_FIRST, HIGHLIGHT_POLAR,
      HIGHLIGHT_SPEED, HIGHLIGHT_DRIFT, HIGHLIGHT_RA_STEPS, HIGHLIGHT_DEC_STEPS,
      HIGHLIGHT_BACKLASH_STEPS, HIGHLIGHT_LAST, POLAR_CALIBRATION_WAIT_CENTER_POLARIS,
      POLAR_CALIBRATION_WAIT_HOME, SPEED_CALIBRATION, DRIFT_CALIBRATION_WAIT,
      DRIFT_CALIBRATION_RUNNING, RA_STEP_CALIBRATION, DEC_STEP_CALIBRATION, BACKLASH_CALIBRATION]
  have h3 : (runTicks (sampleConfig false false)
      [{ keyEnv .btnDOWN with getSpeedCalibration := 10002 / 10000 }, keyEnv .btnSELECT]
      startRun).g.SpeedCalibration = 5 / 2 := by
    simp [runTicks, processCalibrationKeys, startHardware, statePhase, keyDispatch,
      caseHighlightPolar, caseHighlight, gotoNextHighlightState, adjustWrap, toByte,
      sampleConfig, keyEnv, idleEnv, startRun, initialGlobals, HIGHLIGHT_FIRST, HIGHLIGHT_POLAR,
      HIGHLIGHT_SPEED, HIGHLIGHT_DRIFT, HIGHLIGHT_RA_STEPS, HIGHLIGHT_DEC_STEPS,
      HIGHLIGHT_BACKLASH_STEPS, HIGHLIGHT_LAST, POLAR_CALIBRATION_WAIT_CENTER_POLARIS,
      POLAR_CALIBRATION_WAIT_HOME, SPEED_CALIBRATION, DRIFT_CALIBRATION_WAIT,
      DRIFT_CALIBRATION_RUNNING, RA_STEP_CALIBRATION, DEC_STEP_CALIBRATION, BACKLASH_CALIBRATION]
    norm_num
  obtain ⟨h4, h5⟩ := runTicks_speed_up (sampleConfig false false)
    [heldEnv .btnUP, heldEnv .btnUP, heldEnv .btnUP, heldEnv .btnUP, heldEnv .btnUP]
    (by simp [heldEnv])
    (runTicks (sampleConfig false false)
      [{ keyEnv .btnDOWN with getSpeedCalibration := 10002 / 10000 }, keyEnv .btnSELECT]
      startRun) h2 (by rw [h3]; norm_num)
  rw [h3] at h5
  rw [← runTicks_append] at h4 h5
  obtain ⟨h6, _, h7⟩ := tick_speed_select (sampleConfig false false) (keyEnv .btnSELECT) _ h4
    (by decide) (by decide) rfl
  refine ⟨h1, h2, h3, ?_, ?_, h7⟩
  · rw [h5]
    norm_num
  · rw [h6, h5]
    norm_num [startHardware, sampleConfig]

/-! ## Drift alignment -/

theorem driftCalibrationRunning_g (cfg : Config) (r : Run) :
    (driftCalibrationRunning cfg r).g = { r.g with calState := HIGHLIGHT_DRIFT } := rfl

theorem driftCalibrationRunning_log (cfg : Config) (r : Run) :
    (driftCalibrationRunning cfg r).log = r.log ++
      [Cmd.setCursor 0 1, Cmd.printMenu "Pause 1.5s ...", Cmd.stopSlewing cfg.TRACKING,
       Cmd.delay 1500,
       Cmd.setCursor 0 1, Cmd.printMenu "Eastward pass...",
       Cmd.runDriftAlignmentPhase cfg.EAST r.g.driftDuration,
       Cmd.setCursor 0 1, Cmd.printMenu "Pause 1.5s ...", Cmd.delay 1500,
       Cmd.setCursor 0 1, Cmd.printMenu "Westward pass...",
       Cmd.runDriftAlignmentPhase cfg.WEST r.g.driftDuration,
       Cmd.setCursor 0 1, Cmd.printMenu "Done. Pause 1.5s", Cmd.delay 1500,
       Cmd.runDriftAlignmentPhase 0 0, Cmd.startSlewing cfg.TRACKING] := by
  simp [driftCalibrationRunning]

theorem gotoNextMenu_driftSubIndex (cfg : Config) (r : Run) :
    (gotoNextMenu cfg r).g.driftSubIndex = r.g.driftSubIndex := by
  unfold gotoNextMenu
  simp only []
  split_ifs <;> rfl

theorem gotoNextHighlightState_driftSubIndex (cfg : Config) (env : Env) (dir : Int) (r : Run) :
    (gotoNextHighlightState cfg env dir r).g.driftSubIndex = r.g.driftSubIndex := by
  unfold gotoNextHighlightState
  simp only []
  split_ifs <;> rfl

theorem checkProgressiveUpDown_driftSubIndex (b : Key) (v : Int) (r : Run) :
    (checkProgressiveUpDown b v r).2.2.g.driftSubIndex = r.g.driftSubIndex := by
  unfold checkProgressiveUpDown
  simp only []
  split_ifs <;> rfl

/-! ## Case analysis of the state phase and of the key dispatch -/

/-- Case analysis of the `switch (calState)`: a property holds of the result
when it holds of the result of every case and of the run itself (no case). -/
theorem keyDispatch_cases (cfg : Config) (env : Env) (key : Key) (r : Run) (P : Run → Prop)
    (h1 : r.g.calState = POLAR_CALIBRATION_WAIT_HOME → P (casePolarWaitHome cfg key r))
    (h2 : r.g.calState = SPEED_CALIBRATION → P (caseSpeedCalibration cfg key r))
    (h3 : r.g.calState = RA_STEP_CALIBRATION → P (caseRAStepCalibration cfg key r))
    (h4 : r.g.calState = DEC_STEP_CALIBRATION → P (caseDECStepCalibration cfg key r))
    (h5 : r.g.calState = BACKLASH_CALIBRATION → P (caseBacklashCalibration cfg key r))
    (h6 : cfg.AZIMUTH_ALTITUDE_MOTORS = true → r.g.calState = AZIMUTH_ADJUSTMENT → P (caseAzimuthAdjustment key r))
    (h7 : cfg.AZIMUTH_ALTITUDE_MOTORS = true → r.g.calState = ALTITUDE_ADJUSTMENT → P (caseAltitudeAdjustment key r))
    (h8 : cfg.GYRO_LEVEL = true → r.g.calState = ROLL_OFFSET_CALIBRATION → P (caseRollOffsetCalibration cfg env key r))
    (h9 : cfg.GYRO_LEVEL = true → r.g.calState = PITCH_OFFSET_CALIBRATION → P (casePitchOffsetCalibration cfg env key r))
    (h10 : r.g.calState = HIGHLIGHT_POLAR → P (caseHighlightPolar cfg env key r))
    (h11 : r.g.calState = POLAR_CALIBRATION_WAIT_CENTER_POLARIS → P (casePolarWaitCenterPolaris cfg env key r))
    (h12 : r.g.calState = HIGHLIGHT_SPEED → P (caseHighlight cfg env SPEED_CALIBRATION HIGHLIGHT_POLAR key r))
    (h13 : r.g.calState = HIGHLIGHT_DRIFT → P (caseHighlight cfg env DRIFT_CALIBRATION_WAIT HIGHLIGHT_POLAR key r))
    (h14 : r.g.calState = DRIFT_CALIBRATION_WAIT → P (caseDriftCalibrationWait key r))
    (h15 : r.g.calState = HIGHLIGHT_RA_STEPS → P (caseHighlight cfg env RA_STEP_CALIBRATION HIGHLIGHT_FIRST key r))
    (h16 : r.g.calState = HIGHLIGHT_DEC_STEPS → P (caseHighlight cfg env DEC_STEP_CALIBRATION HIGHLIGHT_FIRST key r))
    (h17 : r.g.calState = HIGHLIGHT_BACKLASH_STEPS → P (caseHighlight cfg env BACKLASH_CALIBRATION HIGHLIGHT_FIRST key r))
    (h18 : cfg.AZIMUTH_ALTITUDE_MOTORS = true → r.g.calState = HIGHLIGHT_AZIMUTH_ADJUSTMENT → P (caseHighlight cfg env AZIMUTH_ADJUSTMENT HIGHLIGHT_FIRST key r))
    (h19 : cfg.AZIMUTH_ALTITUDE_MOTORS = true → r.g.calState = HIGHLIGHT_ALTITUDE_ADJUSTMENT → P (caseHighlight cfg env ALTITUDE_ADJUSTMENT HIGHLIGHT_FIRST key r))
    (h20 : cfg.GYRO_LEVEL = true → r.g.calState = HIGHLIGHT_ROLL_LEVEL cfg → P (caseHighlight cfg env ROLL_OFFSET_CALIBRATION HIGHLIGHT_FIRST key r))
    (h21 : cfg.GYRO_LEVEL = true → r.g.calState = HIGHLIGHT_PITCH_LEVEL cfg → P (caseHighlight cfg env PITCH_OFFSET_CALIBRATION HIGHLIGHT_FIRST key r))
    (h0 : P (r)) :
    P (keyDispatch cfg env key r) := by
  unfold keyDispatch
  by_cases c1 : r.g.calState = POLAR_CALIBRATION_WAIT_HOME
  · rw [if_pos c1]
    exact h1 c1
  rw [if_neg c1]
  by_cases c2 : r.g.calState = SPEED_CALIBRATION
  · rw [if_pos c2]
    exact h2 c2
  rw [if_neg c2]
  by_cases c3 : r.g.calState = RA_STEP_CALIBRATION
  · rw [if_pos c3]
    exact h3 c3
  rw [if_neg c3]
  by_cases c4 : r.g.calState = DEC_STEP_CALIBRATION
  · rw [if_pos c4]
    exact h4 c4
  rw [if_neg c4]
  by_cases c5 : r.g.calState = BACKLASH_CALIBRATION
  · rw [if_pos c5]
    exact h5 c5
  rw [if_neg c5]
  by_cases c6 : cfg.AZIMUTH_ALTITUDE_MOTORS = true ∧ r.g.calState = AZIMUTH_ADJUSTMENT
  · rw [if_pos c6]
    exact h6 c6.1 c6.2
  rw [if_neg c6]
  by_cases c7 : cfg.AZIMUTH_ALTITUDE_MOTORS = true ∧ r.g.calState = ALTITUDE_ADJUSTMENT
  · rw [if_pos c7]
    exact h7 c7.1 c7.2
  rw [if_neg c7]
  by_cases c8 : cfg.GYRO_LEVEL = true ∧ r.g.calState = ROLL_OFFSET_CALIBRATION
  · rw [if_pos c8]
    exact h8 c8.1 c8.2
  rw [if_neg c8]
  by_cases c9 : cfg.GYRO_LEVEL = true ∧ r.g.calState = PITCH_OFFSET_CALIBRATION
  · rw [if_pos c9]
    exact h9 c9.1 c9.2
  rw [if_neg c9]
  by_cases c10 : r.g.calState = HIGHLIGHT_POLAR
  · rw [if_pos c10]
    exact h10 c10
  rw [if_neg c10]
  by_cases c11 : r.g.calState = POLAR_CALIBRATION_WAIT_CENTER_POLARIS
  · rw [if_pos c11]
    exact h11 c11
  rw [if_neg c11]
  by_cases c12 : r.g.calState = HIGHLIGHT_SPEED
  · rw [if_pos c12]
    exact h12 c12
  rw [if_neg c12]
  by_cases c13 : r.g.calState = HIGHLIGHT_DRIFT
  · rw [if_pos c13]
    exact h13 c13
  rw [if_neg c13]
  by_cases c14 : r.g.calState = DRIFT_CALIBRATION_WAIT
  · rw [if_pos c14]
    exact h14 c14
  rw [if_neg c14]
  by_cases c15 : r.g.calState = HIGHLIGHT_RA_STEPS
  · rw [if_pos c15]
    exact h15 c15
  rw [if_neg c15]
  by_cases c16 : r.g.calState = HIGHLIGHT_DEC_STEPS
  · rw [if_pos c16]
    exact h16 c16
  rw [if_neg c16]
  by_cases c17 : r.g.calState = HIGHLIGHT_BACKLASH_STEPS
  · rw [if_pos c17]
    exact h17 c17
  rw [if_neg c17]
  by_cases c18 : cfg.AZIMUTH_ALTITUDE_MOTORS = true ∧ r.g.calState = HIGHLIGHT_AZIMUTH_ADJUSTMENT
  · rw [if_pos c18]
    exact h18 c18.1 c18.2
  rw [if_neg c18]
  by_cases c19 : cfg.AZIMUTH_ALTITUDE_MOTORS = true ∧ r.g.calState = HIGHLIGHT_ALTITUDE_ADJUSTMENT
  · rw [if_pos c19]
    exact h19 c19.1 c19.2
  rw [if_neg c19]
  by_cases c20 : cfg.GYRO_LEVEL = true ∧ r.g.calState = HIGHLIGHT_ROLL_LEVEL cfg
  · rw [if_pos c20]
    exact h20 c20.1 c20.2
  rw [if_neg c20]
  by_cases c21 : cfg.GYRO_LEVEL = true ∧ r.g.calState = HIGHLIGHT_PITCH_LEVEL cfg
  · rw [if_pos c21]
    exact h21 c21.1 c21.2
  rw [if_neg c21]
  exact h0

/-- Case analysis of the state phase: a property holds of the result when it
holds of the result of every branch and of the untouched run. -/
theorem statePhase_cases (cfg : Config) (env : Env) (r : Run) (P : Bool × Run → Prop)
    (h1 : r.g.calState = SPEED_CALIBRATION → P (speedCalibrationPhase env.currentState r))
    (h2 : cfg.AZIMUTH_ALTITUDE_MOTORS = true → r.g.calState = AZIMUTH_ADJUSTMENT → P (azimuthAdjustmentPhase env r))
    (h3 : cfg.AZIMUTH_ALTITUDE_MOTORS = true → r.g.calState = ALTITUDE_ADJUSTMENT → P (altitudeAdjustmentPhase env r))
    (h4 : r.g.calState = RA_STEP_CALIBRATION → P (raStepCalibrationPhase env r))
    (h5 : r.g.calState = DEC_STEP_CALIBRATION → P (decStepCalibrationPhase env r))
    (h6 : r.g.calState = BACKLASH_CALIBRATION → P (backlashCalibrationPhase env r))
    (h7 : r.g.calState = POLAR_CALIBRATION_WAIT_HOME → P ((true, polarWaitHomePhase env r)))
    (h8 : r.g.calState = POLAR_CALIBRATION_WAIT_CENTER_POLARIS → P ((true, polarWaitCenterPolarisPhase cfg env env.currentState r)))
    (h9 : r.g.calState = DRIFT_CALIBRATION_RUNNING → P ((true, driftCalibrationRunning cfg r)))
    (h0 : P ((true, r))) :
    P (statePhase cfg env r) := by
  unfold statePhase
  simp only []
  by_cases c1 : r.g.calState = SPEED_CALIBRATION
  · rw [if_pos c1]
    exact h1 c1
  rw [if_neg c1]
  by_cases c2 : cfg.AZIMUTH_ALTITUDE_MOTORS = true ∧ r.g.calState = AZIMUTH_ADJUSTMENT
  · rw [if_pos c2]
    exact h2 c2.1 c2.2
  rw [if_neg c2]
  by_cases c3 : cfg.AZIMUTH_ALTITUDE_MOTORS = true ∧ r.g.calState = ALTITUDE_ADJUSTMENT
  · rw [if_pos c3]
    exact h3 c3.1 c3.2
  rw [if_neg c3]
  by_cases c4 : r.g.calState = RA_STEP_CALIBRATION
  · rw [if_pos c4]
    exact h4 c4
  rw [if_neg c4]
  by_cases c5 : r.g.calState = DEC_STEP_CALIBRATION
  · rw [if_pos c5]
    exact h5 c5
  rw [if_neg c5]
  by_cases c6 : r.g.calState = BACKLASH_CALIBRATION
  · rw [if_pos c6]
    exact h6 c6
  rw [if_neg c6]
  by_cases c7 : r.g.calState = POLAR_CALIBRATION_WAIT_HOME
  · rw [if_pos c7]
    exact h7 c7
  rw [if_neg c7]
  by_cases c8 : r.g.calState = POLAR_CALIBRATION_WAIT_CENTER_POLARIS
  · rw [if_pos c8]
    exact h8 c8
  rw [if_neg c8]
  by_cases c9 : r.g.calState = DRIFT_CALIBRATION_RUNNING
  · rw [if_pos c9]
    exact h9 c9
  rw [if_neg c9]
  exact h0

/-- Case analysis of one tick: the key dispatch runs on the result of the
state phase when that phase leaves `checkForKeyChange` true and a key edge is
pending. -/
theorem processCalibrationKeys_cases (cfg : Config) (env : Env) (r : Run)
    (P : Bool × Run → Prop)
    (h1 : ∀ key, (statePhase cfg env (startHardware cfg r)).1 = true →
      env.keyChanged = some key →
      P (true, keyDispatch cfg env key (statePhase cfg env (startHardware cfg r)).2))
    (h2 : P (false, (statePhase cfg env (startHardware cfg r)).2)) :
    P (processCalibrationKeys cfg env r) := by
  unfold processCalibrationKeys
  simp only []
  by_cases c : (statePhase cfg env (startHardware cfg r)).1 = true
  · rw [if_pos c]
    cases hk : env.keyChanged with
    | none => exact h2
    | some key => exact h1 key c hk
  · rw [if_neg c]
    exact h2

/-! ## The drift selector stays in range -/

theorem statePhase_driftSubIndex (cfg : Config) (env : Env) (r : Run) :
    (statePhase cfg env r).2.g.driftSubIndex = r.g.driftSubIndex := by
  apply statePhase_cases cfg env r (fun x => x.2.g.driftSubIndex = r.g.driftSubIndex)
  · intro _
    unfold speedCalibrationPhase
    split_ifs <;> rfl
  · intro _ _
    exact checkProgressiveUpDown_driftSubIndex _ _ _
  · intro _ _
    exact checkProgressiveUpDown_driftSubIndex _ _ _
  · intro _
    exact checkProgressiveUpDown_driftSubIndex _ _ _
  · intro _
    exact checkProgressiveUpDown_driftSubIndex _ _ _
  · intro _
    exact checkProgressiveUpDown_driftSubIndex _ _ _
  · intro _
    show (polarWaitHomePhase env r).g.driftSubIndex = r.g.driftSubIndex
    unfold polarWaitHomePhase
    split_ifs <;> rfl
  · intro _
    show (polarWaitCenterPolarisPhase cfg env env.currentState r).g.driftSubIndex
      = r.g.driftSubIndex
    unfold polarWaitCenterPolarisPhase
    split_ifs <;> rfl
  · intro _
    rfl
  · rfl

theorem casePolarWaitHome_driftSubIndex (cfg : Config) (key : Key) (r : Run) :
    (casePolarWaitHome cfg key r).g.driftSubIndex = r.g.driftSubIndex := by
  unfold casePolarWaitHome
  simp only []
  split_ifs <;>
    simp only [setCalState_proj, setAzimuthMinutes_proj, setAltitudeMinutes_proj,
      setRollCalibrationAngle_proj, setPitchCalibrationAngle_proj, emit_g,
      gotoNextMenu_driftSubIndex, gotoNextHighlightState_driftSubIndex]

theorem caseSpeedCalibration_driftSubIndex (cfg : Config) (key : Key) (r : Run) :
    (caseSpeedCalibration cfg key r).g.driftSubIndex = r.g.driftSubIndex := by
  unfold caseSpeedCalibration
  simp only []
  split_ifs <;>
    simp only [setCalState_proj, setAzimuthMinutes_proj, setAltitudeMinutes_proj,
      setRollCalibrationAngle_proj, setPitchCalibrationAngle_proj, emit_g,
      gotoNextMenu_driftSubIndex, gotoNextHighlightState_driftSubIndex]

theorem caseRAStepCalibration_driftSubIndex (cfg : Config) (key : Key) (r : Run) :
    (caseRAStepCalibration cfg key r).g.driftSubIndex = r.g.driftSubIndex := by
  unfold caseRAStepCalibration
  simp only []
  split_ifs <;>
    simp only [setCalState_proj, setAzimuthMinutes_proj, setAltitudeMinutes_proj,
      setRollCalibrationAngle_proj, setPitchCalibrationAngle_proj, emit_g,
      gotoNextMenu_driftSubIndex, gotoNextHighlightState_driftSubIndex]

theorem caseDECStepCalibration_driftSubIndex (cfg : Config) (key : Key) (r : Run) :
    (caseDECStepCalibration cfg key r).g.driftSubIndex = r.g.driftSubIndex := by
  unfold caseDECStepCalibration
  simp only []
  split_ifs <;>
    simp only [setCalState_proj, setAzimuthMinutes_proj, setAltitudeMinutes_proj,
      setRollCalibrationAngle_proj, setPitchCalibrationAngle_proj, emit_g,
      gotoNextMenu_driftSubIndex, gotoNextHighlightState_driftSubIndex]

theorem caseBacklashCalibration_driftSubIndex (cfg : Config) (key : Key) (r : Run) :
    (caseBacklashCalibration cfg key r).g.driftSubIndex = r.g.driftSubIndex := by
  unfold caseBacklashCalibration
  simp only []
  split_ifs <;>
    simp only [setCalState_proj, setAzimuthMinutes_proj, setAltitudeMinutes_proj,
      setRollCalibrationAngle_proj, setPitchCalibrationAngle_proj, emit_g,
      gotoNextMenu_driftSubIndex, gotoNextHighlightState_driftSubIndex]

theorem caseAzimuthAdjustment_driftSubIndex (key : Key) (r : Run) :
    (caseAzimuthAdjustment key r).g.driftSubIndex = r.g.driftSubIndex := by
  unfold caseAzimuthAdjustment
  simp only []
  split_ifs <;>
    simp only [setCalState_proj, setAzimuthMinutes_proj, setAltitudeMinutes_proj,
      setRollCalibrationAngle_proj, setPitchCalibrationAngle_proj, emit_g,
      gotoNextMenu_driftSubIndex, gotoNextHighlightState_driftSubIndex]

theorem caseAltitudeAdjustment_driftSubIndex (key : Key) (r : Run) :
    (caseAltitudeAdjustment key r).g.driftSubIndex = r.g.driftSubIndex := by
  unfold caseAltitudeAdjustment
  simp only []
  split_ifs <;>
    simp only [setCalState_proj, setAzimuthMinutes_proj, setAltitudeMinutes_proj,
      setRollCalibrationAngle_proj, setPitchCalibrationAngle_proj, emit_g,
      gotoNextMenu_driftSubIndex, gotoNextHighlightState_driftSubIndex]

theorem caseRollOffsetCalibration_driftSubIndex (cfg : Config) (env : Env) (key : Key) (r : Run) :
    (caseRollOffsetCalibration cfg env key r).g.driftSubIndex = r.g.driftSubIndex := by
  unfold caseRollOffsetCalibration
  simp only []
  split_ifs <;>
    simp only [setCalState_proj, setAzimuthMinutes_proj, setAltitudeMinutes_proj,
      setRollCalibrationAngle_proj, setPitchCalibrationAngle_proj, emit_g,
      gotoNextMenu_driftSubIndex, gotoNextHighlightState_driftSubIndex]

theorem casePitchOffsetCalibration_driftSubIndex (cfg : Config) (env : Env) (key : Key) (r : Run) :
    (casePitchOffsetCalibration cfg env key r).g.driftSubIndex = r.g.driftSubIndex := by
  unfold casePitchOffsetCalibration
  simp only []
  split_ifs <;>
    simp only [setCalState_proj, setAzimuthMinutes_proj, setAltitudeMinutes_proj,
      setRollCalibrationAngle_proj, setPitchCalibrationAngle_proj, emit_g,
      gotoNextMenu_driftSubIndex, gotoNextHighlightState_driftSubIndex]

theorem caseHighlightPolar_driftSubIndex (cfg : Config) (env : Env) (key : Key) (r : Run) :
    (caseHighlightPolar cfg env key r).g.driftSubIndex = r.g.driftSubIndex := by
  unfold caseHighlightPolar
  simp only []
  split_ifs <;>
    simp only [setCalState_proj, setAzimuthMinutes_proj, setAltitudeMinutes_proj,
      setRollCalibrationAngle_proj, setPitchCalibrationAngle_proj, emit_g,
      gotoNextMenu_driftSubIndex, gotoNextHighlightState_driftSubIndex]

theorem casePolarWaitCenterPolaris_driftSubIndex (cfg : Config) (env : Env) (key : Key) (r : Run) :
    (casePolarWaitCenterPolaris cfg env key r).g.driftSubIndex = r.g.driftSubIndex := by
  unfold casePolarWaitCenterPolaris
  simp only []
  split_ifs <;>
    simp only [setCalState_proj, setAzimuthMinutes_proj, setAltitudeMinutes_proj,
      setRollCalibrationAngle_proj, setPitchCalibrationAngle_proj, emit_g,
      gotoNextMenu_driftSubIndex, gotoNextHighlightState_driftSubIndex]

theorem caseHighlight_driftSubIndex (cfg : Config) (env : Env) (procedure onRight : Nat) (key : Key) (r : Run) :
    (caseHighlight cfg env procedure onRight key r).g.driftSubIndex = r.g.driftSubIndex := by
  unfold caseHighlight
  simp only []
  split_ifs <;>
    simp only [setCalState_proj, setAzimuthMinutes_proj, setAltitudeMinutes_proj,
      setRollCalibrationAngle_proj, setPitchCalibrationAngle_proj, emit_g,
      gotoNextMenu_driftSubIndex, gotoNextHighlightState_driftSubIndex]

/-- The selector arithmetic of `case DRIFT_CALIBRATION_WAIT` on an index in
[0, 3]. -/
theorem driftSubIndex_wrap (i : Nat) (h : i ≤ 3) :
    toByte (adjustWrap (i : Int) 1 0 3) = (i + 1) % 4 ∧
    toByte (adjustWrap (i : Int) (-1) 0 3) = (i + 3) % 4 := by
  interval_cases i <;> decide

theorem caseDriftCalibrationWait_driftSubIndex_le (key : Key) (r : Run)
    (h : r.g.driftSubIndex ≤ 3) :
    (caseDriftCalibrationWait key r).g.driftSubIndex ≤ 3 := by
  obtain ⟨w1, w2⟩ := driftSubIndex_wrap r.g.driftSubIndex h
  cases key <;> simp [caseDriftCalibrationWait, w1, w2, h] <;> omega

theorem keyDispatch_driftSubIndex_le (cfg : Config) (env : Env) (key : Key) (r : Run)
    (h : r.g.driftSubIndex ≤ 3) :
    (keyDispatch cfg env key r).g.driftSubIndex ≤ 3 := by
  apply keyDispatch_cases cfg env key r (fun x => x.g.driftSubIndex ≤ 3)
  case h14 => exact fun _ => caseDriftCalibrationWait_driftSubIndex_le key r h
  case h0 => exact h
  all_goals
    intros
    simp only [casePolarWaitHome_driftSubIndex, caseSpeedCalibration_driftSubIndex,
      caseRAStepCalibration_driftSubIndex, caseDECStepCalibration_driftSubIndex,
      caseBacklashCalibration_driftSubIndex, caseAzimuthAdjustment_driftSubIndex,
      caseAltitudeAdjustment_driftSubIndex, caseRollOffsetCalibration_driftSubIndex,
      casePitchOffsetCalibration_driftSubIndex, caseHighlightPolar_driftSubIndex,
      casePolarWaitCenterPolaris_driftSubIndex, caseHighlight_driftSubIndex]
    exact h

theorem processCalibrationKeys_driftSubIndex_le (cfg : Config) (env : Env) (r : Run)
    (h : r.g.driftSubIndex ≤ 3) :
    (processCalibrationKeys cfg env r).2.g.driftSubIndex ≤ 3 := by
  have h1 : (statePhase cfg env (startHardware cfg r)).2.g.driftSubIndex ≤ 3 := by
    rw [statePhase_driftSubIndex, startHardware_driftSubIndex]
    exact h
  apply processCalibrationKeys_cases cfg env r (fun x => x.2.g.driftSubIndex ≤ 3)
  · intro key _ _
    exact keyDispatch_driftSubIndex_le cfg env key _ h1
  · exact h1

theorem reachable_driftSubIndex_le (cfg : Config) (g : Globals) (hr : Reachable cfg g) :
    g.driftSubIndex ≤ 3 := by
  induction hr with
  | start raSteps decSteps motorsStarted => simp [initialGlobals]
  | tick env g _ ih => exact processCalibrationKeys_driftSubIndex_le cfg env ⟨g, []⟩ ih

/-! ## Ticks in the drift states -/

theorem statePhase_driftWait (cfg : Config) (env : Env) (r : Run)
    (h : r.g.calState = DRIFT_CALIBRATION_WAIT) :
    statePhase cfg env r = (true, r) := by
  simp [statePhase, h, HIGHLIGHT_FIRST, HIGHLIGHT_POLAR,
    HIGHLIGHT_SPEED, HIGHLIGHT_DRIFT, HIGHLIGHT_RA_STEPS, HIGHLIGHT_DEC_STEPS,
    HIGHLIGHT_BACKLASH_STEPS, HIGHLIGHT_AZIMUTH_ADJUSTMENT, HIGHLIGHT_ALTITUDE_ADJUSTMENT,
    POLAR_CALIBRATION_WAIT_CENTER_POLARIS, POLAR_CALIBRATION_WAIT_HOME, SPEED_CALIBRATION,
    DRIFT_CALIBRATION_WAIT, DRIFT_CALIBRATION_RUNNING, RA_STEP_CALIBRATION, DEC_STEP_CALIBRATION,
    BACKLASH_CALIBRATION, AZIMUTH_ADJUSTMENT, ALTITUDE_ADJUSTMENT, ROLL_OFFSET_CALIBRATION,
    PITCH_OFFSET_CALIBRATION]

theorem keyDispatch_driftWait (cfg : Config) (env : Env) (key : Key) (r : Run)
    (h : r.g.calState = DRIFT_CALIBRATION_WAIT) :
    keyDispatch cfg env key r = caseDriftCalibrationWait key r := by
  simp [keyDispatch, h, HIGHLIGHT_FIRST, HIGHLIGHT_POLAR,
    HIGHLIGHT_SPEED, HIGHLIGHT_DRIFT, HIGHLIGHT_RA_STEPS, HIGHLIGHT_DEC_STEPS,
    HIGHLIGHT_BACKLASH_STEPS, HIGHLIGHT_AZIMUTH_ADJUSTMENT, HIGHLIGHT_ALTITUDE_ADJUSTMENT,
    POLAR_CALIBRATION_WAIT_CENTER_POLARIS, POLAR_CALIBRATION_WAIT_HOME, SPEED_CALIBRATION,
    DRIFT_CALIBRATION_WAIT, DRIFT_CALIBRATION_RUNNING, RA_STEP_CALIBRATION, DEC_STEP_CALIBRATION,
    BACKLASH_CALIBRATION, AZIMUTH_ADJUSTMENT, ALTITUDE_ADJUSTMENT, ROLL_OFFSET_CALIBRATION,
    PITCH_OFFSET_CALIBRATION]

theorem statePhase_driftRunning (cfg : Config) (env : Env) (r : Run)
    (h : r.g.calState = DRIFT_CALIBRATION_RUNNING) :
    statePhase cfg env r = (true, driftCalibrationRunning cfg r) := by
  simp [statePhase, h, HIGHLIGHT_FIRST, HIGHLIGHT_POLAR,
    HIGHLIGHT_SPEED, HIGHLIGHT_DRIFT, HIGHLIGHT_RA_STEPS, HIGHLIGHT_DEC_STEPS,
    HIGHLIGHT_BACKLASH_STEPS, HIGHLIGHT_AZIMUTH_ADJUSTMENT, HIGHLIGHT_ALTITUDE_ADJUSTMENT,
    POLAR_CALIBRATION_WAIT_CENTER_POLARIS, POLAR_CALIBRATION_WAIT_HOME, SPEED_CALIBRATION,
    DRIFT_CALIBRATION_WAIT, DRIFT_CALIBRATION_RUNNING, RA_STEP_CALIBRATION, DEC_STEP_CALIBRATION,
    BACKLASH_CALIBRATION, AZIMUTH_ADJUSTMENT, ALTITUDE_ADJUSTMENT, ROLL_OFFSET_CALIBRATION,
    PITCH_OFFSET_CALIBRATION]

theorem keyDispatch_highlightDrift (cfg : Config) (env : Env) (key : Key) (r : Run)
    (h : r.g.calState = HIGHLIGHT_DRIFT) :
    keyDispatch cfg env key r
      = caseHighlight cfg env DRIFT_CALIBRATION_WAIT HIGHLIGHT_POLAR key r := by
  simp [keyDispatch, h, HIGHLIGHT_FIRST, HIGHLIGHT_POLAR,
    HIGHLIGHT_SPEED, HIGHLIGHT_DRIFT, HIGHLIGHT_RA_STEPS, HIGHLIGHT_DEC_STEPS,
    HIGHLIGHT_BACKLASH_STEPS, HIGHLIGHT_AZIMUTH_ADJUSTMENT, HIGHLIGHT_ALTITUDE_ADJUSTMENT,
    POLAR_CALIBRATION_WAIT_CENTER_POLARIS, POLAR_CALIBRATION_WAIT_HOME, SPEED_CALIBRATION,
    DRIFT_CALIBRATION_WAIT, DRIFT_CALIBRATION_RUNNING, RA_STEP_CALIBRATION, DEC_STEP_CALIBRATION,
    BACKLASH_CALIBRATION, AZIMUTH_ADJUSTMENT, ALTITUDE_ADJUSTMENT, ROLL_OFFSET_CALIBRATION,
    PITCH_OFFSET_CALIBRATION]

/-- A tick in `DRIFT_CALIBRATION_WAIT`: nothing happens unless a key edge is
pending, which goes to `case DRIFT_CALIBRATION_WAIT`. -/
theorem processCalibrationKeys_driftWait (cfg : Config) (env : Env) (r : Run)
    (h : r.g.calState = DRIFT_CALIBRATION_WAIT) :
    processCalibrationKeys cfg env r =
      match env.keyChanged with
      | some key => (true, caseDriftCalibrationWait key (startHardware cfg r))
      | none => (false, startHardware cfg r) := by
  have h2 : (startHardware cfg r).g.calState = DRIFT_CALIBRATION_WAIT := by
    rw [startHardware_calState, h]
  unfold processCalibrationKeys
  simp only [statePhase_driftWait cfg env _ h2, if_true]
  cases env.keyChanged with
  | none => rfl
  | some key => simp only [keyDispatch_driftWait cfg env key _ h2]

/-- A tick in `DRIFT_CALIBRATION_RUNNING`: the run is performed, and a pending
key edge is then dispatched as in `HIGHLIGHT_DRIFT`. -/
theorem processCalibrationKeys_driftRunning (cfg : Config) (env : Env) (r : Run)
    (h : r.g.calState = DRIFT_CALIBRATION_RUNNING) :
    processCalibrationKeys cfg env r =
      match env.keyChanged with
      | some key => (true, caseHighlight cfg env DRIFT_CALIBRATION_WAIT HIGHLIGHT_POLAR key
          (driftCalibrationRunning cfg (startHardware cfg r)))
      | none => (false, driftCalibrationRunning cfg (startHardware cfg r)) := by
  have h2 : (startHardware cfg r).g.calState = DRIFT_CALIBRATION_RUNNING := by
    rw [startHardware_calState, h]
  have h3 : (driftCalibrationRunning cfg (startHardware cfg r)).g.calState = HIGHLIGHT_DRIFT := rfl
  unfold processCalibrationKeys
  simp only [statePhase_driftRunning cfg env _ h2, if_true]
  cases env.keyChanged with
  | none => rfl
  | some key => simp only [keyDispatch_highlightDrift cfg env key _ h3]

theorem driftWaitGlobals_reachable : Reachable (sampleConfig false false) driftWaitGlobals :=
  Reachable.tick _ _ (Reachable.tick _ _ (Reachable.tick _ _ (Reachable.start 0 0 false)))

theorem driftWaitGlobals_calState : driftWaitGlobals.calState = DRIFT_CALIBRATION_WAIT := by
  simp [driftWaitGlobals, tickGlobals, processCalibrationKeys, startHardware, statePhase, keyDispatch,
    caseHighlightPolar, caseHighlight, caseDriftCalibrationWait, gotoNextHighlightState,
    adjustWrap, toByte, sampleConfig, keyEnv, idleEnv, initialGlobals, HIGHLIGHT_FIRST,
    HIGHLIGHT_POLAR, HIGHLIGHT_SPEED, HIGHLIGHT_DRIFT, HIGHLIGHT_RA_STEPS, HIGHLIGHT_DEC_STEPS,
    HIGHLIGHT_BACKLASH_STEPS, HIGHLIGHT_LAST, POLAR_CALIBRATION_WAIT_CENTER_POLARIS,
    POLAR_CALIBRATION_WAIT_HOME, SPEED_CALIBRATION, DRIFT_CALIBRATION_WAIT,
    DRIFT_CALIBRATION_RUNNING, RA_STEP_CALIBRATION, DEC_STEP_CALIBRATION, BACKLASH_CALIBRATION]

theorem driftWaitGlobals_driftSubIndex : driftWaitGlobals.driftSubIndex = 1 := by
  simp [driftWaitGlobals, tickGlobals, processCalibrationKeys, startHardware, statePhase, keyDispatch,
    caseHighlightPolar, caseHighlight, caseDriftCalibrationWait, gotoNextHighlightState,
    adjustWrap, toByte, sampleConfig, keyEnv, idleEnv, initialGlobals, HIGHLIGHT_FIRST,
    HIGHLIGHT_POLAR, HIGHLIGHT_SPEED, HIGHLIGHT_DRIFT, HIGHLIGHT_RA_STEPS, HIGHLIGHT_DEC_STEPS,
    HIGHLIGHT_BACKLASH_STEPS, HIGHLIGHT_LAST, POLAR_CALIBRATION_WAIT_CENTER_POLARIS,
    POLAR_CALIBRATION_WAIT_HOME, SPEED_CALIBRATION, DRIFT_CALIBRATION_WAIT,
    DRIFT_CALIBRATION_RUNNING, RA_STEP_CALIBRATION, DEC_STEP_CALIBRATION, BACKLASH_CALIBRATION]

/-- C7: drift duration selection.  In every reachable state `driftSubIndex` is
in [0, 3], so the lookup in the four-entry duration table and the display
write at `scratchBuffer[driftSubIndex * 4]` (a 20-byte buffer) are in bounds.
In `DRIFT_CALIBRATION_WAIT` a DOWN or LEFT key event maps index i to
(i + 1) mod 4, an UP key event maps i to (i + 3) mod 4, a SELECT key event
sets `driftDuration` to 27, 57, 87, 147 for i = 0, 1, 2, 3 and sets
`calState = DRIFT_CALIBRATION_RUNNING`, and a RIGHT key event sets the index
to 1 and `calState = HIGHLIGHT_DRIFT`. -/
theorem drift_duration_selection (cfg : Config) (env : Env) (g : Globals)
    (hr : Reachable cfg g) :
    g.driftSubIndex ≤ 3 ∧ g.driftSubIndex < duration.length ∧ g.driftSubIndex * 4 < 20 ∧
    (g.calState = DRIFT_CALIBRATION_WAIT →
      (env.keyChanged = some .btnDOWN ∨ env.keyChanged = some .btnLEFT →
        (tickGlobals cfg env g).driftSubIndex = (g.driftSubIndex + 1) % 4 ∧
        (tickGlobals cfg env g).calState = DRIFT_CALIBRATION_WAIT) ∧
      (env.keyChanged = some .btnUP →
        (tickGlobals cfg env g).driftSubIndex = (g.driftSubIndex + 3) % 4 ∧
        (tickGlobals cfg env g).calState = DRIFT_CALIBRATION_WAIT) ∧
      (env.keyChanged = some .btnSELECT →
        (g.driftSubIndex = 0 → (tickGlobals cfg env g).driftDuration = 27) ∧
        (g.driftSubIndex = 1 → (tickGlobals cfg env g).driftDuration = 57) ∧
        (g.driftSubIndex = 2 → (tickGlobals cfg env g).driftDuration = 87) ∧
        (g.driftSubIndex = 3 → (tickGlobals cfg env g).driftDuration = 147) ∧
        (tickGlobals cfg env g).driftSubIndex = g.driftSubIndex ∧
        (tickGlobals cfg env g).calState = DRIFT_CALIBRATION_RUNNING) ∧
      (env.keyChanged = some .btnRIGHT →
        (tickGlobals cfg env g).driftSubIndex = 1 ∧
        (tickGlobals cfg env g).calState = HIGHLIGHT_DRIFT)) := by
  have hle := reachable_driftSubIndex_le cfg g hr
  refine ⟨hle, ?_, by omega, ?_⟩
  · simp only [duration, List.length_cons, List.length_nil]
    omega
  · intro hs
    have hs2 : (⟨g, []⟩ : Run).g.calState = DRIFT_CALIBRATION_WAIT := hs
    obtain ⟨w1, w2⟩ := driftSubIndex_wrap g.driftSubIndex hle
    refine ⟨?_, ?_, ?_, ?_⟩
    · rintro (hk | hk) <;>
        simp [tickGlobals, processCalibrationKeys_driftWait cfg env _ hs2, hk,
          caseDriftCalibrationWait, w1, hs]
    · intro hk
      simp [tickGlobals, processCalibrationKeys_driftWait cfg env _ hs2, hk,
        caseDriftCalibrationWait, w2, hs]
    · intro hk
      simp only [tickGlobals, processCalibrationKeys_driftWait cfg env _ hs2, hk]
      refine ⟨?_, ?_, ?_, ?_, ?_, ?_⟩ <;>
        simp +contextual [caseDriftCalibrationWait, duration, toByte]
    · intro hk
      simp [tickGlobals, processCalibrationKeys_driftWait cfg env _ hs2, hk,
        caseDriftCalibrationWait]

/-- C7 at a concrete input: in the duration selection reached by DOWN, DOWN,
SELECT the index is 1; UP gives index 0 and SELECT then gives duration 27. -/
theorem drift_duration_selection_witness :
    driftWaitGlobals.driftSubIndex = 1 ∧
    (tickGlobals (sampleConfig false false) (keyEnv .btnUP) driftWaitGlobals).driftSubIndex = 0 ∧
    (tickGlobals (sampleConfig false false) (keyEnv .btnSELECT)
      (tickGlobals (sampleConfig false false) (keyEnv .btnUP) driftWaitGlobals)).driftDuration
      = 27 ∧
    (tickGlobals (sampleConfig false false) (keyEnv .btnSELECT)
      (tickGlobals (sampleConfig false false) (keyEnv .btnUP) driftWaitGlobals)).calState
      = DRIFT_CALIBRATION_RUNNING := by
  have hup := ((drift_duration_selection (sampleConfig false false) (keyEnv .btnUP)
    driftWaitGlobals driftWaitGlobals_reachable).2.2.2 driftWaitGlobals_calState).2.1 rfl
  rw [driftWaitGlobals_driftSubIndex] at hup
  have hsel := ((drift_duration_selection (sampleConfig false false) (keyEnv .btnSELECT)
    (tickGlobals (sampleConfig false false) (keyEnv .btnUP) driftWaitGlobals)
    (Reachable.tick _ _ driftWaitGlobals_reachable)).2.2.2 hup.2).2.2.1 rfl
  exact ⟨driftWaitGlobals_driftSubIndex, hup.1, hsel.1 hup.1, hsel.2.2.2.2.2⟩

/-- The log of `startHardware`: at most the two start-up calls are added. -/
theorem startHardware_log (cfg : Config) (r : Run) :
    (startHardware cfg r).log = r.log
      ++ (if cfg.AZIMUTH_ALTITUDE_MOTORS = true ∧ r.g.azAltMotorsStarted = false
          then [Cmd.enableAzAltMotors] else [])
      ++ (if cfg.GYRO_LEVEL = true ∧ r.g.gyroStarted = false then [Cmd.gyroStartup] else []) := by
  unfold startHardware
  cases h1 : cfg.AZIMUTH_ALTITUDE_MOTORS <;> cases h2 : cfg.GYRO_LEVEL <;>
    cases h3 : r.g.azAltMotorsStarted <;> cases h4 : r.g.gyroStarted <;> simp [h3, h4]

/-- C8, as the code has it: for every `driftDuration` d, the state phase of a
tick that starts in `DRIFT_CALIBRATION_RUNNING` emits to the mount, after the
one-time `enableAzAltMotors` call if that is still due, in exactly this order
and with nothing else in between: stop tracking, delay 1500, drift phase
(EAST, d), delay 1500, drift phase (WEST, d), delay 1500, drift phase (0, 0),
start tracking; the delays sum to 4500 ms; the state when the sequence ends is
`HIGHLIGHT_DRIFT`.  With no key edge pending (or one for NONE or LEFT) that is
the state at the end of the tick; a pending key edge is dispatched in the same
tick by `case HIGHLIGHT_DRIFT`, so that SELECT ends the tick in
`DRIFT_CALIBRATION_WAIT`. -/
theorem drift_run_sequence (cfg : Config) (env : Env) (g : Globals)
    (hs : g.calState = DRIFT_CALIBRATION_RUNNING) :
    (statePhase cfg env (startHardware cfg ⟨g, []⟩)).2.log.filter isMountCmd =
      (if cfg.AZIMUTH_ALTITUDE_MOTORS = true ∧ g.azAltMotorsStarted = false
        then [Cmd.enableAzAltMotors] else []) ++
      [Cmd.stopSlewing cfg.TRACKING, Cmd.delay 1500,
       Cmd.runDriftAlignmentPhase cfg.EAST g.driftDuration, Cmd.delay 1500,
       Cmd.runDriftAlignmentPhase cfg.WEST g.driftDuration, Cmd.delay 1500,
       Cmd.runDriftAlignmentPhase 0 0, Cmd.startSlewing cfg.TRACKING] ∧
    ([Cmd.stopSlewing cfg.TRACKING, Cmd.delay 1500,
       Cmd.runDriftAlignmentPhase cfg.EAST g.driftDuration, Cmd.delay 1500,
       Cmd.runDriftAlignmentPhase cfg.WEST g.driftDuration, Cmd.delay 1500,
       Cmd.runDriftAlignmentPhase 0 0, Cmd.startSlewing cfg.TRACKING].map delayMs).sum = 4500 ∧
    (statePhase cfg env (startHardware cfg ⟨g, []⟩)).2.g.calState = HIGHLIGHT_DRIFT ∧
    (env.keyChanged = none ∨ env.keyChanged = some .btnNONE ∨ env.keyChanged = some .btnLEFT →
      (tickLog cfg env g).filter isMountCmd =
        (statePhase cfg env (startHardware cfg ⟨g, []⟩)).2.log.filter isMountCmd ∧
      (tickGlobals cfg env g).calState = HIGHLIGHT_DRIFT) ∧
    (∀ key, env.keyChanged = some key →
      processCalibrationKeys cfg env ⟨g, []⟩ =
        (true, caseHighlight cfg env DRIFT_CALIBRATION_WAIT HIGHLIGHT_POLAR key
          (statePhase cfg env (startHardware cfg ⟨g, []⟩)).2)) ∧
    (env.keyChanged = some .btnSELECT →
      (tickGlobals cfg env g).calState = DRIFT_CALIBRATION_WAIT) := by
  have hs2 : (⟨g, []⟩ : Run).g.calState = DRIFT_CALIBRATION_RUNNING := hs
  have hs3 : (startHardware cfg ⟨g, []⟩).g.calState = DRIFT_CALIBRATION_RUNNING := by
    rw [startHardware_calState]
    exact hs
  have hsp := statePhase_driftRunning cfg env _ hs3
  have htick := processCalibrationKeys_driftRunning cfg env _ hs2
  rw [hsp]
  refine ⟨?_, ?_, rfl, ?_, ?_, ?_⟩
  · simp only [driftCalibrationRunning_log, startHardware_log, startHardware_driftDuration]
    by_cases c1 : cfg.AZIMUTH_ALTITUDE_MOTORS = true ∧ g.azAltMotorsStarted = false <;>
      by_cases c2 : cfg.GYRO_LEVEL = true ∧ g.gyroStarted = false <;>
      simp [c1, c2, isMountCmd]
  · simp [delayMs]
  · rintro (hk | hk | hk)
    · simp only [tickLog, tickGlobals, htick, hk]
      exact ⟨trivial, rfl⟩
    · simp only [tickLog, tickGlobals, htick, hk]
      simp [caseHighlight, driftCalibrationRunning_g]
    · simp only [tickLog, tickGlobals, htick, hk]
      simp [caseHighlight, driftCalibrationRunning_g]
  · intro key hk
    rw [htick, hk]
  · intro hk
    simp only [tickGlobals, htick, hk]
    simp [caseHighlight]

theorem driftRunningGlobals_reachable :
    Reachable (sampleConfig false false) driftRunningGlobals :=
  Reachable.tick _ _ driftWaitGlobals_reachable

theorem driftRunningGlobals_calState :
    driftRunningGlobals.calState = DRIFT_CALIBRATION_RUNNING := by
  have h : (⟨driftWaitGlobals, []⟩ : Run).g.calState = DRIFT_CALIBRATION_WAIT :=
    driftWaitGlobals_calState
  simp [driftRunningGlobals, tickGlobals, processCalibrationKeys_driftWait _ _ _ h, keyEnv,
    caseDriftCalibrationWait]

theorem driftRunningGlobals_driftDuration : driftRunningGlobals.driftDuration = 57 := by
  have h : (⟨driftWaitGlobals, []⟩ : Run).g.calState = DRIFT_CALIBRATION_WAIT :=
    driftWaitGlobals_calState
  simp [driftRunningGlobals, tickGlobals, processCalibrationKeys_driftWait _ _ _ h, keyEnv,
    caseDriftCalibrationWait, driftWaitGlobals_driftSubIndex, duration, toByte]

/-- C8 at a concrete input: the drift run started with the default duration
(57 s), with no key pressed at its end, emits the eight mount calls in order
and ends in `HIGHLIGHT_DRIFT`. -/
theorem drift_run_sequence_witness :
    (tickLog (sampleConfig false false) idleEnv driftRunningGlobals).filter isMountCmd =
      [Cmd.stopSlewing 16, Cmd.delay 1500, Cmd.runDriftAlignmentPhase 2 57, Cmd.delay 1500,
       Cmd.runDriftAlignmentPhase 8 57, Cmd.delay 1500, Cmd.runDriftAlignmentPhase 0 0,
       Cmd.startSlewing 16] ∧
    (tickGlobals (sampleConfig false false) idleEnv driftRunningGlobals).calState
      = HIGHLIGHT_DRIFT := by
  have h := drift_run_sequence (sampleConfig false false) idleEnv driftRunningGlobals
    driftRunningGlobals_calState
  obtain ⟨h1, h2⟩ := h.2.2.2.1 (Or.inl rfl)
  refine ⟨?_, h2⟩
  rw [h1, h.1, driftRunningGlobals_driftDuration]
  simp [sampleConfig]

/-- C8 fails as stated: the state `driftRunningGlobals` is reachable and is
`DRIFT_CALIBRATION_RUNNING`; when SELECT is pressed at the end of the run the
tick ends in `DRIFT_CALIBRATION_WAIT`, not in `HIGHLIGHT_DRIFT`. -/
theorem drift_run_sequence_counterexample :
    Reachable (sampleConfig false false) driftRunningGlobals ∧
    driftRunningGlobals.calState = DRIFT_CALIBRATION_RUNNING ∧
    (tickGlobals (sampleConfig false false) (keyEnv .btnSELECT) driftRunningGlobals).calState
      = DRIFT_CALIBRATION_WAIT ∧
    (tickGlobals (sampleConfig false false) (keyEnv .btnSELECT) driftRunningGlobals).calState
      ≠ HIGHLIGHT_DRIFT := by
  have h : (⟨driftRunningGlobals, []⟩ : Run).g.calState = DRIFT_CALIBRATION_RUNNING :=
    driftRunningGlobals_calState
  have e : (tickGlobals (sampleConfig false false) (keyEnv .btnSELECT)
      driftRunningGlobals).calState = DRIFT_CALIBRATION_WAIT := by
    simp [tickGlobals, processCalibrationKeys_driftRunning _ _ _ h, keyEnv, caseHighlight]
  refine ⟨driftRunningGlobals_reachable, driftRunningGlobals_calState, e, ?_⟩
  rw [e]
  decide

/-! ## Polar alignment -/

theorem statePhase_highlightPolar (cfg : Config) (env : Env) (r : Run)
    (h : r.g.calState = HIGHLIGHT_POLAR) :
    statePhase cfg env r = (true, r) := by
  simp [statePhase, h, HIGHLIGHT_FIRST, HIGHLIGHT_POLAR,
    HIGHLIGHT_SPEED, HIGHLIGHT_DRIFT, HIGHLIGHT_RA_STEPS, HIGHLIGHT_DEC_STEPS,
    HIGHLIGHT_BACKLASH_STEPS, HIGHLIGHT_AZIMUTH_ADJUSTMENT, HIGHLIGHT_ALTITUDE_ADJUSTMENT,
    POLAR_CALIBRATION_WAIT_CENTER_POLARIS, POLAR_CALIBRATION_WAIT_HOME, SPEED_CALIBRATION,
    DRIFT_CALIBRATION_WAIT, DRIFT_CALIBRATION_RUNNING, RA_STEP_CALIBRATION, DEC_STEP_CALIBRATION,
    BACKLASH_CALIBRATION, AZIMUTH_ADJUSTMENT, ALTITUDE_ADJUSTMENT, ROLL_OFFSET_CALIBRATION,
    PITCH_OFFSET_CALIBRATION]

theorem keyDispatch_highlightPolar (cfg : Config) (env : Env) (key : Key) (r : Run)
    (h : r.g.calState = HIGHLIGHT_POLAR) :
    keyDispatch cfg env key r = caseHighlightPolar cfg env key r := by
  simp [keyDispatch, h, HIGHLIGHT_FIRST, HIGHLIGHT_POLAR,
    HIGHLIGHT_SPEED, HIGHLIGHT_DRIFT, HIGHLIGHT_RA_STEPS, HIGHLIGHT_DEC_STEPS,
    HIGHLIGHT_BACKLASH_STEPS, HIGHLIGHT_AZIMUTH_ADJUSTMENT, HIGHLIGHT_ALTITUDE_ADJUSTMENT,
    POLAR_CALIBRATION_WAIT_CENTER_POLARIS, POLAR_CALIBRATION_WAIT_HOME, SPEED_CALIBRATION,
    DRIFT_CALIBRATION_WAIT, DRIFT_CALIBRATION_RUNNING, RA_STEP_CALIBRATION, DEC_STEP_CALIBRATION,
    BACKLASH_CALIBRATION, AZIMUTH_ADJUSTMENT, ALTITUDE_ADJUSTMENT, ROLL_OFFSET_CALIBRATION,
    PITCH_OFFSET_CALIBRATION]

theorem statePhase_polarWaitCenter (cfg : Config) (env : Env) (r : Run)
    (h : r.g.calState = POLAR_CALIBRATION_WAIT_CENTER_POLARIS) :
    statePhase cfg env r = (true, polarWaitCenterPolarisPhase cfg env env.currentState r) := by
  simp [statePhase, h, HIGHLIGHT_FIRST, HIGHLIGHT_POLAR,
    HIGHLIGHT_SPEED, HIGHLIGHT_DRIFT, HIGHLIGHT_RA_STEPS, HIGHLIGHT_DEC_STEPS,
    HIGHLIGHT_BACKLASH_STEPS, HIGHLIGHT_AZIMUTH_ADJUSTMENT, HIGHLIGHT_ALTITUDE_ADJUSTMENT,
    POLAR_CALIBRATION_WAIT_CENTER_POLARIS, POLAR_CALIBRATION_WAIT_HOME, SPEED_CALIBRATION,
    DRIFT_CALIBRATION_WAIT, DRIFT_CALIBRATION_RUNNING, RA_STEP_CALIBRATION, DEC_STEP_CALIBRATION,
    BACKLASH_CALIBRATION, AZIMUTH_ADJUSTMENT, ALTITUDE_ADJUSTMENT, ROLL_OFFSET_CALIBRATION,
    PITCH_OFFSET_CALIBRATION]

theorem keyDispatch_polarWaitCenter (cfg : Config) (env : Env) (key : Key) (r : Run)
    (h : r.g.calState = POLAR_CALIBRATION_WAIT_CENTER_POLARIS) :
    keyDispatch cfg env key r = casePolarWaitCenterPolaris cfg env key r := by
  simp [keyDispatch, h, HIGHLIGHT_FIRST, HIGHLIGHT_POLAR,
    HIGHLIGHT_SPEED, HIGHLIGHT_DRIFT, HIGHLIGHT_RA_STEPS, HIGHLIGHT_DEC_STEPS,
    HIGHLIGHT_BACKLASH_STEPS, HIGHLIGHT_AZIMUTH_ADJUSTMENT, HIGHLIGHT_ALTITUDE_ADJUSTMENT,
    POLAR_CALIBRATION_WAIT_CENTER_POLARIS, POLAR_CALIBRATION_WAIT_HOME, SPEED_CALIBRATION,
    DRIFT_CALIBRATION_WAIT, DRIFT_CALIBRATION_RUNNING, RA_STEP_CALIBRATION, DEC_STEP_CALIBRATION,
    BACKLASH_CALIBRATION, AZIMUTH_ADJUSTMENT, ALTITUDE_ADJUSTMENT, ROLL_OFFSET_CALIBRATION,
    PITCH_OFFSET_CALIBRATION]

theorem polarWaitCenterPolarisPhase_g (cfg : Config) (env : Env) (b : Key) (r : Run) :
    (polarWaitCenterPolarisPhase cfg env b r).g = r.g := by
  unfold polarWaitCenterPolarisPhase
  split_ifs <;> rfl

/-- The jog of the state phase in `POLAR_CALIBRATION_WAIT_CENTER_POLARIS` adds
at most one `setSpeed(ALTITUDE_STEPS, _)` call. -/
theorem polarWaitCenterPolarisPhase_log (cfg : Config) (env : Env) (b : Key) (r : Run) :
    (polarWaitCenterPolarisPhase cfg env b r).log = r.log ∨
    ∃ v : Int, (polarWaitCenterPolarisPhase cfg env b r).log
      = r.log ++ [Cmd.setSpeed Axis.ALTITUDE_STEPS v] := by
  unfold polarWaitCenterPolarisPhase
  split_ifs
  all_goals first
    | exact Or.inl rfl
    | exact Or.inr ⟨_, rfl⟩

/-- A tick in `HIGHLIGHT_POLAR`. -/
theorem processCalibrationKeys_highlightPolar (cfg : Config) (env : Env) (r : Run)
    (h : r.g.calState = HIGHLIGHT_POLAR) :
    processCalibrationKeys cfg env r =
      match env.keyChanged with
      | some key => (true, caseHighlightPolar cfg env key (startHardware cfg r))
      | none => (false, startHardware cfg r) := by
  have h2 : (startHardware cfg r).g.calState = HIGHLIGHT_POLAR := by
    rw [startHardware_calState, h]
  unfold processCalibrationKeys
  simp only [statePhase_highlightPolar cfg env _ h2, if_true]
  cases env.keyChanged with
  | none => rfl
  | some key => simp only [keyDispatch_highlightPolar cfg env key _ h2]

/-- A tick in `POLAR_CALIBRATION_WAIT_CENTER_POLARIS`. -/
theorem processCalibrationKeys_polarWaitCenter (cfg : Config) (env : Env) (r : Run)
    (h : r.g.calState = POLAR_CALIBRATION_WAIT_CENTER_POLARIS) :
    processCalibrationKeys cfg env r =
      match env.keyChanged with
      | some key => (true, casePolarWaitCenterPolaris cfg env key
          (polarWaitCenterPolarisPhase cfg env env.currentState (startHardware cfg r)))
      | none => (false,
          polarWaitCenterPolarisPhase cfg env env.currentState (startHardware cfg r)) := by
  have h2 : (startHardware cfg r).g.calState = POLAR_CALIBRATION_WAIT_CENTER_POLARIS := by
    rw [startHardware_calState, h]
  have h3 : (polarWaitCenterPolarisPhase cfg env env.currentState
      (startHardware cfg r)).g.calState = POLAR_CALIBRATION_WAIT_CENTER_POLARIS := by
    rw [polarWaitCenterPolarisPhase_g, h2]
  unfold processCalibrationKeys
  simp only [statePhase_polarWaitCenter cfg env _ h2, if_true]
  cases env.keyChanged with
  | none => rfl
  | some key => simp only [keyDispatch_polarWaitCenter cfg env key _ h3]

/-- C9: polar slew target.  A SELECT key event in `HIGHLIGHT_POLAR` sets the
target right ascension to (PolarisRAHour, PolarisRAMinute, PolarisRASecond),
sets the target declination to (88 - h, 42, 11) with h = 90 in the northern
hemisphere and -90 otherwise (degrees -2 north, 178 south), then issues
exactly one start-slewing-to-target command, and sets
`calState = POLAR_CALIBRATION_WAIT_CENTER_POLARIS`. -/
theorem polar_slew_target (cfg : Config) (env : Env) (g : Globals)
    (hs : g.calState = HIGHLIGHT_POLAR) (hk : env.keyChanged = some .btnSELECT) :
    tickLog cfg env g = (startHardware cfg ⟨g, []⟩).log ++
      [Cmd.setTargetRA env.PolarisRAHour env.PolarisRAMinute env.PolarisRASecond,
       Cmd.setTargetDEC (88 - (if cfg.NORTHERN_HEMISPHERE then 90 else -90)) 42 11,
       Cmd.startSlewingToTarget] ∧
    (tickLog cfg env g).filter isPointingCmd =
      [Cmd.setTargetRA env.PolarisRAHour env.PolarisRAMinute env.PolarisRASecond,
       Cmd.setTargetDEC (if cfg.NORTHERN_HEMISPHERE then -2 else 178) 42 11,
       Cmd.startSlewingToTarget] ∧
    (tickGlobals cfg env g).calState = POLAR_CALIBRATION_WAIT_CENTER_POLARIS := by
  have hs2 : (⟨g, []⟩ : Run).g.calState = HIGHLIGHT_POLAR := hs
  have hlog : tickLog cfg env g = (startHardware cfg ⟨g, []⟩).log ++
      [Cmd.setTargetRA env.PolarisRAHour env.PolarisRAMinute env.PolarisRASecond,
       Cmd.setTargetDEC (88 - (if cfg.NORTHERN_HEMISPHERE then 90 else -90)) 42 11,
       Cmd.startSlewingToTarget] := by
    simp [tickLog, processCalibrationKeys_highlightPolar cfg env _ hs2, hk, caseHighlightPolar]
  refine ⟨hlog, ?_, ?_⟩
  · rw [hlog, startHardware_log]
    by_cases c1 : cfg.AZIMUTH_ALTITUDE_MOTORS = true ∧ g.azAltMotorsStarted = false <;>
      by_cases c2 : cfg.GYRO_LEVEL = true ∧ g.gyroStarted = false <;>
      cases hn : cfg.NORTHERN_HEMISPHERE <;>
      simp [c1, c2, isPointingCmd]
  · simp [tickGlobals, processCalibrationKeys_highlightPolar cfg env _ hs2, hk,
      caseHighlightPolar]

/-- C9 at a concrete input: at program start, in the northern hemisphere and
with Polaris at 2h 58m 51s, SELECT emits the target (2, 58, 51), (-2, 42, 11)
and one slew command. -/
theorem polar_slew_target_witness :
    tickLog (sampleConfig false false) (keyEnv .btnSELECT) (initialGlobals 0 0 false) =
      [Cmd.setTargetRA 2 58 51, Cmd.setTargetDEC (-2) 42 11, Cmd.startSlewingToTarget] ∧
    (tickGlobals (sampleConfig false false) (keyEnv .btnSELECT)
      (initialGlobals 0 0 false)).calState = POLAR_CALIBRATION_WAIT_CENTER_POLARIS := by
  have h := polar_slew_target (sampleConfig false false) (keyEnv .btnSELECT)
    (initialGlobals 0 0 false) rfl rfl
  refine ⟨?_, h.2.2⟩
  rw [h.1, startHardware_log]
  simp [sampleConfig, keyEnv, idleEnv]

/-- C10: polar sync.  A SELECT key event in
`POLAR_CALIBRATION_WAIT_CENTER_POLARIS` issues exactly one `syncPosition`
command whose right-ascension arguments are the hours, minutes and seconds of
the mount's current right ascension read in that tick and whose declination
arguments are (89 - h, 21, 6) with h = 90 in the northern hemisphere and -90
otherwise (degrees -1 north, 179 south), followed by set-target-to-home and
then start-slewing-to-target, in that order. -/
theorem polar_sync (cfg : Config) (env : Env) (g : Globals)
    (hs : g.calState = POLAR_CALIBRATION_WAIT_CENTER_POLARIS)
    (hk : env.keyChanged = some .btnSELECT) :
    tickLog cfg env g =
      (polarWaitCenterPolarisPhase cfg env env.currentState (startHardware cfg ⟨g, []⟩)).log ++
      [Cmd.printMenu "Aligned, homing", Cmd.delay 750,
       Cmd.syncPosition env.currentRAHours env.currentRAMinutes env.currentRASeconds
         (89 - (if cfg.NORTHERN_HEMISPHERE then 90 else -90)) 21 6,
       Cmd.setTargetToHome, Cmd.startSlewingToTarget, Cmd.setNextActive]
      ++ (if cfg.AZIMUTH_ALTITUDE_MOTORS then [Cmd.disableAzAltMotors] else [])
      ++ (if cfg.GYRO_LEVEL then [Cmd.gyroShutdown] else []) ∧
    (tickLog cfg env g).filter isPointingCmd =
      [Cmd.syncPosition env.currentRAHours env.currentRAMinutes env.currentRASeconds
         (if cfg.NORTHERN_HEMISPHERE then -1 else 179) 21 6,
       Cmd.setTargetToHome, Cmd.startSlewingToTarget] := by
  have hs2 : (⟨g, []⟩ : Run).g.calState = POLAR_CALIBRATION_WAIT_CENTER_POLARIS := hs
  have hlog : tickLog cfg env g =
      (polarWaitCenterPolarisPhase cfg env env.currentState (startHardware cfg ⟨g, []⟩)).log ++
      [Cmd.printMenu "Aligned, homing", Cmd.delay 750,
       Cmd.syncPosition env.currentRAHours env.currentRAMinutes env.currentRASeconds
         (89 - (if cfg.NORTHERN_HEMISPHERE then 90 else -90)) 21 6,
       Cmd.setTargetToHome, Cmd.startSlewingToTarget, Cmd.setNextActive]
      ++ (if cfg.AZIMUTH_ALTITUDE_MOTORS then [Cmd.disableAzAltMotors] else [])
      ++ (if cfg.GYRO_LEVEL then [Cmd.gyroShutdown] else []) := by
    simp [tickLog, processCalibrationKeys_polarWaitCenter cfg env _ hs2, hk,
      casePolarWaitCenterPolaris, gotoNextMenu_log]
  refine ⟨hlog, ?_⟩
  rw [hlog]
  have hjog := polarWaitCenterPolarisPhase_log cfg env env.currentState
    (startHardware cfg ⟨g, []⟩)
  have hpre : (polarWaitCenterPolarisPhase cfg env env.currentState
      (startHardware cfg ⟨g, []⟩)).log.filter isPointingCmd = [] := by
    rcases hjog with e | ⟨v, e⟩ <;> rw [e, startHardware_log] <;>
      by_cases c1 : cfg.AZIMUTH_ALTITUDE_MOTORS = true ∧ g.azAltMotorsStarted = false <;>
      by_cases c2 : cfg.GYRO_LEVEL = true ∧ g.gyroStarted = false <;>
      simp [c1, c2, isPointingCmd]
  simp only [List.filter_append, hpre, List.nil_append]
  cases hn : cfg.NORTHERN_HEMISPHERE <;> cases ha : cfg.AZIMUTH_ALTITUDE_MOTORS <;>
    cases hg : cfg.GYRO_LEVEL <;> simp [isPointingCmd]

/-- C10 at a concrete input: with the mount at right ascension 2h 58m 51s in
the northern hemisphere, SELECT syncs to (2, 58, 51), (-1, 21, 6), then sets
the target to home and starts the slew. -/
theorem polar_sync_witness :
    (tickLog (sampleConfig false false)
      { keyEnv .btnSELECT with currentRAHours := 2, currentRAMinutes := 58,
                               currentRASeconds := 51 }
      { initialGlobals 0 0 false with calState := POLAR_CALIBRATION_WAIT_CENTER_POLARIS }
      ).filter isPointingCmd =
      [Cmd.syncPosition 2 58 51 (-1) 21 6, Cmd.setTargetToHome, Cmd.startSlewingToTarget] := by
  have h := polar_sync (sampleConfig false false)
    { keyEnv .btnSELECT with currentRAHours := 2, currentRAMinutes := 58,
                             currentRASeconds := 51 }
    { initialGlobals 0 0 false with calState := POLAR_CALIBRATION_WAIT_CENTER_POLARIS }
    rfl rfl
  rw [h.2]
  simp [sampleConfig]

/-! ## The end of the polar alignment -/

/-- A tick that starts in `POLAR_CALIBRATION_WAIT_CENTER_POLARIS` and consumes
SELECT ends in `HIGHLIGHT_POLAR` and has called `lcdMenu.setNextActive()`. -/
theorem tick_polarWaitCenter_select (cfg : Config) (env : Env) (g : Globals)
    (hs : g.calState = POLAR_CALIBRATION_WAIT_CENTER_POLARIS)
    (hk : env.keyChanged = some .btnSELECT) :
    (tickGlobals cfg env g).calState = HIGHLIGHT_POLAR ∧
    Cmd.setNextActive ∈ tickLog cfg env g := by
  have hs2 : (⟨g, []⟩ : Run).g.calState = POLAR_CALIBRATION_WAIT_CENTER_POLARIS := hs
  constructor
  · simp [tickGlobals, processCalibrationKeys_polarWaitCenter cfg env _ hs2, hk,
      casePolarWaitCenterPolaris]
  · simp [tickLog, processCalibrationKeys_polarWaitCenter cfg env _ hs2, hk,
      casePolarWaitCenterPolaris, gotoNextMenu_log]

theorem polarWaitCenterGlobals_reachable :
    Reachable (sampleConfig false false) polarWaitCenterGlobals :=
  Reachable.tick _ _ (Reachable.start 0 0 false)

theorem polarWaitCenterGlobals_calState :
    polarWaitCenterGlobals.calState = POLAR_CALIBRATION_WAIT_CENTER_POLARIS := by
  have h : (⟨initialGlobals 0 0 false, []⟩ : Run).g.calState = HIGHLIGHT_POLAR := rfl
  simp [polarWaitCenterGlobals, tickGlobals, processCalibrationKeys_highlightPolar _ _ _ h,
    keyEnv, caseHighlightPolar]

/-- C11 on the code: the state reached from program start by SELECT is
`POLAR_CALIBRATION_WAIT_CENTER_POLARIS`; the tick that consumes the next
SELECT ends in `HIGHLIGHT_POLAR`, not in `POLAR_CALIBRATION_WAIT_HOME`, and
advances the top-level menu (`setNextActive`). -/
theorem polar_progression_on_code :
    Reachable (sampleConfig false false) polarWaitCenterGlobals ∧
    polarWaitCenterGlobals.calState = POLAR_CALIBRATION_WAIT_CENTER_POLARIS ∧
    (tickGlobals (sampleConfig false false) (keyEnv .btnSELECT)
      polarWaitCenterGlobals).calState = HIGHLIGHT_POLAR ∧
    (tickGlobals (sampleConfig false false) (keyEnv .btnSELECT)
      polarWaitCenterGlobals).calState ≠ POLAR_CALIBRATION_WAIT_HOME ∧
    Cmd.setNextActive ∈
      tickLog (sampleConfig false false) (keyEnv .btnSELECT) polarWaitCenterGlobals := by
  obtain ⟨h1, h2⟩ := tick_polarWaitCenter_select (sampleConfig false false)
    (keyEnv .btnSELECT) polarWaitCenterGlobals polarWaitCenterGlobals_calState rfl
  refine ⟨polarWaitCenterGlobals_reachable, polarWaitCenterGlobals_calState, h1, ?_, h2⟩
  rw [h1]
  decide

/-! ## The azimuth and altitude minutes: what leaves them alone -/

theorem gotoNextMenu_azAlt (cfg : Config) (r : Run) :
    (gotoNextMenu cfg r).g.AzimuthMinutes = r.g.AzimuthMinutes ∧
    (gotoNextMenu cfg r).g.AltitudeMinutes = r.g.AltitudeMinutes := by
  unfold gotoNextMenu
  (try simp only [])
  split_ifs <;> exact ⟨rfl, rfl⟩

theorem gotoNextHighlightState_azAlt (cfg : Config) (env : Env) (dir : Int) (r : Run) :
    (gotoNextHighlightState cfg env dir r).g.AzimuthMinutes = r.g.AzimuthMinutes ∧
    (gotoNextHighlightState cfg env dir r).g.AltitudeMinutes = r.g.AltitudeMinutes := by
  unfold gotoNextHighlightState
  (try simp only [])
  split_ifs <;> exact ⟨rfl, rfl⟩

theorem checkProgressiveUpDown_azAlt (b : Key) (v : Int) (r : Run) :
    (checkProgressiveUpDown b v r).2.2.g.AzimuthMinutes = r.g.AzimuthMinutes ∧
    (checkProgressiveUpDown b v r).2.2.g.AltitudeMinutes = r.g.AltitudeMinutes := by
  unfold checkProgressiveUpDown
  (try simp only [])
  split_ifs <;> exact ⟨rfl, rfl⟩

theorem speedCalibrationPhase_azAlt (b : Key) (r : Run) :
    (speedCalibrationPhase b r).2.g.AzimuthMinutes = r.g.AzimuthMinutes ∧
    (speedCalibrationPhase b r).2.g.AltitudeMinutes = r.g.AltitudeMinutes := by
  unfold speedCalibrationPhase
  (try simp only [])
  split_ifs <;> exact ⟨rfl, rfl⟩

theorem raStepCalibrationPhase_azAlt (env : Env) (r : Run) :
    (raStepCalibrationPhase env r).2.g.AzimuthMinutes = r.g.AzimuthMinutes ∧
    (raStepCalibrationPhase env r).2.g.AltitudeMinutes = r.g.AltitudeMinutes := by
  simp [raStepCalibrationPhase, checkProgressiveUpDown_azAlt]

theorem decStepCalibrationPhase_azAlt (env : Env) (r : Run) :
    (decStepCalibrationPhase env r).2.g.AzimuthMinutes = r.g.AzimuthMinutes ∧
    (decStepCalibrationPhase env r).2.g.AltitudeMinutes = r.g.AltitudeMinutes := by
  simp [decStepCalibrationPhase, checkProgressiveUpDown_azAlt]

theorem backlashCalibrationPhase_azAlt (env : Env) (r : Run) :
    (backlashCalibrationPhase env r).2.g.AzimuthMinutes = r.g.AzimuthMinutes ∧
    (backlashCalibrationPhase env r).2.g.AltitudeMinutes = r.g.AltitudeMinutes := by
  simp [backlashCalibrationPhase, checkProgressiveUpDown_azAlt]

theorem polarWaitHomePhase_azAlt (env : Env) (r : Run) :
    (polarWaitHomePhase env r).g.AzimuthMinutes = r.g.AzimuthMinutes ∧
    (polarWaitHomePhase env r).g.AltitudeMinutes = r.g.AltitudeMinutes := by
  unfold polarWaitHomePhase
  (try simp only [])
  split_ifs <;> exact ⟨rfl, rfl⟩

theorem polarWaitCenterPolarisPhase_azAlt (cfg : Config) (env : Env) (b : Key) (r : Run) :
    (polarWaitCenterPolarisPhase cfg env b r).g.AzimuthMinutes = r.g.AzimuthMinutes ∧
    (polarWaitCenterPolarisPhase cfg env b r).g.AltitudeMinutes = r.g.AltitudeMinutes := by
  unfold polarWaitCenterPolarisPhase
  split_ifs <;> exact ⟨rfl, rfl⟩

theorem driftCalibrationRunning_azAlt (cfg : Config) (r : Run) :
    (driftCalibrationRunning cfg r).g.AzimuthMinutes = r.g.AzimuthMinutes ∧
    (driftCalibrationRunning cfg r).g.AltitudeMinutes = r.g.AltitudeMinutes := by
  exact ⟨rfl, rfl⟩

theorem casePolarWaitHome_azAlt (cfg : Config) (key : Key) (r : Run) :
    (casePolarWaitHome cfg key r).g.AzimuthMinutes = r.g.AzimuthMinutes ∧
    (casePolarWaitHome cfg key r).g.AltitudeMinutes = r.g.AltitudeMinutes := by
  unfold casePolarWaitHome
  (try simp only [])
  split_ifs <;>
    first
    | exact ⟨rfl, rfl⟩
    | simp [gotoNextMenu_azAlt, gotoNextHighlightState_azAlt]

theorem caseSpeedCalibration_azAlt (cfg : Config) (key : Key) (r : Run) :
    (caseSpeedCalibration cfg key r).g.AzimuthMinutes = r.g.AzimuthMinutes ∧
    (caseSpeedCalibration cfg key r).g.AltitudeMinutes = r.g.AltitudeMinutes := by
  unfold caseSpeedCalibration
  (try simp only [])
  split_ifs <;>
    first
    | exact ⟨rfl, rfl⟩
    | simp [gotoNextMenu_azAlt, gotoNextHighlightState_azAlt]

theorem caseRAStepCalibration_azAlt (cfg : Config) (key : Key) (r : Run) :
    (caseRAStepCalibration cfg key r).g.AzimuthMinutes = r.g.AzimuthMinutes ∧
    (caseRAStepCalibration cfg key r).g.AltitudeMinutes = r.g.AltitudeMinutes := by
  unfold caseRAStepCalibration
  (try simp only [])
  split_ifs <;>
    first
    | exact ⟨rfl, rfl⟩
    | simp [gotoNextMenu_azAlt, gotoNextHighlightState_azAlt]

theorem caseDECStepCalibration_azAlt (cfg : Config) (key : Key) (r : Run) :
    (caseDECStepCalibration cfg key r).g.AzimuthMinutes = r.g.AzimuthMinutes ∧
    (caseDECStepCalibration cfg key r).g.AltitudeMinutes = r.g.AltitudeMinutes := by
  unfold caseDECStepCalibration
  (try simp only [])
  split_ifs <;>
    first
    | exact ⟨rfl, rfl⟩
    | simp [gotoNextMenu_azAlt, gotoNextHighlightState_azAlt]

theorem caseBacklashCalibration_azAlt (cfg : Config) (key : Key) (r : Run) :
    (caseBacklashCalibration cfg key r).g.AzimuthMinutes = r.g.AzimuthMinutes ∧
    (caseBacklashCalibration cfg key r).g.AltitudeMinutes = r.g.AltitudeMinutes := by
  unfold caseBacklashCalibration
  (try simp only [])
  split_ifs <;>
    first
    | exact ⟨rfl, rfl⟩
    | simp [gotoNextMenu_azAlt, gotoNextHighlightState_azAlt]

theorem caseRollOffsetCalibration_azAlt (cfg : Config) (env : Env) (key : Key) (r : Run) :
    (caseRollOffsetCalibration cfg env key r).g.AzimuthMinutes = r.g.AzimuthMinutes ∧
    (caseRollOffsetCalibration cfg env key r).g.AltitudeMinutes = r.g.AltitudeMinutes := by
  unfold caseRollOffsetCalibration
  (try simp only [])
  split_ifs <;>
    first
    | exact ⟨rfl, rfl⟩
    | simp [gotoNextMenu_azAlt, gotoNextHighlightState_azAlt]

theorem casePitchOffsetCalibration_azAlt (cfg : Config) (env : Env) (key : Key) (r : Run) :
    (casePitchOffsetCalibration cfg env key r).g.AzimuthMinutes = r.g.AzimuthMinutes ∧
    (casePitchOffsetCalibration cfg env key r).g.AltitudeMinutes = r.g.AltitudeMinutes := by
  unfold casePitchOffsetCalibration
  (try simp only [])
  split_ifs <;>
    first
    | exact ⟨rfl, rfl⟩
    | simp [gotoNextMenu_azAlt, gotoNextHighlightState_azAlt]

theorem caseHighlightPolar_azAlt (cfg : Config) (env : Env) (key : Key) (r : Run) :
    (caseHighlightPolar cfg env key r).g.AzimuthMinutes = r.g.AzimuthMinutes ∧
    (caseHighlightPolar cfg env key r).g.AltitudeMinutes = r.g.AltitudeMinutes := by
  unfold caseHighlightPolar
  (try simp only [])
  split_ifs <;>
    first
    | exact ⟨rfl, rfl⟩
    | simp [gotoNextMenu_azAlt, gotoNextHighlightState_azAlt]

theorem casePolarWaitCenterPolaris_azAlt (cfg : Config) (env : Env) (key : Key) (r : Run) :
    (casePolarWaitCenterPolaris cfg env key r).g.AzimuthMinutes = r.g.AzimuthMinutes ∧
    (casePolarWaitCenterPolaris cfg env key r).g.AltitudeMinutes = r.g.AltitudeMinutes := by
  unfold casePolarWaitCenterPolaris
  (try simp only [])
  split_ifs <;>
    first
    | exact ⟨rfl, rfl⟩
    | simp [gotoNextMenu_azAlt, gotoNextHighlightState_azAlt]

theorem caseHighlight_azAlt (cfg : Config) (env : Env) (procedure onRight : Nat) (key : Key) (r : Run) :
    (caseHighlight cfg env procedure onRight key r).g.AzimuthMinutes = r.g.AzimuthMinutes ∧
    (caseHighlight cfg env procedure onRight key r).g.AltitudeMinutes = r.g.AltitudeMinutes := by
  unfold caseHighlight
  (try simp only [])
  split_ifs <;>
    first
    | exact ⟨rfl, rfl⟩
    | simp [gotoNextMenu_azAlt, gotoNextHighlightState_azAlt]

theorem caseDriftCalibrationWait_azAlt (key : Key) (r : Run) :
    (caseDriftCalibrationWait key r).g.AzimuthMinutes = r.g.AzimuthMinutes ∧
    (caseDriftCalibrationWait key r).g.AltitudeMinutes = r.g.AltitudeMinutes := by
  unfold caseDriftCalibrationWait
  (try simp only [])
  split_ifs <;> exact ⟨rfl, rfl⟩

/-! ## The azimuth and altitude minutes stay within one arc hour -/

theorem clamp_range (v lo hi : Int) (h : lo ≤ hi) :
    lo ≤ clamp v lo hi ∧ clamp v lo hi ≤ hi := by
  unfold clamp
  split_ifs <;> omega

theorem clamp_of_range (v lo hi : Int) (h1 : lo ≤ v) (h2 : v ≤ hi) : clamp v lo hi = v := by
  unfold clamp
  split_ifs <;> omega

theorem azAltInRange_of_eq (g g2 : Globals) (h : azAltInRange g)
    (e : g2.AzimuthMinutes = g.AzimuthMinutes ∧ g2.AltitudeMinutes = g.AltitudeMinutes) :
    azAltInRange g2 := by
  unfold azAltInRange at h ⊢
  rw [e.1, e.2]
  exact h

theorem statePhase_azAltInRange (cfg : Config) (env : Env) (r : Run)
    (h : azAltInRange r.g) : azAltInRange (statePhase cfg env r).2.g := by
  apply statePhase_cases cfg env r (fun x => azAltInRange x.2.g)
  · exact fun _ => azAltInRange_of_eq _ _ h (speedCalibrationPhase_azAlt _ r)
  · intro _ _
    have e := checkProgressiveUpDown_azAlt env.currentState r.g.AzimuthMinutes r
    have c := clamp_range (checkProgressiveUpDown env.currentState r.g.AzimuthMinutes r).2.1
      (-60) 60 (by decide)
    unfold azAltInRange at h ⊢
    simp only [azimuthAdjustmentPhase, setAzimuthMinutes_proj, e.2]
    exact ⟨c.1, c.2, h.2.2.1, h.2.2.2⟩
  · intro _ _
    have e := checkProgressiveUpDown_azAlt env.currentState r.g.AltitudeMinutes r
    have c := clamp_range (checkProgressiveUpDown env.currentState r.g.AltitudeMinutes r).2.1
      (-60) 60 (by decide)
    unfold azAltInRange at h ⊢
    simp only [altitudeAdjustmentPhase, setAltitudeMinutes_proj, e.1]
    exact ⟨h.1, h.2.1, c.1, c.2⟩
  · exact fun _ => azAltInRange_of_eq _ _ h (raStepCalibrationPhase_azAlt env r)
  · exact fun _ => azAltInRange_of_eq _ _ h (decStepCalibrationPhase_azAlt env r)
  · exact fun _ => azAltInRange_of_eq _ _ h (backlashCalibrationPhase_azAlt env r)
  · exact fun _ => azAltInRange_of_eq _ _ h (polarWaitHomePhase_azAlt env r)
  · exact fun _ => azAltInRange_of_eq _ _ h (polarWaitCenterPolarisPhase_azAlt cfg env _ r)
  · exact fun _ => azAltInRange_of_eq _ _ h (driftCalibrationRunning_azAlt cfg r)
  · exact h

theorem caseAzimuthAdjustment_azAltInRange (key : Key) (r : Run) (h : azAltInRange r.g) :
    azAltInRange (caseAzimuthAdjustment key r).g := by
  unfold azAltInRange at h ⊢
  unfold caseAzimuthAdjustment
  simp only []
  split_ifs <;> (try simp) <;> omega

theorem caseAltitudeAdjustment_azAltInRange (key : Key) (r : Run) (h : azAltInRange r.g) :
    azAltInRange (caseAltitudeAdjustment key r).g := by
  unfold azAltInRange at h ⊢
  unfold caseAltitudeAdjustment
  simp only []
  split_ifs <;> (try simp) <;> omega

theorem keyDispatch_azAltInRange (cfg : Config) (env : Env) (key : Key) (r : Run)
    (h : azAltInRange r.g) : azAltInRange (keyDispatch cfg env key r).g := by
  apply keyDispatch_cases cfg env key r (fun x => azAltInRange x.g)
  · exact fun _ => azAltInRange_of_eq _ _ h (casePolarWaitHome_azAlt cfg key r)
  · exact fun _ => azAltInRange_of_eq _ _ h (caseSpeedCalibration_azAlt cfg key r)
  · exact fun _ => azAltInRange_of_eq _ _ h (caseRAStepCalibration_azAlt cfg key r)
  · exact fun _ => azAltInRange_of_eq _ _ h (caseDECStepCalibration_azAlt cfg key r)
  · exact fun _ => azAltInRange_of_eq _ _ h (caseBacklashCalibration_azAlt cfg key r)
  · exact fun _ _ => caseAzimuthAdjustment_azAltInRange key r h
  · exact fun _ _ => caseAltitudeAdjustment_azAltInRange key r h
  · exact fun _ _ => azAltInRange_of_eq _ _ h (caseRollOffsetCalibration_azAlt cfg env key r)
  · exact fun _ _ => azAltInRange_of_eq _ _ h (casePitchOffsetCalibration_azAlt cfg env key r)
  · exact fun _ => azAltInRange_of_eq _ _ h (caseHighlightPolar_azAlt cfg env key r)
  · exact fun _ => azAltInRange_of_eq _ _ h (casePolarWaitCenterPolaris_azAlt cfg env key r)
  · exact fun _ => azAltInRange_of_eq _ _ h (caseHighlight_azAlt cfg env _ _ key r)
  · exact fun _ => azAltInRange_of_eq _ _ h (caseHighlight_azAlt cfg env _ _ key r)
  · exact fun _ => azAltInRange_of_eq _ _ h (caseDriftCalibrationWait_azAlt key r)
  · exact fun _ => azAltInRange_of_eq _ _ h (caseHighlight_azAlt cfg env _ _ key r)
  · exact fun _ => azAltInRange_of_eq _ _ h (caseHighlight_azAlt cfg env _ _ key r)
  · exact fun _ => azAltInRange_of_eq _ _ h (caseHighlight_azAlt cfg env _ _ key r)
  · exact fun _ _ => azAltInRange_of_eq _ _ h (caseHighlight_azAlt cfg env _ _ key r)
  · exact fun _ _ => azAltInRange_of_eq _ _ h (caseHighlight_azAlt cfg env _ _ key r)
  · exact fun _ _ => azAltInRange_of_eq _ _ h (caseHighlight_azAlt cfg env _ _ key r)
  · exact fun _ _ => azAltInRange_of_eq _ _ h (caseHighlight_azAlt cfg env _ _ key r)
  · exact h

theorem processCalibrationKeys_azAltInRange (cfg : Config) (env : Env) (r : Run)
    (h : azAltInRange r.g) : azAltInRange (processCalibrationKeys cfg env r).2.g := by
  have h0 : azAltInRange (startHardware cfg r).g :=
    azAltInRange_of_eq _ _ h
      ⟨startHardware_AzimuthMinutes cfg r, startHardware_AltitudeMinutes cfg r⟩
  have h1 := statePhase_azAltInRange cfg env _ h0
  apply processCalibrationKeys_cases cfg env r (fun x => azAltInRange x.2.g)
  · exact fun key _ _ => keyDispatch_azAltInRange cfg env key _ h1
  · exact h1

theorem reachable_azAltInRange (cfg : Config) (g : Globals) (hr : Reachable cfg g) :
    azAltInRange g := by
  induction hr with
  | start raSteps decSteps motorsStarted => simp [azAltInRange, initialGlobals]
  | tick env g _ ih => exact processCalibrationKeys_azAltInRange cfg env ⟨g, []⟩ ih

/-- C12: azimuth/altitude range invariant.  In every state reachable from the
initial state (where `AzimuthMinutes = AltitudeMinutes = 0`) by any sequence of
ticks with any button readings and key events, `-60 ≤ AzimuthMinutes ≤ 60` and
`-60 ≤ AltitudeMinutes ≤ 60`; this holds with and without the
azimuth/altitude motors. -/
theorem azimuth_altitude_range (cfg : Config) (g : Globals) (hr : Reachable cfg g) :
    -60 ≤ g.AzimuthMinutes ∧ g.AzimuthMinutes ≤ 60 ∧
    -60 ≤ g.AltitudeMinutes ∧ g.AltitudeMinutes ≤ 60 :=
  reachable_azAltInRange cfg g hr

theorem azimuth_altitude_range_witness :
    Reachable (sampleConfig true false)
        (tickGlobals (sampleConfig true false) (keyEnv .btnDOWN) (initialGlobals 0 0 false)) ∧
      (-60 ≤ (tickGlobals (sampleConfig true false) (keyEnv .btnDOWN)
          (initialGlobals 0 0 false)).AzimuthMinutes ∧
       (tickGlobals (sampleConfig true false) (keyEnv .btnDOWN)
          (initialGlobals 0 0 false)).AzimuthMinutes ≤ 60 ∧
       -60 ≤ (tickGlobals (sampleConfig true false) (keyEnv .btnDOWN)
          (initialGlobals 0 0 false)).AltitudeMinutes ∧
       (tickGlobals (sampleConfig true false) (keyEnv .btnDOWN)
          (initialGlobals 0 0 false)).AltitudeMinutes ≤ 60) :=
  ⟨Reachable.tick _ _ (Reachable.start 0 0 false),
   azimuth_altitude_range _ _ (Reachable.tick _ _ (Reachable.start 0 0 false))⟩

/-! ## The azimuth and altitude minutes are zero outside their edit states -/

theorem checkProgressiveUpDown_calState (b : Key) (v : Int) (r : Run) :
    (checkProgressiveUpDown b v r).2.2.g.calState = r.g.calState := by
  unfold checkProgressiveUpDown
  simp only []
  split_ifs <;> rfl

theorem HIGHLIGHT_LEVEL_ne (cfg : Config) :
    HIGHLIGHT_ROLL_LEVEL cfg ≠ AZIMUTH_ADJUSTMENT ∧ HIGHLIGHT_ROLL_LEVEL cfg ≠ ALTITUDE_ADJUSTMENT ∧
    HIGHLIGHT_PITCH_LEVEL cfg ≠ AZIMUTH_ADJUSTMENT ∧
    HIGHLIGHT_PITCH_LEVEL cfg ≠ ALTITUDE_ADJUSTMENT := by
  simp only [HIGHLIGHT_ROLL_LEVEL, HIGHLIGHT_PITCH_LEVEL]
  split_ifs <;> decide

theorem azAltZeroOutside_frame (g g2 : Globals) (h : azAltZeroOutside g)
    (n1 : g.calState ≠ AZIMUTH_ADJUSTMENT) (n2 : g.calState ≠ ALTITUDE_ADJUSTMENT)
    (e : g2.AzimuthMinutes = g.AzimuthMinutes ∧ g2.AltitudeMinutes = g.AltitudeMinutes) :
    azAltZeroOutside g2 := by
  unfold azAltZeroOutside at h ⊢
  rw [e.1, e.2]
  exact ⟨fun _ => h.1 n1, fun _ => h.2 n2⟩

theorem statePhase_azAltZeroOutside (cfg : Config) (env : Env) (r : Run)
    (h : azAltZeroOutside r.g) : azAltZeroOutside (statePhase cfg env r).2.g := by
  apply statePhase_cases cfg env r (fun x => azAltZeroOutside x.2.g)
  · exact fun hc => azAltZeroOutside_frame _ _ h (by rw [hc]; decide) (by rw [hc]; decide)
      (speedCalibrationPhase_azAlt _ r)
  · intro _ hc
    have e := checkProgressiveUpDown_azAlt env.currentState r.g.AzimuthMinutes r
    have c := checkProgressiveUpDown_calState env.currentState r.g.AzimuthMinutes r
    have hal := h.2 (by rw [hc]; decide)
    refine ⟨fun n => absurd ?_ n, fun _ => ?_⟩
    · simp [azimuthAdjustmentPhase, c, hc]
    · simp [azimuthAdjustmentPhase, e.2, hal]
  · intro _ hc
    have e := checkProgressiveUpDown_azAlt env.currentState r.g.AltitudeMinutes r
    have c := checkProgressiveUpDown_calState env.currentState r.g.AltitudeMinutes r
    have haz := h.1 (by rw [hc]; decide)
    refine ⟨fun _ => ?_, fun n => absurd ?_ n⟩
    · simp [altitudeAdjustmentPhase, e.1, haz]
    · simp [altitudeAdjustmentPhase, c, hc]
  · exact fun hc => azAltZeroOutside_frame _ _ h (by rw [hc]; decide) (by rw [hc]; decide)
      (raStepCalibrationPhase_azAlt env r)
  · exact fun hc => azAltZeroOutside_frame _ _ h (by rw [hc]; decide) (by rw [hc]; decide)
      (decStepCalibrationPhase_azAlt env r)
  · exact fun hc => azAltZeroOutside_frame _ _ h (by rw [hc]; decide) (by rw [hc]; decide)
      (backlashCalibrationPhase_azAlt env r)
  · exact fun hc => azAltZeroOutside_frame _ _ h (by rw [hc]; decide) (by rw [hc]; decide)
      (polarWaitHomePhase_azAlt env r)
  · exact fun hc => azAltZeroOutside_frame _ _ h (by rw [hc]; decide) (by rw [hc]; decide)
      (polarWaitCenterPolarisPhase_azAlt cfg env _ r)
  · exact fun hc => azAltZeroOutside_frame _ _ h (by rw [hc]; decide) (by rw [hc]; decide)
      (driftCalibrationRunning_azAlt cfg r)
  · exact h

theorem caseAzimuthAdjustment_zeroOutside (key : Key) (r : Run)
    (hc : r.g.calState = AZIMUTH_ADJUSTMENT) (h : azAltZeroOutside r.g) :
    azAltZeroOutside (caseAzimuthAdjustment key r).g := by
  have hal := h.2 (by rw [hc]; decide)
  unfold caseAzimuthAdjustment
  simp only []
  split_ifs with k z
  · exact ⟨fun _ => z, fun _ => hal⟩
  · exact ⟨fun _ => rfl, fun _ => hal⟩
  · exact h

theorem caseAltitudeAdjustment_zeroOutside (key : Key) (r : Run)
    (hc : r.g.calState = ALTITUDE_ADJUSTMENT) (h : azAltZeroOutside r.g) :
    azAltZeroOutside (caseAltitudeAdjustment key r).g := by
  have haz := h.1 (by rw [hc]; decide)
  unfold caseAltitudeAdjustment
  simp only []
  split_ifs with k z
  · exact ⟨fun _ => haz, fun _ => z⟩
  · exact ⟨fun _ => haz, fun _ => rfl⟩
  · exact h

theorem keyDispatch_azAltZeroOutside (cfg : Config) (env : Env) (key : Key) (r : Run)
    (h : azAltZeroOutside r.g) : azAltZeroOutside (keyDispatch cfg env key r).g := by
  apply keyDispatch_cases cfg env key r (fun x => azAltZeroOutside x.g)
  · exact fun hc => azAltZeroOutside_frame _ _ h (by rw [hc]; decide) (by rw [hc]; decide)
      (casePolarWaitHome_azAlt cfg key r)
  · exact fun hc => azAltZeroOutside_frame _ _ h (by rw [hc]; decide) (by rw [hc]; decide)
      (caseSpeedCalibration_azAlt cfg key r)
  · exact fun hc => azAltZeroOutside_frame _ _ h (by rw [hc]; decide) (by rw [hc]; decide)
      (caseRAStepCalibration_azAlt cfg key r)
  · exact fun hc => azAltZeroOutside_frame _ _ h (by rw [hc]; decide) (by rw [hc]; decide)
      (caseDECStepCalibration_azAlt cfg key r)
  · exact fun hc => azAltZeroOutside_frame _ _ h (by rw [hc]; decide) (by rw [hc]; decide)
      (caseBacklashCalibration_azAlt cfg key r)
  · exact fun _ hc => caseAzimuthAdjustment_zeroOutside key r hc h
  · exact fun _ hc => caseAltitudeAdjustment_zeroOutside key r hc h
  · exact fun _ hc => azAltZeroOutside_frame _ _ h (by rw [hc]; decide) (by rw [hc]; decide)
      (caseRollOffsetCalibration_azAlt cfg env key r)
  · exact fun _ hc => azAltZeroOutside_frame _ _ h (by rw [hc]; decide) (by rw [hc]; decide)
      (casePitchOffsetCalibration_azAlt cfg env key r)
  · exact fun hc => azAltZeroOutside_frame _ _ h (by rw [hc]; decide) (by rw [hc]; decide)
      (caseHighlightPolar_azAlt cfg env key r)
  · exact fun hc => azAltZeroOutside_frame _ _ h (by rw [hc]; decide) (by rw [hc]; decide)
      (casePolarWaitCenterPolaris_azAlt cfg env key r)
  · exact fun hc => azAltZeroOutside_frame _ _ h (by rw [hc]; decide) (by rw [hc]; decide)
      (caseHighlight_azAlt cfg env _ _ key r)
  · exact fun hc => azAltZeroOutside_frame _ _ h (by rw [hc]; decide) (by rw [hc]; decide)
      (caseHighlight_azAlt cfg env _ _ key r)
  · exact fun hc => azAltZeroOutside_frame _ _ h (by rw [hc]; decide) (by rw [hc]; decide)
      (caseDriftCalibrationWait_azAlt key r)
  · exact fun hc => azAltZeroOutside_frame _ _ h (by rw [hc]; decide) (by rw [hc]; decide)
      (caseHighlight_azAlt cfg env _ _ key r)
  · exact fun hc => azAltZeroOutside_frame _ _ h (by rw [hc]; decide) (by rw [hc]; decide)
      (caseHighlight_azAlt cfg env _ _ key r)
  · exact fun hc => azAltZeroOutside_frame _ _ h (by rw [hc]; decide) (by rw [hc]; decide)
      (caseHighlight_azAlt cfg env _ _ key r)
  · exact fun _ hc => azAltZeroOutside_frame _ _ h (by rw [hc]; decide) (by rw [hc]; decide)
      (caseHighlight_azAlt cfg env _ _ key r)
  · exact fun _ hc => azAltZeroOutside_frame _ _ h (by rw [hc]; decide) (by rw [hc]; decide)
      (caseHighlight_azAlt cfg env _ _ key r)
  · exact fun _ hc => azAltZeroOutside_frame _ _ h
      (by rw [hc]; exact (HIGHLIGHT_LEVEL_ne cfg).1)
      (by rw [hc]; exact (HIGHLIGHT_LEVEL_ne cfg).2.1)
      (caseHighlight_azAlt cfg env _ _ key r)
  · exact fun _ hc => azAltZeroOutside_frame _ _ h
      (by rw [hc]; exact (HIGHLIGHT_LEVEL_ne cfg).2.2.1)
      (by rw [hc]; exact (HIGHLIGHT_LEVEL_ne cfg).2.2.2)
      (caseHighlight_azAlt cfg env _ _ key r)
  · exact h

theorem processCalibrationKeys_azAltZeroOutside (cfg : Config) (env : Env) (r : Run)
    (h : azAltZeroOutside r.g) : azAltZeroOutside (processCalibrationKeys cfg env r).2.g := by
  have h0 : azAltZeroOutside (startHardware cfg r).g := by
    unfold azAltZeroOutside at h ⊢
    rw [startHardware_calState, startHardware_AzimuthMinutes, startHardware_AltitudeMinutes]
    exact h
  have h1 := statePhase_azAltZeroOutside cfg env _ h0
  apply processCalibrationKeys_cases cfg env r (fun x => azAltZeroOutside x.2.g)
  · exact fun key _ _ => keyDispatch_azAltZeroOutside cfg env key _ h1
  · exact h1

theorem reachable_azAltZeroOutside (cfg : Config) (g : Globals) (hr : Reachable cfg g) :
    azAltZeroOutside g := by
  induction hr with
  | start raSteps decSteps motorsStarted => simp [azAltZeroOutside, initialGlobals]
  | tick env g _ ih => exact processCalibrationKeys_azAltZeroOutside cfg env ⟨g, []⟩ ih

/-- C14: the azimuth/altitude pending value is zero outside its edit state.  In
every state reachable from the initial state, `calState ≠ AZIMUTH_ADJUSTMENT`
implies `AzimuthMinutes = 0` and `calState ≠ ALTITUDE_ADJUSTMENT` implies
`AltitudeMinutes = 0`. -/
theorem azimuth_altitude_zero_outside (cfg : Config) (g : Globals) (hr : Reachable cfg g) :
    (g.calState ≠ AZIMUTH_ADJUSTMENT → g.AzimuthMinutes = 0) ∧
    (g.calState ≠ ALTITUDE_ADJUSTMENT → g.AltitudeMinutes = 0) :=
  reachable_azAltZeroOutside cfg g hr

theorem azimuth_altitude_zero_outside_witness :
    Reachable (sampleConfig true false)
        (tickGlobals (sampleConfig true false) (keyEnv .btnDOWN) (initialGlobals 0 0 false)) ∧
      (((tickGlobals (sampleConfig true false) (keyEnv .btnDOWN)
          (initialGlobals 0 0 false)).calState ≠ AZIMUTH_ADJUSTMENT →
        (tickGlobals (sampleConfig true false) (keyEnv .btnDOWN)
          (initialGlobals 0 0 false)).AzimuthMinutes = 0) ∧
       ((tickGlobals (sampleConfig true false) (keyEnv .btnDOWN)
          (initialGlobals 0 0 false)).calState ≠ ALTITUDE_ADJUSTMENT →
        (tickGlobals (sampleConfig true false) (keyEnv .btnDOWN)
          (initialGlobals 0 0 false)).AltitudeMinutes = 0)) :=
  ⟨Reachable.tick _ _ (Reachable.start 0 0 false),
   azimuth_altitude_zero_outside _ _ (Reachable.tick _ _ (Reachable.start 0 0 false))⟩

/-! ## Evaluation of a tick in a known state -/

theorem statePhase_azimuth (cfg : Config) (env : Env) (r : Run)
    (hc : cfg.AZIMUTH_ALTITUDE_MOTORS = true)
    (h : r.g.calState = AZIMUTH_ADJUSTMENT) :
    statePhase cfg env r = azimuthAdjustmentPhase env r := by
  simp [statePhase, h, hc, HIGHLIGHT_FIRST, HIGHLIGHT_POLAR,
    HIGHLIGHT_SPEED, HIGHLIGHT_DRIFT, HIGHLIGHT_RA_STEPS, HIGHLIGHT_DEC_STEPS,
    HIGHLIGHT_BACKLASH_STEPS, HIGHLIGHT_AZIMUTH_ADJUSTMENT, HIGHLIGHT_ALTITUDE_ADJUSTMENT,
    POLAR_CALIBRATION_WAIT_CENTER_POLARIS, POLAR_CALIBRATION_WAIT_HOME, SPEED_CALIBRATION,
    DRIFT_CALIBRATION_WAIT, DRIFT_CALIBRATION_RUNNING, RA_STEP_CALIBRATION, DEC_STEP_CALIBRATION,
    BACKLASH_CALIBRATION, AZIMUTH_ADJUSTMENT, ALTITUDE_ADJUSTMENT, ROLL_OFFSET_CALIBRATION,
    PITCH_OFFSET_CALIBRATION]

theorem keyDispatch_azimuth (cfg : Config) (env : Env) (key : Key) (r : Run)
    (hc : cfg.AZIMUTH_ALTITUDE_MOTORS = true)
    (h : r.g.calState = AZIMUTH_ADJUSTMENT) :
    keyDispatch cfg env key r = caseAzimuthAdjustment key r := by
  simp [keyDispatch, h, hc, HIGHLIGHT_FIRST, HIGHLIGHT_POLAR,
    HIGHLIGHT_SPEED, HIGHLIGHT_DRIFT, HIGHLIGHT_RA_STEPS, HIGHLIGHT_DEC_STEPS,
    HIGHLIGHT_BACKLASH_STEPS, HIGHLIGHT_AZIMUTH_ADJUSTMENT, HIGHLIGHT_ALTITUDE_ADJUSTMENT,
    POLAR_CALIBRATION_WAIT_CENTER_POLARIS, POLAR_CALIBRATION_WAIT_HOME, SPEED_CALIBRATION,
    DRIFT_CALIBRATION_WAIT, DRIFT_CALIBRATION_RUNNING, RA_STEP_CALIBRATION, DEC_STEP_CALIBRATION,
    BACKLASH_CALIBRATION, AZIMUTH_ADJUSTMENT, ALTITUDE_ADJUSTMENT, ROLL_OFFSET_CALIBRATION,
    PITCH_OFFSET_CALIBRATION]

theorem statePhase_altitude (cfg : Config) (env : Env) (r : Run)
    (hc : cfg.AZIMUTH_ALTITUDE_MOTORS = true)
    (h : r.g.calState = ALTITUDE_ADJUSTMENT) :
    statePhase cfg env r = altitudeAdjustmentPhase env r := by
  simp [statePhase, h, hc, HIGHLIGHT_FIRST, HIGHLIGHT_POLAR,
    HIGHLIGHT_SPEED, HIGHLIGHT_DRIFT, HIGHLIGHT_RA_STEPS, HIGHLIGHT_DEC_STEPS,
    HIGHLIGHT_BACKLASH_STEPS, HIGHLIGHT_AZIMUTH_ADJUSTMENT, HIGHLIGHT_ALTITUDE_ADJUSTMENT,
    POLAR_CALIBRATION_WAIT_CENTER_POLARIS, POLAR_CALIBRATION_WAIT_HOME, SPEED_CALIBRATION,
    DRIFT_CALIBRATION_WAIT, DRIFT_CALIBRATION_RUNNING, RA_STEP_CALIBRATION, DEC_STEP_CALIBRATION,
    BACKLASH_CALIBRATION, AZIMUTH_ADJUSTMENT, ALTITUDE_ADJUSTMENT, ROLL_OFFSET_CALIBRATION,
    PITCH_OFFSET_CALIBRATION]

theorem keyDispatch_altitude (cfg : Config) (env : Env) (key : Key) (r : Run)
    (hc : cfg.AZIMUTH_ALTITUDE_MOTORS = true)
    (h : r.g.calState = ALTITUDE_ADJUSTMENT) :
    keyDispatch cfg env key r = caseAltitudeAdjustment key r := by
  simp [keyDispatch, h, hc, HIGHLIGHT_FIRST, HIGHLIGHT_POLAR,
    HIGHLIGHT_SPEED, HIGHLIGHT_DRIFT, HIGHLIGHT_RA_STEPS, HIGHLIGHT_DEC_STEPS,
    HIGHLIGHT_BACKLASH_STEPS, HIGHLIGHT_AZIMUTH_ADJUSTMENT, HIGHLIGHT_ALTITUDE_ADJUSTMENT,
    POLAR_CALIBRATION_WAIT_CENTER_POLARIS, POLAR_CALIBRATION_WAIT_HOME, SPEED_CALIBRATION,
    DRIFT_CALIBRATION_WAIT, DRIFT_CALIBRATION_RUNNING, RA_STEP_CALIBRATION, DEC_STEP_CALIBRATION,
    BACKLASH_CALIBRATION, AZIMUTH_ADJUSTMENT, ALTITUDE_ADJUSTMENT, ROLL_OFFSET_CALIBRATION,
    PITCH_OFFSET_CALIBRATION]

theorem statePhase_raStep (cfg : Config) (env : Env) (r : Run)
    (h : r.g.calState = RA_STEP_CALIBRATION) :
    statePhase cfg env r = raStepCalibrationPhase env r := by
  simp [statePhase, h, HIGHLIGHT_FIRST, HIGHLIGHT_POLAR,
    HIGHLIGHT_SPEED, HIGHLIGHT_DRIFT, HIGHLIGHT_RA_STEPS, HIGHLIGHT_DEC_STEPS,
    HIGHLIGHT_BACKLASH_STEPS, HIGHLIGHT_AZIMUTH_ADJUSTMENT, HIGHLIGHT_ALTITUDE_ADJUSTMENT,
    POLAR_CALIBRATION_WAIT_CENTER_POLARIS, POLAR_CALIBRATION_WAIT_HOME, SPEED_CALIBRATION,
    DRIFT_CALIBRATION_WAIT, DRIFT_CALIBRATION_RUNNING, RA_STEP_CALIBRATION, DEC_STEP_CALIBRATION,
    BACKLASH_CALIBRATION, AZIMUTH_ADJUSTMENT, ALTITUDE_ADJUSTMENT, ROLL_OFFSET_CALIBRATION,
    PITCH_OFFSET_CALIBRATION]

theorem keyDispatch_raStep (cfg : Config) (env : Env) (key : Key) (r : Run)
    (h : r.g.calState = RA_STEP_CALIBRATION) :
    keyDispatch cfg env key r = caseRAStepCalibration cfg key r := by
  simp [keyDispatch, h, HIGHLIGHT_FIRST, HIGHLIGHT_POLAR,
    HIGHLIGHT_SPEED, HIGHLIGHT_DRIFT, HIGHLIGHT_RA_STEPS, HIGHLIGHT_DEC_STEPS,
    HIGHLIGHT_BACKLASH_STEPS, HIGHLIGHT_AZIMUTH_ADJUSTMENT, HIGHLIGHT_ALTITUDE_ADJUSTMENT,
    POLAR_CALIBRATION_WAIT_CENTER_POLARIS, POLAR_CALIBRATION_WAIT_HOME, SPEED_CALIBRATION,
    DRIFT_CALIBRATION_WAIT, DRIFT_CALIBRATION_RUNNING, RA_STEP_CALIBRATION, DEC_STEP_CALIBRATION,
    BACKLASH_CALIBRATION, AZIMUTH_ADJUSTMENT, ALTITUDE_ADJUSTMENT, ROLL_OFFSET_CALIBRATION,
    PITCH_OFFSET_CALIBRATION]

theorem statePhase_decStep (cfg : Config) (env : Env) (r : Run)
    (h : r.g.calState = DEC_STEP_CALIBRATION) :
    statePhase cfg env r = decStepCalibrationPhase env r := by
  simp [statePhase, h, HIGHLIGHT_FIRST, HIGHLIGHT_POLAR,
    HIGHLIGHT_SPEED, HIGHLIGHT_DRIFT, HIGHLIGHT_RA_STEPS, HIGHLIGHT_DEC_STEPS,
    HIGHLIGHT_BACKLASH_STEPS, HIGHLIGHT_AZIMUTH_ADJUSTMENT, HIGHLIGHT_ALTITUDE_ADJUSTMENT,
    POLAR_CALIBRATION_WAIT_CENTER_POLARIS, POLAR_CALIBRATION_WAIT_HOME, SPEED_CALIBRATION,
    DRIFT_CALIBRATION_WAIT, DRIFT_CALIBRATION_RUNNING, RA_STEP_CALIBRATION, DEC_STEP_CALIBRATION,
    BACKLASH_CALIBRATION, AZIMUTH_ADJUSTMENT, ALTITUDE_ADJUSTMENT, ROLL_OFFSET_CALIBRATION,
    PITCH_OFFSET_CALIBRATION]

theorem keyDispatch_decStep (cfg : Config) (env : Env) (key : Key) (r : Run)
    (h : r.g.calState = DEC_STEP_CALIBRATION) :
    keyDispatch cfg env key r = caseDECStepCalibration cfg key r := by
  simp [keyDispatch, h, HIGHLIGHT_FIRST, HIGHLIGHT_POLAR,
    HIGHLIGHT_SPEED, HIGHLIGHT_DRIFT, HIGHLIGHT_RA_STEPS, HIGHLIGHT_DEC_STEPS,
    HIGHLIGHT_BACKLASH_STEPS, HIGHLIGHT_AZIMUTH_ADJUSTMENT, HIGHLIGHT_ALTITUDE_ADJUSTMENT,
    POLAR_CALIBRATION_WAIT_CENTER_POLARIS, POLAR_CALIBRATION_WAIT_HOME, SPEED_CALIBRATION,
    DRIFT_CALIBRATION_WAIT, DRIFT_CALIBRATION_RUNNING, RA_STEP_CALIBRATION, DEC_STEP_CALIBRATION,
    BACKLASH_CALIBRATION, AZIMUTH_ADJUSTMENT, ALTITUDE_ADJUSTMENT, ROLL_OFFSET_CALIBRATION,
    PITCH_OFFSET_CALIBRATION]

theorem statePhase_backlash (cfg : Config) (env : Env) (r : Run)
    (h : r.g.calState = BACKLASH_CALIBRATION) :
    statePhase cfg env r = backlashCalibrationPhase env r := by
  simp [statePhase, h, HIGHLIGHT_FIRST, HIGHLIGHT_POLAR,
    HIGHLIGHT_SPEED, HIGHLIGHT_DRIFT, HIGHLIGHT_RA_STEPS, HIGHLIGHT_DEC_STEPS,
    HIGHLIGHT_BACKLASH_STEPS, HIGHLIGHT_AZIMUTH_ADJUSTMENT, HIGHLIGHT_ALTITUDE_ADJUSTMENT,
    POLAR_CALIBRATION_WAIT_CENTER_POLARIS, POLAR_CALIBRATION_WAIT_HOME, SPEED_CALIBRATION,
    DRIFT_CALIBRATION_WAIT, DRIFT_CALIBRATION_RUNNING, RA_STEP_CALIBRATION, DEC_STEP_CALIBRATION,
    BACKLASH_CALIBRATION, AZIMUTH_ADJUSTMENT, ALTITUDE_ADJUSTMENT, ROLL_OFFSET_CALIBRATION,
    PITCH_OFFSET_CALIBRATION]

theorem keyDispatch_backlash (cfg : Config) (env : Env) (key : Key) (r : Run)
    (h : r.g.calState = BACKLASH_CALIBRATION) :
    keyDispatch cfg env key r = caseBacklashCalibration cfg key r := by
  simp [keyDispatch, h, HIGHLIGHT_FIRST, HIGHLIGHT_POLAR,
    HIGHLIGHT_SPEED, HIGHLIGHT_DRIFT, HIGHLIGHT_RA_STEPS, HIGHLIGHT_DEC_STEPS,
    HIGHLIGHT_BACKLASH_STEPS, HIGHLIGHT_AZIMUTH_ADJUSTMENT, HIGHLIGHT_ALTITUDE_ADJUSTMENT,
    POLAR_CALIBRATION_WAIT_CENTER_POLARIS, POLAR_CALIBRATION_WAIT_HOME, SPEED_CALIBRATION,
    DRIFT_CALIBRATION_WAIT, DRIFT_CALIBRATION_RUNNING, RA_STEP_CALIBRATION, DEC_STEP_CALIBRATION,
    BACKLASH_CALIBRATION, AZIMUTH_ADJUSTMENT, ALTITUDE_ADJUSTMENT, ROLL_OFFSET_CALIBRATION,
    PITCH_OFFSET_CALIBRATION]

theorem statePhase_roll (cfg : Config) (env : Env) (r : Run)
    (h : r.g.calState = ROLL_OFFSET_CALIBRATION) :
    statePhase cfg env r = (true, r) := by
  simp [statePhase, h, HIGHLIGHT_FIRST, HIGHLIGHT_POLAR,
    HIGHLIGHT_SPEED, HIGHLIGHT_DRIFT, HIGHLIGHT_RA_STEPS, HIGHLIGHT_DEC_STEPS,
    HIGHLIGHT_BACKLASH_STEPS, HIGHLIGHT_AZIMUTH_ADJUSTMENT, HIGHLIGHT_ALTITUDE_ADJUSTMENT,
    POLAR_CALIBRATION_WAIT_CENTER_POLARIS, POLAR_CALIBRATION_WAIT_HOME, SPEED_CALIBRATION,
    DRIFT_CALIBRATION_WAIT, DRIFT_CALIBRATION_RUNNING, RA_STEP_CALIBRATION, DEC_STEP_CALIBRATION,
    BACKLASH_CALIBRATION, AZIMUTH_ADJUSTMENT, ALTITUDE_ADJUSTMENT, ROLL_OFFSET_CALIBRATION,
    PITCH_OFFSET_CALIBRATION]

theorem keyDispatch_roll (cfg : Config) (env : Env) (key : Key) (r : Run)
    (hc : cfg.GYRO_LEVEL = true)
    (h : r.g.calState = ROLL_OFFSET_CALIBRATION) :
    keyDispatch cfg env key r = caseRollOffsetCalibration cfg env key r := by
  simp [keyDispatch, h, hc, HIGHLIGHT_FIRST, HIGHLIGHT_POLAR,
    HIGHLIGHT_SPEED, HIGHLIGHT_DRIFT, HIGHLIGHT_RA_STEPS, HIGHLIGHT_DEC_STEPS,
    HIGHLIGHT_BACKLASH_STEPS, HIGHLIGHT_AZIMUTH_ADJUSTMENT, HIGHLIGHT_ALTITUDE_ADJUSTMENT,
    POLAR_CALIBRATION_WAIT_CENTER_POLARIS, POLAR_CALIBRATION_WAIT_HOME, SPEED_CALIBRATION,
    DRIFT_CALIBRATION_WAIT, DRIFT_CALIBRATION_RUNNING, RA_STEP_CALIBRATION, DEC_STEP_CALIBRATION,
    BACKLASH_CALIBRATION, AZIMUTH_ADJUSTMENT, ALTITUDE_ADJUSTMENT, ROLL_OFFSET_CALIBRATION,
    PITCH_OFFSET_CALIBRATION]

theorem statePhase_pitch (cfg : Config) (env : Env) (r : Run)
    (h : r.g.calState = PITCH_OFFSET_CALIBRATION) :
    statePhase cfg env r = (true, r) := by
  simp [statePhase, h, HIGHLIGHT_FIRST, HIGHLIGHT_POLAR,
    HIGHLIGHT_SPEED, HIGHLIGHT_DRIFT, HIGHLIGHT_RA_STEPS, HIGHLIGHT_DEC_STEPS,
    HIGHLIGHT_BACKLASH_STEPS, HIGHLIGHT_AZIMUTH_ADJUSTMENT, HIGHLIGHT_ALTITUDE_ADJUSTMENT,
    POLAR_CALIBRATION_WAIT_CENTER_POLARIS, POLAR_CALIBRATION_WAIT_HOME, SPEED_CALIBRATION,
    DRIFT_CALIBRATION_WAIT, DRIFT_CALIBRATION_RUNNING, RA_STEP_CALIBRATION, DEC_STEP_CALIBRATION,
    BACKLASH_CALIBRATION, AZIMUTH_ADJUSTMENT, ALTITUDE_ADJUSTMENT, ROLL_OFFSET_CALIBRATION,
    PITCH_OFFSET_CALIBRATION]

theorem keyDispatch_pitch (cfg : Config) (env : Env) (key : Key) (r : Run)
    (hc : cfg.GYRO_LEVEL = true)
    (h : r.g.calState = PITCH_OFFSET_CALIBRATION) :
    keyDispatch cfg env key r = casePitchOffsetCalibration cfg env key r := by
  simp [keyDispatch, h, hc, HIGHLIGHT_FIRST, HIGHLIGHT_POLAR,
    HIGHLIGHT_SPEED, HIGHLIGHT_DRIFT, HIGHLIGHT_RA_STEPS, HIGHLIGHT_DEC_STEPS,
    HIGHLIGHT_BACKLASH_STEPS, HIGHLIGHT_AZIMUTH_ADJUSTMENT, HIGHLIGHT_ALTITUDE_ADJUSTMENT,
    POLAR_CALIBRATION_WAIT_CENTER_POLARIS, POLAR_CALIBRATION_WAIT_HOME, SPEED_CALIBRATION,
    DRIFT_CALIBRATION_WAIT, DRIFT_CALIBRATION_RUNNING, RA_STEP_CALIBRATION, DEC_STEP_CALIBRATION,
    BACKLASH_CALIBRATION, AZIMUTH_ADJUSTMENT, ALTITUDE_ADJUSTMENT, ROLL_OFFSET_CALIBRATION,
    PITCH_OFFSET_CALIBRATION]

theorem statePhase_highlightRA (cfg : Config) (env : Env) (r : Run)
    (h : r.g.calState = HIGHLIGHT_RA_STEPS) :
    statePhase cfg env r = (true, r) := by
  simp [statePhase, h, HIGHLIGHT_FIRST, HIGHLIGHT_POLAR,
    HIGHLIGHT_SPEED, HIGHLIGHT_DRIFT, HIGHLIGHT_RA_STEPS, HIGHLIGHT_DEC_STEPS,
    HIGHLIGHT_BACKLASH_STEPS, HIGHLIGHT_AZIMUTH_ADJUSTMENT, HIGHLIGHT_ALTITUDE_ADJUSTMENT,
    POLAR_CALIBRATION_WAIT_CENTER_POLARIS, POLAR_CALIBRATION_WAIT_HOME, SPEED_CALIBRATION,
    DRIFT_CALIBRATION_WAIT, DRIFT_CALIBRATION_RUNNING, RA_STEP_CALIBRATION, DEC_STEP_CALIBRATION,
    BACKLASH_CALIBRATION, AZIMUTH_ADJUSTMENT, ALTITUDE_ADJUSTMENT, ROLL_OFFSET_CALIBRATION,
    PITCH_OFFSET_CALIBRATION]

theorem keyDispatch_highlightRA (cfg : Config) (env : Env) (key : Key) (r : Run)
    (h : r.g.calState = HIGHLIGHT_RA_STEPS) :
    keyDispatch cfg env key r = caseHighlight cfg env RA_STEP_CALIBRATION HIGHLIGHT_FIRST key r := by
  simp [keyDispatch, h, HIGHLIGHT_FIRST, HIGHLIGHT_POLAR,
    HIGHLIGHT_SPEED, HIGHLIGHT_DRIFT, HIGHLIGHT_RA_STEPS, HIGHLIGHT_DEC_STEPS,
    HIGHLIGHT_BACKLASH_STEPS, HIGHLIGHT_AZIMUTH_ADJUSTMENT, HIGHLIGHT_ALTITUDE_ADJUSTMENT,
    POLAR_CALIBRATION_WAIT_CENTER_POLARIS, POLAR_CALIBRATION_WAIT_HOME, SPEED_CALIBRATION,
    DRIFT_CALIBRATION_WAIT, DRIFT_CALIBRATION_RUNNING, RA_STEP_CALIBRATION, DEC_STEP_CALIBRATION,
    BACKLASH_CALIBRATION, AZIMUTH_ADJUSTMENT, ALTITUDE_ADJUSTMENT, ROLL_OFFSET_CALIBRATION,
    PITCH_OFFSET_CALIBRATION]

theorem statePhase_highlightDEC (cfg : Config) (env : Env) (r : Run)
    (h : r.g.calState = HIGHLIGHT_DEC_STEPS) :
    statePhase cfg env r = (true, r) := by
  simp [statePhase, h, HIGHLIGHT_FIRST, HIGHLIGHT_POLAR,
    HIGHLIGHT_SPEED, HIGHLIGHT_DRIFT, HIGHLIGHT_RA_STEPS, HIGHLIGHT_DEC_STEPS,
    HIGHLIGHT_BACKLASH_STEPS, HIGHLIGHT_AZIMUTH_ADJUSTMENT, HIGHLIGHT_ALTITUDE_ADJUSTMENT,
    POLAR_CALIBRATION_WAIT_CENTER_POLARIS, POLAR_CALIBRATION_WAIT_HOME, SPEED_CALIBRATION,
    DRIFT_CALIBRATION_WAIT, DRIFT_CALIBRATION_RUNNING, RA_STEP_CALIBRATION, DEC_STEP_CALIBRATION,
    BACKLASH_CALIBRATION, AZIMUTH_ADJUSTMENT, ALTITUDE_ADJUSTMENT, ROLL_OFFSET_CALIBRATION,
    PITCH_OFFSET_CALIBRATION]

theorem keyDispatch_highlightDEC (cfg : Config) (env : Env) (key : Key) (r : Run)
    (h : r.g.calState = HIGHLIGHT_DEC_STEPS) :
    keyDispatch cfg env key r = caseHighlight cfg env DEC_STEP_CALIBRATION HIGHLIGHT_FIRST key r := by
  simp [keyDispatch, h, HIGHLIGHT_FIRST, HIGHLIGHT_POLAR,
    HIGHLIGHT_SPEED, HIGHLIGHT_DRIFT, HIGHLIGHT_RA_STEPS, HIGHLIGHT_DEC_STEPS,
    HIGHLIGHT_BACKLASH_STEPS, HIGHLIGHT_AZIMUTH_ADJUSTMENT, HIGHLIGHT_ALTITUDE_ADJUSTMENT,
    POLAR_CALIBRATION_WAIT_CENTER_POLARIS, POLAR_CALIBRATION_WAIT_HOME, SPEED_CALIBRATION,
    DRIFT_CALIBRATION_WAIT, DRIFT_CALIBRATION_RUNNING, RA_STEP_CALIBRATION, DEC_STEP_CALIBRATION,
    BACKLASH_CALIBRATION, AZIMUTH_ADJUSTMENT, ALTITUDE_ADJUSTMENT, ROLL_OFFSET_CALIBRATION,
    PITCH_OFFSET_CALIBRATION]

theorem statePhase_highlightBacklash (cfg : Config) (env : Env) (r : Run)
    (h : r.g.calState = HIGHLIGHT_BACKLASH_STEPS) :
    statePhase cfg env r = (true, r) := by
  simp [statePhase, h, HIGHLIGHT_FIRST, HIGHLIGHT_POLAR,
    HIGHLIGHT_SPEED, HIGHLIGHT_DRIFT, HIGHLIGHT_RA_STEPS, HIGHLIGHT_DEC_STEPS,
    HIGHLIGHT_BACKLASH_STEPS, HIGHLIGHT_AZIMUTH_ADJUSTMENT, HIGHLIGHT_ALTITUDE_ADJUSTMENT,
    POLAR_CALIBRATION_WAIT_CENTER_POLARIS, POLAR_CALIBRATION_WAIT_HOME, SPEED_CALIBRATION,
    DRIFT_CALIBRATION_WAIT, DRIFT_CALIBRATION_RUNNING, RA_STEP_CALIBRATION, DEC_STEP_CALIBRATION,
    BACKLASH_CALIBRATION, AZIMUTH_ADJUSTMENT, ALTITUDE_ADJUSTMENT, ROLL_OFFSET_CALIBRATION,
    PITCH_OFFSET_CALIBRATION]

theorem keyDispatch_highlightBacklash (cfg : Config) (env : Env) (key : Key) (r : Run)
    (h : r.g.calState = HIGHLIGHT_BACKLASH_STEPS) :
    keyDispatch cfg env key r = caseHighlight cfg env BACKLASH_CALIBRATION HIGHLIGHT_FIRST key r := by
  simp [keyDispatch, h, HIGHLIGHT_FIRST, HIGHLIGHT_POLAR,
    HIGHLIGHT_SPEED, HIGHLIGHT_DRIFT, HIGHLIGHT_RA_STEPS, HIGHLIGHT_DEC_STEPS,
    HIGHLIGHT_BACKLASH_STEPS, HIGHLIGHT_AZIMUTH_ADJUSTMENT, HIGHLIGHT_ALTITUDE_ADJUSTMENT,
    POLAR_CALIBRATION_WAIT_CENTER_POLARIS, POLAR_CALIBRATION_WAIT_HOME, SPEED_CALIBRATION,
    DRIFT_CALIBRATION_WAIT, DRIFT_CALIBRATION_RUNNING, RA_STEP_CALIBRATION, DEC_STEP_CALIBRATION,
    BACKLASH_CALIBRATION, AZIMUTH_ADJUSTMENT, ALTITUDE_ADJUSTMENT, ROLL_OFFSET_CALIBRATION,
    PITCH_OFFSET_CALIBRATION]

theorem statePhase_highlightSpeed (cfg : Config) (env : Env) (r : Run)
    (h : r.g.calState = HIGHLIGHT_SPEED) :
    statePhase cfg env r = (true, r) := by
  simp [statePhase, h, HIGHLIGHT_FIRST, HIGHLIGHT_POLAR,
    HIGHLIGHT_SPEED, HIGHLIGHT_DRIFT, HIGHLIGHT_RA_STEPS, HIGHLIGHT_DEC_STEPS,
    HIGHLIGHT_BACKLASH_STEPS, HIGHLIGHT_AZIMUTH_ADJUSTMENT, HIGHLIGHT_ALTITUDE_ADJUSTMENT,
    POLAR_CALIBRATION_WAIT_CENTER_POLARIS, POLAR_CALIBRATION_WAIT_HOME, SPEED_CALIBRATION,
    DRIFT_CALIBRATION_WAIT, DRIFT_CALIBRATION_RUNNING, RA_STEP_CALIBRATION, DEC_STEP_CALIBRATION,
    BACKLASH_CALIBRATION, AZIMUTH_ADJUSTMENT, ALTITUDE_ADJUSTMENT, ROLL_OFFSET_CALIBRATION,
    PITCH_OFFSET_CALIBRATION]

theorem keyDispatch_highlightSpeed (cfg : Config) (env : Env) (key : Key) (r : Run)
    (h : r.g.calState = HIGHLIGHT_SPEED) :
    keyDispatch cfg env key r = caseHighlight cfg env SPEED_CALIBRATION HIGHLIGHT_POLAR key r := by
  simp [keyDispatch, h, HIGHLIGHT_FIRST, HIGHLIGHT_POLAR,
    HIGHLIGHT_SPEED, HIGHLIGHT_DRIFT, HIGHLIGHT_RA_STEPS, HIGHLIGHT_DEC_STEPS,
    HIGHLIGHT_BACKLASH_STEPS, HIGHLIGHT_AZIMUTH_ADJUSTMENT, HIGHLIGHT_ALTITUDE_ADJUSTMENT,
    POLAR_CALIBRATION_WAIT_CENTER_POLARIS, POLAR_CALIBRATION_WAIT_HOME, SPEED_CALIBRATION,
    DRIFT_CALIBRATION_WAIT, DRIFT_CALIBRATION_RUNNING, RA_STEP_CALIBRATION, DEC_STEP_CALIBRATION,
    BACKLASH_CALIBRATION, AZIMUTH_ADJUSTMENT, ALTITUDE_ADJUSTMENT, ROLL_OFFSET_CALIBRATION,
    PITCH_OFFSET_CALIBRATION]

/-! ## The azimuth and altitude commit -/

theorem checkProgressiveUpDown_idle (b : Key) (v : Int) (r : Run)
    (hu : b ≠ .btnUP) (hd : b ≠ .btnDOWN) :
    checkProgressiveUpDown b v r = (true, v, setCalDelay 150 r) := by
  simp [checkProgressiveUpDown, hu, hd]

/-- A tick in `AZIMUTH_ADJUSTMENT` with neither UP nor DOWN held and a pending
key event. -/
theorem processCalibrationKeys_azimuth_key (cfg : Config) (env : Env) (r : Run) (key : Key)
    (hc : cfg.AZIMUTH_ALTITUDE_MOTORS = true) (h : r.g.calState = AZIMUTH_ADJUSTMENT)
    (hu : env.currentState ≠ .btnUP) (hd : env.currentState ≠ .btnDOWN)
    (hk : env.keyChanged = some key) :
    processCalibrationKeys cfg env r =
      (true, caseAzimuthAdjustment key
        (setAzimuthMinutes (clamp r.g.AzimuthMinutes (-60) 60)
          (setCalDelay 150 (startHardware cfg r)))) := by
  have h2 : (startHardware cfg r).g.calState = AZIMUTH_ADJUSTMENT := by
    rw [startHardware_calState, h]
  unfold processCalibrationKeys
  simp only [statePhase_azimuth cfg env _ hc h2, azimuthAdjustmentPhase,
    checkProgressiveUpDown_idle _ _ _ hu hd, if_true, hk, startHardware_AzimuthMinutes]
  rw [keyDispatch_azimuth cfg env key _ hc (by simpa using h2)]

/-- A tick in `ALTITUDE_ADJUSTMENT` with neither UP nor DOWN held and a pending
key event. -/
theorem processCalibrationKeys_altitude_key (cfg : Config) (env : Env) (r : Run) (key : Key)
    (hc : cfg.AZIMUTH_ALTITUDE_MOTORS = true) (h : r.g.calState = ALTITUDE_ADJUSTMENT)
    (hu : env.currentState ≠ .btnUP) (hd : env.currentState ≠ .btnDOWN)
    (hk : env.keyChanged = some key) :
    processCalibrationKeys cfg env r =
      (true, caseAltitudeAdjustment key
        (setAltitudeMinutes (clamp r.g.AltitudeMinutes (-60) 60)
          (setCalDelay 150 (startHardware cfg r)))) := by
  have h2 : (startHardware cfg r).g.calState = ALTITUDE_ADJUSTMENT := by
    rw [startHardware_calState, h]
  unfold processCalibrationKeys
  simp only [statePhase_altitude cfg env _ hc h2, altitudeAdjustmentPhase,
    checkProgressiveUpDown_idle _ _ _ hu hd, if_true, hk, startHardware_AltitudeMinutes]
  rw [keyDispatch_altitude cfg env key _ hc (by simpa using h2)]

theorem startHardware_no_move (cfg : Config) (g : Globals) :
    (startHardware cfg ⟨g, []⟩).log.filter isMoveCmd = [] := by
  rw [startHardware_log]
  simp only [List.nil_append, List.filter_append]
  split_ifs <;> simp [isMoveCmd]

/-- C13: azimuth/altitude commit.  Take a state of a configuration with the
azimuth/altitude motors whose pending values are in [-60, 60] (every reachable
state is), and a tick on which neither UP nor DOWN is held and that consumes a
SELECT key event.  In `AZIMUTH_ADJUSTMENT` with pending value p ≠ 0 the tick
emits exactly one move command, `moveBy(AZIMUTH_STEPS, p)`, sets the pending
value to 0 and leaves `calState = AZIMUTH_ADJUSTMENT`; with p = 0 it emits no
move command and sets `calState = HIGHLIGHT_AZIMUTH_ADJUSTMENT`.  The same
holds in `ALTITUDE_ADJUSTMENT` with `AltitudeMinutes`, `ALTITUDE_STEPS` and
`HIGHLIGHT_ALTITUDE_ADJUSTMENT`. -/
theorem azimuth_altitude_commit (cfg : Config) (env : Env) (g : Globals)
    (hc : cfg.AZIMUTH_ALTITUDE_MOTORS = true) (hin : azAltInRange g)
    (hu : env.currentState ≠ .btnUP) (hd : env.currentState ≠ .btnDOWN)
    (hk : env.keyChanged = some .btnSELECT) :
    (g.calState = AZIMUTH_ADJUSTMENT →
      (g.AzimuthMinutes ≠ 0 →
        (tickLog cfg env g).filter isMoveCmd
          = [Cmd.moveBy .AZIMUTH_STEPS (g.AzimuthMinutes : ℚ)] ∧
        (tickGlobals cfg env g).AzimuthMinutes = 0 ∧
        (tickGlobals cfg env g).calState = AZIMUTH_ADJUSTMENT) ∧
      (g.AzimuthMinutes = 0 →
        (tickLog cfg env g).filter isMoveCmd = [] ∧
        (tickGlobals cfg env g).AzimuthMinutes = 0 ∧
        (tickGlobals cfg env g).calState = HIGHLIGHT_AZIMUTH_ADJUSTMENT)) ∧
    (g.calState = ALTITUDE_ADJUSTMENT →
      (g.AltitudeMinutes ≠ 0 →
        (tickLog cfg env g).filter isMoveCmd
          = [Cmd.moveBy .ALTITUDE_STEPS (g.AltitudeMinutes : ℚ)] ∧
        (tickGlobals cfg env g).AltitudeMinutes = 0 ∧
        (tickGlobals cfg env g).calState = ALTITUDE_ADJUSTMENT) ∧
      (g.AltitudeMinutes = 0 →
        (tickLog cfg env g).filter isMoveCmd = [] ∧
        (tickGlobals cfg env g).AltitudeMinutes = 0 ∧
        (tickGlobals cfg env g).calState = HIGHLIGHT_ALTITUDE_ADJUSTMENT)) := by
  obtain ⟨a1, a2, b1, b2⟩ := hin
  have hm := startHardware_no_move cfg g
  refine ⟨fun hs => ?_, fun hs => ?_⟩
  · have e := processCalibrationKeys_azimuth_key cfg env ⟨g, []⟩ .btnSELECT hc hs hu hd hk
    have hcl : clamp g.AzimuthMinutes (-60) 60 = g.AzimuthMinutes := clamp_of_range _ _ _ a1 a2
    simp only [hcl] at e
    refine ⟨fun hp => ?_, fun hp => ?_⟩
    · simp [tickLog, tickGlobals, e, caseAzimuthAdjustment, hp, hm, isMoveCmd, hs]
    · simp [tickLog, tickGlobals, e, caseAzimuthAdjustment, hp, hm]
  · have e := processCalibrationKeys_altitude_key cfg env ⟨g, []⟩ .btnSELECT hc hs hu hd hk
    have hcl : clamp g.AltitudeMinutes (-60) 60 = g.AltitudeMinutes := clamp_of_range _ _ _ b1 b2
    simp only [hcl] at e
    refine ⟨fun hp => ?_, fun hp => ?_⟩
    · simp [tickLog, tickGlobals, e, caseAltitudeAdjustment, hp, hm, isMoveCmd, hs]
    · simp [tickLog, tickGlobals, e, caseAltitudeAdjustment, hp, hm]

theorem azimuth_altitude_commit_witness :
    (tickLog (sampleConfig true false) (keyEnv .btnSELECT) azimuthPendingGlobals).filter isMoveCmd
      = [Cmd.moveBy .AZIMUTH_STEPS 7] ∧
    (tickGlobals (sampleConfig true false) (keyEnv .btnSELECT) azimuthPendingGlobals).AzimuthMinutes
      = 0 ∧
    (tickGlobals (sampleConfig true false) (keyEnv .btnSELECT) azimuthPendingGlobals).calState
      = AZIMUTH_ADJUSTMENT := by
  have h := ((azimuth_altitude_commit (sampleConfig true false) (keyEnv .btnSELECT)
    azimuthPendingGlobals rfl (by simp [azAltInRange, azimuthPendingGlobals, initialGlobals])
    (by decide) (by decide) rfl).1 rfl).1 (by decide)
  simpa [azimuthPendingGlobals] using h

/-! ## The indicator -/

theorem clampF_range (v lo hi : ℚ) (h : lo ≤ hi) :
    lo ≤ clampF v lo hi ∧ clampF v lo hi ≤ hi := by
  unfold clampF
  split_ifs with h1 h2
  · exact ⟨le_refl _, h⟩
  · exact ⟨h, le_refl _⟩
  · exact ⟨not_lt.mp h1, not_lt.mp h2⟩

theorem writeAt_length (cs : List Char) (buf : List Char) (i : Nat) :
    (writeAt buf i cs).length = buf.length := by
  induction cs generalizing buf i with
  | nil => rfl
  | cons c cs ih => simp [writeAt, ih]

theorem indicatorGauge_length (buf : List Char) (angle : ℚ) :
    (indicatorGauge buf angle).length = buf.length := by
  simp [indicatorGauge, List.range_succ, writeAt_length]

theorem indicatorPos_range (angle : ℚ) : -5 ≤ indicatorPos angle ∧ indicatorPos angle ≤ 5 :=
  clamp_range _ _ _ (by decide)

theorem roundToLong_zero : roundToLong 0 = 0 := by
  norm_num [roundToLong, truncToInt, Int.floor_eq_iff]

theorem dtostrf_zero : dtostrf 0 = ['0', '.', '0', Char.ofNat 0] := by
  simp [dtostrf, roundToLong_zero]
  rfl

theorem indicatorPos_zero : indicatorPos 0 = 0 := by
  simp [indicatorPos, roundToLong_zero, clamp]

theorem clampF_zero : clampF 0 (-99 / 10) (99 / 10) = 0 := by
  norm_num [clampF]

theorem makeIndicator_zero (buf : List Char) : makeIndicator buf 0 = indicatorGauge buf 0 := by
  simp [makeIndicator, clampF_zero, indicatorPos_zero]

theorem indicatorPos_twelve : indicatorPos (clampF 12 (-99 / 10) (99 / 10)) = 5 := by
  norm_num [clampF, indicatorPos, roundToLong, truncToInt, clamp, Int.floor_eq_iff]

/-- C15: indicator marker placement.  For every angle a and every 20-byte
buffer, with c = clamp(a, -9.9, 9.9) and pos = clamp(round(4 * c), -5, 5):
when pos = 0 the buffer is the gauge without a marker; when pos < 0 the index
8 + pos lies in 3..7 and the buffer is the gauge with `>` stored there; when
pos > 0 the index 10 + pos lies in 11..15 and the buffer is the gauge with `<`
stored there.  Witnesses: a = 0 gives pos = 0; a = 12 clamps to 9.9 and gives
pos = 5; a = -2.5 gives round(-10) and pos = -5. -/
theorem indicator_marker_placement (buf : List Char) (a : ℚ) (hlen : buf.length = 20) :
    indicatorPos (clampF a (-99 / 10) (99 / 10))
      = clamp (roundToLong (4 * clampF a (-99 / 10) (99 / 10))) (-5) 5 ∧
    (indicatorPos (clampF a (-99 / 10) (99 / 10)) = 0 →
      makeIndicator buf a = indicatorGauge buf (clampF a (-99 / 10) (99 / 10))) ∧
    (indicatorPos (clampF a (-99 / 10) (99 / 10)) < 0 →
      3 ≤ 8 + indicatorPos (clampF a (-99 / 10) (99 / 10)) ∧
      8 + indicatorPos (clampF a (-99 / 10) (99 / 10)) ≤ 7 ∧
      makeIndicator buf a = (indicatorGauge buf (clampF a (-99 / 10) (99 / 10))).set
        (8 + indicatorPos (clampF a (-99 / 10) (99 / 10))).toNat '>' ∧
      (makeIndicator buf a)[(8 + indicatorPos (clampF a (-99 / 10) (99 / 10))).toNat]?
        = some '>') ∧
    (0 < indicatorPos (clampF a (-99 / 10) (99 / 10)) →
      11 ≤ 10 + indicatorPos (clampF a (-99 / 10) (99 / 10)) ∧
      10 + indicatorPos (clampF a (-99 / 10) (99 / 10)) ≤ 15 ∧
      makeIndicator buf a = (indicatorGauge buf (clampF a (-99 / 10) (99 / 10))).set
        (10 + indicatorPos (clampF a (-99 / 10) (99 / 10))).toNat '<' ∧
      (makeIndicator buf a)[(10 + indicatorPos (clampF a (-99 / 10) (99 / 10))).toNat]?
        = some '<') ∧
    indicatorPos (clampF 0 (-99 / 10) (99 / 10)) = 0 ∧
    clampF 12 (-99 / 10) (99 / 10) = 99 / 10 ∧
    indicatorPos (clampF 12 (-99 / 10) (99 / 10)) = 5 ∧
    roundToLong (-5 / 2 * 4) = -10 ∧
    indicatorPos (clampF (-5 / 2) (-99 / 10) (99 / 10)) = -5 := by
  generalize hc : clampF a (-99 / 10) (99 / 10) = c
  have hr := indicatorPos_range c
  have hm : makeIndicator buf a =
      if indicatorPos c ≠ 0 then
        (indicatorGauge buf c).set (indicatorPos c + (if indicatorPos c < 0 then 8 else 10)).toNat
          (if indicatorPos c < 0 then '>' else '<')
      else indicatorGauge buf c := by
    simp only [makeIndicator, hc]
  have hl := indicatorGauge_length buf c
  refine ⟨by rw [indicatorPos, mul_comm], fun h0 => ?_, fun hneg => ?_, fun hpos => ?_,
    ?_, ?_, ?_, ?_, ?_⟩
  · rw [hm, if_neg (by simpa using h0)]
  · have hne : indicatorPos c ≠ 0 := by omega
    have e : indicatorPos c + 8 = 8 + indicatorPos c := by omega
    have hm2 : makeIndicator buf a = (indicatorGauge buf c).set (8 + indicatorPos c).toNat '>' := by
      rw [hm, if_pos hne, if_pos hneg, if_pos hneg, e]
    refine ⟨by omega, by omega, hm2, ?_⟩
    rw [hm2, List.getElem?_set_self (by omega)]
  · have hne : indicatorPos c ≠ 0 := by omega
    have hn : ¬ indicatorPos c < 0 := by omega
    have e : indicatorPos c + 10 = 10 + indicatorPos c := by omega
    have hm2 : makeIndicator buf a = (indicatorGauge buf c).set (10 + indicatorPos c).toNat '<' := by
      rw [hm, if_pos hne, if_neg hn, if_neg hn, e]
    refine ⟨by omega, by omega, hm2, ?_⟩
    rw [hm2, List.getElem?_set_self (by omega)]
  · rw [clampF_zero, indicatorPos_zero]
  · norm_num [clampF]
  · exact indicatorPos_twelve
  · norm_num [roundToLong, truncToInt, Int.ceil_eq_iff]
  · have e1 : clampF (-5 / 2) (-99 / 10) (99 / 10) = -5 / 2 := by norm_num [clampF]
    have e2 : roundToLong (-5 / 2 * 4) = -10 := by
      norm_num [roundToLong, truncToInt, Int.ceil_eq_iff]
    rw [e1, indicatorPos, e2]
    decide

theorem indicator_marker_placement_witness :
    (sprintfBuffer "R: -------------").length = 20 ∧
    (makeIndicator (sprintfBuffer "R: -------------") 12)[15]? = some '<' := by
  have h := ((indicator_marker_placement (sprintfBuffer "R: -------------") 12 rfl).2.2.2.1
    (by rw [indicatorPos_twelve]; decide)).2.2.2
  rw [indicatorPos_twelve] at h
  exact ⟨rfl, h⟩

/-! ## Persistence of the step and backlash values -/

theorem startHardware_no_persist (cfg : Config) (g : Globals) :
    (startHardware cfg ⟨g, []⟩).log.filter isPersistCmd = [] := by
  rw [startHardware_log]
  simp only [List.nil_append, List.filter_append]
  split_ifs <;> simp [isPersistCmd]

theorem gotoNextMenu_no_persist (cfg : Config) (r : Run) :
    (gotoNextMenu cfg r).log.filter isPersistCmd = r.log.filter isPersistCmd := by
  rw [gotoNextMenu_log]
  simp only [List.filter_append]
  split_ifs <;> simp [isPersistCmd]

theorem checkProgressiveUpDown_held (b : Key) (v : Int) (r : Run)
    (hb : b = .btnUP ∨ b = .btnDOWN) :
    checkProgressiveUpDown b v r =
      (false, (if b = .btnUP then wrapInt (v + 1) else wrapInt (v - 1)),
        setCalDelay (truncToInt (max (25 : ℚ) (94 / 100 * (r.g.calDelay : ℚ))))
          (emit (.delay r.g.calDelay) r)) := by
  rcases hb with h | h <;> subst h <;> simp [checkProgressiveUpDown]

/-- A tick in `RA_STEP_CALIBRATION` with UP or DOWN held: the working value moves by one,
the delay is requested, no key event is looked at. -/
theorem processCalibrationKeys_raStep_held (cfg : Config) (env : Env) (r : Run)
    (h : r.g.calState = RA_STEP_CALIBRATION)
    (hb : env.currentState = .btnUP ∨ env.currentState = .btnDOWN) :
    processCalibrationKeys cfg env r =
      (false, setRAStepsPerDegree
        (if env.currentState = .btnUP then wrapInt (r.g.RAStepsPerDegree + 1)
        else wrapInt (r.g.RAStepsPerDegree - 1))
        (setCalDelay (truncToInt (max (25 : ℚ) (94 / 100 * (r.g.calDelay : ℚ))))
          (emit (.delay r.g.calDelay) (startHardware cfg r)))) := by
  have h2 : (startHardware cfg r).g.calState = RA_STEP_CALIBRATION := by
    rw [startHardware_calState, h]
  unfold processCalibrationKeys
  simp [statePhase_raStep cfg env _ h2, raStepCalibrationPhase, checkProgressiveUpDown_held _ _ _ hb]

/-- A tick in `RA_STEP_CALIBRATION` with neither UP nor DOWN held. -/
theorem processCalibrationKeys_raStep_idle (cfg : Config) (env : Env) (r : Run)
    (h : r.g.calState = RA_STEP_CALIBRATION)
    (hu : env.currentState ≠ .btnUP) (hd : env.currentState ≠ .btnDOWN) :
    processCalibrationKeys cfg env r =
      match env.keyChanged with
      | some key => (true, caseRAStepCalibration cfg key (setCalDelay 150 (startHardware cfg r)))
      | none => (false, setCalDelay 150 (startHardware cfg r)) := by
  have h2 : (startHardware cfg r).g.calState = RA_STEP_CALIBRATION := by
    rw [startHardware_calState, h]
  have e : setRAStepsPerDegree (startHardware cfg r).g.RAStepsPerDegree (setCalDelay 150 (startHardware cfg r))
      = setCalDelay 150 (startHardware cfg r) := rfl
  unfold processCalibrationKeys
  simp only [statePhase_raStep cfg env _ h2, raStepCalibrationPhase, checkProgressiveUpDown_idle _ _ _ hu hd,
    if_true, e]
  cases env.keyChanged with
  | none => rfl
  | some key =>
    simp only [keyDispatch_raStep cfg env key (setCalDelay 150 (startHardware cfg r)) h2]

/-- What a tick in `RA_STEP_CALIBRATION` writes to the mount's storage. -/
theorem tick_raStep_persist (cfg : Config) (env : Env) (g : Globals)
    (h : g.calState = RA_STEP_CALIBRATION) :
    (env.currentState ≠ .btnUP → env.currentState ≠ .btnDOWN →
      env.keyChanged = some .btnSELECT →
      (tickLog cfg env g).filter isPersistCmd = [Cmd.setStepsPerDegree .RA_STEPS g.RAStepsPerDegree] ∧
      (tickGlobals cfg env g).calState = HIGHLIGHT_RA_STEPS ∧
      (tickGlobals cfg env g).RAStepsPerDegree = g.RAStepsPerDegree) ∧
    (env.currentState ≠ .btnUP → env.currentState ≠ .btnDOWN →
      env.keyChanged = some .btnRIGHT →
      (tickLog cfg env g).filter isPersistCmd = [] ∧
      (tickGlobals cfg env g).calState = HIGHLIGHT_RA_STEPS) ∧
    (env.currentState = .btnUP ∨ env.currentState = .btnDOWN →
      (tickLog cfg env g).filter isPersistCmd = [] ∧
      (tickGlobals cfg env g).calState = RA_STEP_CALIBRATION) ∧
    (env.keyChanged ≠ some .btnSELECT → (tickLog cfg env g).filter isPersistCmd = []) := by
  have hp := startHardware_no_persist cfg g
  have h1 : ∀ key, env.currentState ≠ .btnUP → env.currentState ≠ .btnDOWN →
      env.keyChanged = some key →
      processCalibrationKeys cfg env ⟨g, []⟩
        = (true, caseRAStepCalibration cfg key (setCalDelay 150 (startHardware cfg ⟨g, []⟩))) := by
    intro key hu hd hk
    rw [processCalibrationKeys_raStep_idle cfg env ⟨g, []⟩ h hu hd, hk]
  have h2 : env.currentState = .btnUP ∨ env.currentState = .btnDOWN →
      (tickLog cfg env g).filter isPersistCmd = [] ∧
      (tickGlobals cfg env g).calState = RA_STEP_CALIBRATION := by
    intro hb
    simp [tickLog, tickGlobals, processCalibrationKeys_raStep_held cfg env ⟨g, []⟩ h hb, hp,
      isPersistCmd, h]
  refine ⟨fun hu hd hk => ?_, fun hu hd hk => ?_, h2, fun hk => ?_⟩
  · simp [tickLog, tickGlobals, h1 _ hu hd hk, caseRAStepCalibration, hp, isPersistCmd]
  · simp [tickLog, tickGlobals, h1 _ hu hd hk, caseRAStepCalibration, hp, gotoNextMenu_no_persist,
      gotoNextMenu_calState]
  · by_cases hb : env.currentState = .btnUP ∨ env.currentState = .btnDOWN
    · exact (h2 hb).1
    · have hu : env.currentState ≠ .btnUP := fun e => hb (Or.inl e)
      have hd : env.currentState ≠ .btnDOWN := fun e => hb (Or.inr e)
      cases hkc : env.keyChanged with
      | none =>
        simp [tickLog, processCalibrationKeys_raStep_idle cfg env ⟨g, []⟩ h hu hd, hkc, hp]
      | some key =>
        have hne : key ≠ .btnSELECT := fun e => hk (by rw [hkc, e])
        simp only [tickLog, h1 key hu hd hkc, caseRAStepCalibration, if_neg hne]
        split_ifs
        · simp [gotoNextMenu_no_persist, hp]
        · simp [hp]

/-- A tick in `DEC_STEP_CALIBRATION` with UP or DOWN held: the working value moves by one,
the delay is requested, no key event is looked at. -/
theorem processCalibrationKeys_decStep_held (cfg : Config) (env : Env) (r : Run)
    (h : r.g.calState = DEC_STEP_CALIBRATION)
    (hb : env.currentState = .btnUP ∨ env.currentState = .btnDOWN) :
    processCalibrationKeys cfg env r =
      (false, setDECStepsPerDegree
        (if env.currentState = .btnUP then wrapInt (r.g.DECStepsPerDegree + 1)
        else wrapInt (r.g.DECStepsPerDegree - 1))
        (setCalDelay (truncToInt (max (25 : ℚ) (94 / 100 * (r.g.calDelay : ℚ))))
          (emit (.delay r.g.calDelay) (startHardware cfg r)))) := by
  have h2 : (startHardware cfg r).g.calState = DEC_STEP_CALIBRATION := by
    rw [startHardware_calState, h]
  unfold processCalibrationKeys
  simp [statePhase_decStep cfg env _ h2, decStepCalibrationPhase, checkProgressiveUpDown_held _ _ _ hb]

/-- A tick in `DEC_STEP_CALIBRATION` with neither UP nor DOWN held. -/
theorem processCalibrationKeys_decStep_idle (cfg : Config) (env : Env) (r : Run)
    (h : r.g.calState = DEC_STEP_CALIBRATION)
    (hu : env.currentState ≠ .btnUP) (hd : env.currentState ≠ .btnDOWN) :
    processCalibrationKeys cfg env r =
      match env.keyChanged with
      | some key => (true, caseDECStepCalibration cfg key (setCalDelay 150 (startHardware cfg r)))
      | none => (false, setCalDelay 150 (startHardware cfg r)) := by
  have h2 : (startHardware cfg r).g.calState = DEC_STEP_CALIBRATION := by
    rw [startHardware_calState, h]
  have e : setDECStepsPerDegree (startHardware cfg r).g.DECStepsPerDegree (setCalDelay 150 (startHardware cfg r))
      = setCalDelay 150 (startHardware cfg r) := rfl
  unfold processCalibrationKeys
  simp only [statePhase_decStep cfg env _ h2, decStepCalibrationPhase, checkProgressiveUpDown_idle _ _ _ hu hd,
    if_true, e]
  cases env.keyChanged with
  | none => rfl
  | some key =>
    simp only [keyDispatch_decStep cfg env key (setCalDelay 150 (startHardware cfg r)) h2]

/-- What a tick in `DEC_STEP_CALIBRATION` writes to the mount's storage. -/
theorem tick_decStep_persist (cfg : Config) (env : Env) (g : Globals)
    (h : g.calState = DEC_STEP_CALIBRATION) :
    (env.currentState ≠ .btnUP → env.currentState ≠ .btnDOWN →
      env.keyChanged = some .btnSELECT →
      (tickLog cfg env g).filter isPersistCmd = [Cmd.setStepsPerDegree .DEC_STEPS g.DECStepsPerDegree] ∧
      (tickGlobals cfg env g).calState = HIGHLIGHT_DEC_STEPS ∧
      (tickGlobals cfg env g).DECStepsPerDegree = g.DECStepsPerDegree) ∧
    (env.currentState ≠ .btnUP → env.currentState ≠ .btnDOWN →
      env.keyChanged = some .btnRIGHT →
      (tickLog cfg env g).filter isPersistCmd = [] ∧
      (tickGlobals cfg env g).calState = HIGHLIGHT_DEC_STEPS) ∧
    (env.currentState = .btnUP ∨ env.currentState = .btnDOWN →
      (tickLog cfg env g).filter isPersistCmd = [] ∧
      (tickGlobals cfg env g).calState = DEC_STEP_CALIBRATION) ∧
    (env.keyChanged ≠ some .btnSELECT → (tickLog cfg env g).filter isPersistCmd = []) := by
  have hp := startHardware_no_persist cfg g
  have h1 : ∀ key, env.currentState ≠ .btnUP → env.currentState ≠ .btnDOWN →
      env.keyChanged = some key →
      processCalibrationKeys cfg env ⟨g, []⟩
        = (true, caseDECStepCalibration cfg key (setCalDelay 150 (startHardware cfg ⟨g, []⟩))) := by
    intro key hu hd hk
    rw [processCalibrationKeys_decStep_idle cfg env ⟨g, []⟩ h hu hd, hk]
  have h2 : env.currentState = .btnUP ∨ env.currentState = .btnDOWN →
      (tickLog cfg env g).filter isPersistCmd = [] ∧
      (tickGlobals cfg env g).calState = DEC_STEP_CALIBRATION := by
    intro hb
    simp [tickLog, tickGlobals, processCalibrationKeys_decStep_held cfg env ⟨g, []⟩ h hb, hp,
      isPersistCmd, h]
  refine ⟨fun hu hd hk => ?_, fun hu hd hk => ?_, h2, fun hk => ?_⟩
  · simp [tickLog, tickGlobals, h1 _ hu hd hk, caseDECStepCalibration, hp, isPersistCmd]
  · simp [tickLog, tickGlobals, h1 _ hu hd hk, caseDECStepCalibration, hp, gotoNextMenu_no_persist,
      gotoNextMenu_calState]
  · by_cases hb : env.currentState = .btnUP ∨ env.currentState = .btnDOWN
    · exact (h2 hb).1
    · have hu : env.currentState ≠ .btnUP := fun e => hb (Or.inl e)
      have hd : env.currentState ≠ .btnDOWN := fun e => hb (Or.inr e)
      cases hkc : env.keyChanged with
      | none =>
        simp [tickLog, processCalibrationKeys_decStep_idle cfg env ⟨g, []⟩ h hu hd, hkc, hp]
      | some key =>
        have hne : key ≠ .btnSELECT := fun e => hk (by rw [hkc, e])
        simp only [tickLog, h1 key hu hd hkc, caseDECStepCalibration, if_neg hne]
        split_ifs
        · simp [gotoNextMenu_no_persist, hp]
        · simp [hp]

/-- A tick in `BACKLASH_CALIBRATION` with UP or DOWN held: the working value moves by one,
the delay is requested, no key event is looked at. -/
theorem processCalibrationKeys_backlash_held (cfg : Config) (env : Env) (r : Run)
    (h : r.g.calState = BACKLASH_CALIBRATION)
    (hb : env.currentState = .btnUP ∨ env.currentState = .btnDOWN) :
    processCalibrationKeys cfg env r =
      (false, setBacklashSteps
        (if env.currentState = .btnUP then wrapInt (r.g.BacklashSteps + 1)
        else wrapInt (r.g.BacklashSteps - 1))
        (setCalDelay (truncToInt (max (25 : ℚ) (94 / 100 * (r.g.calDelay : ℚ))))
          (emit (.delay r.g.calDelay) (startHardware cfg r)))) := by
  have h2 : (startHardware cfg r).g.calState = BACKLASH_CALIBRATION := by
    rw [startHardware_calState, h]
  unfold processCalibrationKeys
  simp [statePhase_backlash cfg env _ h2, backlashCalibrationPhase, checkProgressiveUpDown_held _ _ _ hb]

/-- A tick in `BACKLASH_CALIBRATION` with neither UP nor DOWN held. -/
theorem processCalibrationKeys_backlash_idle (cfg : Config) (env : Env) (r : Run)
    (h : r.g.calState = BACKLASH_CALIBRATION)
    (hu : env.currentState ≠ .btnUP) (hd : env.currentState ≠ .btnDOWN) :
    processCalibrationKeys cfg env r =
      match env.keyChanged with
      | some key => (true, caseBacklashCalibration cfg key (setCalDelay 150 (startHardware cfg r)))
      | none => (false, setCalDelay 150 (startHardware cfg r)) := by
  have h2 : (startHardware cfg r).g.calState = BACKLASH_CALIBRATION := by
    rw [startHardware_calState, h]
  have e : setBacklashSteps (startHardware cfg r).g.BacklashSteps (setCalDelay 150 (startHardware cfg r))
      = setCalDelay 150 (startHardware cfg r) := rfl
  unfold processCalibrationKeys
  simp only [statePhase_backlash cfg env _ h2, backlashCalibrationPhase, checkProgressiveUpDown_idle _ _ _ hu hd,
    if_true, e]
  cases env.keyChanged with
  | none => rfl
  | some key =>
    simp only [keyDispatch_backlash cfg env key (setCalDelay 150 (startHardware cfg r)) h2]

/-- What a tick in `BACKLASH_CALIBRATION` writes to the mount's storage. -/
theorem tick_backlash_persist (cfg : Config) (env : Env) (g : Globals)
    (h : g.calState = BACKLASH_CALIBRATION) :
    (env.currentState ≠ .btnUP → env.currentState ≠ .btnDOWN →
      env.keyChanged = some .btnSELECT →
      (tickLog cfg env g).filter isPersistCmd = [Cmd.setBacklashCorrection g.BacklashSteps] ∧
      (tickGlobals cfg env g).calState = HIGHLIGHT_BACKLASH_STEPS ∧
      (tickGlobals cfg env g).BacklashSteps = g.BacklashSteps) ∧
    (env.currentState ≠ .btnUP → env.currentState ≠ .btnDOWN →
      env.keyChanged = some .btnRIGHT →
      (tickLog cfg env g).filter isPersistCmd = [] ∧
      (tickGlobals cfg env g).calState = HIGHLIGHT_BACKLASH_STEPS) ∧
    (env.currentState = .btnUP ∨ env.currentState = .btnDOWN →
      (tickLog cfg env g).filter isPersistCmd = [] ∧
      (tickGlobals cfg env g).calState = BACKLASH_CALIBRATION) ∧
    (env.keyChanged ≠ some .btnSELECT → (tickLog cfg env g).filter isPersistCmd = []) := by
  have hp := startHardware_no_persist cfg g
  have h1 : ∀ key, env.currentState ≠ .btnUP → env.currentState ≠ .btnDOWN →
      env.keyChanged = some key →
      processCalibrationKeys cfg env ⟨g, []⟩
        = (true, caseBacklashCalibration cfg key (setCalDelay 150 (startHardware cfg ⟨g, []⟩))) := by
    intro key hu hd hk
    rw [processCalibrationKeys_backlash_idle cfg env ⟨g, []⟩ h hu hd, hk]
  have h2 : env.currentState = .btnUP ∨ env.currentState = .btnDOWN →
      (tickLog cfg env g).filter isPersistCmd = [] ∧
      (tickGlobals cfg env g).calState = BACKLASH_CALIBRATION := by
    intro hb
    simp [tickLog, tickGlobals, processCalibrationKeys_backlash_held cfg env ⟨g, []⟩ h hb, hp,
      isPersistCmd, h]
  refine ⟨fun hu hd hk => ?_, fun hu hd hk => ?_, h2, fun hk => ?_⟩
  · simp [tickLog, tickGlobals, h1 _ hu hd hk, caseBacklashCalibration, hp, isPersistCmd]
  · simp [tickLog, tickGlobals, h1 _ hu hd hk, caseBacklashCalibration, hp, gotoNextMenu_no_persist,
      gotoNextMenu_calState]
  · by_cases hb : env.currentState = .btnUP ∨ env.currentState = .btnDOWN
    · exact (h2 hb).1
    · have hu : env.currentState ≠ .btnUP := fun e => hb (Or.inl e)
      have hd : env.currentState ≠ .btnDOWN := fun e => hb (Or.inr e)
      cases hkc : env.keyChanged with
      | none =>
        simp [tickLog, processCalibrationKeys_backlash_idle cfg env ⟨g, []⟩ h hu hd, hkc, hp]
      | some key =>
        have hne : key ≠ .btnSELECT := fun e => hk (by rw [hkc, e])
        simp only [tickLog, h1 key hu hd hkc, caseBacklashCalibration, if_neg hne]
        split_ifs
        · simp [gotoNextMenu_no_persist, hp]
        · simp [hp]

/-! ## Leaving an edit with RIGHT and entering it again -/

theorem gotoNextMenu_RAStepsPerDegree (cfg : Config) (r : Run) :
    (gotoNextMenu cfg r).g.RAStepsPerDegree = r.g.RAStepsPerDegree := by
  unfold gotoNextMenu
  simp only []
  split_ifs <;> rfl

theorem gotoNextMenu_DECStepsPerDegree (cfg : Config) (r : Run) :
    (gotoNextMenu cfg r).g.DECStepsPerDegree = r.g.DECStepsPerDegree := by
  unfold gotoNextMenu
  simp only []
  split_ifs <;> rfl

theorem gotoNextMenu_BacklashSteps (cfg : Config) (r : Run) :
    (gotoNextMenu cfg r).g.BacklashSteps = r.g.BacklashSteps := by
  unfold gotoNextMenu
  simp only []
  split_ifs <;> rfl

/-- A tick in `HIGHLIGHT_RA_STEPS`. -/
theorem processCalibrationKeys_highlightRA (cfg : Config) (env : Env) (r : Run)
    (h : r.g.calState = HIGHLIGHT_RA_STEPS) :
    processCalibrationKeys cfg env r =
      match env.keyChanged with
      | some key => (true, caseHighlight cfg env RA_STEP_CALIBRATION HIGHLIGHT_FIRST key
          (startHardware cfg r))
      | none => (false, startHardware cfg r) := by
  have h2 : (startHardware cfg r).g.calState = HIGHLIGHT_RA_STEPS := by
    rw [startHardware_calState, h]
  unfold processCalibrationKeys
  simp only [statePhase_highlightRA cfg env _ h2, if_true]
  cases env.keyChanged with
  | none => rfl
  | some key => simp only [keyDispatch_highlightRA cfg env key _ h2]

/-- SELECT in `HIGHLIGHT_RA_STEPS` enters `RA_STEP_CALIBRATION` and leaves the working value
`RAStepsPerDegree` as it is. -/
theorem tick_highlightRA_select (cfg : Config) (env : Env) (g : Globals)
    (h : g.calState = HIGHLIGHT_RA_STEPS) (hk : env.keyChanged = some .btnSELECT) :
    (tickGlobals cfg env g).calState = RA_STEP_CALIBRATION ∧
    (tickGlobals cfg env g).RAStepsPerDegree = g.RAStepsPerDegree := by
  simp [tickGlobals, processCalibrationKeys_highlightRA cfg env ⟨g, []⟩ h, hk, caseHighlight]

/-- A held tick in `RA_STEP_CALIBRATION` moves the working value by one. -/
theorem tick_raStep_held (cfg : Config) (env : Env) (g : Globals)
    (h : g.calState = RA_STEP_CALIBRATION)
    (hb : env.currentState = .btnUP ∨ env.currentState = .btnDOWN) :
    (tickGlobals cfg env g).calState = RA_STEP_CALIBRATION ∧
    (tickGlobals cfg env g).RAStepsPerDegree
      = (if env.currentState = .btnUP then wrapInt (g.RAStepsPerDegree + 1)
        else wrapInt (g.RAStepsPerDegree - 1)) := by
  simp [tickGlobals, processCalibrationKeys_raStep_held cfg env ⟨g, []⟩ h hb, h]

/-- RIGHT in `RA_STEP_CALIBRATION` returns to `HIGHLIGHT_RA_STEPS` with the working value unchanged. -/
theorem tick_raStep_right (cfg : Config) (env : Env) (g : Globals)
    (h : g.calState = RA_STEP_CALIBRATION)
    (hu : env.currentState ≠ .btnUP) (hd : env.currentState ≠ .btnDOWN)
    (hk : env.keyChanged = some .btnRIGHT) :
    (tickGlobals cfg env g).calState = HIGHLIGHT_RA_STEPS ∧
    (tickGlobals cfg env g).RAStepsPerDegree = g.RAStepsPerDegree := by
  simp [tickGlobals, processCalibrationKeys_raStep_idle cfg env ⟨g, []⟩ h hu hd, hk, caseRAStepCalibration,
    gotoNextMenu_calState, gotoNextMenu_RAStepsPerDegree]

/-- RIGHT in `RA_STEP_CALIBRATION` followed by SELECT is back in `RA_STEP_CALIBRATION` with the working
value the edit was left with, whatever the mount reports. -/
theorem tick_raStep_right_select (cfg : Config) (e1 e2 : Env) (g : Globals)
    (h : g.calState = RA_STEP_CALIBRATION)
    (hu : e1.currentState ≠ .btnUP) (hd : e1.currentState ≠ .btnDOWN)
    (hk1 : e1.keyChanged = some .btnRIGHT) (hk2 : e2.keyChanged = some .btnSELECT) :
    (tickGlobals cfg e2 (tickGlobals cfg e1 g)).calState = RA_STEP_CALIBRATION ∧
    (tickGlobals cfg e2 (tickGlobals cfg e1 g)).RAStepsPerDegree = g.RAStepsPerDegree := by
  obtain ⟨a, b⟩ := tick_raStep_right cfg e1 g h hu hd hk1
  obtain ⟨c, d⟩ := tick_highlightRA_select cfg e2 _ a hk2
  exact ⟨c, d.trans b⟩

/-- A tick in `HIGHLIGHT_DEC_STEPS`. -/
theorem processCalibrationKeys_highlightDEC (cfg : Config) (env : Env) (r : Run)
    (h : r.g.calState = HIGHLIGHT_DEC_STEPS) :
    processCalibrationKeys cfg env r =
      match env.keyChanged with
      | some key => (true, caseHighlight cfg env DEC_STEP_CALIBRATION HIGHLIGHT_FIRST key
          (startHardware cfg r))
      | none => (false, startHardware cfg r) := by
  have h2 : (startHardware cfg r).g.calState = HIGHLIGHT_DEC_STEPS := by
    rw [startHardware_calState, h]
  unfold processCalibrationKeys
  simp only [statePhase_highlightDEC cfg env _ h2, if_true]
  cases env.keyChanged with
  | none => rfl
  | some key => simp only [keyDispatch_highlightDEC cfg env key _ h2]

/-- SELECT in `HIGHLIGHT_DEC_STEPS` enters `DEC_STEP_CALIBRATION` and leaves the working value
`DECStepsPerDegree` as it is. -/
theorem tick_highlightDEC_select (cfg : Config) (env : Env) (g : Globals)
    (h : g.calState = HIGHLIGHT_DEC_STEPS) (hk : env.keyChanged = some .btnSELECT) :
    (tickGlobals cfg env g).calState = DEC_STEP_CALIBRATION ∧
    (tickGlobals cfg env g).DECStepsPerDegree = g.DECStepsPerDegree := by
  simp [tickGlobals, processCalibrationKeys_highlightDEC cfg env ⟨g, []⟩ h, hk, caseHighlight]

/-- A held tick in `DEC_STEP_CALIBRATION` moves the working value by one. -/
theorem tick_decStep_held (cfg : Config) (env : Env) (g : Globals)
    (h : g.calState = DEC_STEP_CALIBRATION)
    (hb : env.currentState = .btnUP ∨ env.currentState = .btnDOWN) :
    (tickGlobals cfg env g).calState = DEC_STEP_CALIBRATION ∧
    (tickGlobals cfg env g).DECStepsPerDegree
      = (if env.currentState = .btnUP then wrapInt (g.DECStepsPerDegree + 1)
        else wrapInt (g.DECStepsPerDegree - 1)) := by
  simp [tickGlobals, processCalibrationKeys_decStep_held cfg env ⟨g, []⟩ h hb, h]

/-- RIGHT in `DEC_STEP_CALIBRATION` returns to `HIGHLIGHT_DEC_STEPS` with the working value unchanged. -/
theorem tick_decStep_right (cfg : Config) (env : Env) (g : Globals)
    (h : g.calState = DEC_STEP_CALIBRATION)
    (hu : env.currentState ≠ .btnUP) (hd : env.currentState ≠ .btnDOWN)
    (hk : env.keyChanged = some .btnRIGHT) :
    (tickGlobals cfg env g).calState = HIGHLIGHT_DEC_STEPS ∧
    (tickGlobals cfg env g).DECStepsPerDegree = g.DECStepsPerDegree := by
  simp [tickGlobals, processCalibrationKeys_decStep_idle cfg env ⟨g, []⟩ h hu hd, hk, caseDECStepCalibration,
    gotoNextMenu_calState, gotoNextMenu_DECStepsPerDegree]

/-- RIGHT in `DEC_STEP_CALIBRATION` followed by SELECT is back in `DEC_STEP_CALIBRATION` with the working
value the edit was left with, whatever the mount reports. -/
theorem tick_decStep_right_select (cfg : Config) (e1 e2 : Env) (g : Globals)
    (h : g.calState = DEC_STEP_CALIBRATION)
    (hu : e1.currentState ≠ .btnUP) (hd : e1.currentState ≠ .btnDOWN)
    (hk1 : e1.keyChanged = some .btnRIGHT) (hk2 : e2.keyChanged = some .btnSELECT) :
    (tickGlobals cfg e2 (tickGlobals cfg e1 g)).calState = DEC_STEP_CALIBRATION ∧
    (tickGlobals cfg e2 (tickGlobals cfg e1 g)).DECStepsPerDegree = g.DECStepsPerDegree := by
  obtain ⟨a, b⟩ := tick_decStep_right cfg e1 g h hu hd hk1
  obtain ⟨c, d⟩ := tick_highlightDEC_select cfg e2 _ a hk2
  exact ⟨c, d.trans b⟩

/-- A tick in `HIGHLIGHT_BACKLASH_STEPS`. -/
theorem processCalibrationKeys_highlightBacklash (cfg : Config) (env : Env) (r : Run)
    (h : r.g.calState = HIGHLIGHT_BACKLASH_STEPS) :
    processCalibrationKeys cfg env r =
      match env.keyChanged with
      | some key => (true, caseHighlight cfg env BACKLASH_CALIBRATION HIGHLIGHT_FIRST key
          (startHardware cfg r))
      | none => (false, startHardware cfg r) := by
  have h2 : (startHardware cfg r).g.calState = HIGHLIGHT_BACKLASH_STEPS := by
    rw [startHardware_calState, h]
  unfold processCalibrationKeys
  simp only [statePhase_highlightBacklash cfg env _ h2, if_true]
  cases env.keyChanged with
  | none => rfl
  | some key => simp only [keyDispatch_highlightBacklash cfg env key _ h2]

/-- SELECT in `HIGHLIGHT_BACKLASH_STEPS` enters `BACKLASH_CALIBRATION` and leaves the working value
`BacklashSteps` as it is. -/
theorem tick_highlightBacklash_select (cfg : Config) (env : Env) (g : Globals)
    (h : g.calState = HIGHLIGHT_BACKLASH_STEPS) (hk : env.keyChanged = some .btnSELECT) :
    (tickGlobals cfg env g).calState = BACKLASH_CALIBRATION ∧
    (tickGlobals cfg env g).BacklashSteps = g.BacklashSteps := by
  simp [tickGlobals, processCalibrationKeys_highlightBacklash cfg env ⟨g, []⟩ h, hk, caseHighlight]

/-- A held tick in `BACKLASH_CALIBRATION` moves the working value by one. -/
theorem tick_backlash_held (cfg : Config) (env : Env) (g : Globals)
    (h : g.calState = BACKLASH_CALIBRATION)
    (hb : env.currentState = .btnUP ∨ env.currentState = .btnDOWN) :
    (tickGlobals cfg env g).calState = BACKLASH_CALIBRATION ∧
    (tickGlobals cfg env g).BacklashSteps
      = (if env.currentState = .btnUP then wrapInt (g.BacklashSteps + 1)
        else wrapInt (g.BacklashSteps - 1)) := by
  simp [tickGlobals, processCalibrationKeys_backlash_held cfg env ⟨g, []⟩ h hb, h]

/-- RIGHT in `BACKLASH_CALIBRATION` returns to `HIGHLIGHT_BACKLASH_STEPS` with the working value unchanged. -/
theorem tick_backlash_right (cfg : Config) (env : Env) (g : Globals)
    (h : g.calState = BACKLASH_CALIBRATION)
    (hu : env.currentState ≠ .btnUP) (hd : env.currentState ≠ .btnDOWN)
    (hk : env.keyChanged = some .btnRIGHT) :
    (tickGlobals cfg env g).calState = HIGHLIGHT_BACKLASH_STEPS ∧
    (tickGlobals cfg env g).BacklashSteps = g.BacklashSteps := by
  simp [tickGlobals, processCalibrationKeys_backlash_idle cfg env ⟨g, []⟩ h hu hd, hk, caseBacklashCalibration,
    gotoNextMenu_calState, gotoNextMenu_BacklashSteps]

/-- RIGHT in `BACKLASH_CALIBRATION` followed by SELECT is back in `BACKLASH_CALIBRATION` with the working
value the edit was left with, whatever the mount reports. -/
theorem tick_backlash_right_select (cfg : Config) (e1 e2 : Env) (g : Globals)
    (h : g.calState = BACKLASH_CALIBRATION)
    (hu : e1.currentState ≠ .btnUP) (hd : e1.currentState ≠ .btnDOWN)
    (hk1 : e1.keyChanged = some .btnRIGHT) (hk2 : e2.keyChanged = some .btnSELECT) :
    (tickGlobals cfg e2 (tickGlobals cfg e1 g)).calState = BACKLASH_CALIBRATION ∧
    (tickGlobals cfg e2 (tickGlobals cfg e1 g)).BacklashSteps = g.BacklashSteps := by
  obtain ⟨a, b⟩ := tick_backlash_right cfg e1 g h hu hd hk1
  obtain ⟨c, d⟩ := tick_highlightBacklash_select cfg e2 _ a hk2
  exact ⟨c, d.trans b⟩

theorem backlashLoadedGlobals_eval :
    backlashLoadedGlobals.calState = HIGHLIGHT_BACKLASH_STEPS ∧
    backlashLoadedGlobals.BacklashSteps = 5 := by
  have h : (⟨initialGlobals 0 0 false, []⟩ : Run).g.calState = HIGHLIGHT_POLAR := rfl
  unfold backlashLoadedGlobals tickGlobals
  rw [processCalibrationKeys_highlightPolar _ _ _ h]
  constructor <;>
  simp [backlashEnv, idleEnv, caseHighlightPolar, gotoNextHighlightState, adjustWrap, toByte,
    sampleConfig, startHardware, initialGlobals, HIGHLIGHT_LAST, HIGHLIGHT_FIRST, HIGHLIGHT_POLAR,
    HIGHLIGHT_SPEED, HIGHLIGHT_DRIFT, HIGHLIGHT_RA_STEPS, HIGHLIGHT_DEC_STEPS,
    HIGHLIGHT_BACKLASH_STEPS]

theorem backlashEditGlobals_reachable :
    Reachable (sampleConfig false false) backlashEditGlobals :=
  Reachable.tick _ _ (Reachable.tick _ _ (Reachable.tick _ _ (Reachable.tick _ _
    (Reachable.tick _ _ (Reachable.start 0 0 false)))))

theorem backlashEditGlobals_eval :
    backlashEditGlobals.calState = BACKLASH_CALIBRATION ∧
    backlashEditGlobals.BacklashSteps = 2 := by
  obtain ⟨a0, b0⟩ := backlashLoadedGlobals_eval
  obtain ⟨a1, b1⟩ := tick_highlightBacklash_select (sampleConfig false false)
    (backlashEnv .btnSELECT (some .btnSELECT)) _ a0 rfl
  obtain ⟨a2, b2⟩ := tick_backlash_held (sampleConfig false false)
    (backlashEnv .btnDOWN none) _ a1 (Or.inr rfl)
  obtain ⟨a3, b3⟩ := tick_backlash_held (sampleConfig false false)
    (backlashEnv .btnDOWN none) _ a2 (Or.inr rfl)
  obtain ⟨a4, b4⟩ := tick_backlash_held (sampleConfig false false)
    (backlashEnv .btnDOWN none) _ a3 (Or.inr rfl)
  refine ⟨a4, ?_⟩
  unfold backlashEditGlobals
  rw [b4, b3, b2, b1, b0]
  simp only [backlashEnv]
  decide

/-- C16 on the code: on a mount whose stored backlash correction is 5, the
state reached from program start by UP has `calState =
HIGHLIGHT_BACKLASH_STEPS` and working value 5; SELECT and three ticks with
DOWN held give `BACKLASH_CALIBRATION` with working value 2; the RIGHT key
event writes nothing to the mount and ends in `HIGHLIGHT_BACKLASH_STEPS`; the
following SELECT key event ends in `BACKLASH_CALIBRATION` with working value
2, not the stored correction 5. -/
theorem backlash_reentry_on_code :
    Reachable (sampleConfig false false) backlashEditGlobals ∧
    backlashLoadedGlobals.calState = HIGHLIGHT_BACKLASH_STEPS ∧
    backlashLoadedGlobals.BacklashSteps = 5 ∧
    backlashEditGlobals.calState = BACKLASH_CALIBRATION ∧
    backlashEditGlobals.BacklashSteps = 2 ∧
    (tickLog (sampleConfig false false) (backlashEnv .btnRIGHT (some .btnRIGHT))
      backlashEditGlobals).filter isPersistCmd = [] ∧
    (tickGlobals (sampleConfig false false) (backlashEnv .btnRIGHT (some .btnRIGHT))
      backlashEditGlobals).calState = HIGHLIGHT_BACKLASH_STEPS ∧
    (tickGlobals (sampleConfig false false) (backlashEnv .btnSELECT (some .btnSELECT))
      (tickGlobals (sampleConfig false false) (backlashEnv .btnRIGHT (some .btnRIGHT))
        backlashEditGlobals)).calState = BACKLASH_CALIBRATION ∧
    (tickGlobals (sampleConfig false false) (backlashEnv .btnSELECT (some .btnSELECT))
      (tickGlobals (sampleConfig false false) (backlashEnv .btnRIGHT (some .btnRIGHT))
        backlashEditGlobals)).BacklashSteps = 2 ∧
    (backlashEnv .btnSELECT (some .btnSELECT)).getBacklashCorrection = 5 := by
  obtain ⟨a, b⟩ := backlashEditGlobals_eval
  obtain ⟨c, d⟩ := tick_backlash_right_select (sampleConfig false false)
    (backlashEnv .btnRIGHT (some .btnRIGHT)) (backlashEnv .btnSELECT (some .btnSELECT))
    backlashEditGlobals a (by decide) (by decide) rfl rfl
  have e := (tick_backlash_persist (sampleConfig false false)
    (backlashEnv .btnRIGHT (some .btnRIGHT)) backlashEditGlobals a).2.1
    (by decide) (by decide) rfl
  exact ⟨backlashEditGlobals_reachable, backlashLoadedGlobals_eval.1, backlashLoadedGlobals_eval.2,
    a, b, e.1, e.2, c, d.trans b, rfl⟩

/-- C17: step and backlash persistence.  In each of `RA_STEP_CALIBRATION`,
`DEC_STEP_CALIBRATION` and `BACKLASH_CALIBRATION`: a tick that consumes a
SELECT key event (neither UP nor DOWN is held) emits exactly one command that
writes to the mount's storage, `setStepsPerDegree(RA_STEPS, v)`,
`setStepsPerDegree(DEC_STEPS, v)`, `setBacklashCorrection(v)` with v the
working value, and ends in the highlight state of the category; a tick that
consumes a RIGHT key event emits none and ends in that highlight state; a tick
with UP or DOWN held emits none and stays in the edit state; and no tick
without a SELECT key event emits one. -/
theorem step_backlash_persistence (cfg : Config) (env : Env) (g : Globals) :
    (g.calState = RA_STEP_CALIBRATION →
      (env.currentState ≠ .btnUP → env.currentState ≠ .btnDOWN →
        env.keyChanged = some .btnSELECT →
        (tickLog cfg env g).filter isPersistCmd
          = [Cmd.setStepsPerDegree .RA_STEPS g.RAStepsPerDegree] ∧
        (tickGlobals cfg env g).calState = HIGHLIGHT_RA_STEPS ∧
        (tickGlobals cfg env g).RAStepsPerDegree = g.RAStepsPerDegree) ∧
      (env.currentState ≠ .btnUP → env.currentState ≠ .btnDOWN →
        env.keyChanged = some .btnRIGHT →
        (tickLog cfg env g).filter isPersistCmd = [] ∧
        (tickGlobals cfg env g).calState = HIGHLIGHT_RA_STEPS) ∧
      (env.currentState = .btnUP ∨ env.currentState = .btnDOWN →
        (tickLog cfg env g).filter isPersistCmd = [] ∧
        (tickGlobals cfg env g).calState = RA_STEP_CALIBRATION) ∧
      (env.keyChanged ≠ some .btnSELECT → (tickLog cfg env g).filter isPersistCmd = [])) ∧
    (g.calState = DEC_STEP_CALIBRATION →
      (env.currentState ≠ .btnUP → env.currentState ≠ .btnDOWN →
        env.keyChanged = some .btnSELECT →
        (tickLog cfg env g).filter isPersistCmd
          = [Cmd.setStepsPerDegree .DEC_STEPS g.DECStepsPerDegree] ∧
        (tickGlobals cfg env g).calState = HIGHLIGHT_DEC_STEPS ∧
        (tickGlobals cfg env g).DECStepsPerDegree = g.DECStepsPerDegree) ∧
      (env.currentState ≠ .btnUP → env.currentState ≠ .btnDOWN →
        env.keyChanged = some .btnRIGHT →
        (tickLog cfg env g).filter isPersistCmd = [] ∧
        (tickGlobals cfg env g).calState = HIGHLIGHT_DEC_STEPS) ∧
      (env.currentState = .btnUP ∨ env.currentState = .btnDOWN →
        (tickLog cfg env g).filter isPersistCmd = [] ∧
        (tickGlobals cfg env g).calState = DEC_STEP_CALIBRATION) ∧
      (env.keyChanged ≠ some .btnSELECT → (tickLog cfg env g).filter isPersistCmd = [])) ∧
    (g.calState = BACKLASH_CALIBRATION →
      (env.currentState ≠ .btnUP → env.currentState ≠ .btnDOWN →
        env.keyChanged = some .btnSELECT →
        (tickLog cfg env g).filter isPersistCmd
          = [Cmd.setBacklashCorrection g.BacklashSteps] ∧
        (tickGlobals cfg env g).calState = HIGHLIGHT_BACKLASH_STEPS ∧
        (tickGlobals cfg env g).BacklashSteps = g.BacklashSteps) ∧
      (env.currentState ≠ .btnUP → env.currentState ≠ .btnDOWN →
        env.keyChanged = some .btnRIGHT →
        (tickLog cfg env g).filter isPersistCmd = [] ∧
        (tickGlobals cfg env g).calState = HIGHLIGHT_BACKLASH_STEPS) ∧
      (env.currentState = .btnUP ∨ env.currentState = .btnDOWN →
        (tickLog cfg env g).filter isPersistCmd = [] ∧
        (tickGlobals cfg env g).calState = BACKLASH_CALIBRATION) ∧
      (env.keyChanged ≠ some .btnSELECT → (tickLog cfg env g).filter isPersistCmd = [])) :=
  ⟨tick_raStep_persist cfg env g, tick_decStep_persist cfg env g,
    tick_backlash_persist cfg env g⟩

theorem step_backlash_persistence_witness :
    backlashEditGlobals.calState = BACKLASH_CALIBRATION ∧
    (tickLog (sampleConfig false false) (backlashEnv .btnSELECT (some .btnSELECT))
      backlashEditGlobals).filter isPersistCmd = [Cmd.setBacklashCorrection 2] ∧
    (tickGlobals (sampleConfig false false) (backlashEnv .btnSELECT (some .btnSELECT))
      backlashEditGlobals).calState = HIGHLIGHT_BACKLASH_STEPS := by
  have h := ((step_backlash_persistence (sampleConfig false false)
    (backlashEnv .btnSELECT (some .btnSELECT)) backlashEditGlobals).2.2
    backlashEditGlobals_eval.1).1 (by decide) (by decide) rfl
  rw [backlashEditGlobals_eval.2] at h
  exact ⟨backlashEditGlobals_eval.1, h.1, h.2.1⟩

/-! ## The roll and pitch offsets -/

theorem startHardware_no_setNextActive (cfg : Config) (g : Globals) :
    Cmd.setNextActive ∉ (startHardware cfg ⟨g, []⟩).log := by
  rw [startHardware_log]
  simp only [List.nil_append, List.mem_append]
  split_ifs <;> simp

theorem gotoNextMenu_RollCalibrationAngle (cfg : Config) (r : Run) :
    (gotoNextMenu cfg r).g.RollCalibrationAngle = r.g.RollCalibrationAngle := by
  unfold gotoNextMenu
  simp only []
  split_ifs <;> rfl

/-- A tick in `ROLL_OFFSET_CALIBRATION`: the state phase does nothing. -/
theorem processCalibrationKeys_roll (cfg : Config) (env : Env) (r : Run)
    (hc : cfg.GYRO_LEVEL = true) (h : r.g.calState = ROLL_OFFSET_CALIBRATION) :
    processCalibrationKeys cfg env r =
      match env.keyChanged with
      | some key => (true, caseRollOffsetCalibration cfg env key (startHardware cfg r))
      | none => (false, startHardware cfg r) := by
  have h2 : (startHardware cfg r).g.calState = ROLL_OFFSET_CALIBRATION := by
    rw [startHardware_calState, h]
  unfold processCalibrationKeys
  simp only [statePhase_roll cfg env _ h2, if_true]
  cases env.keyChanged with
  | none => rfl
  | some key => simp only [keyDispatch_roll cfg env key _ hc h2]

/-- The gauge drawn for a deviation of zero: `R: -----0.0-----`, no marker. -/
theorem rollIndicator_gauge_zero :
    indicatorGauge (sprintfBuffer "R: -------------") 0
      = "R: -----0.0-----".toList ++ List.replicate 4 (Char.ofNat 0) := by
  unfold indicatorGauge
  rw [abs_zero, dtostrf_zero]
  rfl

/-- The three keys of `ROLL_OFFSET_CALIBRATION`. -/
theorem tick_roll_keys (cfg : Config) (env : Env) (g : Globals)
    (hc : cfg.GYRO_LEVEL = true) (h : g.calState = ROLL_OFFSET_CALIBRATION) :
    (env.keyChanged = some .btnSELECT →
      (tickLog cfg env g).filter isPersistCmd = [Cmd.setRollCalibrationAngle env.rollAngle] ∧
      (tickGlobals cfg env g).RollCalibrationAngle = env.rollAngle ∧
      (tickGlobals cfg env g).calState = HIGHLIGHT_ROLL_LEVEL cfg ∧
      env.rollAngle - (tickGlobals cfg env g).RollCalibrationAngle = 0 ∧
      rollIndicator env (tickGlobals cfg env g)
        = indicatorGauge (sprintfBuffer "R: -------------") 0 ∧
      '<' ∉ rollIndicator env (tickGlobals cfg env g) ∧
      '>' ∉ rollIndicator env (tickGlobals cfg env g) ∧
      Cmd.setNextActive ∉ tickLog cfg env g) ∧
    (env.keyChanged = some .btnLEFT →
      (tickLog cfg env g).filter isPersistCmd = [] ∧
      (tickGlobals cfg env g).RollCalibrationAngle = g.RollCalibrationAngle ∧
      (tickGlobals cfg env g).calState = HIGHLIGHT_ROLL_LEVEL cfg ∧
      Cmd.setNextActive ∉ tickLog cfg env g) ∧
    (env.keyChanged = some .btnRIGHT →
      (tickLog cfg env g).filter isPersistCmd = [] ∧
      (tickGlobals cfg env g).RollCalibrationAngle = g.RollCalibrationAngle ∧
      (tickGlobals cfg env g).calState = HIGHLIGHT_ROLL_LEVEL cfg ∧
      Cmd.setNextActive ∈ tickLog cfg env g) := by
  have hp := startHardware_no_persist cfg g
  have hn := startHardware_no_setNextActive cfg g
  have e := processCalibrationKeys_roll cfg env ⟨g, []⟩ hc h
  refine ⟨fun hk => ?_, fun hk => ?_, fun hk => ?_⟩
  · rw [hk] at e
    have hv : (tickGlobals cfg env g).RollCalibrationAngle = env.rollAngle := by
      simp [tickGlobals, e, caseRollOffsetCalibration]
    have hi : rollIndicator env (tickGlobals cfg env g)
        = indicatorGauge (sprintfBuffer "R: -------------") 0 := by
      unfold rollIndicator
      rw [hv, sub_self, makeIndicator_zero]
    refine ⟨?_, hv, ?_, ?_, hi, ?_, ?_, ?_⟩
    · simp [tickLog, e, caseRollOffsetCalibration, hp, isPersistCmd]
    · simp [tickGlobals, e, caseRollOffsetCalibration]
    · rw [hv, sub_self]
    · rw [hi, rollIndicator_gauge_zero]
      decide
    · rw [hi, rollIndicator_gauge_zero]
      decide
    · simp [tickLog, e, caseRollOffsetCalibration, hn]
  · rw [hk] at e
    refine ⟨?_, ?_, ?_, ?_⟩
    · simp [tickLog, e, caseRollOffsetCalibration, hp]
    · simp [tickGlobals, e, caseRollOffsetCalibration]
    · simp [tickGlobals, e, caseRollOffsetCalibration]
    · simp [tickLog, e, caseRollOffsetCalibration, hn]
  · rw [hk] at e
    refine ⟨?_, ?_, ?_, ?_⟩
    · simp [tickLog, e, caseRollOffsetCalibration, hp, gotoNextMenu_no_persist]
    · simp [tickGlobals, e, caseRollOffsetCalibration, gotoNextMenu_RollCalibrationAngle]
    · simp [tickGlobals, e, caseRollOffsetCalibration]
    · simp [tickLog, e, caseRollOffsetCalibration, gotoNextMenu_log]

theorem gotoNextMenu_PitchCalibrationAngle (cfg : Config) (r : Run) :
    (gotoNextMenu cfg r).g.PitchCalibrationAngle = r.g.PitchCalibrationAngle := by
  unfold gotoNextMenu
  simp only []
  split_ifs <;> rfl

/-- A tick in `PITCH_OFFSET_CALIBRATION`: the state phase does nothing. -/
theorem processCalibrationKeys_pitch (cfg : Config) (env : Env) (r : Run)
    (hc : cfg.GYRO_LEVEL = true) (h : r.g.calState = PITCH_OFFSET_CALIBRATION) :
    processCalibrationKeys cfg env r =
      match env.keyChanged with
      | some key => (true, casePitchOffsetCalibration cfg env key (startHardware cfg r))
      | none => (false, startHardware cfg r) := by
  have h2 : (startHardware cfg r).g.calState = PITCH_OFFSET_CALIBRATION := by
    rw [startHardware_calState, h]
  unfold processCalibrationKeys
  simp only [statePhase_pitch cfg env _ h2, if_true]
  cases env.keyChanged with
  | none => rfl
  | some key => simp only [keyDispatch_pitch cfg env key _ hc h2]

/-- The gauge drawn for a deviation of zero: `P: -----0.0-----`, no marker. -/
theorem pitchIndicator_gauge_zero :
    indicatorGauge (sprintfBuffer "P: -------------") 0
      = "P: -----0.0-----".toList ++ List.replicate 4 (Char.ofNat 0) := by
  unfold indicatorGauge
  rw [abs_zero, dtostrf_zero]
  rfl

/-- The three keys of `PITCH_OFFSET_CALIBRATION`. -/
theorem tick_pitch_keys (cfg : Config) (env : Env) (g : Globals)
    (hc : cfg.GYRO_LEVEL = true) (h : g.calState = PITCH_OFFSET_CALIBRATION) :
    (env.keyChanged = some .btnSELECT →
      (tickLog cfg env g).filter isPersistCmd = [Cmd.setPitchCalibrationAngle env.pitchAngle] ∧
      (tickGlobals cfg env g).PitchCalibrationAngle = env.pitchAngle ∧
      (tickGlobals cfg env g).calState = HIGHLIGHT_PITCH_LEVEL cfg ∧
      env.pitchAngle - (tickGlobals cfg env g).PitchCalibrationAngle = 0 ∧
      pitchIndicator env (tickGlobals cfg env g)
        = indicatorGauge (sprintfBuffer "P: -------------") 0 ∧
      '<' ∉ pitchIndicator env (tickGlobals cfg env g) ∧
      '>' ∉ pitchIndicator env (tickGlobals cfg env g) ∧
      Cmd.setNextActive ∉ tickLog cfg env g) ∧
    (env.keyChanged = some .btnLEFT →
      (tickLog cfg env g).filter isPersistCmd = [] ∧
      (tickGlobals cfg env g).PitchCalibrationAngle = g.PitchCalibrationAngle ∧
      (tickGlobals cfg env g).calState = HIGHLIGHT_PITCH_LEVEL cfg ∧
      Cmd.setNextActive ∉ tickLog cfg env g) ∧
    (env.keyChanged = some .btnRIGHT →
      (tickLog cfg env g).filter isPersistCmd = [] ∧
      (tickGlobals cfg env g).PitchCalibrationAngle = g.PitchCalibrationAngle ∧
      (tickGlobals cfg env g).calState = HIGHLIGHT_PITCH_LEVEL cfg ∧
      Cmd.setNextActive ∈ tickLog cfg env g) := by
  have hp := startHardware_no_persist cfg g
  have hn := startHardware_no_setNextActive cfg g
  have e := processCalibrationKeys_pitch cfg env ⟨g, []⟩ hc h
  refine ⟨fun hk => ?_, fun hk => ?_, fun hk => ?_⟩
  · rw [hk] at e
    have hv : (tickGlobals cfg env g).PitchCalibrationAngle = env.pitchAngle := by
      simp [tickGlobals, e, casePitchOffsetCalibration]
    have hi : pitchIndicator env (tickGlobals cfg env g)
        = indicatorGauge (sprintfBuffer "P: -------------") 0 := by
      unfold pitchIndicator
      rw [hv, sub_self, makeIndicator_zero]
    refine ⟨?_, hv, ?_, ?_, hi, ?_, ?_, ?_⟩
    · simp [tickLog, e, casePitchOffsetCalibration, hp, isPersistCmd]
    · simp [tickGlobals, e, casePitchOffsetCalibration]
    · rw [hv, sub_self]
    · rw [hi, pitchIndicator_gauge_zero]
      decide
    · rw [hi, pitchIndicator_gauge_zero]
      decide
    · simp [tickLog, e, casePitchOffsetCalibration, hn]
  · rw [hk] at e
    refine ⟨?_, ?_, ?_, ?_⟩
    · simp [tickLog, e, casePitchOffsetCalibration, hp]
    · simp [tickGlobals, e, casePitchOffsetCalibration]
    · simp [tickGlobals, e, casePitchOffsetCalibration]
    · simp [tickLog, e, casePitchOffsetCalibration, hn]
  · rw [hk] at e
    refine ⟨?_, ?_, ?_, ?_⟩
    · simp [tickLog, e, casePitchOffsetCalibration, hp, gotoNextMenu_no_persist]
    · simp [tickGlobals, e, casePitchOffsetCalibration, gotoNextMenu_PitchCalibrationAngle]
    · simp [tickGlobals, e, casePitchOffsetCalibration]
    · simp [tickLog, e, casePitchOffsetCalibration, gotoNextMenu_log]

/-- C18: roll/pitch offset keys, for a configuration with the gyro.  In
`ROLL_OFFSET_CALIBRATION` a SELECT key event emits the one store command
`setRollCalibrationAngle(r)` with r the raw roll angle of the tick, sets
`RollCalibrationAngle = r` and `calState = HIGHLIGHT_ROLL_LEVEL`, so that the
deviation `r - RollCalibrationAngle` is 0 and the indicator for the same
reading is the gauge without a marker (neither `<` nor `>` occurs in it); a
LEFT key event sets `calState = HIGHLIGHT_ROLL_LEVEL` with no store command,
`RollCalibrationAngle` unchanged and the top-level menu not advanced; a RIGHT
key event does the same and calls `setNextActive`.  The same holds in
`PITCH_OFFSET_CALIBRATION` for the pitch. -/
theorem roll_pitch_offset_keys (cfg : Config) (env : Env) (g : Globals)
    (hc : cfg.GYRO_LEVEL = true) :
    (g.calState = ROLL_OFFSET_CALIBRATION →
      (env.keyChanged = some .btnSELECT →
        (tickLog cfg env g).filter isPersistCmd = [Cmd.setRollCalibrationAngle env.rollAngle] ∧
        (tickGlobals cfg env g).RollCalibrationAngle = env.rollAngle ∧
        (tickGlobals cfg env g).calState = HIGHLIGHT_ROLL_LEVEL cfg ∧
        env.rollAngle - (tickGlobals cfg env g).RollCalibrationAngle = 0 ∧
        rollIndicator env (tickGlobals cfg env g)
          = indicatorGauge (sprintfBuffer "R: -------------") 0 ∧
        '<' ∉ rollIndicator env (tickGlobals cfg env g) ∧
        '>' ∉ rollIndicator env (tickGlobals cfg env g) ∧
        Cmd.setNextActive ∉ tickLog cfg env g) ∧
      (env.keyChanged = some .btnLEFT →
        (tickLog cfg env g).filter isPersistCmd = [] ∧
        (tickGlobals cfg env g).RollCalibrationAngle = g.RollCalibrationAngle ∧
        (tickGlobals cfg env g).calState = HIGHLIGHT_ROLL_LEVEL cfg ∧
        Cmd.setNextActive ∉ tickLog cfg env g) ∧
      (env.keyChanged = some .btnRIGHT →
        (tickLog cfg env g).filter isPersistCmd = [] ∧
        (tickGlobals cfg env g).RollCalibrationAngle = g.RollCalibrationAngle ∧
        (tickGlobals cfg env g).calState = HIGHLIGHT_ROLL_LEVEL cfg ∧
        Cmd.setNextActive ∈ tickLog cfg env g)) ∧
    (g.calState = PITCH_OFFSET_CALIBRATION →
      (env.keyChanged = some .btnSELECT →
        (tickLog cfg env g).filter isPersistCmd
          = [Cmd.setPitchCalibrationAngle env.pitchAngle] ∧
        (tickGlobals cfg env g).PitchCalibrationAngle = env.pitchAngle ∧
        (tickGlobals cfg env g).calState = HIGHLIGHT_PITCH_LEVEL cfg ∧
        env.pitchAngle - (tickGlobals cfg env g).PitchCalibrationAngle = 0 ∧
        pitchIndicator env (tickGlobals cfg env g)
          = indicatorGauge (sprintfBuffer "P: -------------") 0 ∧
        '<' ∉ pitchIndicator env (tickGlobals cfg env g) ∧
        '>' ∉ pitchIndicator env (tickGlobals cfg env g) ∧
        Cmd.setNextActive ∉ tickLog cfg env g) ∧
      (env.keyChanged = some .btnLEFT →
        (tickLog cfg env g).filter isPersistCmd = [] ∧
        (tickGlobals cfg env g).PitchCalibrationAngle = g.PitchCalibrationAngle ∧
        (tickGlobals cfg env g).calState = HIGHLIGHT_PITCH_LEVEL cfg ∧
        Cmd.setNextActive ∉ tickLog cfg env g) ∧
      (env.keyChanged = some .btnRIGHT →
        (tickLog cfg env g).filter isPersistCmd = [] ∧
        (tickGlobals cfg env g).PitchCalibrationAngle = g.PitchCalibrationAngle ∧
        (tickGlobals cfg env g).calState = HIGHLIGHT_PITCH_LEVEL cfg ∧
        Cmd.setNextActive ∈ tickLog cfg env g)) :=
  ⟨tick_roll_keys cfg env g hc, tick_pitch_keys cfg env g hc⟩

theorem roll_pitch_offset_keys_witness :
    (tickLog (sampleConfig false true) rollSelectEnv rollOffsetGlobals).filter isPersistCmd
      = [Cmd.setRollCalibrationAngle (7 / 2)] ∧
    (tickGlobals (sampleConfig false true) rollSelectEnv rollOffsetGlobals).RollCalibrationAngle
      = 7 / 2 ∧
    (tickGlobals (sampleConfig false true) rollSelectEnv rollOffsetGlobals).calState
      = HIGHLIGHT_ROLL_LEVEL (sampleConfig false true) ∧
    '<' ∉ rollIndicator rollSelectEnv
      (tickGlobals (sampleConfig false true) rollSelectEnv rollOffsetGlobals) := by
  have h := ((roll_pitch_offset_keys (sampleConfig false true) rollSelectEnv rollOffsetGlobals
    rfl).1 rfl).1 rfl
  exact ⟨h.1, h.2.1, h.2.2.1, h.2.2.2.2.2.1⟩

/-! ## The state graph -/

theorem isHighlightState_le (cfg : Config) (s : Nat) (h : isHighlightState cfg s) :
    1 ≤ s ∧ s ≤ 10 := by
  obtain ⟨h1, h2⟩ := h
  unfold HIGHLIGHT_FIRST at h1
  rcases HIGHLIGHT_LAST_cases cfg with e | e | e <;> rw [e] at h2 <;> omega

theorem HIGHLIGHT_LEVEL_le (cfg : Config) :
    HIGHLIGHT_ROLL_LEVEL cfg ≤ 10 ∧ HIGHLIGHT_PITCH_LEVEL cfg ≤ 10 := by
  simp only [HIGHLIGHT_ROLL_LEVEL, HIGHLIGHT_PITCH_LEVEL]
  split_ifs <;> decide

theorem HIGHLIGHT_LEVEL_isHighlightState (cfg : Config) (hc : cfg.GYRO_LEVEL = true) :
    isHighlightState cfg (HIGHLIGHT_ROLL_LEVEL cfg) ∧
    isHighlightState cfg (HIGHLIGHT_PITCH_LEVEL cfg) := by
  simp only [isHighlightState, HIGHLIGHT_ROLL_LEVEL, HIGHLIGHT_PITCH_LEVEL, HIGHLIGHT_LAST,
    HIGHLIGHT_FIRST, hc, if_true]
  split_ifs <;> decide

/-- The procedure states and the highlight state of their category. -/
theorem ownHighlight_some (cfg : Config) (s h : Nat) (ho : ownHighlight cfg s = some h) :
    ((s = POLAR_CALIBRATION_WAIT_CENTER_POLARIS ∨ s = POLAR_CALIBRATION_WAIT_HOME) ∧ h = HIGHLIGHT_POLAR) ∨
    ((s = SPEED_CALIBRATION) ∧ h = HIGHLIGHT_SPEED) ∨
    ((s = DRIFT_CALIBRATION_WAIT ∨ s = DRIFT_CALIBRATION_RUNNING) ∧ h = HIGHLIGHT_DRIFT) ∨
    ((s = RA_STEP_CALIBRATION) ∧ h = HIGHLIGHT_RA_STEPS) ∨
    ((s = DEC_STEP_CALIBRATION) ∧ h = HIGHLIGHT_DEC_STEPS) ∨
    ((s = BACKLASH_CALIBRATION) ∧ h = HIGHLIGHT_BACKLASH_STEPS) ∨
    (cfg.AZIMUTH_ALTITUDE_MOTORS = true ∧ s = AZIMUTH_ADJUSTMENT ∧ h = HIGHLIGHT_AZIMUTH_ADJUSTMENT) ∨
    (cfg.AZIMUTH_ALTITUDE_MOTORS = true ∧ s = ALTITUDE_ADJUSTMENT ∧ h = HIGHLIGHT_ALTITUDE_ADJUSTMENT) ∨
    (cfg.GYRO_LEVEL = true ∧ s = ROLL_OFFSET_CALIBRATION ∧ h = HIGHLIGHT_ROLL_LEVEL cfg) ∨
    (cfg.GYRO_LEVEL = true ∧ s = PITCH_OFFSET_CALIBRATION ∧ h = HIGHLIGHT_PITCH_LEVEL cfg) := by
  unfold ownHighlight at ho
  by_cases c0 : s = POLAR_CALIBRATION_WAIT_CENTER_POLARIS ∨ s = POLAR_CALIBRATION_WAIT_HOME
  · rw [if_pos c0] at ho
    exact Or.inl ⟨c0, (Option.some.inj ho).symm⟩
  rw [if_neg c0] at ho
  by_cases c1 : s = SPEED_CALIBRATION
  · rw [if_pos c1] at ho
    exact Or.inr (Or.inl ⟨c1, (Option.some.inj ho).symm⟩)
  rw [if_neg c1] at ho
  by_cases c2 : s = DRIFT_CALIBRATION_WAIT ∨ s = DRIFT_CALIBRATION_RUNNING
  · rw [if_pos c2] at ho
    exact Or.inr (Or.inr (Or.inl ⟨c2, (Option.some.inj ho).symm⟩))
  rw [if_neg c2] at ho
  by_cases c3 : s = RA_STEP_CALIBRATION
  · rw [if_pos c3] at ho
    exact Or.inr (Or.inr (Or.inr (Or.inl ⟨c3, (Option.some.inj ho).symm⟩)))
  rw [if_neg c3] at ho
  by_cases c4 : s = DEC_STEP_CALIBRATION
  · rw [if_pos c4] at ho
    exact Or.inr (Or.inr (Or.inr (Or.inr (Or.inl ⟨c4, (Option.some.inj ho).symm⟩))))
  rw [if_neg c4] at ho
  by_cases c5 : s = BACKLASH_CALIBRATION
  · rw [if_pos c5] at ho
    exact Or.inr (Or.inr (Or.inr (Or.inr (Or.inr (Or.inl ⟨c5, (Option.some.inj ho).symm⟩)))))
  rw [if_neg c5] at ho
  by_cases c6 : cfg.AZIMUTH_ALTITUDE_MOTORS = true ∧ s = AZIMUTH_ADJUSTMENT
  · rw [if_pos c6] at ho
    exact Or.inr (Or.inr (Or.inr (Or.inr (Or.inr (Or.inr (Or.inl ⟨c6.1, c6.2, (Option.some.inj ho).symm⟩))))))
  rw [if_neg c6] at ho
  by_cases c7 : cfg.AZIMUTH_ALTITUDE_MOTORS = true ∧ s = ALTITUDE_ADJUSTMENT
  · rw [if_pos c7] at ho
    exact Or.inr (Or.inr (Or.inr (Or.inr (Or.inr (Or.inr (Or.inr (Or.inl ⟨c7.1, c7.2, (Option.some.inj ho).symm⟩)))))))
  rw [if_neg c7] at ho
  by_cases c8 : cfg.GYRO_LEVEL = true ∧ s = ROLL_OFFSET_CALIBRATION
  · rw [if_pos c8] at ho
    exact Or.inr (Or.inr (Or.inr (Or.inr (Or.inr (Or.inr (Or.inr (Or.inr (Or.inl ⟨c8.1, c8.2, (Option.some.inj ho).symm⟩))))))))
  rw [if_neg c8] at ho
  by_cases c9 : cfg.GYRO_LEVEL = true ∧ s = PITCH_OFFSET_CALIBRATION
  · rw [if_pos c9] at ho
    exact Or.inr (Or.inr (Or.inr (Or.inr (Or.inr (Or.inr (Or.inr (Or.inr (Or.inr (⟨c9.1, c9.2, (Option.some.inj ho).symm⟩)))))))))
  rw [if_neg c9] at ho
  cases ho

theorem ownHighlight_le (cfg : Config) (s h : Nat) (ho : ownHighlight cfg s = some h) :
    11 ≤ s ∧ h ≤ 10 := by
  have hl := HIGHLIGHT_LEVEL_le cfg
  rcases ownHighlight_some cfg s h ho with h1 | h1 | h1 | h1 | h1 | h1 | h1 | h1 | h1 | h1
  all_goals
    simp only [HIGHLIGHT_FIRST, HIGHLIGHT_POLAR,
    HIGHLIGHT_SPEED, HIGHLIGHT_DRIFT, HIGHLIGHT_RA_STEPS, HIGHLIGHT_DEC_STEPS,
    HIGHLIGHT_BACKLASH_STEPS, HIGHLIGHT_AZIMUTH_ADJUSTMENT, HIGHLIGHT_ALTITUDE_ADJUSTMENT,
    POLAR_CALIBRATION_WAIT_CENTER_POLARIS, POLAR_CALIBRATION_WAIT_HOME, SPEED_CALIBRATION,
    DRIFT_CALIBRATION_WAIT, DRIFT_CALIBRATION_RUNNING, RA_STEP_CALIBRATION, DEC_STEP_CALIBRATION,
    BACKLASH_CALIBRATION, AZIMUTH_ADJUSTMENT, ALTITUDE_ADJUSTMENT, ROLL_OFFSET_CALIBRATION,
    PITCH_OFFSET_CALIBRATION] at h1
    omega

theorem ownHighlight_of_le (cfg : Config) (s : Nat) (h : s ≤ 10) : ownHighlight cfg s = none := by
  cases ho : ownHighlight cfg s with
  | none => rfl
  | some t =>
    have := ownHighlight_le cfg s t ho
    omega

theorem ownHighlight_ne (cfg : Config) (s h : Nat) (ho : ownHighlight cfg s = some h) :
    h ≠ s := by
  have := ownHighlight_le cfg s h ho
  omega

/-- The highlight state of each procedure state. -/
theorem ownHighlight_eval (cfg : Config) :
    ownHighlight cfg POLAR_CALIBRATION_WAIT_CENTER_POLARIS = some HIGHLIGHT_POLAR ∧
    ownHighlight cfg POLAR_CALIBRATION_WAIT_HOME = some HIGHLIGHT_POLAR ∧
    ownHighlight cfg SPEED_CALIBRATION = some HIGHLIGHT_SPEED ∧
    ownHighlight cfg DRIFT_CALIBRATION_WAIT = some HIGHLIGHT_DRIFT ∧
    ownHighlight cfg DRIFT_CALIBRATION_RUNNING = some HIGHLIGHT_DRIFT ∧
    ownHighlight cfg RA_STEP_CALIBRATION = some HIGHLIGHT_RA_STEPS ∧
    ownHighlight cfg DEC_STEP_CALIBRATION = some HIGHLIGHT_DEC_STEPS ∧
    ownHighlight cfg BACKLASH_CALIBRATION = some HIGHLIGHT_BACKLASH_STEPS ∧
    (cfg.AZIMUTH_ALTITUDE_MOTORS = true →
      ownHighlight cfg AZIMUTH_ADJUSTMENT = some HIGHLIGHT_AZIMUTH_ADJUSTMENT ∧
      ownHighlight cfg ALTITUDE_ADJUSTMENT = some HIGHLIGHT_ALTITUDE_ADJUSTMENT) ∧
    (cfg.GYRO_LEVEL = true →
      ownHighlight cfg ROLL_OFFSET_CALIBRATION = some (HIGHLIGHT_ROLL_LEVEL cfg) ∧
      ownHighlight cfg PITCH_OFFSET_CALIBRATION = some (HIGHLIGHT_PITCH_LEVEL cfg)) := by
  refine ⟨rfl, rfl, rfl, rfl, rfl, rfl, rfl, rfl, fun hc => ?_, fun hc => ?_⟩
  · constructor <;> simp [ownHighlight, hc, HIGHLIGHT_FIRST, HIGHLIGHT_POLAR,
    HIGHLIGHT_SPEED, HIGHLIGHT_DRIFT, HIGHLIGHT_RA_STEPS, HIGHLIGHT_DEC_STEPS,
    HIGHLIGHT_BACKLASH_STEPS, HIGHLIGHT_AZIMUTH_ADJUSTMENT, HIGHLIGHT_ALTITUDE_ADJUSTMENT,
    POLAR_CALIBRATION_WAIT_CENTER_POLARIS, POLAR_CALIBRATION_WAIT_HOME, SPEED_CALIBRATION,
    DRIFT_CALIBRATION_WAIT, DRIFT_CALIBRATION_RUNNING, RA_STEP_CALIBRATION, DEC_STEP_CALIBRATION,
    BACKLASH_CALIBRATION, AZIMUTH_ADJUSTMENT, ALTITUDE_ADJUSTMENT, ROLL_OFFSET_CALIBRATION,
    PITCH_OFFSET_CALIBRATION]
  · constructor <;> simp [ownHighlight, hc, HIGHLIGHT_FIRST, HIGHLIGHT_POLAR,
    HIGHLIGHT_SPEED, HIGHLIGHT_DRIFT, HIGHLIGHT_RA_STEPS, HIGHLIGHT_DEC_STEPS,
    HIGHLIGHT_BACKLASH_STEPS, HIGHLIGHT_AZIMUTH_ADJUSTMENT, HIGHLIGHT_ALTITUDE_ADJUSTMENT,
    POLAR_CALIBRATION_WAIT_CENTER_POLARIS, POLAR_CALIBRATION_WAIT_HOME, SPEED_CALIBRATION,
    DRIFT_CALIBRATION_WAIT, DRIFT_CALIBRATION_RUNNING, RA_STEP_CALIBRATION, DEC_STEP_CALIBRATION,
    BACKLASH_CALIBRATION, AZIMUTH_ADJUSTMENT, ALTITUDE_ADJUSTMENT, ROLL_OFFSET_CALIBRATION,
    PITCH_OFFSET_CALIBRATION]

theorem wrap_isHighlightState (cfg : Config) (s : Nat) (h : isHighlightState cfg s) :
    isHighlightState cfg (toByte (adjustWrap s 1 HIGHLIGHT_FIRST (HIGHLIGHT_LAST cfg))) ∧
    isHighlightState cfg (toByte (adjustWrap s (-1) HIGHLIGHT_FIRST (HIGHLIGHT_LAST cfg))) := by
  obtain ⟨h1, h2⟩ := h
  unfold isHighlightState
  unfold HIGHLIGHT_FIRST at h1 ⊢
  rcases HIGHLIGHT_LAST_cases cfg with e | e | e <;> rw [e] at h2 ⊢ <;>
    interval_cases s <;> decide

/-! ### The state phase -/

theorem speedCalibrationPhase_calState (b : Key) (r : Run) :
    (speedCalibrationPhase b r).2.g.calState = r.g.calState := by
  unfold speedCalibrationPhase
  simp only []
  split_ifs <;> rfl

theorem polarWaitHomePhase_calState (env : Env) (r : Run) :
    (polarWaitHomePhase env r).g.calState = r.g.calState ∨
    (env.isSlewingRAorDEC = false ∧ (polarWaitHomePhase env r).g.calState = HIGHLIGHT_POLAR) := by
  unfold polarWaitHomePhase
  split_ifs with c
  · exact Or.inr ⟨by simpa using c, rfl⟩
  · exact Or.inl rfl

/-- The state phase leaves `calState` alone, except that it ends
`POLAR_CALIBRATION_WAIT_HOME` and `DRIFT_CALIBRATION_RUNNING` in the highlight
state of their category. -/
theorem statePhase_calState (cfg : Config) (env : Env) (r : Run) :
    (statePhase cfg env r).2.g.calState = r.g.calState ∨
    (r.g.calState = POLAR_CALIBRATION_WAIT_HOME ∧ env.isSlewingRAorDEC = false ∧
      (statePhase cfg env r).2.g.calState = HIGHLIGHT_POLAR) ∨
    (r.g.calState = DRIFT_CALIBRATION_RUNNING ∧
      (statePhase cfg env r).2.g.calState = HIGHLIGHT_DRIFT) := by
  apply statePhase_cases cfg env r (fun x => x.2.g.calState = r.g.calState ∨
    (r.g.calState = POLAR_CALIBRATION_WAIT_HOME ∧ env.isSlewingRAorDEC = false ∧
      x.2.g.calState = HIGHLIGHT_POLAR) ∨
    (r.g.calState = DRIFT_CALIBRATION_RUNNING ∧ x.2.g.calState = HIGHLIGHT_DRIFT))
  · exact fun _ => Or.inl (speedCalibrationPhase_calState _ r)
  · exact fun _ _ => Or.inl (checkProgressiveUpDown_calState _ _ r)
  · exact fun _ _ => Or.inl (checkProgressiveUpDown_calState _ _ r)
  · exact fun _ => Or.inl (checkProgressiveUpDown_calState _ _ r)
  · exact fun _ => Or.inl (checkProgressiveUpDown_calState _ _ r)
  · exact fun _ => Or.inl (checkProgressiveUpDown_calState _ _ r)
  · intro hc
    rcases polarWaitHomePhase_calState env r with h | h
    · exact Or.inl h
    · exact Or.inr (Or.inl ⟨hc, h.1, h.2⟩)
  · exact fun _ => Or.inl (by simp only [polarWaitCenterPolarisPhase_g])
  · exact fun hc => Or.inr (Or.inr ⟨hc, rfl⟩)
  · exact Or.inl rfl

/-- In a highlight state the state phase does nothing. -/
theorem statePhase_of_highlight (cfg : Config) (env : Env) (r : Run) (h : r.g.calState ≤ 10) :
    statePhase cfg env r = (true, r) := by
  apply statePhase_cases cfg env r (fun x => x = (true, r))
  · intro hc; rw [hc] at h; exact absurd h (by decide)
  · intro _ hc; rw [hc] at h; exact absurd h (by decide)
  · intro _ hc; rw [hc] at h; exact absurd h (by decide)
  · intro hc; rw [hc] at h; exact absurd h (by decide)
  · intro hc; rw [hc] at h; exact absurd h (by decide)
  · intro hc; rw [hc] at h; exact absurd h (by decide)
  · intro hc; rw [hc] at h; exact absurd h (by decide)
  · intro hc; rw [hc] at h; exact absurd h (by decide)
  · intro hc; rw [hc] at h; exact absurd h (by decide)
  · rfl

/-! ### The cases of the key dispatch -/

theorem casePolarWaitHome_calState (cfg : Config) (key : Key) (r : Run) :
    (casePolarWaitHome cfg key r).g.calState = r.g.calState ∨
    (casePolarWaitHome cfg key r).g.calState = HIGHLIGHT_POLAR := by
  unfold casePolarWaitHome
  simp only []
  split_ifs <;> simp

theorem caseSpeedCalibration_calState (cfg : Config) (key : Key) (r : Run) :
    (caseSpeedCalibration cfg key r).g.calState = r.g.calState ∨
    (caseSpeedCalibration cfg key r).g.calState = HIGHLIGHT_SPEED := by
  unfold caseSpeedCalibration
  simp only []
  split_ifs <;> simp

theorem caseRAStepCalibration_calState (cfg : Config) (key : Key) (r : Run) :
    (caseRAStepCalibration cfg key r).g.calState = r.g.calState ∨
    (caseRAStepCalibration cfg key r).g.calState = HIGHLIGHT_RA_STEPS := by
  unfold caseRAStepCalibration
  simp only []
  split_ifs <;> simp

theorem caseDECStepCalibration_calState (cfg : Config) (key : Key) (r : Run) :
    (caseDECStepCalibration cfg key r).g.calState = r.g.calState ∨
    (caseDECStepCalibration cfg key r).g.calState = HIGHLIGHT_DEC_STEPS := by
  unfold caseDECStepCalibration
  simp only []
  split_ifs <;> simp

theorem caseBacklashCalibration_calState (cfg : Config) (key : Key) (r : Run) :
    (caseBacklashCalibration cfg key r).g.calState = r.g.calState ∨
    (caseBacklashCalibration cfg key r).g.calState = HIGHLIGHT_BACKLASH_STEPS := by
  unfold caseBacklashCalibration
  simp only []
  split_ifs <;> simp

theorem caseAzimuthAdjustment_calState (key : Key) (r : Run) :
    (caseAzimuthAdjustment key r).g.calState = r.g.calState ∨
    (caseAzimuthAdjustment key r).g.calState = HIGHLIGHT_AZIMUTH_ADJUSTMENT := by
  unfold caseAzimuthAdjustment
  simp only []
  split_ifs <;> simp

theorem caseAltitudeAdjustment_calState (key : Key) (r : Run) :
    (caseAltitudeAdjustment key r).g.calState = r.g.calState ∨
    (caseAltitudeAdjustment key r).g.calState = HIGHLIGHT_ALTITUDE_ADJUSTMENT := by
  unfold caseAltitudeAdjustment
  simp only []
  split_ifs <;> simp

theorem caseRollOffsetCalibration_calState (cfg : Config) (env : Env) (key : Key) (r : Run) :
    (caseRollOffsetCalibration cfg env key r).g.calState = r.g.calState ∨
    (caseRollOffsetCalibration cfg env key r).g.calState = HIGHLIGHT_ROLL_LEVEL cfg := by
  unfold caseRollOffsetCalibration
  simp only []
  split_ifs <;> simp

theorem casePitchOffsetCalibration_calState (cfg : Config) (env : Env) (key : Key) (r : Run) :
    (casePitchOffsetCalibration cfg env key r).g.calState = r.g.calState ∨
    (casePitchOffsetCalibration cfg env key r).g.calState = HIGHLIGHT_PITCH_LEVEL cfg := by
  unfold casePitchOffsetCalibration
  simp only []
  split_ifs <;> simp

theorem casePolarWaitCenterPolaris_calState (cfg : Config) (env : Env) (key : Key) (r : Run) :
    (casePolarWaitCenterPolaris cfg env key r).g.calState = r.g.calState ∨
    (casePolarWaitCenterPolaris cfg env key r).g.calState = HIGHLIGHT_POLAR := by
  unfold casePolarWaitCenterPolaris
  simp only []
  split_ifs <;> simp

theorem caseDriftCalibrationWait_calState (key : Key) (r : Run) :
    (caseDriftCalibrationWait key r).g.calState = r.g.calState ∨
    (caseDriftCalibrationWait key r).g.calState = DRIFT_CALIBRATION_RUNNING ∨
    (caseDriftCalibrationWait key r).g.calState = HIGHLIGHT_DRIFT := by
  cases key <;> simp [caseDriftCalibrationWait]

/-- The state after a highlight case, by key. -/
theorem caseHighlight_calState (cfg : Config) (env : Env) (procedure onRight : Nat) (key : Key)
    (r : Run) :
    (caseHighlight cfg env procedure onRight key r).g.calState =
      if key = .btnDOWN then
        toByte (adjustWrap r.g.calState 1 HIGHLIGHT_FIRST (HIGHLIGHT_LAST cfg))
      else if key = .btnUP then
        toByte (adjustWrap r.g.calState (-1) HIGHLIGHT_FIRST (HIGHLIGHT_LAST cfg))
      else if key = .btnSELECT then procedure
      else if key = .btnRIGHT then onRight
      else r.g.calState := by
  cases key <;> simp [caseHighlight, gotoNextHighlightState_calState]

/-- The state after the `HIGHLIGHT_POLAR` case, by key. -/
theorem caseHighlightPolar_calState (cfg : Config) (env : Env) (key : Key) (r : Run) :
    (caseHighlightPolar cfg env key r).g.calState =
      if key = .btnDOWN then
        toByte (adjustWrap r.g.calState 1 HIGHLIGHT_FIRST (HIGHLIGHT_LAST cfg))
      else if key = .btnUP then
        toByte (adjustWrap r.g.calState (-1) HIGHLIGHT_FIRST (HIGHLIGHT_LAST cfg))
      else if key = .btnSELECT then POLAR_CALIBRATION_WAIT_CENTER_POLARIS
      else if key = .btnRIGHT then r.g.calState
      else r.g.calState := by
  cases key <;> simp [caseHighlightPolar, gotoNextHighlightState_calState, gotoNextMenu_calState]

/-- What a highlight case of the key dispatch can do to the state: UP and DOWN
stay among the highlight states, only SELECT enters a procedure state, and
that is the procedure of this highlight state. -/
theorem highlight_step (cfg : Config) (s procedure onRight s2 : Nat) (key : Key)
    (hs : isHighlightState cfg s) (hp : ownHighlight cfg procedure = some s)
    (hr : isHighlightState cfg onRight)
    (he : s2 =
      if key = .btnDOWN then toByte (adjustWrap s 1 HIGHLIGHT_FIRST (HIGHLIGHT_LAST cfg))
      else if key = .btnUP then toByte (adjustWrap s (-1) HIGHLIGHT_FIRST (HIGHLIGHT_LAST cfg))
      else if key = .btnSELECT then procedure
      else if key = .btnRIGHT then onRight
      else s) :
    (key = .btnUP ∨ key = .btnDOWN → isHighlightState cfg s2) ∧
    (∀ h, ownHighlight cfg s2 = some h → s = h ∧ key = .btnSELECT) ∧
    (isHighlightState cfg s2 ∨ ownHighlight cfg s2 = some s) := by
  obtain ⟨w1, w2⟩ := wrap_isHighlightState cfg s hs
  have none_of : ∀ t, isHighlightState cfg t → ∀ h, ownHighlight cfg t = some h → False := by
    intro t ht h ho
    rw [ownHighlight_of_le cfg t (isHighlightState_le cfg t ht).2] at ho
    cases ho
  by_cases k1 : key = .btnDOWN
  · rw [if_pos k1] at he
    rw [he]
    exact ⟨fun _ => w1, fun h ho => (none_of _ w1 h ho).elim, Or.inl w1⟩
  rw [if_neg k1] at he
  by_cases k2 : key = .btnUP
  · rw [if_pos k2] at he
    rw [he]
    exact ⟨fun _ => w2, fun h ho => (none_of _ w2 h ho).elim, Or.inl w2⟩
  rw [if_neg k2] at he
  by_cases k3 : key = .btnSELECT
  · rw [if_pos k3] at he
    rw [he]
    refine ⟨fun hk => ?_, fun h ho => ?_, Or.inr hp⟩
    · rcases hk with hk | hk
      · exact absurd hk k2
      · exact absurd hk k1
    · rw [hp] at ho
      cases ho
      exact ⟨rfl, k3⟩
  rw [if_neg k3] at he
  by_cases k4 : key = .btnRIGHT
  · rw [if_pos k4] at he
    rw [he]
    exact ⟨fun _ => hr, fun h ho => (none_of _ hr h ho).elim, Or.inl hr⟩
  rw [if_neg k4] at he
  rw [he]
  exact ⟨fun _ => hs, fun h ho => (none_of _ hs h ho).elim, Or.inl hs⟩

/-- The key dispatch from a procedure state stays in the category: the state
afterwards is the highlight state of the category or one of its procedure
states. -/
theorem keyDispatch_procedure (cfg : Config) (env : Env) (key : Key) (r : Run) (h : Nat)
    (ho : ownHighlight cfg r.g.calState = some h) :
    (keyDispatch cfg env key r).g.calState = h ∨
    ownHighlight cfg (keyDispatch cfg env key r).g.calState = some h := by
  have h11 := (ownHighlight_le cfg _ h ho).1
  have hl := HIGHLIGHT_LEVEL_le cfg
  apply keyDispatch_cases cfg env key r
    (fun x => x.g.calState = h ∨ ownHighlight cfg x.g.calState = some h)
  · intro hc
    have hH := Option.some.inj (((congrArg (ownHighlight cfg) hc).trans (ownHighlight_eval cfg).2.1).symm.trans ho)
    rcases casePolarWaitHome_calState cfg key r with e | e
    · exact Or.inr (by rw [e]; exact ho)
    · exact Or.inl (e.trans hH)
  · intro hc
    have hH := Option.some.inj (((congrArg (ownHighlight cfg) hc).trans (ownHighlight_eval cfg).2.2.1).symm.trans ho)
    rcases caseSpeedCalibration_calState cfg key r with e | e
    · exact Or.inr (by rw [e]; exact ho)
    · exact Or.inl (e.trans hH)
  · intro hc
    have hH := Option.some.inj (((congrArg (ownHighlight cfg) hc).trans (ownHighlight_eval cfg).2.2.2.2.2.1).symm.trans ho)
    rcases caseRAStepCalibration_calState cfg key r with e | e
    · exact Or.inr (by rw [e]; exact ho)
    · exact Or.inl (e.trans hH)
  · intro hc
    have hH := Option.some.inj (((congrArg (ownHighlight cfg) hc).trans (ownHighlight_eval cfg).2.2.2.2.2.2.1).symm.trans ho)
    rcases caseDECStepCalibration_calState cfg key r with e | e
    · exact Or.inr (by rw [e]; exact ho)
    · exact Or.inl (e.trans hH)
  · intro hc
    have hH := Option.some.inj (((congrArg (ownHighlight cfg) hc).trans (ownHighlight_eval cfg).2.2.2.2.2.2.2.1).symm.trans ho)
    rcases caseBacklashCalibration_calState cfg key r with e | e
    · exact Or.inr (by rw [e]; exact ho)
    · exact Or.inl (e.trans hH)
  · intro hf hc
    have hH := Option.some.inj (((congrArg (ownHighlight cfg) hc).trans ((ownHighlight_eval cfg).2.2.2.2.2.2.2.2.1 hf).1).symm.trans ho)
    rcases caseAzimuthAdjustment_calState key r with e | e
    · exact Or.inr (by rw [e]; exact ho)
    · exact Or.inl (e.trans hH)
  · intro hf hc
    have hH := Option.some.inj (((congrArg (ownHighlight cfg) hc).trans ((ownHighlight_eval cfg).2.2.2.2.2.2.2.2.1 hf).2).symm.trans ho)
    rcases caseAltitudeAdjustment_calState key r with e | e
    · exact Or.inr (by rw [e]; exact ho)
    · exact Or.inl (e.trans hH)
  · intro hf hc
    have hH := Option.some.inj (((congrArg (ownHighlight cfg) hc).trans ((ownHighlight_eval cfg).2.2.2.2.2.2.2.2.2 hf).1).symm.trans ho)
    rcases caseRollOffsetCalibration_calState cfg env key r with e | e
    · exact Or.inr (by rw [e]; exact ho)
    · exact Or.inl (e.trans hH)
  · intro hf hc
    have hH := Option.some.inj (((congrArg (ownHighlight cfg) hc).trans ((ownHighlight_eval cfg).2.2.2.2.2.2.2.2.2 hf).2).symm.trans ho)
    rcases casePitchOffsetCalibration_calState cfg env key r with e | e
    · exact Or.inr (by rw [e]; exact ho)
    · exact Or.inl (e.trans hH)
  · intro hc
    rw [hc] at h11
    exact absurd h11 (by decide)
  · intro hc
    have hH := Option.some.inj (((congrArg (ownHighlight cfg) hc).trans (ownHighlight_eval cfg).1).symm.trans ho)
    rcases casePolarWaitCenterPolaris_calState cfg env key r with e | e
    · exact Or.inr (by rw [e]; exact ho)
    · exact Or.inl (e.trans hH)
  · intro hc
    rw [hc] at h11
    exact absurd h11 (by decide)
  · intro hc
    rw [hc] at h11
    exact absurd h11 (by decide)
  · intro hc
    have hH := Option.some.inj
      (((congrArg (ownHighlight cfg) hc).trans (ownHighlight_eval cfg).2.2.2.1).symm.trans ho)
    rcases caseDriftCalibrationWait_calState key r with e | e | e
    · exact Or.inr (by rw [e]; exact ho)
    · exact Or.inr (by rw [e, ← hH]; exact (ownHighlight_eval cfg).2.2.2.2.1)
    · exact Or.inl (e.trans hH)
  · intro hc
    rw [hc] at h11
    exact absurd h11 (by decide)
  · intro hc
    rw [hc] at h11
    exact absurd h11 (by decide)
  · intro hc
    rw [hc] at h11
    exact absurd h11 (by decide)
  · intro _ hc
    rw [hc] at h11
    exact absurd h11 (by decide)
  · intro _ hc
    rw [hc] at h11
    exact absurd h11 (by decide)
  · intro _ hc
    rw [hc] at h11
    omega
  · intro _ hc
    rw [hc] at h11
    omega
  · exact Or.inr ho

theorem isHighlightState_first (cfg : Config) :
    isHighlightState cfg HIGHLIGHT_FIRST ∧ isHighlightState cfg HIGHLIGHT_POLAR := by
  unfold isHighlightState
  rcases HIGHLIGHT_LAST_cases cfg with e | e | e <;> rw [e] <;> decide

/-- The key dispatch from a highlight state: UP and DOWN stay among the
highlight states, a procedure state is entered only by SELECT and is then the
procedure of this highlight state, and every other key leaves a highlight
state. -/
theorem keyDispatch_highlight (cfg : Config) (env : Env) (key : Key) (r : Run)
    (hs : isHighlightState cfg r.g.calState) :
    (key = .btnUP ∨ key = .btnDOWN →
      isHighlightState cfg (keyDispatch cfg env key r).g.calState) ∧
    (∀ h, ownHighlight cfg (keyDispatch cfg env key r).g.calState = some h →
      r.g.calState = h ∧ key = .btnSELECT) ∧
    (isHighlightState cfg (keyDispatch cfg env key r).g.calState ∨
      ownHighlight cfg (keyDispatch cfg env key r).g.calState = some r.g.calState) := by
  have h10 := (isHighlightState_le cfg _ hs).2
  have h1 := (isHighlightState_first cfg).1
  have h1p := (isHighlightState_first cfg).2
  apply keyDispatch_cases cfg env key r (fun x =>
    (key = .btnUP ∨ key = .btnDOWN → isHighlightState cfg x.g.calState) ∧
    (∀ h, ownHighlight cfg x.g.calState = some h → r.g.calState = h ∧ key = .btnSELECT) ∧
    (isHighlightState cfg x.g.calState ∨ ownHighlight cfg x.g.calState = some r.g.calState))
  · intro hc
    rw [hc] at h10
    exact absurd h10 (by decide)
  · intro hc
    rw [hc] at h10
    exact absurd h10 (by decide)
  · intro hc
    rw [hc] at h10
    exact absurd h10 (by decide)
  · intro hc
    rw [hc] at h10
    exact absurd h10 (by decide)
  · intro hc
    rw [hc] at h10
    exact absurd h10 (by decide)
  · intro _ hc
    rw [hc] at h10
    exact absurd h10 (by decide)
  · intro _ hc
    rw [hc] at h10
    exact absurd h10 (by decide)
  · intro _ hc
    rw [hc] at h10
    exact absurd h10 (by decide)
  · intro _ hc
    rw [hc] at h10
    exact absurd h10 (by decide)
  · intro hc
    exact highlight_step cfg r.g.calState POLAR_CALIBRATION_WAIT_CENTER_POLARIS r.g.calState _ key
      hs (by rw [hc]; exact (ownHighlight_eval cfg).1) hs
      (caseHighlightPolar_calState cfg env key r)
  · intro hc
    rw [hc] at h10
    exact absurd h10 (by decide)
  · intro hc
    exact highlight_step cfg r.g.calState SPEED_CALIBRATION HIGHLIGHT_POLAR _ key hs
      (by rw [hc]; exact (ownHighlight_eval cfg).2.2.1) h1p
      (caseHighlight_calState cfg env _ _ key r)
  · intro hc
    exact highlight_step cfg r.g.calState DRIFT_CALIBRATION_WAIT HIGHLIGHT_POLAR _ key hs
      (by rw [hc]; exact (ownHighlight_eval cfg).2.2.2.1) h1p
      (caseHighlight_calState cfg env _ _ key r)
  · intro hc
    rw [hc] at h10
    exact absurd h10 (by decide)
  · intro hc
    exact highlight_step cfg r.g.calState RA_STEP_CALIBRATION HIGHLIGHT_FIRST _ key hs
      (by rw [hc]; exact (ownHighlight_eval cfg).2.2.2.2.2.1) h1
      (caseHighlight_calState cfg env _ _ key r)
  · intro hc
    exact highlight_step cfg r.g.calState DEC_STEP_CALIBRATION HIGHLIGHT_FIRST _ key hs
      (by rw [hc]; exact (ownHighlight_eval cfg).2.2.2.2.2.2.1) h1
      (caseHighlight_calState cfg env _ _ key r)
  · intro hc
    exact highlight_step cfg r.g.calState BACKLASH_CALIBRATION HIGHLIGHT_FIRST _ key hs
      (by rw [hc]; exact (ownHighlight_eval cfg).2.2.2.2.2.2.2.1) h1
      (caseHighlight_calState cfg env _ _ key r)
  · intro hf hc
    exact highlight_step cfg r.g.calState AZIMUTH_ADJUSTMENT HIGHLIGHT_FIRST _ key hs
      (by rw [hc]; exact ((ownHighlight_eval cfg).2.2.2.2.2.2.2.2.1 hf).1) h1
      (caseHighlight_calState cfg env _ _ key r)
  · intro hf hc
    exact highlight_step cfg r.g.calState ALTITUDE_ADJUSTMENT HIGHLIGHT_FIRST _ key hs
      (by rw [hc]; exact ((ownHighlight_eval cfg).2.2.2.2.2.2.2.2.1 hf).2) h1
      (caseHighlight_calState cfg env _ _ key r)
  · intro hf hc
    exact highlight_step cfg r.g.calState ROLL_OFFSET_CALIBRATION HIGHLIGHT_FIRST _ key hs
      (by rw [hc]; exact ((ownHighlight_eval cfg).2.2.2.2.2.2.2.2.2 hf).1) h1
      (caseHighlight_calState cfg env _ _ key r)
  · intro hf hc
    exact highlight_step cfg r.g.calState PITCH_OFFSET_CALIBRATION HIGHLIGHT_FIRST _ key hs
      (by rw [hc]; exact ((ownHighlight_eval cfg).2.2.2.2.2.2.2.2.2 hf).2) h1
      (caseHighlight_calState cfg env _ _ key r)
  · refine ⟨fun _ => hs, fun h ho => ?_, Or.inl hs⟩
    rw [ownHighlight_of_le cfg _ h10] at ho
    cases ho

/-! ## RIGHT in a procedure state -/

theorem statePhase_polarWaitHome (cfg : Config) (env : Env) (r : Run)
    (h : r.g.calState = POLAR_CALIBRATION_WAIT_HOME) :
    statePhase cfg env r = (true, polarWaitHomePhase env r) := by
  simp [statePhase, h, HIGHLIGHT_FIRST, HIGHLIGHT_POLAR,
    HIGHLIGHT_SPEED, HIGHLIGHT_DRIFT, HIGHLIGHT_RA_STEPS, HIGHLIGHT_DEC_STEPS,
    HIGHLIGHT_BACKLASH_STEPS, HIGHLIGHT_AZIMUTH_ADJUSTMENT, HIGHLIGHT_ALTITUDE_ADJUSTMENT,
    POLAR_CALIBRATION_WAIT_CENTER_POLARIS, POLAR_CALIBRATION_WAIT_HOME, SPEED_CALIBRATION,
    DRIFT_CALIBRATION_WAIT, DRIFT_CALIBRATION_RUNNING, RA_STEP_CALIBRATION, DEC_STEP_CALIBRATION,
    BACKLASH_CALIBRATION, AZIMUTH_ADJUSTMENT, ALTITUDE_ADJUSTMENT, ROLL_OFFSET_CALIBRATION,
    PITCH_OFFSET_CALIBRATION]

theorem keyDispatch_polarWaitHome (cfg : Config) (env : Env) (key : Key) (r : Run)
    (h : r.g.calState = POLAR_CALIBRATION_WAIT_HOME) :
    keyDispatch cfg env key r = casePolarWaitHome cfg key r := by
  simp [keyDispatch, h, HIGHLIGHT_FIRST, HIGHLIGHT_POLAR,
    HIGHLIGHT_SPEED, HIGHLIGHT_DRIFT, HIGHLIGHT_RA_STEPS, HIGHLIGHT_DEC_STEPS,
    HIGHLIGHT_BACKLASH_STEPS, HIGHLIGHT_AZIMUTH_ADJUSTMENT, HIGHLIGHT_ALTITUDE_ADJUSTMENT,
    POLAR_CALIBRATION_WAIT_CENTER_POLARIS, POLAR_CALIBRATION_WAIT_HOME, SPEED_CALIBRATION,
    DRIFT_CALIBRATION_WAIT, DRIFT_CALIBRATION_RUNNING, RA_STEP_CALIBRATION, DEC_STEP_CALIBRATION,
    BACKLASH_CALIBRATION, AZIMUTH_ADJUSTMENT, ALTITUDE_ADJUSTMENT, ROLL_OFFSET_CALIBRATION,
    PITCH_OFFSET_CALIBRATION]

/-- RIGHT in `POLAR_CALIBRATION_WAIT_HOME`: whether the state phase has ended
the wait or not, the menu is advanced and the state is `HIGHLIGHT_POLAR`. -/
theorem tick_polarWaitHome_right (cfg : Config) (env : Env) (g : Globals)
    (h : g.calState = POLAR_CALIBRATION_WAIT_HOME) (hk : env.keyChanged = some .btnRIGHT) :
    Cmd.setNextActive ∈ tickLog cfg env g ∧
    (tickGlobals cfg env g).calState = HIGHLIGHT_POLAR := by
  have h2 : (startHardware cfg ⟨g, []⟩).g.calState = POLAR_CALIBRATION_WAIT_HOME := by
    rw [startHardware_calState]
    exact h
  unfold tickLog tickGlobals processCalibrationKeys
  simp only [statePhase_polarWaitHome cfg env _ h2, if_true, hk]
  cases hsl : env.isSlewingRAorDEC with
  | true =>
    have e : polarWaitHomePhase env (startHardware cfg ⟨g, []⟩) = startHardware cfg ⟨g, []⟩ := by
      simp [polarWaitHomePhase, hsl]
    rw [e, keyDispatch_polarWaitHome cfg env _ _ h2]
    simp [casePolarWaitHome, gotoNextMenu_log]
  | false =>
    have e : polarWaitHomePhase env (startHardware cfg ⟨g, []⟩)
        = setCalState HIGHLIGHT_POLAR (emit .updateDisplay (startHardware cfg ⟨g, []⟩)) := by
      simp [polarWaitHomePhase, hsl]
    rw [e, keyDispatch_highlightPolar cfg env _ _ rfl]
    simp [caseHighlightPolar, gotoNextMenu_log, gotoNextMenu_calState]

/-- RIGHT in `POLAR_CALIBRATION_WAIT_CENTER_POLARIS`. -/
theorem tick_polarWaitCenter_right (cfg : Config) (env : Env) (g : Globals)
    (h : g.calState = POLAR_CALIBRATION_WAIT_CENTER_POLARIS)
    (hk : env.keyChanged = some .btnRIGHT) :
    Cmd.setNextActive ∈ tickLog cfg env g ∧
    (tickGlobals cfg env g).calState = HIGHLIGHT_POLAR := by
  have hs2 : (⟨g, []⟩ : Run).g.calState = POLAR_CALIBRATION_WAIT_CENTER_POLARIS := h
  simp [tickGlobals, tickLog, processCalibrationKeys_polarWaitCenter cfg env _ hs2, hk,
    casePolarWaitCenterPolaris, gotoNextMenu_log]

/-- RIGHT in `SPEED_CALIBRATION`, when the tick looks at the key event. -/
theorem tick_speed_right_menu (cfg : Config) (env : Env) (g : Globals)
    (h : g.calState = SPEED_CALIBRATION) (hk : env.keyChanged = some .btnRIGHT)
    (hcons : (processCalibrationKeys cfg env ⟨g, []⟩).1 = true) :
    Cmd.setNextActive ∈ tickLog cfg env g ∧
    (tickGlobals cfg env g).calState = HIGHLIGHT_SPEED := by
  by_cases hb : env.currentState = .btnUP ∨ env.currentState = .btnDOWN
  · rw [(processCalibrationKeys_speed_held cfg env ⟨g, []⟩ h hb).1] at hcons
    cases hcons
  · have hu : env.currentState ≠ .btnUP := fun e => hb (Or.inl e)
    have hd : env.currentState ≠ .btnDOWN := fun e => hb (Or.inr e)
    simp [tickGlobals, tickLog, processCalibrationKeys_speed_idle cfg env ⟨g, []⟩ h hu hd, hk,
      caseSpeedCalibration, gotoNextMenu_log]

/-- RIGHT in `RA_STEP_CALIBRATION`, when the tick looks at the key event. -/
theorem tick_raStep_right_menu (cfg : Config) (env : Env) (g : Globals)
    (h : g.calState = RA_STEP_CALIBRATION) (hk : env.keyChanged = some .btnRIGHT)
    (hcons : (processCalibrationKeys cfg env ⟨g, []⟩).1 = true) :
    Cmd.setNextActive ∈ tickLog cfg env g ∧
    (tickGlobals cfg env g).calState = HIGHLIGHT_RA_STEPS := by
  by_cases hb : env.currentState = .btnUP ∨ env.currentState = .btnDOWN
  · rw [processCalibrationKeys_raStep_held cfg env ⟨g, []⟩ h hb] at hcons
    cases hcons
  · have hu : env.currentState ≠ .btnUP := fun e => hb (Or.inl e)
    have hd : env.currentState ≠ .btnDOWN := fun e => hb (Or.inr e)
    simp [tickGlobals, tickLog, processCalibrationKeys_raStep_idle cfg env ⟨g, []⟩ h hu hd, hk,
      caseRAStepCalibration, gotoNextMenu_log]

/-- RIGHT in `DEC_STEP_CALIBRATION`, when the tick looks at the key event. -/
theorem tick_decStep_right_menu (cfg : Config) (env : Env) (g : Globals)
    (h : g.calState = DEC_STEP_CALIBRATION) (hk : env.keyChanged = some .btnRIGHT)
    (hcons : (processCalibrationKeys cfg env ⟨g, []⟩).1 = true) :
    Cmd.setNextActive ∈ tickLog cfg env g ∧
    (tickGlobals cfg env g).calState = HIGHLIGHT_DEC_STEPS := by
  by_cases hb : env.currentState = .btnUP ∨ env.currentState = .btnDOWN
  · rw [processCalibrationKeys_decStep_held cfg env ⟨g, []⟩ h hb] at hcons
    cases hcons
  · have hu : env.currentState ≠ .btnUP := fun e => hb (Or.inl e)
    have hd : env.currentState ≠ .btnDOWN := fun e => hb (Or.inr e)
    simp [tickGlobals, tickLog, processCalibrationKeys_decStep_idle cfg env ⟨g, []⟩ h hu hd, hk,
      caseDECStepCalibration, gotoNextMenu_log]

/-- RIGHT in `BACKLASH_CALIBRATION`, when the tick looks at the key event. -/
theorem tick_backlash_right_menu (cfg : Config) (env : Env) (g : Globals)
    (h : g.calState = BACKLASH_CALIBRATION) (hk : env.keyChanged = some .btnRIGHT)
    (hcons : (processCalibrationKeys cfg env ⟨g, []⟩).1 = true) :
    Cmd.setNextActive ∈ tickLog cfg env g ∧
    (tickGlobals cfg env g).calState = HIGHLIGHT_BACKLASH_STEPS := by
  by_cases hb : env.currentState = .btnUP ∨ env.currentState = .btnDOWN
  · rw [processCalibrationKeys_backlash_held cfg env ⟨g, []⟩ h hb] at hcons
    cases hcons
  · have hu : env.currentState ≠ .btnUP := fun e => hb (Or.inl e)
    have hd : env.currentState ≠ .btnDOWN := fun e => hb (Or.inr e)
    simp [tickGlobals, tickLog, processCalibrationKeys_backlash_idle cfg env ⟨g, []⟩ h hu hd, hk,
      caseBacklashCalibration, gotoNextMenu_log]

/-- RIGHT in `DRIFT_CALIBRATION_WAIT` returns to `HIGHLIGHT_DRIFT` and resets
the selection; the top-level menu is not advanced. -/
theorem tick_driftWait_right (cfg : Config) (env : Env) (g : Globals)
    (h : g.calState = DRIFT_CALIBRATION_WAIT) (hk : env.keyChanged = some .btnRIGHT) :
    (processCalibrationKeys cfg env ⟨g, []⟩).1 = true ∧
    Cmd.setNextActive ∉ tickLog cfg env g ∧
    (tickGlobals cfg env g).calState = HIGHLIGHT_DRIFT ∧
    (tickGlobals cfg env g).driftSubIndex = 1 := by
  have hn := startHardware_no_setNextActive cfg g
  have e := processCalibrationKeys_driftWait cfg env ⟨g, []⟩ h
  rw [hk] at e
  simp [tickGlobals, tickLog, e, caseDriftCalibrationWait, hn]

/-- RIGHT in `AZIMUTH_ADJUSTMENT` or `ALTITUDE_ADJUSTMENT` with neither UP nor
DOWN held: the key event is consumed, the state stays and the top-level menu
is not advanced. -/
theorem tick_azAlt_right (cfg : Config) (env : Env) (g : Globals)
    (hc : cfg.AZIMUTH_ALTITUDE_MOTORS = true)
    (h : g.calState = AZIMUTH_ADJUSTMENT ∨ g.calState = ALTITUDE_ADJUSTMENT)
    (hu : env.currentState ≠ .btnUP) (hd : env.currentState ≠ .btnDOWN)
    (hk : env.keyChanged = some .btnRIGHT) :
    (processCalibrationKeys cfg env ⟨g, []⟩).1 = true ∧
    Cmd.setNextActive ∉ tickLog cfg env g ∧
    (tickGlobals cfg env g).calState = g.calState := by
  have hn := startHardware_no_setNextActive cfg g
  rcases h with h | h
  · simp [tickGlobals, tickLog,
      processCalibrationKeys_azimuth_key cfg env ⟨g, []⟩ .btnRIGHT hc h hu hd hk,
      caseAzimuthAdjustment, hn]
  · simp [tickGlobals, tickLog,
      processCalibrationKeys_altitude_key cfg env ⟨g, []⟩ .btnRIGHT hc h hu hd hk,
      caseAltitudeAdjustment, hn]

/-- C19, as the code has it.  Take a tick that consumes a RIGHT key event.  If
it starts in one of `POLAR_CALIBRATION_WAIT_CENTER_POLARIS`,
`POLAR_CALIBRATION_WAIT_HOME`, `SPEED_CALIBRATION`, `RA_STEP_CALIBRATION`,
`DEC_STEP_CALIBRATION`, `BACKLASH_CALIBRATION`, or with the gyro
`ROLL_OFFSET_CALIBRATION`, `PITCH_OFFSET_CALIBRATION`, it advances the
top-level menu (`setNextActive`) and ends in the highlight state of the
category, which is not the procedure state.  If it starts in
`DRIFT_CALIBRATION_WAIT`, it ends in `HIGHLIGHT_DRIFT` with the selection
reset to 1 and does not advance the top-level menu. -/
theorem right_aborts_procedure (cfg : Config) (env : Env) (g : Globals)
    (hk : env.keyChanged = some .btnRIGHT)
    (hcons : (processCalibrationKeys cfg env ⟨g, []⟩).1 = true) :
    (g.calState = POLAR_CALIBRATION_WAIT_CENTER_POLARIS ∨
      g.calState = POLAR_CALIBRATION_WAIT_HOME ∨ g.calState = SPEED_CALIBRATION ∨
      g.calState = RA_STEP_CALIBRATION ∨ g.calState = DEC_STEP_CALIBRATION ∨
      g.calState = BACKLASH_CALIBRATION ∨
      (cfg.GYRO_LEVEL = true ∧ g.calState = ROLL_OFFSET_CALIBRATION) ∨
      (cfg.GYRO_LEVEL = true ∧ g.calState = PITCH_OFFSET_CALIBRATION) →
      Cmd.setNextActive ∈ tickLog cfg env g ∧
      ownHighlight cfg g.calState = some (tickGlobals cfg env g).calState ∧
      (tickGlobals cfg env g).calState ≠ g.calState) ∧
    (g.calState = DRIFT_CALIBRATION_WAIT →
      Cmd.setNextActive ∉ tickLog cfg env g ∧
      (tickGlobals cfg env g).calState = HIGHLIGHT_DRIFT ∧
      (tickGlobals cfg env g).driftSubIndex = 1) := by
  have hE := ownHighlight_eval cfg
  have fin : ∀ H, Cmd.setNextActive ∈ tickLog cfg env g ∧ (tickGlobals cfg env g).calState = H →
      ownHighlight cfg g.calState = some H →
      Cmd.setNextActive ∈ tickLog cfg env g ∧
      ownHighlight cfg g.calState = some (tickGlobals cfg env g).calState ∧
      (tickGlobals cfg env g).calState ≠ g.calState := by
    intro H hh ho
    rw [hh.2]
    exact ⟨hh.1, ho, ownHighlight_ne cfg _ _ ho⟩
  refine ⟨fun hst => ?_, fun hs => (tick_driftWait_right cfg env g hs hk).2⟩
  rcases hst with hs | hs | hs | hs | hs | hs | ⟨hc, hs⟩ | ⟨hc, hs⟩
  · exact fin _ (tick_polarWaitCenter_right cfg env g hs hk) (by rw [hs]; exact hE.1)
  · exact fin _ (tick_polarWaitHome_right cfg env g hs hk) (by rw [hs]; exact hE.2.1)
  · exact fin _ (tick_speed_right_menu cfg env g hs hk hcons) (by rw [hs]; exact hE.2.2.1)
  · exact fin _ (tick_raStep_right_menu cfg env g hs hk hcons)
      (by rw [hs]; exact hE.2.2.2.2.2.1)
  · exact fin _ (tick_decStep_right_menu cfg env g hs hk hcons)
      (by rw [hs]; exact hE.2.2.2.2.2.2.1)
  · exact fin _ (tick_backlash_right_menu cfg env g hs hk hcons)
      (by rw [hs]; exact hE.2.2.2.2.2.2.2.1)
  · have t := (tick_roll_keys cfg env g hc hs).2.2 hk
    exact fin _ ⟨t.2.2.2, t.2.2.1⟩ (by rw [hs]; exact (hE.2.2.2.2.2.2.2.2.2 hc).1)
  · have t := (tick_pitch_keys cfg env g hc hs).2.2 hk
    exact fin _ ⟨t.2.2.2, t.2.2.1⟩ (by rw [hs]; exact (hE.2.2.2.2.2.2.2.2.2 hc).2)

theorem right_aborts_procedure_witness :
    backlashEditGlobals.calState = BACKLASH_CALIBRATION ∧
    Cmd.setNextActive ∈ tickLog (sampleConfig false false) (backlashEnv .btnRIGHT (some .btnRIGHT))
      backlashEditGlobals ∧
    ownHighlight (sampleConfig false false) backlashEditGlobals.calState
      = some (tickGlobals (sampleConfig false false) (backlashEnv .btnRIGHT (some .btnRIGHT))
          backlashEditGlobals).calState := by
  have hc : (processCalibrationKeys (sampleConfig false false)
      (backlashEnv .btnRIGHT (some .btnRIGHT)) ⟨backlashEditGlobals, []⟩).1 = true := by
    rw [processCalibrationKeys_backlash_idle _ _ ⟨backlashEditGlobals, []⟩
      backlashEditGlobals_eval.1 (by decide) (by decide)]
    rfl
  have h := (right_aborts_procedure (sampleConfig false false)
    (backlashEnv .btnRIGHT (some .btnRIGHT)) backlashEditGlobals rfl hc).1
    (Or.inr (Or.inr (Or.inr (Or.inr (Or.inr (Or.inl backlashEditGlobals_eval.1))))))
  exact ⟨backlashEditGlobals_eval.1, h.1, h.2.1⟩

/-- C19 fails as stated: the reachable state `driftWaitGlobals` is
`DRIFT_CALIBRATION_WAIT`; the tick consumes the RIGHT key event and ends in
`HIGHLIGHT_DRIFT` without advancing the top-level menu (no `setNextActive`). -/
theorem right_aborts_procedure_counterexample :
    Reachable (sampleConfig false false) driftWaitGlobals ∧
    driftWaitGlobals.calState = DRIFT_CALIBRATION_WAIT ∧
    (keyEnv .btnRIGHT).keyChanged = some .btnRIGHT ∧
    (processCalibrationKeys (sampleConfig false false) (keyEnv .btnRIGHT)
      ⟨driftWaitGlobals, []⟩).1 = true ∧
    Cmd.setNextActive ∉ tickLog (sampleConfig false false) (keyEnv .btnRIGHT) driftWaitGlobals ∧
    (tickGlobals (sampleConfig false false) (keyEnv .btnRIGHT) driftWaitGlobals).calState
      = HIGHLIGHT_DRIFT := by
  have a := tick_driftWait_right (sampleConfig false false) (keyEnv .btnRIGHT) driftWaitGlobals
    driftWaitGlobals_calState rfl
  exact ⟨driftWaitGlobals_reachable, driftWaitGlobals_calState, rfl, a.1, a.2.1, a.2.2.1⟩

/-- A tick that starts in a highlight state: the state phase does nothing and
every key event is consumed. -/
theorem processCalibrationKeys_of_highlight (cfg : Config) (env : Env) (r : Run)
    (hs : isHighlightState cfg r.g.calState) :
    processCalibrationKeys cfg env r =
      match env.keyChanged with
      | some key => (true, keyDispatch cfg env key (startHardware cfg r))
      | none => (false, startHardware cfg r) := by
  have h2 : (startHardware cfg r).g.calState ≤ 10 := by
    rw [startHardware_calState]
    exact (isHighlightState_le cfg _ hs).2
  unfold processCalibrationKeys
  simp only [statePhase_of_highlight cfg env _ h2, if_true]

/-- A tick from a procedure state ends in its category, unless the state
phase has ended the procedure and a key event is then served by the highlight
state. -/
theorem processCalibrationKeys_procedure (cfg : Config) (env : Env) (r : Run) (h : Nat)
    (ho : ownHighlight cfg r.g.calState = some h) :
    (processCalibrationKeys cfg env r).2.g.calState = h ∨
    ownHighlight cfg (processCalibrationKeys cfg env r).2.g.calState = some h ∨
    ((r.g.calState = DRIFT_CALIBRATION_RUNNING ∨
        (r.g.calState = POLAR_CALIBRATION_WAIT_HOME ∧ env.isSlewingRAorDEC = false)) ∧
      (processCalibrationKeys cfg env r).1 = true ∧
      (∃ key, env.keyChanged = some key) ∧
      isHighlightState cfg (processCalibrationKeys cfg env r).2.g.calState) := by
  have ho2 : ownHighlight cfg (startHardware cfg r).g.calState = some h := by
    rw [startHardware_calState]
    exact ho
  have hsp := statePhase_calState cfg env (startHardware cfg r)
  rw [startHardware_calState] at hsp
  have hE := ownHighlight_eval cfg
  apply processCalibrationKeys_cases cfg env r (fun x =>
    x.2.g.calState = h ∨ ownHighlight cfg x.2.g.calState = some h ∨
    ((r.g.calState = DRIFT_CALIBRATION_RUNNING ∨
        (r.g.calState = POLAR_CALIBRATION_WAIT_HOME ∧ env.isSlewingRAorDEC = false)) ∧
      x.1 = true ∧ (∃ key, env.keyChanged = some key) ∧ isHighlightState cfg x.2.g.calState))
  · intro key _ hk
    rcases hsp with e | ⟨e1, e2, e3⟩ | ⟨e1, e3⟩
    · have ho3 : ownHighlight cfg (statePhase cfg env (startHardware cfg r)).2.g.calState
          = some h := by rw [e]; exact ho
      rcases keyDispatch_procedure cfg env key _ h ho3 with k | k
      · exact Or.inl k
      · exact Or.inr (Or.inl k)
    · have hH : HIGHLIGHT_POLAR = h :=
        Option.some.inj (((congrArg (ownHighlight cfg) e1).trans hE.2.1).symm.trans ho)
      have hs : isHighlightState cfg (statePhase cfg env (startHardware cfg r)).2.g.calState := by
        rw [e3]; exact (isHighlightState_first cfg).2
      rcases (keyDispatch_highlight cfg env key _ hs).2.2 with k | k
      · exact Or.inr (Or.inr ⟨Or.inr ⟨e1, e2⟩, rfl, ⟨key, hk⟩, k⟩)
      · rw [e3, hH] at k
        exact Or.inr (Or.inl k)
    · have hH : HIGHLIGHT_DRIFT = h :=
        Option.some.inj (((congrArg (ownHighlight cfg) e1).trans hE.2.2.2.2.1).symm.trans ho)
      have hs : isHighlightState cfg (statePhase cfg env (startHardware cfg r)).2.g.calState := by
        rw [e3]
        unfold isHighlightState
        rcases HIGHLIGHT_LAST_cases cfg with e | e | e <;> rw [e] <;> decide
      rcases (keyDispatch_highlight cfg env key _ hs).2.2 with k | k
      · exact Or.inr (Or.inr ⟨Or.inl e1, rfl, ⟨key, hk⟩, k⟩)
      · rw [e3, hH] at k
        exact Or.inr (Or.inl k)
  · rcases hsp with e | ⟨e1, _, e3⟩ | ⟨e1, e3⟩
    · exact Or.inr (Or.inl (by rw [e]; exact ho))
    · exact Or.inl (e3.trans
        (Option.some.inj (((congrArg (ownHighlight cfg) e1).trans hE.2.1).symm.trans ho)))
    · exact Or.inl (e3.trans
        (Option.some.inj (((congrArg (ownHighlight cfg) e1).trans hE.2.2.2.2.1).symm.trans ho)))

/-- C20, as the code has it.  For every tick, with any button reading, key
event and mount status: (1) if the tick starts in a procedure state of
category C, it ends in the highlight state of C or in a procedure state of C,
except that a tick which starts in `DRIFT_CALIBRATION_RUNNING`, or in
`POLAR_CALIBRATION_WAIT_HOME` with the mount no longer slewing, and consumes a
key event may end in any highlight state; (2) if the tick starts in a
highlight state and ends in a procedure state of category C, it started in
the highlight state of C and consumed a SELECT key event; (3) a tick that
starts in a highlight state and consumes an UP or DOWN key event ends in a
highlight state. -/
theorem procedure_state_graph (cfg : Config) (env : Env) (g : Globals) :
    (∀ h, ownHighlight cfg g.calState = some h →
      (tickGlobals cfg env g).calState = h ∨
      ownHighlight cfg (tickGlobals cfg env g).calState = some h ∨
      ((g.calState = DRIFT_CALIBRATION_RUNNING ∨
          (g.calState = POLAR_CALIBRATION_WAIT_HOME ∧ env.isSlewingRAorDEC = false)) ∧
        (processCalibrationKeys cfg env ⟨g, []⟩).1 = true ∧
        (∃ key, env.keyChanged = some key) ∧
        isHighlightState cfg (tickGlobals cfg env g).calState)) ∧
    (isHighlightState cfg g.calState →
      (∀ h, ownHighlight cfg (tickGlobals cfg env g).calState = some h →
        g.calState = h ∧ env.keyChanged = some .btnSELECT ∧
        (processCalibrationKeys cfg env ⟨g, []⟩).1 = true) ∧
      (env.keyChanged = some .btnUP ∨ env.keyChanged = some .btnDOWN →
        (processCalibrationKeys cfg env ⟨g, []⟩).1 = true ∧
        isHighlightState cfg (tickGlobals cfg env g).calState)) := by
  refine ⟨fun h ho => processCalibrationKeys_procedure cfg env ⟨g, []⟩ h ho, fun hs => ?_⟩
  have e := processCalibrationKeys_of_highlight cfg env ⟨g, []⟩ hs
  have hs2 : isHighlightState cfg (startHardware cfg ⟨g, []⟩).g.calState := by
    rw [startHardware_calState]; exact hs
  have hc2 : (startHardware cfg ⟨g, []⟩).g.calState = g.calState := startHardware_calState cfg _
  unfold tickGlobals
  cases hk : env.keyChanged with
  | none =>
    rw [hk] at e
    rw [e]
    refine ⟨fun h ho => ?_, fun hud => ?_⟩
    · rw [ownHighlight_of_le cfg _ (isHighlightState_le cfg _ hs2).2] at ho
      cases ho
    · rcases hud with c | c <;> cases c
  | some key =>
    rw [hk] at e
    rw [e]
    obtain ⟨k1, k2, _⟩ := keyDispatch_highlight cfg env key _ hs2
    refine ⟨fun h ho => ?_, fun hud => ⟨rfl, k1 ?_⟩⟩
    · obtain ⟨a, b⟩ := k2 h ho
      exact ⟨hc2 ▸ a, by rw [b], rfl⟩
    · rcases hud with c | c
      · exact Or.inl (Option.some.inj c)
      · exact Or.inr (Option.some.inj c)

theorem procedure_state_graph_witness :
    isHighlightState (sampleConfig false false) (initialGlobals 0 0 false).calState ∧
    isHighlightState (sampleConfig false false)
      (tickGlobals (sampleConfig false false) (keyEnv .btnDOWN)
        (initialGlobals 0 0 false)).calState :=
  ⟨by unfold isHighlightState; decide,
   (((procedure_state_graph (sampleConfig false false) (keyEnv .btnDOWN)
      (initialGlobals 0 0 false)).2 (by unfold isHighlightState; decide)).2 (Or.inr rfl)).2⟩

/-- C20 fails as stated: the reachable state `driftRunningGlobals` is the
procedure state `DRIFT_CALIBRATION_RUNNING` of the drift category; when RIGHT
is pressed at the end of the run the tick ends in `HIGHLIGHT_POLAR`, which is
neither `HIGHLIGHT_DRIFT` nor a procedure state of the drift category. -/
theorem procedure_state_graph_counterexample :
    Reachable (sampleConfig false false) driftRunningGlobals ∧
    ownHighlight (sampleConfig false false) driftRunningGlobals.calState = some HIGHLIGHT_DRIFT ∧
    (tickGlobals (sampleConfig false false) (keyEnv .btnRIGHT) driftRunningGlobals).calState
      = HIGHLIGHT_POLAR ∧
    (tickGlobals (sampleConfig false false) (keyEnv .btnRIGHT) driftRunningGlobals).calState
      ≠ HIGHLIGHT_DRIFT ∧
    ownHighlight (sampleConfig false false)
      (tickGlobals (sampleConfig false false) (keyEnv .btnRIGHT) driftRunningGlobals).calState
      ≠ some HIGHLIGHT_DRIFT := by
  have h : (⟨driftRunningGlobals, []⟩ : Run).g.calState = DRIFT_CALIBRATION_RUNNING :=
    driftRunningGlobals_calState
  have e : (tickGlobals (sampleConfig false false) (keyEnv .btnRIGHT)
      driftRunningGlobals).calState = HIGHLIGHT_POLAR := by
    unfold tickGlobals
    rw [processCalibrationKeys_driftRunning _ _ _ h]
    simp [keyEnv, caseHighlight_calState]
  refine ⟨driftRunningGlobals_reachable, ?_, e, ?_, ?_⟩
  · rw [driftRunningGlobals_calState]
    rfl
  · rw [e]
    decide
  · rw [e]
    decide

/-! ## The reachable states -/

theorem ownHighlight_isHighlightState (cfg : Config) (s h : Nat)
    (ho : ownHighlight cfg s = some h) : isHighlightState cfg h := by
  have hf := isHighlightState_first cfg
  have six : ∀ n, 1 ≤ n → n ≤ 6 → isHighlightState cfg n := by
    intro n a b
    refine ⟨a, le_trans b ?_⟩
    rcases HIGHLIGHT_LAST_cases cfg with e | e | e <;> rw [e] <;> decide
  rcases ownHighlight_some cfg s h ho with ⟨_, e⟩ | ⟨_, e⟩ | ⟨_, e⟩ | ⟨_, e⟩ | ⟨_, e⟩ |
    ⟨_, e⟩ | ⟨hc, _, e⟩ | ⟨hc, _, e⟩ | ⟨hc, _, e⟩ | ⟨hc, _, e⟩
  · rw [e]; exact six _ (by decide) (by decide)
  · rw [e]; exact six _ (by decide) (by decide)
  · rw [e]; exact six _ (by decide) (by decide)
  · rw [e]; exact six _ (by decide) (by decide)
  · rw [e]; exact six _ (by decide) (by decide)
  · rw [e]; exact six _ (by decide) (by decide)
  · rw [e]
    simp only [isHighlightState, HIGHLIGHT_LAST, hc, if_true]
    split_ifs <;> decide
  · rw [e]
    simp only [isHighlightState, HIGHLIGHT_LAST, hc, if_true]
    split_ifs <;> decide
  · rw [e]; exact (HIGHLIGHT_LEVEL_isHighlightState cfg hc).1
  · rw [e]; exact (HIGHLIGHT_LEVEL_isHighlightState cfg hc).2

theorem validState_highlight (cfg : Config) (s : Nat) (hv : validState cfg s) (h : s ≤ 10) :
    isHighlightState cfg s := by
  rcases hv with hv | ⟨t, ho⟩
  · exact hv
  · have := (ownHighlight_le cfg s t ho).1
    omega

/-- The target of a highlight case is a highlight state or the procedure
state of the case. -/
theorem highlight_step_target (cfg : Config) (s procedure onRight s2 : Nat) (key : Key)
    (hs : isHighlightState cfg s) (hr : isHighlightState cfg onRight)
    (he : s2 =
      if key = .btnDOWN then toByte (adjustWrap s 1 HIGHLIGHT_FIRST (HIGHLIGHT_LAST cfg))
      else if key = .btnUP then toByte (adjustWrap s (-1) HIGHLIGHT_FIRST (HIGHLIGHT_LAST cfg))
      else if key = .btnSELECT then procedure
      else if key = .btnRIGHT then onRight
      else s) :
    isHighlightState cfg s2 ∨ s2 = procedure := by
  obtain ⟨w1, w2⟩ := wrap_isHighlightState cfg s hs
  rw [he]
  split_ifs
  · exact Or.inl w1
  · exact Or.inl w2
  · exact Or.inr rfl
  · exact Or.inl hr
  · exact Or.inl hs

/-- The key dispatch never produces `POLAR_CALIBRATION_WAIT_HOME`: the one
assignment of it (line 571) is overwritten in the same branch. -/
theorem keyDispatch_ne_waitHome (cfg : Config) (env : Env) (key : Key) (r : Run)
    (hv : validState cfg r.g.calState) (hn : r.g.calState ≠ POLAR_CALIBRATION_WAIT_HOME) :
    (keyDispatch cfg env key r).g.calState ≠ POLAR_CALIBRATION_WAIT_HOME := by
  have hs := validState_highlight cfg _ hv
  have hl := HIGHLIGHT_LEVEL_le cfg
  apply keyDispatch_cases cfg env key r
    (fun x => x.g.calState ≠ POLAR_CALIBRATION_WAIT_HOME)
  · exact fun hc => absurd hc hn
  · intro hc
    rcases caseSpeedCalibration_calState cfg key r with e | e
    · rw [e]; exact hn
    · rw [e]; decide
  · intro hc
    rcases caseRAStepCalibration_calState cfg key r with e | e
    · rw [e]; exact hn
    · rw [e]; decide
  · intro hc
    rcases caseDECStepCalibration_calState cfg key r with e | e
    · rw [e]; exact hn
    · rw [e]; decide
  · intro hc
    rcases caseBacklashCalibration_calState cfg key r with e | e
    · rw [e]; exact hn
    · rw [e]; decide
  · intro _ hc
    rcases caseAzimuthAdjustment_calState key r with e | e
    · rw [e]; exact hn
    · rw [e]; decide
  · intro _ hc
    rcases caseAltitudeAdjustment_calState key r with e | e
    · rw [e]; exact hn
    · rw [e]; decide
  · intro _ hc
    rcases caseRollOffsetCalibration_calState cfg env key r with e | e
    · rw [e]; exact hn
    · rw [e]; unfold POLAR_CALIBRATION_WAIT_HOME; omega
  · intro _ hc
    rcases casePitchOffsetCalibration_calState cfg env key r with e | e
    · rw [e]; exact hn
    · rw [e]; unfold POLAR_CALIBRATION_WAIT_HOME; omega
  · intro hc
    rcases highlight_step_target cfg r.g.calState POLAR_CALIBRATION_WAIT_CENTER_POLARIS
      r.g.calState _ key (hs (by rw [hc]; decide)) (hs (by rw [hc]; decide))
      (caseHighlightPolar_calState cfg env key r) with k | k
    · have := (isHighlightState_le cfg _ k).2
      unfold POLAR_CALIBRATION_WAIT_HOME
      omega
    · rw [k]; decide
  · intro hc
    rcases casePolarWaitCenterPolaris_calState cfg env key r with e | e
    · rw [e]; exact hn
    · rw [e]; decide
  · intro hc
    rcases highlight_step_target cfg r.g.calState SPEED_CALIBRATION HIGHLIGHT_POLAR _ key
      (hs (by rw [hc]; decide)) (isHighlightState_first cfg).2 (caseHighlight_calState cfg env _ _ key r) with k | k
    · have := (isHighlightState_le cfg _ k).2
      unfold POLAR_CALIBRATION_WAIT_HOME
      omega
    · rw [k]; decide
  · intro hc
    rcases highlight_step_target cfg r.g.calState DRIFT_CALIBRATION_WAIT HIGHLIGHT_POLAR _ key
      (hs (by rw [hc]; decide)) (isHighlightState_first cfg).2 (caseHighlight_calState cfg env _ _ key r) with k | k
    · have := (isHighlightState_le cfg _ k).2
      unfold POLAR_CALIBRATION_WAIT_HOME
      omega
    · rw [k]; decide
  · intro hc
    rcases caseDriftCalibrationWait_calState key r with e | e | e
    · rw [e]; exact hn
    · rw [e]; decide
    · rw [e]; decide
  · intro hc
    rcases highlight_step_target cfg r.g.calState RA_STEP_CALIBRATION HIGHLIGHT_FIRST _ key
      (hs (by rw [hc]; decide)) (isHighlightState_first cfg).1 (caseHighlight_calState cfg env _ _ key r) with k | k
    · have := (isHighlightState_le cfg _ k).2
      unfold POLAR_CALIBRATION_WAIT_HOME
      omega
    · rw [k]; decide
  · intro hc
    rcases highlight_step_target cfg r.g.calState DEC_STEP_CALIBRATION HIGHLIGHT_FIRST _ key
      (hs (by rw [hc]; decide)) (isHighlightState_first cfg).1 (caseHighlight_calState cfg env _ _ key r) with k | k
    · have := (isHighlightState_le cfg _ k).2
      unfold POLAR_CALIBRATION_WAIT_HOME
      omega
    · rw [k]; decide
  · intro hc
    rcases highlight_step_target cfg r.g.calState BACKLASH_CALIBRATION HIGHLIGHT_FIRST _ key
      (hs (by rw [hc]; decide)) (isHighlightState_first cfg).1 (caseHighlight_calState cfg env _ _ key r) with k | k
    · have := (isHighlightState_le cfg _ k).2
      unfold POLAR_CALIBRATION_WAIT_HOME
      omega
    · rw [k]; decide
  · intro _ hc
    rcases highlight_step_target cfg r.g.calState AZIMUTH_ADJUSTMENT HIGHLIGHT_FIRST _ key
      (hs (by rw [hc]; decide)) (isHighlightState_first cfg).1 (caseHighlight_calState cfg env _ _ key r) with k | k
    · have := (isHighlightState_le cfg _ k).2
      unfold POLAR_CALIBRATION_WAIT_HOME
      omega
    · rw [k]; decide
  · intro _ hc
    rcases highlight_step_target cfg r.g.calState ALTITUDE_ADJUSTMENT HIGHLIGHT_FIRST _ key
      (hs (by rw [hc]; decide)) (isHighlightState_first cfg).1 (caseHighlight_calState cfg env _ _ key r) with k | k
    · have := (isHighlightState_le cfg _ k).2
      unfold POLAR_CALIBRATION_WAIT_HOME
      omega
    · rw [k]; decide
  · intro _ hc
    rcases highlight_step_target cfg r.g.calState ROLL_OFFSET_CALIBRATION HIGHLIGHT_FIRST _ key
      (hs (by rw [hc]; exact (HIGHLIGHT_LEVEL_le cfg).1)) (isHighlightState_first cfg).1 (caseHighlight_calState cfg env _ _ key r) with k | k
    · have := (isHighlightState_le cfg _ k).2
      unfold POLAR_CALIBRATION_WAIT_HOME
      omega
    · rw [k]; decide
  · intro _ hc
    rcases highlight_step_target cfg r.g.calState PITCH_OFFSET_CALIBRATION HIGHLIGHT_FIRST _ key
      (hs (by rw [hc]; exact (HIGHLIGHT_LEVEL_le cfg).2)) (isHighlightState_first cfg).1 (caseHighlight_calState cfg env _ _ key r) with k | k
    · have := (isHighlightState_le cfg _ k).2
      unfold POLAR_CALIBRATION_WAIT_HOME
      omega
    · rw [k]; decide
  · exact hn

theorem keyDispatch_validState (cfg : Config) (env : Env) (key : Key) (r : Run)
    (hv : validState cfg r.g.calState) :
    validState cfg (keyDispatch cfg env key r).g.calState := by
  rcases hv with hs | ⟨h, ho⟩
  · rcases (keyDispatch_highlight cfg env key r hs).2.2 with k | k
    · exact Or.inl k
    · exact Or.inr ⟨_, k⟩
  · rcases keyDispatch_procedure cfg env key r h ho with k | k
    · rw [k]
      exact Or.inl (ownHighlight_isHighlightState cfg _ h ho)
    · exact Or.inr ⟨h, k⟩

theorem statePhase_validState (cfg : Config) (env : Env) (r : Run) :
    validState cfg (statePhase cfg env r).2.g.calState ∧
    (statePhase cfg env r).2.g.calState ≠ POLAR_CALIBRATION_WAIT_HOME ∨
    (statePhase cfg env r).2.g.calState = r.g.calState := by
  rcases statePhase_calState cfg env r with e | ⟨_, _, e⟩ | ⟨_, e⟩
  · exact Or.inr e
  · refine Or.inl ⟨?_, ?_⟩
    · rw [e]; exact Or.inl (isHighlightState_first cfg).2
    · rw [e]; decide
  · refine Or.inl ⟨?_, ?_⟩
    · rw [e]
      refine Or.inl ⟨by decide, ?_⟩
      rcases HIGHLIGHT_LAST_cases cfg with c | c | c <;> rw [c] <;> decide
    · rw [e]; decide

/-- One tick keeps the state among the states of the menu and away from
`POLAR_CALIBRATION_WAIT_HOME`; so does its state phase. -/
theorem processCalibrationKeys_validState (cfg : Config) (env : Env) (r : Run)
    (hv : validState cfg r.g.calState) (hn : r.g.calState ≠ POLAR_CALIBRATION_WAIT_HOME) :
    (validState cfg (statePhase cfg env (startHardware cfg r)).2.g.calState ∧
      (statePhase cfg env (startHardware cfg r)).2.g.calState ≠ POLAR_CALIBRATION_WAIT_HOME) ∧
    validState cfg (processCalibrationKeys cfg env r).2.g.calState ∧
    (processCalibrationKeys cfg env r).2.g.calState ≠ POLAR_CALIBRATION_WAIT_HOME := by
  have hv0 : validState cfg (startHardware cfg r).g.calState := by
    rw [startHardware_calState]; exact hv
  have hn0 : (startHardware cfg r).g.calState ≠ POLAR_CALIBRATION_WAIT_HOME := by
    rw [startHardware_calState]; exact hn
  have h1 : validState cfg (statePhase cfg env (startHardware cfg r)).2.g.calState ∧
      (statePhase cfg env (startHardware cfg r)).2.g.calState
        ≠ POLAR_CALIBRATION_WAIT_HOME := by
    rcases statePhase_validState cfg env (startHardware cfg r) with k | k
    · exact k
    · rw [k]; exact ⟨hv0, hn0⟩
  refine ⟨h1, ?_⟩
  apply processCalibrationKeys_cases cfg env r (fun x =>
    validState cfg x.2.g.calState ∧ x.2.g.calState ≠ POLAR_CALIBRATION_WAIT_HOME)
  · intro key _ _
    exact ⟨keyDispatch_validState cfg env key _ h1.1,
      keyDispatch_ne_waitHome cfg env key _ h1.1 h1.2⟩
  · exact h1

theorem reachable_validState (cfg : Config) (g : Globals) (hr : Reachable cfg g) :
    validState cfg g.calState ∧ g.calState ≠ POLAR_CALIBRATION_WAIT_HOME := by
  induction hr with
  | start raSteps decSteps motorsStarted =>
    exact ⟨Or.inl (isHighlightState_first cfg).1,
      by simp [initialGlobals, HIGHLIGHT_FIRST, POLAR_CALIBRATION_WAIT_HOME]⟩
  | tick env g _ ih => exact (processCalibrationKeys_validState cfg env ⟨g, []⟩ ih.1 ih.2).2

/-- Every state of the menu other than `DRIFT_CALIBRATION_RUNNING` has a
`case` label in the switch. -/
theorem validState_hasCase (cfg : Config) (s : Nat) (hv : validState cfg s) :
    hasCase cfg s ∨ s = DRIFT_CALIBRATION_RUNNING := by
  rcases hv with hs | ⟨h, ho⟩
  · left
    obtain ⟨h1, h2⟩ := hs
    obtain ⟨az, gy, nh, e, w, t⟩ := cfg
    unfold HIGHLIGHT_FIRST at h1
    cases az <;> cases gy <;>
      simp only [HIGHLIGHT_LAST, if_true, if_false, Bool.false_eq_true] at h2 <;>
      interval_cases s <;>
      simp [hasCase, HIGHLIGHT_ROLL_LEVEL, HIGHLIGHT_PITCH_LEVEL, HIGHLIGHT_FIRST, HIGHLIGHT_POLAR,
    HIGHLIGHT_SPEED, HIGHLIGHT_DRIFT, HIGHLIGHT_RA_STEPS, HIGHLIGHT_DEC_STEPS,
    HIGHLIGHT_BACKLASH_STEPS, HIGHLIGHT_AZIMUTH_ADJUSTMENT, HIGHLIGHT_ALTITUDE_ADJUSTMENT,
    POLAR_CALIBRATION_WAIT_CENTER_POLARIS, POLAR_CALIBRATION_WAIT_HOME, SPEED_CALIBRATION,
    DRIFT_CALIBRATION_WAIT, DRIFT_CALIBRATION_RUNNING, RA_STEP_CALIBRATION, DEC_STEP_CALIBRATION,
    BACKLASH_CALIBRATION, AZIMUTH_ADJUSTMENT, ALTITUDE_ADJUSTMENT, ROLL_OFFSET_CALIBRATION,
    PITCH_OFFSET_CALIBRATION]
  · rcases ownHighlight_some cfg s h ho with ⟨e | e, _⟩ | ⟨e, _⟩ | ⟨e | e, _⟩ | ⟨e, _⟩ |
      ⟨e, _⟩ | ⟨e, _⟩ | ⟨hc, e, _⟩ | ⟨hc, e, _⟩ | ⟨hc, e, _⟩ | ⟨hc, e, _⟩
    · exact Or.inl (by simp [hasCase, e])
    · exact Or.inl (by simp [hasCase, e])
    · exact Or.inl (by simp [hasCase, e])
    · exact Or.inl (by simp [hasCase, e])
    · exact Or.inr e
    · exact Or.inl (by simp [hasCase, e])
    · exact Or.inl (by simp [hasCase, e])
    · exact Or.inl (by simp [hasCase, e])
    · exact Or.inl (by simp [hasCase, e, hc])
    · exact Or.inl (by simp [hasCase, e, hc])
    · exact Or.inl (by simp [hasCase, e, hc])
    · exact Or.inl (by simp [hasCase, e, hc])

/-- C26: Wait-Home is never observed.  In every state reachable from the
initial state, under any button readings, key events and mount status,
`calState` is not `POLAR_CALIBRATION_WAIT_HOME`; in the next tick neither the
state the state phase looks at nor the state the `switch` is entered with is
`POLAR_CALIBRATION_WAIT_HOME`, so neither Wait-Home handler is executed, and
the tick does not end in it. -/
theorem wait_home_never_observed (cfg : Config) (env : Env) (g : Globals)
    (hr : Reachable cfg g) :
    g.calState ≠ POLAR_CALIBRATION_WAIT_HOME ∧
    (startHardware cfg ⟨g, []⟩).g.calState ≠ POLAR_CALIBRATION_WAIT_HOME ∧
    (statePhase cfg env (startHardware cfg ⟨g, []⟩)).2.g.calState
      ≠ POLAR_CALIBRATION_WAIT_HOME ∧
    (tickGlobals cfg env g).calState ≠ POLAR_CALIBRATION_WAIT_HOME := by
  obtain ⟨hv, hn⟩ := reachable_validState cfg g hr
  have h := processCalibrationKeys_validState cfg env ⟨g, []⟩ hv hn
  refine ⟨hn, ?_, h.1.2, h.2.2⟩
  rw [startHardware_calState]
  exact hn

theorem wait_home_never_observed_witness :
    polarWaitCenterGlobals.calState = POLAR_CALIBRATION_WAIT_CENTER_POLARIS ∧
    (tickGlobals (sampleConfig false false) (keyEnv .btnSELECT) polarWaitCenterGlobals).calState
      ≠ POLAR_CALIBRATION_WAIT_HOME :=
  ⟨polarWaitCenterGlobals_calState,
   (wait_home_never_observed (sampleConfig false false) (keyEnv .btnSELECT)
      polarWaitCenterGlobals polarWaitCenterGlobals_reachable).2.2.2⟩

/-- C27, as the code has it.  For every combination of the optional-hardware
flags, in every state reachable from the initial state `calState` is a
highlight state in `[HIGHLIGHT_FIRST, HIGHLIGHT_LAST]` or a procedure state of
a category that exists under the flags; it is not `AZIMUTH_ADJUSTMENT` or
`ALTITUDE_ADJUSTMENT` without the motors and not `ROLL_OFFSET_CALIBRATION` or
`PITCH_OFFSET_CALIBRATION` without the gyro; it has a `case` label in the
switch unless it is `DRIFT_CALIBRATION_RUNNING`; and the state the switch is
entered with in the next tick always has a `case` label. -/
theorem only_existing_categories (cfg : Config) (env : Env) (g : Globals)
    (hr : Reachable cfg g) :
    (isHighlightState cfg g.calState ∨ ∃ h, ownHighlight cfg g.calState = some h) ∧
    (cfg.AZIMUTH_ALTITUDE_MOTORS = false →
      g.calState ≠ AZIMUTH_ADJUSTMENT ∧ g.calState ≠ ALTITUDE_ADJUSTMENT) ∧
    (cfg.GYRO_LEVEL = false →
      g.calState ≠ ROLL_OFFSET_CALIBRATION ∧ g.calState ≠ PITCH_OFFSET_CALIBRATION) ∧
    (hasCase cfg g.calState ∨ g.calState = DRIFT_CALIBRATION_RUNNING) ∧
    hasCase cfg (statePhase cfg env (startHardware cfg ⟨g, []⟩)).2.g.calState := by
  obtain ⟨hv, hn⟩ := reachable_validState cfg g hr
  have hproc : ∀ s, s = AZIMUTH_ADJUSTMENT ∨ s = ALTITUDE_ADJUSTMENT ∨
      s = ROLL_OFFSET_CALIBRATION ∨ s = PITCH_OFFSET_CALIBRATION → g.calState = s →
      ∃ h, ownHighlight cfg s = some h := by
    intro s hs e
    rcases hv with k | k
    · have := (isHighlightState_le cfg _ k).2
      rw [e] at this
      rcases hs with c | c | c | c <;> rw [c] at this <;> exact absurd this (by decide)
    · rw [e] at k
      exact k
  refine ⟨hv, fun hc => ⟨fun e => ?_, fun e => ?_⟩, fun hc => ⟨fun e => ?_, fun e => ?_⟩,
    validState_hasCase cfg _ hv, ?_⟩
  · obtain ⟨h, ho⟩ := hproc _ (Or.inl rfl) e
    simp [ownHighlight, hc, AZIMUTH_ADJUSTMENT, POLAR_CALIBRATION_WAIT_CENTER_POLARIS,
      POLAR_CALIBRATION_WAIT_HOME, SPEED_CALIBRATION, DRIFT_CALIBRATION_WAIT,
      DRIFT_CALIBRATION_RUNNING, RA_STEP_CALIBRATION, DEC_STEP_CALIBRATION, BACKLASH_CALIBRATION,
      ALTITUDE_ADJUSTMENT, ROLL_OFFSET_CALIBRATION, PITCH_OFFSET_CALIBRATION] at ho
  · obtain ⟨h, ho⟩ := hproc _ (Or.inr (Or.inl rfl)) e
    simp [ownHighlight, hc, AZIMUTH_ADJUSTMENT, POLAR_CALIBRATION_WAIT_CENTER_POLARIS,
      POLAR_CALIBRATION_WAIT_HOME, SPEED_CALIBRATION, DRIFT_CALIBRATION_WAIT,
      DRIFT_CALIBRATION_RUNNING, RA_STEP_CALIBRATION, DEC_STEP_CALIBRATION, BACKLASH_CALIBRATION,
      ALTITUDE_ADJUSTMENT, ROLL_OFFSET_CALIBRATION, PITCH_OFFSET_CALIBRATION] at ho
  · obtain ⟨h, ho⟩ := hproc _ (Or.inr (Or.inr (Or.inl rfl))) e
    simp [ownHighlight, hc, AZIMUTH_ADJUSTMENT, POLAR_CALIBRATION_WAIT_CENTER_POLARIS,
      POLAR_CALIBRATION_WAIT_HOME, SPEED_CALIBRATION, DRIFT_CALIBRATION_WAIT,
      DRIFT_CALIBRATION_RUNNING, RA_STEP_CALIBRATION, DEC_STEP_CALIBRATION, BACKLASH_CALIBRATION,
      ALTITUDE_ADJUSTMENT, ROLL_OFFSET_CALIBRATION, PITCH_OFFSET_CALIBRATION] at ho
  · obtain ⟨h, ho⟩ := hproc _ (Or.inr (Or.inr (Or.inr rfl))) e
    simp [ownHighlight, hc, AZIMUTH_ADJUSTMENT, POLAR_CALIBRATION_WAIT_CENTER_POLARIS,
      POLAR_CALIBRATION_WAIT_HOME, SPEED_CALIBRATION, DRIFT_CALIBRATION_WAIT,
      DRIFT_CALIBRATION_RUNNING, RA_STEP_CALIBRATION, DEC_STEP_CALIBRATION, BACKLASH_CALIBRATION,
      ALTITUDE_ADJUSTMENT, ROLL_OFFSET_CALIBRATION, PITCH_OFFSET_CALIBRATION] at ho
  · have hv0 : validState cfg (startHardware cfg ⟨g, []⟩).g.calState := by
      rw [startHardware_calState]; exact hv
    rcases statePhase_calState cfg env (startHardware cfg ⟨g, []⟩) with e | ⟨_, _, e⟩ | ⟨_, e⟩
    · rcases validState_hasCase cfg _ hv0 with k | k
      · rw [e]
        exact k
      · have e2 : (statePhase cfg env (startHardware cfg ⟨g, []⟩)).2.g.calState
            = HIGHLIGHT_DRIFT := by
          rw [statePhase_driftRunning cfg env _ k]
          rfl
        rw [e2]
        simp [hasCase]
    · rw [e]; simp [hasCase]
    · rw [e]; simp [hasCase]

theorem only_existing_categories_witness :
    hasCase (sampleConfig false false) driftWaitGlobals.calState ∨
      driftWaitGlobals.calState = DRIFT_CALIBRATION_RUNNING :=
  (only_existing_categories (sampleConfig false false) idleEnv driftWaitGlobals
    driftWaitGlobals_reachable).2.2.2.1

/-- C27 fails as stated: the state `driftRunningGlobals` is reachable, its
`calState` is `DRIFT_CALIBRATION_RUNNING`, and the switch has no `case` label
for that value. -/
theorem only_existing_categories_counterexample :
    Reachable (sampleConfig false false) driftRunningGlobals ∧
    driftRunningGlobals.calState = DRIFT_CALIBRATION_RUNNING ∧
    ¬ hasCase (sampleConfig false false) driftRunningGlobals.calState := by
  refine ⟨driftRunningGlobals_reachable, driftRunningGlobals_calState, ?_⟩
  rw [driftRunningGlobals_calState]
  simp [hasCase, sampleConfig, HIGHLIGHT_FIRST, HIGHLIGHT_POLAR,
    HIGHLIGHT_SPEED, HIGHLIGHT_DRIFT, HIGHLIGHT_RA_STEPS, HIGHLIGHT_DEC_STEPS,
    HIGHLIGHT_BACKLASH_STEPS, HIGHLIGHT_AZIMUTH_ADJUSTMENT, HIGHLIGHT_ALTITUDE_ADJUSTMENT,
    POLAR_CALIBRATION_WAIT_CENTER_POLARIS, POLAR_CALIBRATION_WAIT_HOME, SPEED_CALIBRATION,
    DRIFT_CALIBRATION_WAIT, DRIFT_CALIBRATION_RUNNING, RA_STEP_CALIBRATION, DEC_STEP_CALIBRATION,
    BACKLASH_CALIBRATION, AZIMUTH_ADJUSTMENT, ALTITUDE_ADJUSTMENT, ROLL_OFFSET_CALIBRATION,
    PITCH_OFFSET_CALIBRATION]

/-! ## RIGHT in a highlight state -/

/-- In every highlight state RIGHT calls `gotoNextMenu` and leaves
`calState = HIGHLIGHT_FIRST`. -/
theorem keyDispatch_highlight_right (cfg : Config) (env : Env) (r : Run)
    (hs : isHighlightState cfg r.g.calState) :
    (keyDispatch cfg env .btnRIGHT r).g.calState = HIGHLIGHT_FIRST ∧
    (keyDispatch cfg env .btnRIGHT r).log = (gotoNextMenu cfg r).log := by
  obtain ⟨h1, h2⟩ := hs
  obtain ⟨az, gy, nh, e, w, t⟩ := cfg
  generalize hcs : r.g.calState = cs at h1 h2
  unfold HIGHLIGHT_FIRST at h1
  cases az <;> cases gy <;>
    simp only [HIGHLIGHT_LAST, if_true, if_false, Bool.false_eq_true] at h2 <;>
    interval_cases cs <;>
    simp [keyDispatch, hcs, gotoNextMenu_calState, caseHighlight, caseHighlightPolar, HIGHLIGHT_FIRST, HIGHLIGHT_POLAR,
      HIGHLIGHT_SPEED, HIGHLIGHT_DRIFT, HIGHLIGHT_RA_STEPS, HIGHLIGHT_DEC_STEPS,
      HIGHLIGHT_BACKLASH_STEPS, HIGHLIGHT_AZIMUTH_ADJUSTMENT, HIGHLIGHT_ALTITUDE_ADJUSTMENT,
      HIGHLIGHT_ROLL_LEVEL, HIGHLIGHT_PITCH_LEVEL, POLAR_CALIBRATION_WAIT_CENTER_POLARIS,
      POLAR_CALIBRATION_WAIT_HOME, SPEED_CALIBRATION, DRIFT_CALIBRATION_WAIT,
      DRIFT_CALIBRATION_RUNNING, RA_STEP_CALIBRATION, DEC_STEP_CALIBRATION, BACKLASH_CALIBRATION,
      AZIMUTH_ADJUSTMENT, ALTITUDE_ADJUSTMENT, ROLL_OFFSET_CALIBRATION, PITCH_OFFSET_CALIBRATION]

theorem startHardware_count_setNextActive (cfg : Config) (g : Globals) :
    (startHardware cfg ⟨g, []⟩).log.count Cmd.setNextActive = 0 :=
  List.count_eq_zero.mpr (startHardware_no_setNextActive cfg g)

/-- C28: RIGHT from a highlight state resets the highlight.  For every
combination of the flags and every highlight state in
`[HIGHLIGHT_FIRST, HIGHLIGHT_LAST]`, a tick with a RIGHT key event consumes
it; the effects of the tick are the start-up calls that are still due followed
by exactly the calls of one `gotoNextMenu()`, so `setNextActive` occurs once
and there is no persist and no move command; and the tick ends with
`calState = HIGHLIGHT_FIRST`, which is `HIGHLIGHT_POLAR`. -/
theorem right_resets_highlight (cfg : Config) (env : Env) (g : Globals)
    (hs : isHighlightState cfg g.calState) (hk : env.keyChanged = some .btnRIGHT) :
    (processCalibrationKeys cfg env ⟨g, []⟩).1 = true ∧
    tickLog cfg env g = (startHardware cfg ⟨g, []⟩).log ++ [Cmd.setNextActive]
      ++ (if cfg.AZIMUTH_ALTITUDE_MOTORS then [Cmd.disableAzAltMotors] else [])
      ++ (if cfg.GYRO_LEVEL then [Cmd.gyroShutdown] else []) ∧
    (tickLog cfg env g).count Cmd.setNextActive = 1 ∧
    (tickLog cfg env g).filter isPersistCmd = [] ∧
    (tickLog cfg env g).filter isMoveCmd = [] ∧
    (tickGlobals cfg env g).calState = HIGHLIGHT_FIRST ∧
    HIGHLIGHT_FIRST = HIGHLIGHT_POLAR := by
  have e := processCalibrationKeys_of_highlight cfg env ⟨g, []⟩ hs
  rw [hk] at e
  have hs2 : isHighlightState cfg (startHardware cfg ⟨g, []⟩).g.calState := by
    rw [startHardware_calState]; exact hs
  obtain ⟨k1, k2⟩ := keyDispatch_highlight_right cfg env _ hs2
  have hl : tickLog cfg env g = (startHardware cfg ⟨g, []⟩).log ++ [Cmd.setNextActive]
      ++ (if cfg.AZIMUTH_ALTITUDE_MOTORS then [Cmd.disableAzAltMotors] else [])
      ++ (if cfg.GYRO_LEVEL then [Cmd.gyroShutdown] else []) := by
    unfold tickLog
    rw [e]
    simp only []
    rw [k2, gotoNextMenu_log]
  refine ⟨by rw [e], hl, ?_, ?_, ?_, ?_, rfl⟩
  · rw [hl]
    simp only [List.count_append, startHardware_count_setNextActive]
    split_ifs <;> simp
  · rw [hl]
    simp only [List.filter_append, startHardware_no_persist]
    split_ifs <;> simp [isPersistCmd]
  · rw [hl]
    simp only [List.filter_append, startHardware_no_move]
    split_ifs <;> simp [isMoveCmd]
  · unfold tickGlobals
    rw [e]
    exact k1

theorem right_resets_highlight_witness :
    backlashLoadedGlobals.calState = HIGHLIGHT_BACKLASH_STEPS ∧
    (tickLog (sampleConfig false false) (keyEnv .btnRIGHT) backlashLoadedGlobals).count
      Cmd.setNextActive = 1 ∧
    (tickGlobals (sampleConfig false false) (keyEnv .btnRIGHT) backlashLoadedGlobals).calState
      = HIGHLIGHT_FIRST := by
  have hs : isHighlightState (sampleConfig false false) backlashLoadedGlobals.calState := by
    rw [backlashLoadedGlobals_eval.1]
    unfold isHighlightState
    decide
  have h := right_resets_highlight (sampleConfig false false) (keyEnv .btnRIGHT)
    backlashLoadedGlobals hs rfl
  exact ⟨backlashLoadedGlobals_eval.1, h.2.2.1, h.2.2.2.2.2.1⟩

/-! ## Keys without a handler -/

/-- A key that the case of the current state does not test for leaves the run
as it is. -/
theorem keyDispatch_unhandled (cfg : Config) (env : Env) (key : Key) (r : Run)
    (hnh : ¬ keyHandled cfg r.g.calState key) : keyDispatch cfg env key r = r := by
  unfold keyHandled at hnh
  unfold keyDispatch
  by_cases c0 : r.g.calState = POLAR_CALIBRATION_WAIT_HOME
  · rw [if_pos c0] at hnh ⊢
    cases key <;> simp [casePolarWaitHome] at hnh ⊢
  rw [if_neg c0] at hnh ⊢
  by_cases c1 : r.g.calState = SPEED_CALIBRATION
  · rw [if_pos c1] at hnh ⊢
    cases key <;> simp [caseSpeedCalibration] at hnh ⊢
  rw [if_neg c1] at hnh ⊢
  by_cases c2 : r.g.calState = RA_STEP_CALIBRATION
  · rw [if_pos c2] at hnh ⊢
    cases key <;> simp [caseRAStepCalibration] at hnh ⊢
  rw [if_neg c2] at hnh ⊢
  by_cases c3 : r.g.calState = DEC_STEP_CALIBRATION
  · rw [if_pos c3] at hnh ⊢
    cases key <;> simp [caseDECStepCalibration] at hnh ⊢
  rw [if_neg c3] at hnh ⊢
  by_cases c4 : r.g.calState = BACKLASH_CALIBRATION
  · rw [if_pos c4] at hnh ⊢
    cases key <;> simp [caseBacklashCalibration] at hnh ⊢
  rw [if_neg c4] at hnh ⊢
  by_cases c5 : cfg.AZIMUTH_ALTITUDE_MOTORS = true ∧ r.g.calState = AZIMUTH_ADJUSTMENT
  · rw [if_pos c5] at hnh ⊢
    cases key <;> simp [caseAzimuthAdjustment] at hnh ⊢
  rw [if_neg c5] at hnh ⊢
  by_cases c6 : cfg.AZIMUTH_ALTITUDE_MOTORS = true ∧ r.g.calState = ALTITUDE_ADJUSTMENT
  · rw [if_pos c6] at hnh ⊢
    cases key <;> simp [caseAltitudeAdjustment] at hnh ⊢
  rw [if_neg c6] at hnh ⊢
  by_cases c7 : cfg.GYRO_LEVEL = true ∧ r.g.calState = ROLL_OFFSET_CALIBRATION
  · rw [if_pos c7] at hnh ⊢
    cases key <;> simp [caseRollOffsetCalibration] at hnh ⊢
  rw [if_neg c7] at hnh ⊢
  by_cases c8 : cfg.GYRO_LEVEL = true ∧ r.g.calState = PITCH_OFFSET_CALIBRATION
  · rw [if_pos c8] at hnh ⊢
    cases key <;> simp [casePitchOffsetCalibration] at hnh ⊢
  rw [if_neg c8] at hnh ⊢
  by_cases c9 : r.g.calState = HIGHLIGHT_POLAR
  · rw [if_pos c9] at hnh ⊢
    cases key <;> simp [caseHighlightPolar] at hnh ⊢
  rw [if_neg c9] at hnh ⊢
  by_cases c10 : r.g.calState = POLAR_CALIBRATION_WAIT_CENTER_POLARIS
  · rw [if_pos c10] at hnh ⊢
    cases key <;> simp [casePolarWaitCenterPolaris] at hnh ⊢
  rw [if_neg c10] at hnh ⊢
  by_cases c11 : r.g.calState = HIGHLIGHT_SPEED
  · rw [if_pos c11] at hnh ⊢
    cases key <;> simp [caseHighlight] at hnh ⊢
  rw [if_neg c11] at hnh ⊢
  by_cases c12 : r.g.calState = HIGHLIGHT_DRIFT
  · rw [if_pos c12] at hnh ⊢
    cases key <;> simp [caseHighlight] at hnh ⊢
  rw [if_neg c12] at hnh ⊢
  by_cases c13 : r.g.calState = DRIFT_CALIBRATION_WAIT
  · rw [if_pos c13] at hnh ⊢
    cases key <;> simp [caseDriftCalibrationWait] at hnh ⊢
  rw [if_neg c13] at hnh ⊢
  by_cases c14 : r.g.calState = HIGHLIGHT_RA_STEPS
  · rw [if_pos c14] at hnh ⊢
    cases key <;> simp [caseHighlight] at hnh ⊢
  rw [if_neg c14] at hnh ⊢
  by_cases c15 : r.g.calState = HIGHLIGHT_DEC_STEPS
  · rw [if_pos c15] at hnh ⊢
    cases key <;> simp [caseHighlight] at hnh ⊢
  rw [if_neg c15] at hnh ⊢
  by_cases c16 : r.g.calState = HIGHLIGHT_BACKLASH_STEPS
  · rw [if_pos c16] at hnh ⊢
    cases key <;> simp [caseHighlight] at hnh ⊢
  rw [if_neg c16] at hnh ⊢
  by_cases c17 : cfg.AZIMUTH_ALTITUDE_MOTORS = true ∧ r.g.calState = HIGHLIGHT_AZIMUTH_ADJUSTMENT
  · rw [if_pos c17] at hnh ⊢
    cases key <;> simp [caseHighlight] at hnh ⊢
  rw [if_neg c17] at hnh ⊢
  by_cases c18 : cfg.AZIMUTH_ALTITUDE_MOTORS = true ∧ r.g.calState = HIGHLIGHT_ALTITUDE_ADJUSTMENT
  · rw [if_pos c18] at hnh ⊢
    cases key <;> simp [caseHighlight] at hnh ⊢
  rw [if_neg c18] at hnh ⊢
  by_cases c19 : cfg.GYRO_LEVEL = true ∧ r.g.calState = HIGHLIGHT_ROLL_LEVEL cfg
  · rw [if_pos c19] at hnh ⊢
    cases key <;> simp [caseHighlight] at hnh ⊢
  rw [if_neg c19] at hnh ⊢
  by_cases c20 : cfg.GYRO_LEVEL = true ∧ r.g.calState = HIGHLIGHT_PITCH_LEVEL cfg
  · rw [if_pos c20] at hnh ⊢
    cases key <;> simp [caseHighlight] at hnh ⊢
  rw [if_neg c20] at hnh ⊢

theorem keyHandled_left_highlight (cfg : Config) (s : Nat) (hs : isHighlightState cfg s) :
    ¬ keyHandled cfg s .btnLEFT ∧ ¬ keyHandled cfg s .btnNONE := by
  obtain ⟨h1, h2⟩ := hs
  obtain ⟨az, gy, nh, e, w, t⟩ := cfg
  unfold HIGHLIGHT_FIRST at h1
  cases az <;> cases gy <;>
    simp only [HIGHLIGHT_LAST, if_true, if_false, Bool.false_eq_true] at h2 <;>
    interval_cases s <;>
    simp [keyHandled, HIGHLIGHT_ROLL_LEVEL, HIGHLIGHT_PITCH_LEVEL, HIGHLIGHT_FIRST, HIGHLIGHT_POLAR,
    HIGHLIGHT_SPEED, HIGHLIGHT_DRIFT, HIGHLIGHT_RA_STEPS, HIGHLIGHT_DEC_STEPS,
    HIGHLIGHT_BACKLASH_STEPS, HIGHLIGHT_AZIMUTH_ADJUSTMENT, HIGHLIGHT_ALTITUDE_ADJUSTMENT,
    POLAR_CALIBRATION_WAIT_CENTER_POLARIS, POLAR_CALIBRATION_WAIT_HOME, SPEED_CALIBRATION,
    DRIFT_CALIBRATION_WAIT, DRIFT_CALIBRATION_RUNNING, RA_STEP_CALIBRATION, DEC_STEP_CALIBRATION,
    BACKLASH_CALIBRATION, AZIMUTH_ADJUSTMENT, ALTITUDE_ADJUSTMENT, ROLL_OFFSET_CALIBRATION,
    PITCH_OFFSET_CALIBRATION]

theorem keyHandled_left_edit (cfg : Config) :
    ¬ keyHandled cfg SPEED_CALIBRATION .btnLEFT ∧ ¬ keyHandled cfg RA_STEP_CALIBRATION .btnLEFT ∧
    ¬ keyHandled cfg DEC_STEP_CALIBRATION .btnLEFT ∧
    ¬ keyHandled cfg BACKLASH_CALIBRATION .btnLEFT ∧
    ¬ keyHandled cfg POLAR_CALIBRATION_WAIT_HOME .btnUP ∧
    ¬ keyHandled cfg POLAR_CALIBRATION_WAIT_HOME .btnDOWN ∧
    ¬ keyHandled cfg POLAR_CALIBRATION_WAIT_HOME .btnLEFT := by
  simp [keyHandled, HIGHLIGHT_FIRST, HIGHLIGHT_POLAR,
    HIGHLIGHT_SPEED, HIGHLIGHT_DRIFT, HIGHLIGHT_RA_STEPS, HIGHLIGHT_DEC_STEPS,
    HIGHLIGHT_BACKLASH_STEPS, HIGHLIGHT_AZIMUTH_ADJUSTMENT, HIGHLIGHT_ALTITUDE_ADJUSTMENT,
    POLAR_CALIBRATION_WAIT_CENTER_POLARIS, POLAR_CALIBRATION_WAIT_HOME, SPEED_CALIBRATION,
    DRIFT_CALIBRATION_WAIT, DRIFT_CALIBRATION_RUNNING, RA_STEP_CALIBRATION, DEC_STEP_CALIBRATION,
    BACKLASH_CALIBRATION, AZIMUTH_ADJUSTMENT, ALTITUDE_ADJUSTMENT, ROLL_OFFSET_CALIBRATION,
    PITCH_OFFSET_CALIBRATION]

/-- C21: unrecognised keys are ignored.  For every state and every key that
the `case` of that state does not test for, the key dispatch returns the run
as it was: the globals (`calState`, `driftSubIndex`, `driftDuration` and every
working value) are unchanged and no command is emitted.  Keys without a
handler are, among others, LEFT and NONE in every highlight state, LEFT in
`SPEED_CALIBRATION`, `RA_STEP_CALIBRATION`, `DEC_STEP_CALIBRATION` and
`BACKLASH_CALIBRATION`, and UP, DOWN and LEFT in
`POLAR_CALIBRATION_WAIT_HOME`. -/
theorem unrecognised_keys_ignored (cfg : Config) (env : Env) (key : Key) (r : Run) :
    (¬ keyHandled cfg r.g.calState key →
      keyDispatch cfg env key r = r ∧
      (keyDispatch cfg env key r).g = r.g ∧
      (keyDispatch cfg env key r).log = r.log) ∧
    (isHighlightState cfg r.g.calState →
      keyDispatch cfg env .btnLEFT r = r ∧ keyDispatch cfg env .btnNONE r = r) ∧
    (r.g.calState = SPEED_CALIBRATION ∨ r.g.calState = RA_STEP_CALIBRATION ∨
      r.g.calState = DEC_STEP_CALIBRATION ∨ r.g.calState = BACKLASH_CALIBRATION →
      keyDispatch cfg env .btnLEFT r = r) ∧
    (r.g.calState = POLAR_CALIBRATION_WAIT_HOME →
      keyDispatch cfg env .btnUP r = r ∧ keyDispatch cfg env .btnDOWN r = r ∧
      keyDispatch cfg env .btnLEFT r = r) := by
  have hE := keyHandled_left_edit cfg
  refine ⟨fun hnh => ?_, fun hs => ?_, fun hs => ?_, fun hs => ?_⟩
  · have e := keyDispatch_unhandled cfg env key r hnh
    exact ⟨e, by rw [e], by rw [e]⟩
  · exact ⟨keyDispatch_unhandled cfg env _ r (keyHandled_left_highlight cfg _ hs).1,
      keyDispatch_unhandled cfg env _ r (keyHandled_left_highlight cfg _ hs).2⟩
  · rcases hs with e | e | e | e
    · exact keyDispatch_unhandled cfg env _ r (by rw [e]; exact hE.1)
    · exact keyDispatch_unhandled cfg env _ r (by rw [e]; exact hE.2.1)
    · exact keyDispatch_unhandled cfg env _ r (by rw [e]; exact hE.2.2.1)
    · exact keyDispatch_unhandled cfg env _ r (by rw [e]; exact hE.2.2.2.1)
  · exact ⟨keyDispatch_unhandled cfg env _ r (by rw [hs]; exact hE.2.2.2.2.1),
      keyDispatch_unhandled cfg env _ r (by rw [hs]; exact hE.2.2.2.2.2.1),
      keyDispatch_unhandled cfg env _ r (by rw [hs]; exact hE.2.2.2.2.2.2)⟩

theorem unrecognised_keys_ignored_witness :
    keyDispatch (sampleConfig false false) (keyEnv .btnLEFT) .btnLEFT
      ⟨backlashEditGlobals, []⟩ = ⟨backlashEditGlobals, []⟩ :=
  (unrecognised_keys_ignored (sampleConfig false false) (keyEnv .btnLEFT) .btnLEFT
    ⟨backlashEditGlobals, []⟩).2.2.1 (Or.inr (Or.inr (Or.inr backlashEditGlobals_eval.1)))

/-! ## The return value -/

theorem statePhase_speed (cfg : Config) (env : Env) (r : Run)
    (h : r.g.calState = SPEED_CALIBRATION) :
    statePhase cfg env r = speedCalibrationPhase env.currentState r := by
  simp [statePhase, h]

theorem speedCalibrationPhase_held_fst (b : Key) (r : Run)
    (hb : b = .btnUP ∨ b = .btnDOWN) : (speedCalibrationPhase b r).1 = false := by
  rcases hb with h | h <;> subst h <;> simp [speedCalibrationPhase]

/-- The return value is `true` exactly when the state phase asks for the key
edge and there is one. -/
theorem processCalibrationKeys_fst (cfg : Config) (env : Env) (r : Run) :
    ((processCalibrationKeys cfg env r).1 = true ↔
      (statePhase cfg env (startHardware cfg r)).1 = true ∧ ∃ key, env.keyChanged = some key) ∧
    ((statePhase cfg env (startHardware cfg r)).1 = false →
      processCalibrationKeys cfg env r = (false, (statePhase cfg env (startHardware cfg r)).2)) := by
  unfold processCalibrationKeys
  simp only []
  cases hc : (statePhase cfg env (startHardware cfg r)).1 <;>
    cases hk : env.keyChanged <;> simp

/-- With UP or DOWN held in one of the six adjust states the state phase
clears `checkForKeyChange`. -/
theorem statePhase_held_fst (cfg : Config) (env : Env) (r : Run)
    (hb : env.currentState = .btnUP ∨ env.currentState = .btnDOWN)
    (hs : r.g.calState = SPEED_CALIBRATION ∨ r.g.calState = RA_STEP_CALIBRATION ∨
      r.g.calState = DEC_STEP_CALIBRATION ∨ r.g.calState = BACKLASH_CALIBRATION ∨
      (cfg.AZIMUTH_ALTITUDE_MOTORS = true ∧
        (r.g.calState = AZIMUTH_ADJUSTMENT ∨ r.g.calState = ALTITUDE_ADJUSTMENT))) :
    (statePhase cfg env r).1 = false := by
  rcases hs with h | h | h | h | ⟨hc, h | h⟩
  · rw [statePhase_speed cfg env r h]
    exact speedCalibrationPhase_held_fst _ r hb
  · rw [statePhase_raStep cfg env r h, raStepCalibrationPhase,
      checkProgressiveUpDown_held _ _ _ hb]
  · rw [statePhase_decStep cfg env r h, decStepCalibrationPhase,
      checkProgressiveUpDown_held _ _ _ hb]
  · rw [statePhase_backlash cfg env r h, backlashCalibrationPhase,
      checkProgressiveUpDown_held _ _ _ hb]
  · rw [statePhase_azimuth cfg env r hc h, azimuthAdjustmentPhase,
      checkProgressiveUpDown_held _ _ _ hb]
  · rw [statePhase_altitude cfg env r hc h, altitudeAdjustmentPhase,
      checkProgressiveUpDown_held _ _ _ hb]

/-- C22: wait-for-release and hold bypass.  `processCalibrationKeys` returns
true exactly when the state phase left `checkForKeyChange` true and
`keyChanged` reported a key, which is when the switch is executed.  For every
tick that starts in `SPEED_CALIBRATION`, `RA_STEP_CALIBRATION`,
`DEC_STEP_CALIBRATION`, `BACKLASH_CALIBRATION`, or with the motors in
`AZIMUTH_ADJUSTMENT` or `ALTITUDE_ADJUSTMENT`, with UP or DOWN held:
`checkForKeyChange` is false, the tick ends with what the state phase left,
whatever `keyChanged` would report, `calState` is unchanged and the function
returns false. -/
theorem wait_for_release (cfg : Config) (env : Env) (g : Globals) :
    ((processCalibrationKeys cfg env ⟨g, []⟩).1 = true ↔
      (statePhase cfg env (startHardware cfg ⟨g, []⟩)).1 = true ∧
      ∃ key, env.keyChanged = some key) ∧
    (∀ key, (statePhase cfg env (startHardware cfg ⟨g, []⟩)).1 = true →
      env.keyChanged = some key →
      processCalibrationKeys cfg env ⟨g, []⟩ =
        (true, keyDispatch cfg env key (statePhase cfg env (startHardware cfg ⟨g, []⟩)).2)) ∧
    (env.currentState = .btnUP ∨ env.currentState = .btnDOWN →
      g.calState = SPEED_CALIBRATION ∨ g.calState = RA_STEP_CALIBRATION ∨
        g.calState = DEC_STEP_CALIBRATION ∨ g.calState = BACKLASH_CALIBRATION ∨
        (cfg.AZIMUTH_ALTITUDE_MOTORS = true ∧
          (g.calState = AZIMUTH_ADJUSTMENT ∨ g.calState = ALTITUDE_ADJUSTMENT)) →
      (statePhase cfg env (startHardware cfg ⟨g, []⟩)).1 = false ∧
      processCalibrationKeys cfg env ⟨g, []⟩
        = (false, (statePhase cfg env (startHardware cfg ⟨g, []⟩)).2) ∧
      (processCalibrationKeys cfg env ⟨g, []⟩).1 = false ∧
      (tickGlobals cfg env g).calState = g.calState) := by
  refine ⟨(processCalibrationKeys_fst cfg env ⟨g, []⟩).1, fun key hc hk => ?_, fun hb hs => ?_⟩
  · unfold processCalibrationKeys
    simp only [hc, hk, if_true]
  · have hs2 : (startHardware cfg ⟨g, []⟩).g.calState = SPEED_CALIBRATION ∨
        (startHardware cfg ⟨g, []⟩).g.calState = RA_STEP_CALIBRATION ∨
        (startHardware cfg ⟨g, []⟩).g.calState = DEC_STEP_CALIBRATION ∨
        (startHardware cfg ⟨g, []⟩).g.calState = BACKLASH_CALIBRATION ∨
        (cfg.AZIMUTH_ALTITUDE_MOTORS = true ∧
          ((startHardware cfg ⟨g, []⟩).g.calState = AZIMUTH_ADJUSTMENT ∨
            (startHardware cfg ⟨g, []⟩).g.calState = ALTITUDE_ADJUSTMENT)) := by
      rw [startHardware_calState]
      exact hs
    have hf := statePhase_held_fst cfg env _ hb hs2
    have e := (processCalibrationKeys_fst cfg env ⟨g, []⟩).2 hf
    refine ⟨hf, e, by rw [e], ?_⟩
    unfold tickGlobals
    rw [e]
    rcases statePhase_calState cfg env (startHardware cfg ⟨g, []⟩) with k | ⟨k, _⟩ | ⟨k, _⟩
    · rw [k, startHardware_calState]
    · rw [startHardware_calState] at k
      rcases hs with h | h | h | h | ⟨_, h | h⟩ <;> rw [h] at k <;> exact absurd k (by decide)
    · rw [startHardware_calState] at k
      rcases hs with h | h | h | h | ⟨_, h | h⟩ <;> rw [h] at k <;> exact absurd k (by decide)

theorem wait_for_release_witness :
    (processCalibrationKeys (sampleConfig false false) (backlashEnv .btnDOWN (some .btnSELECT))
      ⟨backlashEditGlobals, []⟩).1 = false ∧
    (tickGlobals (sampleConfig false false) (backlashEnv .btnDOWN (some .btnSELECT))
      backlashEditGlobals).calState = backlashEditGlobals.calState := by
  have h := (wait_for_release (sampleConfig false false)
    (backlashEnv .btnDOWN (some .btnSELECT)) backlashEditGlobals).2.2 (Or.inr rfl)
    (Or.inr (Or.inr (Or.inr (Or.inl backlashEditGlobals_eval.1))))
  exact ⟨h.2.2.1, h.2.2.2⟩

/-! ## The adaptive delay -/

theorem gotoNextMenu_calDelay (cfg : Config) (r : Run) :
    (gotoNextMenu cfg r).g.calDelay = r.g.calDelay := by
  unfold gotoNextMenu
  (try simp only [])
  split_ifs <;> rfl

theorem gotoNextHighlightState_calDelay (cfg : Config) (env : Env) (dir : Int) (r : Run) :
    (gotoNextHighlightState cfg env dir r).g.calDelay = r.g.calDelay := by
  unfold gotoNextHighlightState
  (try simp only [])
  split_ifs <;> rfl

theorem polarWaitHomePhase_calDelay (env : Env) (r : Run) :
    (polarWaitHomePhase env r).g.calDelay = r.g.calDelay := by
  unfold polarWaitHomePhase
  (try simp only [])
  split_ifs <;> rfl

theorem casePolarWaitHome_calDelay (cfg : Config) (key : Key) (r : Run) :
    (casePolarWaitHome cfg key r).g.calDelay = r.g.calDelay := by
  unfold casePolarWaitHome
  (try simp only [])
  split_ifs <;>
    first
    | rfl
    | simp [gotoNextMenu_calDelay, gotoNextHighlightState_calDelay]

theorem caseSpeedCalibration_calDelay (cfg : Config) (key : Key) (r : Run) :
    (caseSpeedCalibration cfg key r).g.calDelay = r.g.calDelay := by
  unfold caseSpeedCalibration
  (try simp only [])
  split_ifs <;>
    first
    | rfl
    | simp [gotoNextMenu_calDelay, gotoNextHighlightState_calDelay]

theorem caseRAStepCalibration_calDelay (cfg : Config) (key : Key) (r : Run) :
    (caseRAStepCalibration cfg key r).g.calDelay = r.g.calDelay := by
  unfold caseRAStepCalibration
  (try simp only [])
  split_ifs <;>
    first
    | rfl
    | simp [gotoNextMenu_calDelay, gotoNextHighlightState_calDelay]

theorem caseDECStepCalibration_calDelay (cfg : Config) (key : Key) (r : Run) :
    (caseDECStepCalibration cfg key r).g.calDelay = r.g.calDelay := by
  unfold caseDECStepCalibration
  (try simp only [])
  split_ifs <;>
    first
    | rfl
    | simp [gotoNextMenu_calDelay, gotoNextHighlightState_calDelay]

theorem caseBacklashCalibration_calDelay (cfg : Config) (key : Key) (r : Run) :
    (caseBacklashCalibration cfg key r).g.calDelay = r.g.calDelay := by
  unfold caseBacklashCalibration
  (try simp only [])
  split_ifs <;>
    first
    | rfl
    | simp [gotoNextMenu_calDelay, gotoNextHighlightState_calDelay]

theorem caseAzimuthAdjustment_calDelay (key : Key) (r : Run) :
    (caseAzimuthAdjustment key r).g.calDelay = r.g.calDelay := by
  unfold caseAzimuthAdjustment
  (try simp only [])
  split_ifs <;> rfl

theorem caseAltitudeAdjustment_calDelay (key : Key) (r : Run) :
    (caseAltitudeAdjustment key r).g.calDelay = r.g.calDelay := by
  unfold caseAltitudeAdjustment
  (try simp only [])
  split_ifs <;> rfl

theorem caseRollOffsetCalibration_calDelay (cfg : Config) (env : Env) (key : Key) (r : Run) :
    (caseRollOffsetCalibration cfg env key r).g.calDelay = r.g.calDelay := by
  unfold caseRollOffsetCalibration
  (try simp only [])
  split_ifs <;>
    first
    | rfl
    | simp [gotoNextMenu_calDelay, gotoNextHighlightState_calDelay]

theorem casePitchOffsetCalibration_calDelay (cfg : Config) (env : Env) (key : Key) (r : Run) :
    (casePitchOffsetCalibration cfg env key r).g.calDelay = r.g.calDelay := by
  unfold casePitchOffsetCalibration
  (try simp only [])
  split_ifs <;>
    first
    | rfl
    | simp [gotoNextMenu_calDelay, gotoNextHighlightState_calDelay]

theorem caseHighlightPolar_calDelay (cfg : Config) (env : Env) (key : Key) (r : Run) :
    (caseHighlightPolar cfg env key r).g.calDelay = r.g.calDelay := by
  unfold caseHighlightPolar
  (try simp only [])
  split_ifs <;>
    first
    | rfl
    | simp [gotoNextMenu_calDelay, gotoNextHighlightState_calDelay]

theorem casePolarWaitCenterPolaris_calDelay (cfg : Config) (env : Env) (key : Key) (r : Run) :
    (casePolarWaitCenterPolaris cfg env key r).g.calDelay = r.g.calDelay := by
  unfold casePolarWaitCenterPolaris
  (try simp only [])
  split_ifs <;>
    first
    | rfl
    | simp [gotoNextMenu_calDelay, gotoNextHighlightState_calDelay]

theorem caseHighlight_calDelay (cfg : Config) (env : Env) (procedure onRight : Nat) (key : Key) (r : Run) :
    (caseHighlight cfg env procedure onRight key r).g.calDelay = r.g.calDelay := by
  unfold caseHighlight
  (try simp only [])
  split_ifs <;>
    first
    | rfl
    | simp [gotoNextMenu_calDelay, gotoNextHighlightState_calDelay]

theorem caseDriftCalibrationWait_calDelay (key : Key) (r : Run) :
    (caseDriftCalibrationWait key r).g.calDelay = r.g.calDelay := by
  unfold caseDriftCalibrationWait
  (try simp only [])
  split_ifs <;> rfl

/-- The key dispatch never writes `calDelay`. -/
theorem keyDispatch_calDelay (cfg : Config) (env : Env) (key : Key) (r : Run) :
    (keyDispatch cfg env key r).g.calDelay = r.g.calDelay := by
  apply keyDispatch_cases cfg env key r (fun x => x.g.calDelay = r.g.calDelay)
  · exact fun _ => casePolarWaitHome_calDelay cfg key r
  · exact fun _ => caseSpeedCalibration_calDelay cfg key r
  · exact fun _ => caseRAStepCalibration_calDelay cfg key r
  · exact fun _ => caseDECStepCalibration_calDelay cfg key r
  · exact fun _ => caseBacklashCalibration_calDelay cfg key r
  · exact fun _ _ => caseAzimuthAdjustment_calDelay key r
  · exact fun _ _ => caseAltitudeAdjustment_calDelay key r
  · exact fun _ _ => caseRollOffsetCalibration_calDelay cfg env key r
  · exact fun _ _ => casePitchOffsetCalibration_calDelay cfg env key r
  · exact fun _ => caseHighlightPolar_calDelay cfg env key r
  · exact fun _ => casePolarWaitCenterPolaris_calDelay cfg env key r
  · exact fun _ => caseHighlight_calDelay cfg env _ _ key r
  · exact fun _ => caseHighlight_calDelay cfg env _ _ key r
  · exact fun _ => caseDriftCalibrationWait_calDelay key r
  · exact fun _ => caseHighlight_calDelay cfg env _ _ key r
  · exact fun _ => caseHighlight_calDelay cfg env _ _ key r
  · exact fun _ => caseHighlight_calDelay cfg env _ _ key r
  · exact fun _ _ => caseHighlight_calDelay cfg env _ _ key r
  · exact fun _ _ => caseHighlight_calDelay cfg env _ _ key r
  · exact fun _ _ => caseHighlight_calDelay cfg env _ _ key r
  · exact fun _ _ => caseHighlight_calDelay cfg env _ _ key r
  · rfl

/-- One decay step of the speed calibration keeps the delay in [5, 150]. -/
theorem speed_decay_bounds (d : Int) (h1 : 5 ≤ d) (h2 : d ≤ 150) :
    5 ≤ truncToInt (max (5 : ℚ) (96 / 100 * (d : ℚ))) ∧
    truncToInt (max (5 : ℚ) (96 / 100 * (d : ℚ))) ≤ 150 := by
  have hd : (5 : ℚ) ≤ (d : ℚ) := by exact_mod_cast h1
  have hd2 : (d : ℚ) ≤ 150 := by exact_mod_cast h2
  have hq : (5 : ℚ) ≤ max (5 : ℚ) (96 / 100 * (d : ℚ)) := le_max_left _ _
  have hpos : (0 : ℚ) ≤ max (5 : ℚ) (96 / 100 * (d : ℚ)) := le_trans (by norm_num) hq
  have htr : truncToInt (max (5 : ℚ) (96 / 100 * (d : ℚ)))
      = ⌊max (5 : ℚ) (96 / 100 * (d : ℚ))⌋ := by
    simp [truncToInt, hpos]
  rw [htr]
  constructor
  · exact Int.le_floor.mpr (by exact_mod_cast hq)
  · have hle : max (5 : ℚ) (96 / 100 * (d : ℚ)) ≤ ((150 : Int) : ℚ) := by
      push_cast
      exact max_le (by norm_num) (by linarith)
    have := Int.floor_le_floor hle
    simpa using this

theorem speedCalibrationPhase_calDelay (b : Key) (r : Run)
    (h1 : 5 ≤ r.g.calDelay) (h2 : r.g.calDelay ≤ 150) :
    5 ≤ (speedCalibrationPhase b r).2.g.calDelay ∧
    (speedCalibrationPhase b r).2.g.calDelay ≤ 150 ∧
    ((speedCalibrationPhase b r).1 = true → (speedCalibrationPhase b r).2.g.calDelay = 150) := by
  obtain ⟨b1, b2⟩ := speed_decay_bounds r.g.calDelay h1 h2
  unfold speedCalibrationPhase
  simp only []
  split_ifs <;> simp_all

theorem checkProgressiveUpDown_calDelay_bounds (b : Key) (v : Int) (r : Run)
    (h1 : 25 ≤ r.g.calDelay) (h2 : r.g.calDelay ≤ 150) :
    25 ≤ (checkProgressiveUpDown b v r).2.2.g.calDelay ∧
    (checkProgressiveUpDown b v r).2.2.g.calDelay ≤ 150 := by
  obtain ⟨b1, b2, _, _⟩ := progressive_decay_bounds r.g.calDelay h1
  by_cases hb : b = .btnUP ∨ b = .btnDOWN
  · rw [checkProgressiveUpDown_held_calDelay b hb]
    exact ⟨b1, le_trans b2 h2⟩
  · have hu : b ≠ .btnUP := fun e => hb (Or.inl e)
    have hd : b ≠ .btnDOWN := fun e => hb (Or.inr e)
    rw [checkProgressiveUpDown_idle b v r hu hd]
    simp

/-- From a state other than `SPEED_CALIBRATION` the state phase keeps the
delay in [25, 150] and does not enter `SPEED_CALIBRATION`. -/
theorem statePhase_calDelay_other (cfg : Config) (env : Env) (r : Run)
    (hs : r.g.calState ≠ SPEED_CALIBRATION) (h1 : 25 ≤ r.g.calDelay)
    (h2 : r.g.calDelay ≤ 150) :
    (statePhase cfg env r).2.g.calState ≠ SPEED_CALIBRATION ∧
    25 ≤ (statePhase cfg env r).2.g.calDelay ∧ (statePhase cfg env r).2.g.calDelay ≤ 150 := by
  have hp := fun v => checkProgressiveUpDown_calDelay_bounds env.currentState v r h1 h2
  have hc := fun v => checkProgressiveUpDown_calState env.currentState v r
  apply statePhase_cases cfg env r (fun x => x.2.g.calState ≠ SPEED_CALIBRATION ∧
    25 ≤ x.2.g.calDelay ∧ x.2.g.calDelay ≤ 150)
  · exact fun e => absurd e hs
  · intro _ _
    simp only [azimuthAdjustmentPhase, setAzimuthMinutes_proj, hc]
    exact ⟨hs, hp _⟩
  · intro _ _
    simp only [altitudeAdjustmentPhase, setAltitudeMinutes_proj, hc]
    exact ⟨hs, hp _⟩
  · intro _
    simp only [raStepCalibrationPhase, setRAStepsPerDegree_proj, hc]
    exact ⟨hs, hp _⟩
  · intro _
    simp only [decStepCalibrationPhase, setDECStepsPerDegree_proj, hc]
    exact ⟨hs, hp _⟩
  · intro _
    simp only [backlashCalibrationPhase, setBacklashSteps_proj, hc]
    exact ⟨hs, hp _⟩
  · intro _
    simp only [polarWaitHomePhase_calDelay]
    refine ⟨?_, h1, h2⟩
    rcases polarWaitHomePhase_calState env r with e | ⟨_, e⟩
    · rw [e]; exact hs
    · rw [e]; decide
  · intro _
    simp only [polarWaitCenterPolarisPhase_g]
    exact ⟨hs, h1, h2⟩
  · intro _
    refine ⟨?_, h1, h2⟩
    show HIGHLIGHT_DRIFT ≠ SPEED_CALIBRATION
    decide
  · exact ⟨hs, h1, h2⟩

/-- One tick keeps the delay invariant, and a tick that leaves
`SPEED_CALIBRATION` ends with the delay at 150. -/
theorem processCalibrationKeys_calDelayInv (cfg : Config) (env : Env) (r : Run)
    (hI : calDelayInv r.g) :
    calDelayInv (processCalibrationKeys cfg env r).2.g ∧
    (r.g.calState = SPEED_CALIBRATION →
      (processCalibrationKeys cfg env r).2.g.calState ≠ SPEED_CALIBRATION →
      (processCalibrationKeys cfg env r).2.g.calDelay = 150) := by
  obtain ⟨i1, i2, i3⟩ := hI
  by_cases hs : r.g.calState = SPEED_CALIBRATION
  · have hs0 : (startHardware cfg r).g.calState = SPEED_CALIBRATION := by
      rw [startHardware_calState]; exact hs
    have e := statePhase_speed cfg env _ hs0
    obtain ⟨s1, s2, s3⟩ := speedCalibrationPhase_calDelay env.currentState (startHardware cfg r)
      (by rw [startHardware_calDelay]; exact i1) (by rw [startHardware_calDelay]; exact i2)
    have sc := speedCalibrationPhase_calState env.currentState (startHardware cfg r)
    rw [← e] at s1 s2 s3 sc
    apply processCalibrationKeys_cases cfg env r (fun x => calDelayInv x.2.g ∧
      (r.g.calState = SPEED_CALIBRATION → x.2.g.calState ≠ SPEED_CALIBRATION →
        x.2.g.calDelay = 150))
    · intro key hc _
      have d := (keyDispatch_calDelay cfg env key
        (statePhase cfg env (startHardware cfg r)).2).trans (s3 hc)
      refine ⟨?_, fun _ _ => d⟩
      unfold calDelayInv
      simp only [d]
      exact ⟨by decide, by decide, fun _ => by decide⟩
    · refine ⟨⟨s1, s2, fun hn => absurd (sc.trans hs0) hn⟩, fun _ hn => absurd (sc.trans hs0) hn⟩
  · have hs0 : (startHardware cfg r).g.calState ≠ SPEED_CALIBRATION := by
      rw [startHardware_calState]; exact hs
    obtain ⟨p1, p2, p3⟩ := statePhase_calDelay_other cfg env (startHardware cfg r) hs0
      (by rw [startHardware_calDelay]; exact i3 hs) (by rw [startHardware_calDelay]; exact i2)
    apply processCalibrationKeys_cases cfg env r (fun x => calDelayInv x.2.g ∧
      (r.g.calState = SPEED_CALIBRATION → x.2.g.calState ≠ SPEED_CALIBRATION →
        x.2.g.calDelay = 150))
    · intro key _ _
      have d := keyDispatch_calDelay cfg env key (statePhase cfg env (startHardware cfg r)).2
      refine ⟨?_, fun e => absurd e hs⟩
      unfold calDelayInv
      simp only [d]
      exact ⟨le_trans (by decide) p2, p3, fun _ => p2⟩
    · exact ⟨⟨le_trans (by decide) p2, p3, fun _ => p2⟩, fun e => absurd e hs⟩

theorem reachable_calDelayInv (cfg : Config) (g : Globals) (hr : Reachable cfg g) :
    calDelayInv g := by
  induction hr with
  | start raSteps decSteps motorsStarted => simp [calDelayInv, initialGlobals]
  | tick env g _ ih => exact (processCalibrationKeys_calDelayInv cfg env ⟨g, []⟩ ih).1

/-- C25: adaptive delay invariant across procedures.  In every state
reachable from the initial state, 5 ≤ `calDelay` ≤ 150, and 25 ≤ `calDelay`
whenever `calState` is not `SPEED_CALIBRATION`; and every tick that starts in
`SPEED_CALIBRATION` and ends in another state ends with `calDelay = 150`, so
the floor 5 of the speed calibration never reaches the progressive
adjuster. -/
theorem adaptive_delay_invariant (cfg : Config) (env : Env) (g : Globals)
    (hr : Reachable cfg g) :
    5 ≤ g.calDelay ∧ g.calDelay ≤ 150 ∧
    (g.calState ≠ SPEED_CALIBRATION → 25 ≤ g.calDelay) ∧
    (g.calState = SPEED_CALIBRATION → (tickGlobals cfg env g).calState ≠ SPEED_CALIBRATION →
      (tickGlobals cfg env g).calDelay = 150) := by
  obtain ⟨a, b, c⟩ := reachable_calDelayInv cfg g hr
  exact ⟨a, b, c, (processCalibrationKeys_calDelayInv cfg env ⟨g, []⟩ ⟨a, b, c⟩).2⟩

theorem adaptive_delay_invariant_witness :
    5 ≤ backlashEditGlobals.calDelay ∧ backlashEditGlobals.calDelay ≤ 150 ∧
    (backlashEditGlobals.calState ≠ SPEED_CALIBRATION → 25 ≤ backlashEditGlobals.calDelay) :=
  have h := adaptive_delay_invariant (sampleConfig false false) idleEnv backlashEditGlobals
    backlashEditGlobals_reachable
  ⟨h.1, h.2.1, h.2.2.1⟩

/-! ## The drift selector on entry -/

/-- A tick in `HIGHLIGHT_DRIFT`. -/
theorem processCalibrationKeys_highlightDrift (cfg : Config) (env : Env) (r : Run)
    (h : r.g.calState = HIGHLIGHT_DRIFT) :
    processCalibrationKeys cfg env r =
      match env.keyChanged with
      | some key => (true, caseHighlight cfg env DRIFT_CALIBRATION_WAIT HIGHLIGHT_POLAR key
          (startHardware cfg r))
      | none => (false, startHardware cfg r) := by
  have h2 : (startHardware cfg r).g.calState = HIGHLIGHT_DRIFT := by
    rw [startHardware_calState, h]
  have h3 : (startHardware cfg r).g.calState ≤ 10 := by
    rw [h2]; decide
  unfold processCalibrationKeys
  simp only [statePhase_of_highlight cfg env _ h3, if_true]
  cases env.keyChanged with
  | none => rfl
  | some key => simp only [keyDispatch_highlightDrift cfg env key _ h2]

/-- SELECT in `HIGHLIGHT_DRIFT` enters `DRIFT_CALIBRATION_WAIT` and leaves the
selector as it is. -/
theorem tick_highlightDrift_select (cfg : Config) (env : Env) (g : Globals)
    (h : g.calState = HIGHLIGHT_DRIFT) (hk : env.keyChanged = some .btnSELECT) :
    (tickGlobals cfg env g).calState = DRIFT_CALIBRATION_WAIT ∧
    (tickGlobals cfg env g).driftSubIndex = g.driftSubIndex := by
  simp [tickGlobals, processCalibrationKeys_highlightDrift cfg env ⟨g, []⟩ h, hk, caseHighlight]

/-- Outside `DRIFT_CALIBRATION_WAIT` the key dispatch leaves the selector
alone. -/
theorem keyDispatch_driftSubIndex_other (cfg : Config) (env : Env) (key : Key) (r : Run)
    (hs : r.g.calState ≠ DRIFT_CALIBRATION_WAIT) :
    (keyDispatch cfg env key r).g.driftSubIndex = r.g.driftSubIndex := by
  apply keyDispatch_cases cfg env key r (fun x => x.g.driftSubIndex = r.g.driftSubIndex)
  case h14 => exact fun e => absurd e hs
  case h0 => rfl
  all_goals
    intros
    simp only [casePolarWaitHome_driftSubIndex, caseSpeedCalibration_driftSubIndex,
      caseRAStepCalibration_driftSubIndex, caseDECStepCalibration_driftSubIndex,
      caseBacklashCalibration_driftSubIndex, caseAzimuthAdjustment_driftSubIndex,
      caseAltitudeAdjustment_driftSubIndex, caseRollOffsetCalibration_driftSubIndex,
      casePitchOffsetCalibration_driftSubIndex, caseHighlightPolar_driftSubIndex,
      casePolarWaitCenterPolaris_driftSubIndex, caseHighlight_driftSubIndex]

/-- A tick that starts outside `DRIFT_CALIBRATION_WAIT` leaves the selector
alone. -/
theorem processCalibrationKeys_driftSubIndex_other (cfg : Config) (env : Env) (r : Run)
    (hs : r.g.calState ≠ DRIFT_CALIBRATION_WAIT) :
    (processCalibrationKeys cfg env r).2.g.driftSubIndex = r.g.driftSubIndex := by
  have h1 : (statePhase cfg env (startHardware cfg r)).2.g.driftSubIndex = r.g.driftSubIndex := by
    rw [statePhase_driftSubIndex, startHardware_driftSubIndex]
  have h2 : (statePhase cfg env (startHardware cfg r)).2.g.calState ≠ DRIFT_CALIBRATION_WAIT := by
    rcases statePhase_calState cfg env (startHardware cfg r) with e | ⟨_, _, e⟩ | ⟨_, e⟩
    · rw [e, startHardware_calState]; exact hs
    · rw [e]; decide
    · rw [e]; decide
  apply processCalibrationKeys_cases cfg env r (fun x => x.2.g.driftSubIndex = r.g.driftSubIndex)
  · intro key _ _
    exact (keyDispatch_driftSubIndex_other cfg env key _ h2).trans h1
  · exact h1

/-- A tick that starts in `DRIFT_CALIBRATION_WAIT` and ends elsewhere ends in
`DRIFT_CALIBRATION_RUNNING` or with the selector reset to 1. -/
theorem tick_driftWait_leave (cfg : Config) (env : Env) (g : Globals)
    (h : g.calState = DRIFT_CALIBRATION_WAIT)
    (hn : (tickGlobals cfg env g).calState ≠ DRIFT_CALIBRATION_WAIT) :
    (tickGlobals cfg env g).calState = DRIFT_CALIBRATION_RUNNING ∨
    (tickGlobals cfg env g).driftSubIndex = 1 := by
  have e := processCalibrationKeys_driftWait cfg env ⟨g, []⟩ h
  unfold tickGlobals at hn ⊢
  rw [e] at hn ⊢
  cases hk : env.keyChanged with
  | none =>
    rw [hk] at hn
    exact absurd (by simpa using h) hn
  | some key =>
    rw [hk] at hn
    cases key <;> simp [caseDriftCalibrationWait, h] at hn ⊢

/-- As long as every drift run was started with the default selection, the
selector is 1 outside `DRIFT_CALIBRATION_WAIT`. -/
theorem reachableDefaultRuns_driftSubIndex (cfg : Config) (g : Globals)
    (hr : ReachableDefaultRuns cfg g) :
    g.calState ≠ DRIFT_CALIBRATION_WAIT → g.driftSubIndex = 1 := by
  induction hr with
  | start raSteps decSteps motorsStarted => exact fun _ => rfl
  | tick env g _ hrun ih =>
    intro hn
    by_cases hs : g.calState = DRIFT_CALIBRATION_WAIT
    · rcases tick_driftWait_leave cfg env g hs hn with k | k
      · exact hrun k
      · exact k
    · exact (processCalibrationKeys_driftSubIndex_other cfg env ⟨g, []⟩ hs).trans (ih hs)

theorem driftHighlightGlobals_calState : driftHighlightGlobals.calState = HIGHLIGHT_DRIFT := by
  simp [driftHighlightGlobals, tickGlobals, processCalibrationKeys, startHardware, statePhase,
    keyDispatch, caseHighlightPolar, caseHighlight, gotoNextHighlightState,
    adjustWrap, toByte, sampleConfig, keyEnv, idleEnv, initialGlobals, HIGHLIGHT_FIRST,
    HIGHLIGHT_POLAR, HIGHLIGHT_SPEED, HIGHLIGHT_DRIFT, HIGHLIGHT_RA_STEPS, HIGHLIGHT_DEC_STEPS,
    HIGHLIGHT_BACKLASH_STEPS, HIGHLIGHT_LAST, POLAR_CALIBRATION_WAIT_CENTER_POLARIS,
    POLAR_CALIBRATION_WAIT_HOME, SPEED_CALIBRATION, DRIFT_CALIBRATION_WAIT,
    DRIFT_CALIBRATION_RUNNING, RA_STEP_CALIBRATION, DEC_STEP_CALIBRATION, BACKLASH_CALIBRATION]

theorem driftHighlightGlobals_defaultRuns :
    ReachableDefaultRuns (sampleConfig false false) driftHighlightGlobals := by
  have h1 : (tickGlobals (sampleConfig false false) (keyEnv .btnDOWN)
      (initialGlobals 0 0 false)).calState = HIGHLIGHT_SPEED := by
    simp [tickGlobals, processCalibrationKeys, startHardware, statePhase,
      keyDispatch, caseHighlightPolar, gotoNextHighlightState,
      adjustWrap, toByte, sampleConfig, keyEnv, idleEnv, initialGlobals, HIGHLIGHT_FIRST,
      HIGHLIGHT_POLAR, HIGHLIGHT_SPEED, HIGHLIGHT_DRIFT, HIGHLIGHT_RA_STEPS, HIGHLIGHT_DEC_STEPS,
      HIGHLIGHT_BACKLASH_STEPS, HIGHLIGHT_LAST, POLAR_CALIBRATION_WAIT_CENTER_POLARIS,
      POLAR_CALIBRATION_WAIT_HOME, SPEED_CALIBRATION, DRIFT_CALIBRATION_WAIT,
      DRIFT_CALIBRATION_RUNNING, RA_STEP_CALIBRATION, DEC_STEP_CALIBRATION, BACKLASH_CALIBRATION]
  refine ReachableDefaultRuns.tick _ _
    (ReachableDefaultRuns.tick _ _ (ReachableDefaultRuns.start 0 0 false) ?_) ?_
  · intro e
    rw [h1] at e
    exact absurd e (by decide)
  · intro e
    have h2 := driftHighlightGlobals_calState
    unfold driftHighlightGlobals at h2
    rw [h2] at e
    exact absurd e (by decide)

theorem driftReentryGlobals_reachable :
    Reachable (sampleConfig false false) driftReentryGlobals :=
  Reachable.tick _ _ (Reachable.tick _ _ (Reachable.tick _ _ driftWaitGlobals_reachable))

theorem driftReentryGlobals_eval :
    driftReentryGlobals.calState = HIGHLIGHT_DRIFT ∧ driftReentryGlobals.driftSubIndex = 0 := by
  have h0 : (⟨driftWaitGlobals, []⟩ : Run).g.calState = DRIFT_CALIBRATION_WAIT :=
    driftWaitGlobals_calState
  have a1 : (tickGlobals (sampleConfig false false) (keyEnv .btnUP) driftWaitGlobals).calState
        = DRIFT_CALIBRATION_WAIT ∧
      (tickGlobals (sampleConfig false false) (keyEnv .btnUP) driftWaitGlobals).driftSubIndex
        = 0 := by
    unfold tickGlobals
    rw [processCalibrationKeys_driftWait _ _ _ h0]
    simp [keyEnv, caseDriftCalibrationWait, driftWaitGlobals_calState,
      driftWaitGlobals_driftSubIndex, adjustWrap, toByte]
  have a2 : (tickGlobals (sampleConfig false false) (keyEnv .btnSELECT)
        (tickGlobals (sampleConfig false false) (keyEnv .btnUP) driftWaitGlobals)).calState
        = DRIFT_CALIBRATION_RUNNING ∧
      (tickGlobals (sampleConfig false false) (keyEnv .btnSELECT)
        (tickGlobals (sampleConfig false false) (keyEnv .btnUP) driftWaitGlobals)).driftSubIndex
        = 0 := by
    generalize tickGlobals (sampleConfig false false) (keyEnv .btnUP) driftWaitGlobals = s1 at a1
    have h1 : (⟨s1, []⟩ : Run).g.calState = DRIFT_CALIBRATION_WAIT := a1.1
    unfold tickGlobals
    rw [processCalibrationKeys_driftWait _ _ _ h1]
    simp [keyEnv, caseDriftCalibrationWait, a1.2]
  unfold driftReentryGlobals
  generalize tickGlobals (sampleConfig false false) (keyEnv .btnSELECT)
    (tickGlobals (sampleConfig false false) (keyEnv .btnUP) driftWaitGlobals) = s2 at a2
  have h2 : (⟨s2, []⟩ : Run).g.calState = DRIFT_CALIBRATION_RUNNING := a2.1
  unfold tickGlobals
  rw [processCalibrationKeys_driftRunning _ _ _ h2]
  simp [idleEnv, driftCalibrationRunning_g, a2.2]

/-- C24, as the code has it.  A tick that starts in `HIGHLIGHT_DRIFT` and
consumes SELECT enters `DRIFT_CALIBRATION_WAIT` and leaves `driftSubIndex` as
it was; in every run from the initial state in which no drift run has been
started with a selection other than 1, `driftSubIndex` equals its default 1 at
that moment. -/
theorem drift_selector_on_entry (cfg : Config) (env : Env) (g : Globals)
    (hs : g.calState = HIGHLIGHT_DRIFT) (hk : env.keyChanged = some .btnSELECT) :
    (tickGlobals cfg env g).calState = DRIFT_CALIBRATION_WAIT ∧
    (tickGlobals cfg env g).driftSubIndex = g.driftSubIndex ∧
    (ReachableDefaultRuns cfg g →
      g.driftSubIndex = 1 ∧ (tickGlobals cfg env g).driftSubIndex = 1) := by
  obtain ⟨a, b⟩ := tick_highlightDrift_select cfg env g hs hk
  refine ⟨a, b, fun hr => ?_⟩
  have h1 := reachableDefaultRuns_driftSubIndex cfg g hr (by rw [hs]; decide)
  exact ⟨h1, b.trans h1⟩

theorem drift_selector_on_entry_witness :
    ReachableDefaultRuns (sampleConfig false false) driftHighlightGlobals ∧
    (tickGlobals (sampleConfig false false) (keyEnv .btnSELECT) driftHighlightGlobals).calState
      = DRIFT_CALIBRATION_WAIT ∧
    (tickGlobals (sampleConfig false false) (keyEnv .btnSELECT)
      driftHighlightGlobals).driftSubIndex = 1 := by
  have h := drift_selector_on_entry (sampleConfig false false) (keyEnv .btnSELECT)
    driftHighlightGlobals driftHighlightGlobals_calState rfl
  exact ⟨driftHighlightGlobals_defaultRuns, h.1, (h.2.2 driftHighlightGlobals_defaultRuns).2⟩

/-- C24 fails as stated: the state `driftReentryGlobals` is reachable (a drift
run was started with selection 0 and has finished), its `calState` is
`HIGHLIGHT_DRIFT`, and the tick that consumes SELECT enters
`DRIFT_CALIBRATION_WAIT` with `driftSubIndex = 0`, not 1. -/
theorem drift_selector_on_entry_counterexample :
    Reachable (sampleConfig false false) driftReentryGlobals ∧
    driftReentryGlobals.calState = HIGHLIGHT_DRIFT ∧
    (tickGlobals (sampleConfig false false) (keyEnv .btnSELECT) driftReentryGlobals).calState
      = DRIFT_CALIBRATION_WAIT ∧
    (tickGlobals (sampleConfig false false) (keyEnv .btnSELECT)
      driftReentryGlobals).driftSubIndex = 0 ∧
    (tickGlobals (sampleConfig false false) (keyEnv .btnSELECT)
      driftReentryGlobals).driftSubIndex ≠ 1 := by
  obtain ⟨a, b⟩ := tick_highlightDrift_select (sampleConfig false false) (keyEnv .btnSELECT)
    driftReentryGlobals driftReentryGlobals_eval.1 rfl
  have c := b.trans driftReentryGlobals_eval.2
  refine ⟨driftReentryGlobals_reachable, driftReentryGlobals_eval.1, a, c, ?_⟩
  rw [c]
  decide

/-! ## The indicator is fixed-width -/

theorem toDigits_digit (d : Nat) (h : d ≤ 9) : Nat.toDigits 10 d = [Nat.digitChar d] := by
  interval_cases d <;> rfl

theorem digitChar_props (d : Nat) (h : d ≤ 9) :
    Nat.digitChar d ≠ Char.ofNat 0 ∧ isMarker (Nat.digitChar d) = false ∧
    Nat.digitChar d ≠ '<' ∧ Nat.digitChar d ≠ '>' := by
  interval_cases d <;> decide

/-- For a magnitude of at most 9.9, `dtostrf(val, 3, 1, s)` stores one digit,
the point, one digit and the NUL. -/
theorem dtostrf_shape (v : ℚ) (h0 : 0 ≤ v) (h1 : v ≤ 99 / 10) :
    ∃ d1 d2 : Nat, d1 ≤ 9 ∧ d2 ≤ 9 ∧
      dtostrf v = [Nat.digitChar d1, '.', Nat.digitChar d2, Char.ofNat 0] := by
  have hp : (0 : ℚ) ≤ v * 10 := by linarith
  have hr : roundToLong (v * 10) = ⌊v * 10 + 1 / 2⌋ := by
    have h2 : (0 : ℚ) ≤ v * 10 + 1 / 2 := by linarith
    unfold roundToLong truncToInt
    rw [if_pos (ge_iff_le.mpr hp), if_pos h2]
  have hlo : 0 ≤ ⌊v * 10 + 1 / 2⌋ := Int.floor_nonneg.mpr (by linarith)
  have hhi : ⌊v * 10 + 1 / 2⌋ ≤ 99 := by
    have : ⌊v * 10 + 1 / 2⌋ < 100 := Int.floor_lt.mpr (by push_cast; linarith)
    omega
  have ht : (roundToLong (v * 10)).toNat ≤ 99 := by
    rw [hr]
    omega
  refine ⟨(roundToLong (v * 10)).toNat / 10, (roundToLong (v * 10)).toNat % 10,
    by omega, by omega, ?_⟩
  unfold dtostrf
  simp only []
  rw [toDigits_digit _ (by omega)]
  rfl

theorem renderedString_cons_ne (c : Char) (l : List Char) (h : c ≠ Char.ofNat 0) :
    renderedString (c :: l) = c :: renderedString l := by
  simp [renderedString, List.takeWhile_cons, h]

theorem renderedString_cons_nul (l : List Char) :
    renderedString (Char.ofNat 0 :: l) = [] := by
  simp [renderedString, List.takeWhile_cons]

theorem filter_isMarker_cons_false (c : Char) (l : List Char) (h : isMarker c = false) :
    (c :: l).filter isMarker = l.filter isMarker := by
  simp [List.filter_cons, h]

theorem filter_isMarker_cons_true (c : Char) (l : List Char) (h : isMarker c = true) :
    (c :: l).filter isMarker = c :: l.filter isMarker := by
  simp [List.filter_cons, h]

/-- The buffer `makeIndicator` leaves when it starts from a template
`x: -------------` in a 20-byte buffer, for every angle. -/
theorem makeIndicator_template (x : Char) (a : ℚ) (hx0 : x ≠ Char.ofNat 0)
    (hxm : isMarker x = false) :
    indicatorWellFormed x (makeIndicator
      [x, ':', ' ', '-', '-', '-', '-', '-', '-', '-', '-', '-', '-', '-', '-', '-',
        Char.ofNat 0, Char.ofNat 0, Char.ofNat 0, Char.ofNat 0] a) := by
  obtain ⟨hc1, hc2⟩ := clampF_range a (-99 / 10) (99 / 10) (by norm_num)
  have hm : makeIndicator [x, ':', ' ', '-', '-', '-', '-', '-', '-', '-', '-', '-', '-', '-', '-', '-',
        Char.ofNat 0, Char.ofNat 0, Char.ofNat 0, Char.ofNat 0] a =
      if indicatorPos (clampF a (-99 / 10) (99 / 10)) ≠ 0 then
        (indicatorGauge [x, ':', ' ', '-', '-', '-', '-', '-', '-', '-', '-', '-', '-', '-', '-', '-',
        Char.ofNat 0, Char.ofNat 0, Char.ofNat 0, Char.ofNat 0]
          (clampF a (-99 / 10) (99 / 10))).set
          (indicatorPos (clampF a (-99 / 10) (99 / 10)) +
            (if indicatorPos (clampF a (-99 / 10) (99 / 10)) < 0 then 8 else 10)).toNat
          (if indicatorPos (clampF a (-99 / 10) (99 / 10)) < 0 then '>' else '<')
      else indicatorGauge [x, ':', ' ', '-', '-', '-', '-', '-', '-', '-', '-', '-', '-', '-', '-', '-',
        Char.ofNat 0, Char.ofNat 0, Char.ofNat 0, Char.ofNat 0]
          (clampF a (-99 / 10) (99 / 10)) := by
    simp only [makeIndicator]
  rw [hm]
  generalize clampF a (-99 / 10) (99 / 10) = c at hc1 hc2
  have habs : |c| ≤ 99 / 10 := abs_le.mpr ⟨by linarith, hc2⟩
  obtain ⟨d1, d2, hd1, hd2, hd⟩ := dtostrf_shape |c| (abs_nonneg c) habs
  obtain ⟨p1, p2⟩ := indicatorPos_range c
  obtain ⟨h10, h1m, _, _⟩ := digitChar_props d1 hd1
  obtain ⟨h20, h2m, _, _⟩ := digitChar_props d2 hd2
  have hg : indicatorGauge [x, ':', ' ', '-', '-', '-', '-', '-', '-', '-', '-', '-', '-', '-', '-', '-',
        Char.ofNat 0, Char.ofNat 0, Char.ofNat 0, Char.ofNat 0] c =
      [x, ':', ' ', '-', '-', '-', '-', '-', Nat.digitChar d1, '.', Nat.digitChar d2, '-', '-',
      '-', '-', '-', Char.ofNat 0, Char.ofNat 0, Char.ofNat 0, Char.ofNat 0] := by
    unfold indicatorGauge
    rw [hd]
    rfl
  rw [hg]
  generalize indicatorPos c = p at p1 p2
  have m1 : isMarker '-' = false := rfl
  have m2 : isMarker ':' = false := rfl
  have m3 : isMarker ' ' = false := rfl
  have m4 : isMarker '.' = false := rfl
  have m5 : isMarker (Char.ofNat 0) = false := rfl
  have m6 : isMarker '<' = true := rfl
  have m7 : isMarker '>' = true := rfl
  have n1 : '-' ≠ Char.ofNat 0 := by decide
  have n2 : ':' ≠ Char.ofNat 0 := by decide
  have n3 : ' ' ≠ Char.ofNat 0 := by decide
  have n4 : '.' ≠ Char.ofNat 0 := by decide
  have n6 : '<' ≠ Char.ofNat 0 := by decide
  have n7 : '>' ≠ Char.ofNat 0 := by decide
  interval_cases p
  · show indicatorWellFormed x
      [x, ':', ' ', '>', '-', '-', '-', '-', Nat.digitChar d1, '.', Nat.digitChar d2, '-', '-',
      '-', '-', '-', Char.ofNat 0, Char.ofNat 0, Char.ofNat 0, Char.ofNat 0]
    refine ⟨rfl, rfl, rfl, ⟨d1, d2, hd1, hd2, rfl⟩, rfl, ?_, ?_⟩
    · simp [filter_isMarker_cons_false, filter_isMarker_cons_true, hxm, h1m, h2m, m1, m2, m3, m4,
        m5, m6, m7]
    · simp [renderedString_cons_ne, renderedString_cons_nul, hx0, h10, h20, n1, n2, n3, n4, n6,
        n7]
  · show indicatorWellFormed x
      [x, ':', ' ', '-', '>', '-', '-', '-', Nat.digitChar d1, '.', Nat.digitChar d2, '-', '-',
      '-', '-', '-', Char.ofNat 0, Char.ofNat 0, Char.ofNat 0, Char.ofNat 0]
    refine ⟨rfl, rfl, rfl, ⟨d1, d2, hd1, hd2, rfl⟩, rfl, ?_, ?_⟩
    · simp [filter_isMarker_cons_false, filter_isMarker_cons_true, hxm, h1m, h2m, m1, m2, m3, m4,
        m5, m6, m7]
    · simp [renderedString_cons_ne, renderedString_cons_nul, hx0, h10, h20, n1, n2, n3, n4, n6,
        n7]
  · show indicatorWellFormed x
      [x, ':', ' ', '-', '-', '>', '-', '-', Nat.digitChar d1, '.', Nat.digitChar d2, '-', '-',
      '-', '-', '-', Char.ofNat 0, Char.ofNat 0, Char.ofNat 0, Char.ofNat 0]
    refine ⟨rfl, rfl, rfl, ⟨d1, d2, hd1, hd2, rfl⟩, rfl, ?_, ?_⟩
    · simp [filter_isMarker_cons_false, filter_isMarker_cons_true, hxm, h1m, h2m, m1, m2, m3, m4,
        m5, m6, m7]
    · simp [renderedString_cons_ne, renderedString_cons_nul, hx0, h10, h20, n1, n2, n3, n4, n6,
        n7]
  · show indicatorWellFormed x
      [x, ':', ' ', '-', '-', '-', '>', '-', Nat.digitChar d1, '.', Nat.digitChar d2, '-', '-',
      '-', '-', '-', Char.ofNat 0, Char.ofNat 0, Char.ofNat 0, Char.ofNat 0]
    refine ⟨rfl, rfl, rfl, ⟨d1, d2, hd1, hd2, rfl⟩, rfl, ?_, ?_⟩
    · simp [filter_isMarker_cons_false, filter_isMarker_cons_true, hxm, h1m, h2m, m1, m2, m3, m4,
        m5, m6, m7]
    · simp [renderedString_cons_ne, renderedString_cons_nul, hx0, h10, h20, n1, n2, n3, n4, n6,
        n7]
  · show indicatorWellFormed x
      [x, ':', ' ', '-', '-', '-', '-', '>', Nat.digitChar d1, '.', Nat.digitChar d2, '-', '-',
      '-', '-', '-', Char.ofNat 0, Char.ofNat 0, Char.ofNat 0, Char.ofNat 0]
    refine ⟨rfl, rfl, rfl, ⟨d1, d2, hd1, hd2, rfl⟩, rfl, ?_, ?_⟩
    · simp [filter_isMarker_cons_false, filter_isMarker_cons_true, hxm, h1m, h2m, m1, m2, m3, m4,
        m5, m6, m7]
    · simp [renderedString_cons_ne, renderedString_cons_nul, hx0, h10, h20, n1, n2, n3, n4, n6,
        n7]
  · show indicatorWellFormed x
      [x, ':', ' ', '-', '-', '-', '-', '-', Nat.digitChar d1, '.', Nat.digitChar d2, '-', '-',
      '-', '-', '-', Char.ofNat 0, Char.ofNat 0, Char.ofNat 0, Char.ofNat 0]
    refine ⟨rfl, rfl, rfl, ⟨d1, d2, hd1, hd2, rfl⟩, rfl, ?_, ?_⟩
    · simp [filter_isMarker_cons_false, filter_isMarker_cons_true, hxm, h1m, h2m, m1, m2, m3, m4,
        m5, m6, m7]
    · simp [renderedString_cons_ne, renderedString_cons_nul, hx0, h10, h20, n1, n2, n3, n4, n6,
        n7]
  · show indicatorWellFormed x
      [x, ':', ' ', '-', '-', '-', '-', '-', Nat.digitChar d1, '.', Nat.digitChar d2, '<', '-',
      '-', '-', '-', Char.ofNat 0, Char.ofNat 0, Char.ofNat 0, Char.ofNat 0]
    refine ⟨rfl, rfl, rfl, ⟨d1, d2, hd1, hd2, rfl⟩, rfl, ?_, ?_⟩
    · simp [filter_isMarker_cons_false, filter_isMarker_cons_true, hxm, h1m, h2m, m1, m2, m3, m4,
        m5, m6, m7]
    · simp [renderedString_cons_ne, renderedString_cons_nul, hx0, h10, h20, n1, n2, n3, n4, n6,
        n7]
  · show indicatorWellFormed x
      [x, ':', ' ', '-', '-', '-', '-', '-', Nat.digitChar d1, '.', Nat.digitChar d2, '-', '<',
      '-', '-', '-', Char.ofNat 0, Char.ofNat 0, Char.ofNat 0, Char.ofNat 0]
    refine ⟨rfl, rfl, rfl, ⟨d1, d2, hd1, hd2, rfl⟩, rfl, ?_, ?_⟩
    · simp [filter_isMarker_cons_false, filter_isMarker_cons_true, hxm, h1m, h2m, m1, m2, m3, m4,
        m5, m6, m7]
    · simp [renderedString_cons_ne, renderedString_cons_nul, hx0, h10, h20, n1, n2, n3, n4, n6,
        n7]
  · show indicatorWellFormed x
      [x, ':', ' ', '-', '-', '-', '-', '-', Nat.digitChar d1, '.', Nat.digitChar d2, '-', '-',
      '<', '-', '-', Char.ofNat 0, Char.ofNat 0, Char.ofNat 0, Char.ofNat 0]
    refine ⟨rfl, rfl, rfl, ⟨d1, d2, hd1, hd2, rfl⟩, rfl, ?_, ?_⟩
    · simp [filter_isMarker_cons_false, filter_isMarker_cons_true, hxm, h1m, h2m, m1, m2, m3, m4,
        m5, m6, m7]
    · simp [renderedString_cons_ne, renderedString_cons_nul, hx0, h10, h20, n1, n2, n3, n4, n6,
        n7]
  · show indicatorWellFormed x
      [x, ':', ' ', '-', '-', '-', '-', '-', Nat.digitChar d1, '.', Nat.digitChar d2, '-', '-',
      '-', '<', '-', Char.ofNat 0, Char.ofNat 0, Char.ofNat 0, Char.ofNat 0]
    refine ⟨rfl, rfl, rfl, ⟨d1, d2, hd1, hd2, rfl⟩, rfl, ?_, ?_⟩
    · simp [filter_isMarker_cons_false, filter_isMarker_cons_true, hxm, h1m, h2m, m1, m2, m3, m4,
        m5, m6, m7]
    · simp [renderedString_cons_ne, renderedString_cons_nul, hx0, h10, h20, n1, n2, n3, n4, n6,
        n7]
  · show indicatorWellFormed x
      [x, ':', ' ', '-', '-', '-', '-', '-', Nat.digitChar d1, '.', Nat.digitChar d2, '-', '-',
      '-', '-', '<', Char.ofNat 0, Char.ofNat 0, Char.ofNat 0, Char.ofNat 0]
    refine ⟨rfl, rfl, rfl, ⟨d1, d2, hd1, hd2, rfl⟩, rfl, ?_, ?_⟩
    · simp [filter_isMarker_cons_false, filter_isMarker_cons_true, hxm, h1m, h2m, m1, m2, m3, m4,
        m5, m6, m7]
    · simp [renderedString_cons_ne, renderedString_cons_nul, hx0, h10, h20, n1, n2, n3, n4, n6,
        n7]

/-- C23: the indicator is fixed-width and in bounds.  For every angle, the
buffer that `makeIndicator` leaves from the template `R: -------------` (and
from `P: -------------`) in the 20-byte scratch buffer, which is the buffer
`printCalibrationSubmenu` prints, has length 20; its characters 0..2 and
everything from the terminator at index 16 on are those of the template, so
every write landed in 3..15; indices 8..10 hold one digit, the point and one
digit; indices 3..7 and 11..15 hold `-`, `<` or `>`; at most one character of
the buffer is a marker; and the string printed has 16 characters.  The
magnitude text that `dtostrf` stores at index 8 is digit, point, digit and
the NUL, four characters. -/
theorem indicator_fixed_width (a : ℚ) (env : Env) (g : Globals) :
    (sprintfBuffer "R: -------------").length = 20 ∧
    renderedString (sprintfBuffer "R: -------------") = "R: -------------".toList ∧
    (renderedString (sprintfBuffer "R: -------------")).length = 16 ∧
    indicatorWellFormed 'R' (makeIndicator (sprintfBuffer "R: -------------") a) ∧
    indicatorWellFormed 'P' (makeIndicator (sprintfBuffer "P: -------------") a) ∧
    indicatorWellFormed 'R' (rollIndicator env g) ∧
    indicatorWellFormed 'P' (pitchIndicator env g) ∧
    (∃ d1 d2 : Nat, d1 ≤ 9 ∧ d2 ≤ 9 ∧
      dtostrf |clampF a (-99 / 10) (99 / 10)|
        = [Nat.digitChar d1, '.', Nat.digitChar d2, Char.ofNat 0]) := by
  have eR : sprintfBuffer "R: -------------" =
      ['R', ':', ' ', '-', '-', '-', '-', '-', '-', '-', '-', '-', '-', '-', '-', '-',
      Char.ofNat 0, Char.ofNat 0, Char.ofNat 0, Char.ofNat 0] := rfl
  have eP : sprintfBuffer "P: -------------" =
      ['P', ':', ' ', '-', '-', '-', '-', '-', '-', '-', '-', '-', '-', '-', '-', '-',
      Char.ofNat 0, Char.ofNat 0, Char.ofNat 0, Char.ofNat 0] := rfl
  have sR : "R: -------------".toList =
      ['R', ':', ' ', '-', '-', '-', '-', '-', '-', '-', '-', '-', '-', '-', '-', '-'] := rfl
  have n1 : '-' ≠ Char.ofNat 0 := by decide
  have n2 : ':' ≠ Char.ofNat 0 := by decide
  have n3 : ' ' ≠ Char.ofNat 0 := by decide
  have n4 : 'R' ≠ Char.ofNat 0 := by decide
  have hr : renderedString (sprintfBuffer "R: -------------") = "R: -------------".toList := by
    rw [eR, sR]
    simp [renderedString_cons_ne, renderedString_cons_nul, n1, n2, n3, n4]
  obtain ⟨hc1, hc2⟩ := clampF_range a (-99 / 10) (99 / 10) (by norm_num)
  refine ⟨by rw [eR]; rfl, hr, by rw [hr]; rfl, ?_, ?_, ?_, ?_,
    dtostrf_shape _ (abs_nonneg _) (abs_le.mpr ⟨by linarith, hc2⟩)⟩
  · rw [eR]
    exact makeIndicator_template 'R' a (by decide) rfl
  · rw [eP]
    exact makeIndicator_template 'P' a (by decide) rfl
  · unfold rollIndicator
    rw [eR]
    exact makeIndicator_template 'R' _ (by decide) rfl
  · unfold pitchIndicator
    rw [eP]
    exact makeIndicator_template 'P' _ (by decide) rfl

theorem indicator_fixed_width_witness :
    (makeIndicator (sprintfBuffer "R: -------------") 12).length = 20 ∧
    ((makeIndicator (sprintfBuffer "R: -------------") 12).filter isMarker).length ≤ 1 ∧
    (renderedString (makeIndicator (sprintfBuffer "R: -------------") 12)).length = 16 :=
  have h := (indicator_fixed_width 12 idleEnv (initialGlobals 0 0 false)).2.2.2.1
  ⟨h.1, h.2.2.2.2.2.1, h.2.2.2.2.2.2⟩

end OpenAstroTracker
